import Mathlib

/-!
# Capability resolution of the msm_vidc video driver

A shallow embedding of the resolution engine of
`driver/vidc/src/msm_vidc_control.c`: the two per-session lists
(`inst->children.list`, `inst->firmware.list`), the static pass
`msm_vidc_adjust_v4l2_properties`, the dynamic pass inside
`msm_v4l2_op_s_ctrl` and the drain `msm_vidc_set_v4l2_properties`.

Conventions of the embedding.

* A C function that mutates `inst` returns the new instance next to its
  return code; `rc` is an `Int` (0 is success, a negated errno is failure).
* The `adjust` and `set` function pointers of `capability->cap[i]` are kept
  in a table of their own (`cap_database`), indexed by the same `i`, because
  they take the instance as an argument.
* A kernel list of `msm_vidc_inst_cap_entry` nodes is the `List` of the
  `cap_id`s of its nodes, front to back.
* Loops whose trip count depends on the capability graph carry a `fuel`
  argument: one unit per loop iteration; `none` means the fuel ran out.
-/

namespace MsmVidcControl

/-! ## Data model -/

/-- Errno EINVAL of the kernel (the code returns it negated). -/
def EINVAL : Int := 22

/-- Errno ENOMEM of the kernel (the code returns it negated). -/
def ENOMEM : Int := 12

/-- Errno EBUSY of the kernel (the code returns it negated). -/
def EBUSY : Int := 16

/-- The enumerator INST_CAP_NONE: the first value of the capability enum,
which the code tests as zero (`if (!capability->cap[cap_id].cap)`). -/
def INST_CAP_NONE : Nat := 0

/-- Modelled from the spec: the `CAP_FLAG_*` bit constants are declared in a
header that is not part of this source file. The spec lists the flag set
{IsMenu, RootOfGraph, DynamicallyAdjustable, InputPortScoped,
OutputPortScoped, ClientModified}; each flag is one bit of `flags`, so the
field is kept as one boolean per bit: `flags & CAP_FLAG_X` reads the boolean
and `flags |= CAP_FLAG_X` sets it. -/
structure cap_flags where
  CAP_FLAG_ROOT : Bool
  CAP_FLAG_DYNAMIC_ALLOWED : Bool
  CAP_FLAG_MENU : Bool
  CAP_FLAG_INPUT_PORT : Bool
  CAP_FLAG_OUTPUT_PORT : Bool
  CAP_FLAG_CLIENT_SET : Bool
deriving DecidableEq, Repr

/-- The data fields of `struct msm_vidc_inst_cap`, as this file uses them.
`parents` and `children` are the fixed-size arrays `parents[MAX_CAP_PARENTS]`
and `children[MAX_CAP_CHILDREN]`: the length of the list stands for the array
bound and a zero entry ends the declared part. -/
structure msm_vidc_inst_cap where
  cap : Nat
  min : Int
  max : Int
  step_or_mask : Nat
  value : Int
  flags : cap_flags
  v4l2_id : Nat
  hfi_id : Nat
  parents : List Nat
  children : List Nat
deriving DecidableEq, Repr

/-- The fields of `struct v4l2_ctrl` that this file reads. -/
structure v4l2_ctrl where
  id : Nat
  val : Int
deriving DecidableEq, Repr

/-- Modelled from the spec: the session-state enum is declared in a header
that is not part of this source file. This file only ever compares the
state with MSM_VIDC_ERROR and only ever moves a session into it, so every
other state is kept as `other n`. -/
inductive msm_vidc_inst_state where
  | MSM_VIDC_ERROR
  | other (n : Nat)
deriving DecidableEq, Repr

/-- Modelled from the spec: the codec enum is declared in a header that is
not part of this source file; this file names H264, HEVC and HEIC. -/
inductive msm_vidc_codec_type where
  | MSM_VIDC_H264
  | MSM_VIDC_HEVC
  | MSM_VIDC_HEIC
  | other (n : Nat)
deriving DecidableEq, Repr

/-- The part of `struct msm_vidc_inst` that the resolution engine touches.

* `streaming` is `inst->vb2q[OUTPUT_PORT].streaming`;
* `cap` is `inst->capabilities->cap[]`;
* `children` and `firmware` are `inst->children.list` and
  `inst->firmware.list`;
* `alloc_outcomes` is the environment of `kzalloc`: the outcome of each
  coming allocation in order (`true` is success); once the list is used up
  every further allocation succeeds. -/
structure msm_vidc_inst where
  state : msm_vidc_inst_state
  codec : msm_vidc_codec_type
  streaming : Bool
  request : Bool
  hfi_rc_type : Nat
  hfi_layer_type : Nat
  cap : Nat → msm_vidc_inst_cap
  children : List Nat
  firmware : List Nat
  alloc_outcomes : List Bool

/-- The two ports named by `msm_vidc_get_port_info`. -/
inductive msm_vidc_port_type where
  | INPUT_PORT
  | OUTPUT_PORT
deriving DecidableEq, Repr

/-- The arguments of one call of the transport `venus_hfi_session_property`:
property id, host flags, port, payload kind, the 32-bit payload word read
through `hfi_val`, and the payload size. -/
structure hfi_property where
  hfi_id : Nat
  host_flags : Nat
  port : Nat
  payload_type : Nat
  payload : Nat
  payload_size : Nat
deriving DecidableEq, Repr

/-- The parts of the build that `msm_vidc_control.c` takes from elsewhere.

* `INST_CAP_MAX`: the last enumerator of the capability enum;
* `adjust i`, `set i`: the function pointers `capability->cap[i].adjust` and
  `capability->cap[i].set` (`none` is a NULL pointer). A set rule reads the
  instance and hands packets to the transport; it returns its code and the
  packets it handed over;
* `V4L2_CID_MPEG_VIDC_MIN_BITSTREAM_SIZE_OVERWRITE` and `META_CTRL_IDS` (the
  sixteen identifiers compared by `is_meta_ctrl`): control ids of the uapi
  header;
* `msm_vidc_update_bitstream_buffer_size`, `msm_vidc_update_meta_port_settings`:
  the two side procedures of the static branch of `msm_v4l2_op_s_ctrl`. They
  live in the driver core, work on buffer and format state outside this
  model, and are kept by their return code only;
* `HFI_HOST_FLAGS_NONE`, `HFI_PORT_BITSTREAM`, `HFI_PORT_NONE`,
  `HFI_PAYLOAD_Q16`: constants of the firmware interface headers;
* `get_hfi_port`: the port mapping of the packet layer;
* `venus_hfi_session_property`: the transport, kept by the code it returns
  for a packet. -/
structure cap_database where
  INST_CAP_MAX : Nat
  adjust : Nat → Option (msm_vidc_inst → Option v4l2_ctrl → Int × msm_vidc_inst)
  set : Nat → Option (msm_vidc_inst → Nat → Int × List hfi_property)
  V4L2_CID_MPEG_VIDC_MIN_BITSTREAM_SIZE_OVERWRITE : Nat
  META_CTRL_IDS : List Nat
  msm_vidc_update_bitstream_buffer_size : msm_vidc_inst → Int
  msm_vidc_update_meta_port_settings : msm_vidc_inst → Int
  HFI_HOST_FLAGS_NONE : Nat
  HFI_PORT_BITSTREAM : Nat
  HFI_PORT_NONE : Nat
  HFI_PAYLOAD_Q16 : Nat
  get_hfi_port : msm_vidc_inst → msm_vidc_port_type → Nat
  venus_hfi_session_property : msm_vidc_inst → hfi_property → Int

/-- The two values of `enum msm_vidc_ctrl_list_type` with which
`msm_vidc_add_capid_to_list` is called. -/
inductive msm_vidc_ctrl_list_type where
  | CHILD_LIST
  | FW_LIST
deriving DecidableEq, Repr

/-! ## List primitives -/

/-- The call `kzalloc(sizeof(*entry), GFP_ATOMIC)`: consumes one outcome of
the allocation environment. -/
def kzalloc (inst : msm_vidc_inst) : Bool × msm_vidc_inst :=
  match inst.alloc_outcomes with
  | [] => (true, inst)
  | b :: rest => (b, { inst with alloc_outcomes := rest })

/-- The function `msm_vidc_add_capid_to_list` (lines 190-220). The membership
test runs for FW_LIST only; a CHILD_LIST entry is always allocated and added
at the tail. -/
def msm_vidc_add_capid_to_list (inst : msm_vidc_inst) (cap_id : Nat)
    (type : msm_vidc_ctrl_list_type) : Int × msm_vidc_inst :=
  if type = msm_vidc_ctrl_list_type.FW_LIST ∧ cap_id ∈ inst.firmware then
    (0, inst)
  else
    match kzalloc inst with
    | (false, inst1) => (-ENOMEM, inst1)
    | (true, inst1) =>
      match type with
      | msm_vidc_ctrl_list_type.CHILD_LIST =>
        (0, { inst1 with children := inst1.children ++ [cap_id] })
      | msm_vidc_ctrl_list_type.FW_LIST =>
        (0, { inst1 with firmware := inst1.firmware ++ [cap_id] })

/-- The loop of `msm_vidc_add_children` over the array `children[]`: it stops
at the array bound or at the first zero entry and returns at once when an
enqueue fails. -/
def add_children_loop : List Nat → msm_vidc_inst → Int × msm_vidc_inst
  | [], inst => (0, inst)
  | k :: ks, inst =>
    if k = 0 then (0, inst)
    else
      let r := msm_vidc_add_capid_to_list inst k msm_vidc_ctrl_list_type.CHILD_LIST
      if r.1 ≠ 0 then r else add_children_loop ks r.2

/-- The function `msm_vidc_add_children` (lines 222-239). -/
def msm_vidc_add_children (inst : msm_vidc_inst) (cap_id : Nat) : Int × msm_vidc_inst :=
  add_children_loop (inst.cap cap_id).children inst

/-- The declared children of a capability: the entries of `children[]` before
the first zero entry, which is what the loop of `msm_vidc_add_children`
walks. -/
def declared_children (c : msm_vidc_inst_cap) : List Nat :=
  c.children.takeWhile (fun k => k ≠ 0)

/-- The function `msm_vidc_update_cap_value` (lines 258-275): an unconditional
overwrite of `cap[cap].value`. The instance is never NULL here, so the return
code is always 0 and is dropped. -/
def msm_vidc_update_cap_value (inst : msm_vidc_inst) (cap : Nat) (adjusted_val : Int) :
    msm_vidc_inst :=
  { inst with cap := Function.update inst.cap cap { inst.cap cap with value := adjusted_val } }

/-- Modelled from the spec: `msm_vidc_change_inst_state` is defined in the
driver core, which is not part of this source file. The spec says the call
"moves the session into an error state". -/
def msm_vidc_change_inst_state (inst : msm_vidc_inst) (s : msm_vidc_inst_state) :
    msm_vidc_inst :=
  { inst with state := s }

/-! ## Adjusting one capability -/

/-- The step `if (adjust) rc = adjust(inst, NULL)` of
`msm_vidc_adjust_property` (lines 359-363). -/
def static_adjust_step (db : cap_database) (inst : msm_vidc_inst) (cap_id : Nat) :
    Int × msm_vidc_inst :=
  match db.adjust cap_id with
  | some f => f inst none
  | none => (0, inst)

/-- The two enqueue steps that end `msm_vidc_adjust_property` (lines 365-375):
the children go to the children list, then `cap_id` goes to the firmware
list. -/
def static_enqueue_step (inst : msm_vidc_inst) (cap_id : Nat) : Int × msm_vidc_inst :=
  let r2 := msm_vidc_add_children inst cap_id
  if r2.1 ≠ 0 then r2
  else msm_vidc_add_capid_to_list r2.2 cap_id msm_vidc_ctrl_list_type.FW_LIST

/-- The function `msm_vidc_adjust_property` (lines 344-379). -/
def msm_vidc_adjust_property (db : cap_database) (inst : msm_vidc_inst) (cap_id : Nat) :
    Int × msm_vidc_inst :=
  if (inst.cap cap_id).cap = 0 then (0, inst)
  else
    let r1 := static_adjust_step db inst cap_id
    if r1.1 ≠ 0 then r1 else static_enqueue_step r1.2 cap_id

/-- The step of `msm_vidc_adjust_dynamic_property` that resolves the value
(lines 414-420): the adjust rule when there is one, else a direct store of
`ctrl->val` when a control was passed. -/
def dynamic_adjust_step (db : cap_database) (inst : msm_vidc_inst) (cap_id : Nat)
    (ctrl : Option v4l2_ctrl) : Int × msm_vidc_inst :=
  match db.adjust cap_id with
  | some f => f inst ctrl
  | none =>
    match ctrl with
    | some c => (0, msm_vidc_update_cap_value inst cap_id c.val)
    | none => (0, inst)

/-- The two enqueue steps that end `msm_vidc_adjust_dynamic_property`
(lines 422-432): the children are added when the value differs from
`prev_value`, and `cap_id` goes to the firmware list always. -/
def dynamic_enqueue_step (inst : msm_vidc_inst) (cap_id : Nat) (prev_value : Int) :
    Int × msm_vidc_inst :=
  let r2 : Int × msm_vidc_inst :=
    if (inst.cap cap_id).value ≠ prev_value then msm_vidc_add_children inst cap_id
    else (0, inst)
  if r2.1 ≠ 0 then r2
  else msm_vidc_add_capid_to_list r2.2 cap_id msm_vidc_ctrl_list_type.FW_LIST

/-- The function `msm_vidc_adjust_dynamic_property` (lines 381-438); `ctrl` is
`none` for the NULL pointer passed on children adjustment calls. -/
def msm_vidc_adjust_dynamic_property (db : cap_database) (inst : msm_vidc_inst)
    (cap_id : Nat) (ctrl : Option v4l2_ctrl) : Int × msm_vidc_inst :=
  if (inst.cap cap_id).flags.CAP_FLAG_DYNAMIC_ALLOWED = false then
    (-EINVAL, msm_vidc_change_inst_state inst msm_vidc_inst_state.MSM_VIDC_ERROR)
  else if ctrl.isNone && (db.adjust cap_id).isNone then (-EINVAL, inst)
  else
    let r1 := dynamic_adjust_step db inst cap_id ctrl
    if r1.1 ≠ 0 then r1 else dynamic_enqueue_step r1.2 cap_id (inst.cap cap_id).value

/-! ## Handing a value to the transport -/

/-- The function `msm_vidc_get_port_info` (lines 106-124). -/
def msm_vidc_get_port_info (db : cap_database) (inst : msm_vidc_inst) (cap_id : Nat) : Nat :=
  if (inst.cap cap_id).flags.CAP_FLAG_INPUT_PORT = true ∧
      (inst.cap cap_id).flags.CAP_FLAG_OUTPUT_PORT = true then db.HFI_PORT_BITSTREAM
  else if (inst.cap cap_id).flags.CAP_FLAG_INPUT_PORT = true then
    db.get_hfi_port inst msm_vidc_port_type.INPUT_PORT
  else if (inst.cap cap_id).flags.CAP_FLAG_OUTPUT_PORT = true then
    db.get_hfi_port inst msm_vidc_port_type.OUTPUT_PORT
  else db.HFI_PORT_NONE

/-- The function `msm_vidc_packetize_control` (lines 145-169): one call of the
transport, whose code is returned as it is. The size handed over is
`sizeof(payload_size)`, the size of a `u32`, whatever `payload_size` holds. -/
def msm_vidc_packetize_control (db : cap_database) (inst : msm_vidc_inst) (cap_id : Nat)
    (payload_type : Nat) (hfi_val : Nat) (_payload_size : Nat) : Int × List hfi_property :=
  let pkt : hfi_property :=
    { hfi_id := (inst.cap cap_id).hfi_id, host_flags := db.HFI_HOST_FLAGS_NONE,
      port := msm_vidc_get_port_info db inst cap_id, payload_type := payload_type,
      payload := hfi_val, payload_size := 4 }
  (db.venus_hfi_session_property inst pkt, [pkt])

/-- The function `msm_vidc_set_q16` (lines 1880-1901): the value is stored
into a `u32` and sent as a Q16 payload. -/
def msm_vidc_set_q16 (db : cap_database) (inst : msm_vidc_inst) (cap_id : Nat) :
    Int × List hfi_property :=
  let hfi_value : Nat := ((inst.cap cap_id).value % 4294967296).toNat
  msm_vidc_packetize_control db inst cap_id db.HFI_PAYLOAD_Q16 hfi_value 4

/-! ## The three list walks

All three walks are written with the kernel iterator
`list_for_each_entry_safe(curr_node, tmp_node, head, list)` of
`include/linux/list.h`, which expands to

    for (pos = first(head), n = next(pos); &pos->list != head;
         pos = n, n = next(n))

The successor `n` is read before the body runs. When `pos` is the last node
of the list at that moment, `n` is the list head itself; nodes that the body
adds at the tail go in after `pos` and are not seen through `n`, so the walk
ends after this body and those nodes stay in the list. When `pos` is not the
last node, `n` is a real node, and its own successor is read only after the
body of `pos` has run, so nodes added at the tail are reached later on. -/

/-- The walk `list_for_each_entry_safe` over `inst->children.list` with a body
of the shape

    rc = body(inst, curr_node->cap_id); if (rc) goto exit;
    list_del(&curr_node->list); kfree(curr_node);

as in `msm_vidc_adjust_v4l2_properties` (lines 1330-1344) and in
`msm_v4l2_op_s_ctrl` (lines 680-688). Every body that succeeds unlinks its
node, so `curr_node` is always the first node of the list; the bodies of this
file add nodes at the tail only. `rest = []` is the case in which the
successor read before the body was the list head. The result carries the
`cap_id`s on which the body ran, in order. -/
def children_list_for_each_entry_safe (body : msm_vidc_inst → Nat → Int × msm_vidc_inst) :
    Nat → msm_vidc_inst → Option (Int × msm_vidc_inst × List Nat)
  | fuel, inst =>
    match inst.children with
    | [] => some (0, inst, [])
    | curr :: rest =>
      match fuel with
      | 0 => none
      | fuel1 + 1 =>
        let r := body inst curr
        if r.1 ≠ 0 then some (r.1, r.2, [curr])
        else
          let inst1 : msm_vidc_inst := { r.2 with children := r.2.children.tail }
          if rest = [] then some (0, inst1, [curr])
          else
            match children_list_for_each_entry_safe body fuel1 inst1 with
            | none => none
            | some (rc, inst2, visited) => some (rc, inst2, curr :: visited)

/-- The first loop of `msm_vidc_adjust_v4l2_properties` (lines 1317-1324),
over the indices `i` still to come: each capability flagged CAP_FLAG_ROOT is
adjusted through `msm_vidc_adjust_property(inst, capability->cap[i].cap)`. The
result carries the `cap_id`s passed to `msm_vidc_adjust_property`, in order. -/
def adjust_roots_loop (db : cap_database) :
    List Nat → msm_vidc_inst → Int × msm_vidc_inst × List Nat
  | [], inst => (0, inst, [])
  | i :: is, inst =>
    if (inst.cap i).flags.CAP_FLAG_ROOT = true then
      let r := msm_vidc_adjust_property db inst (inst.cap i).cap
      if r.1 ≠ 0 then (r.1, r.2, [(inst.cap i).cap])
      else
        let t := adjust_roots_loop db is r.2
        (t.1, t.2.1, (inst.cap i).cap :: t.2.2)
    else adjust_roots_loop db is inst

/-- The function `msm_vidc_adjust_v4l2_properties` (lines 1303-1348), the
static pass. The third component lists the `cap_id`s on which
`msm_vidc_adjust_property` was run, in order. -/
def msm_vidc_adjust_v4l2_properties (db : cap_database) (fuel : Nat) (inst : msm_vidc_inst) :
    Option (Int × msm_vidc_inst × List Nat) :=
  let t := adjust_roots_loop db (List.range db.INST_CAP_MAX) inst
  if t.1 ≠ 0 then some t
  else
    match children_list_for_each_entry_safe (msm_vidc_adjust_property db) fuel t.2.1 with
    | none => none
    | some (rc, inst1, visited) => some (rc, inst1, t.2.2 ++ visited)

/-- The instance with its firmware list replaced by `q`. -/
def with_firmware (inst : msm_vidc_inst) (q : List Nat) : msm_vidc_inst :=
  { inst with firmware := q }

/-- The walk of `msm_vidc_set_v4l2_properties` over `inst->firmware.list`
(lines 2038-2052). `kept` holds the nodes already passed that are still
linked, `curr :: rest` the nodes from `curr_node` on, so the list is
`kept ++ curr :: rest`. A node whose capability has no set rule is passed over
by `continue` and stays linked; a node whose set rule returns 0 is unlinked
(the list becomes `kept ++ rest`); a set rule that returns non-zero ends the
walk with its node still linked. The result carries, for each set rule that
was called, the `cap_id` and the packets it handed to the transport. -/
def set_properties_loop (db : cap_database) :
    List Nat → List Nat → msm_vidc_inst →
      Int × msm_vidc_inst × List (Nat × List hfi_property)
  | _, [], inst => (0, inst, [])
  | kept, curr :: rest, inst =>
    match db.set curr with
    | none => set_properties_loop db (kept ++ [curr]) rest inst
    | some f =>
      let r := f inst curr
      if r.1 ≠ 0 then (r.1, inst, [(curr, r.2)])
      else
        let t := set_properties_loop db kept rest (with_firmware inst (kept ++ rest))
        (t.1, t.2.1, (curr, r.2) :: t.2.2)

/-- The function `msm_vidc_set_v4l2_properties` (lines 2025-2056), the drain
of the firmware list. -/
def msm_vidc_set_v4l2_properties (db : cap_database) (inst : msm_vidc_inst) :
    Int × msm_vidc_inst × List (Nat × List hfi_property) :=
  set_properties_loop db [] inst.firmware inst

/-! ## The control entry point -/

/-- The do-while loop of `msm_vidc_get_cap_id`: `n` iterations are left and
`i` is the index looked at. -/
def get_cap_id_loop (inst : msm_vidc_inst) (id : Nat) : Nat → Nat → Nat
  | 0, _ => INST_CAP_NONE
  | n + 1, i =>
    if (inst.cap i).v4l2_id = id then (inst.cap i).cap
    else get_cap_id_loop inst id n (i + 1)

/-- The function `msm_vidc_get_cap_id` (lines 171-188): the body runs for
`i = INST_CAP_NONE + 1` and then for every further `i < INST_CAP_MAX`. -/
def msm_vidc_get_cap_id (db : cap_database) (inst : msm_vidc_inst) (id : Nat) : Nat :=
  get_cap_id_loop inst id (Nat.max 1 (db.INST_CAP_MAX - 1)) (INST_CAP_NONE + 1)

/-- The function `is_meta_ctrl` (lines 47-65): a comparison with the sixteen
metadata control ids. -/
def is_meta_ctrl (db : cap_database) (id : Nat) : Bool :=
  decide (id ∈ db.META_CTRL_IDS)

/-- The statement `capability->cap[cap_id].flags |= CAP_FLAG_CLIENT_SET`
(line 648). -/
def set_client_set_flag (inst : msm_vidc_inst) (cap_id : Nat) : msm_vidc_inst :=
  let c := inst.cap cap_id
  let c1 : msm_vidc_inst_cap := { c with flags := { c.flags with CAP_FLAG_CLIENT_SET := true } }
  { inst with cap := Function.update inst.cap cap_id c1 }

/-- The function `msm_v4l2_op_s_ctrl` (lines 609-704) for a control that
exists and belongs to `inst` (the two NULL checks pass). The third component
is the record of set-rule calls made by the drain, empty when no drain ran. -/
def msm_v4l2_op_s_ctrl (db : cap_database) (fuel : Nat) (inst : msm_vidc_inst)
    (ctrl : v4l2_ctrl) : Option (Int × msm_vidc_inst × List (Nat × List hfi_property)) :=
  if inst.state = msm_vidc_inst_state.MSM_VIDC_ERROR then some (-EINVAL, inst, [])
  else
    let cap_id := msm_vidc_get_cap_id db inst ctrl.id
    if cap_id = INST_CAP_NONE then some (-EINVAL, inst, [])
    else
      let inst1 := set_client_set_flag inst cap_id
      if inst1.streaming = false then
        let inst2 := msm_vidc_update_cap_value inst1 cap_id ctrl.val
        if ctrl.id = db.V4L2_CID_MPEG_VIDC_MIN_BITSTREAM_SIZE_OVERWRITE ∧
            db.msm_vidc_update_bitstream_buffer_size inst2 ≠ 0 then
          some (db.msm_vidc_update_bitstream_buffer_size inst2, inst2, [])
        else if is_meta_ctrl db ctrl.id = true ∧
            db.msm_vidc_update_meta_port_settings inst2 ≠ 0 then
          some (db.msm_vidc_update_meta_port_settings inst2, inst2, [])
        else some (0, inst2, [])
      else if (inst1.cap cap_id).flags.CAP_FLAG_DYNAMIC_ALLOWED = false then
        some (-EBUSY, inst1, [])
      else
        let r := msm_vidc_adjust_dynamic_property db inst1 cap_id (some ctrl)
        if r.1 ≠ 0 then some (r.1, r.2, [])
        else
          match children_list_for_each_entry_safe
              (fun i c => msm_vidc_adjust_dynamic_property db i c none) fuel r.2 with
          | none => none
          | some (rc, inst3, _) =>
            if rc ≠ 0 then some (rc, inst3, [])
            else if inst3.request = true then some (0, inst3, [])
            else some (msm_vidc_set_v4l2_properties db inst3)

/-! ## Predicates used by the statements -/

/-- An adjust rule is local when it leaves the two lists alone and keeps, for
every capability, the registered id, the flags and the array `children[]`.
Every adjust rule defined in `msm_vidc_control.c` is of this kind: the rules
write capability values, one `max` bound and the two derived fields only. -/
def adjust_rule_local (f : msm_vidc_inst → Option v4l2_ctrl → Int × msm_vidc_inst) : Prop :=
  ∀ inst ctrl,
    (f inst ctrl).2.children = inst.children ∧
    (f inst ctrl).2.firmware = inst.firmware ∧
    ∀ i, ((f inst ctrl).2.cap i).children = (inst.cap i).children ∧
         ((f inst ctrl).2.cap i).cap = (inst.cap i).cap ∧
         ((f inst ctrl).2.cap i).flags = (inst.cap i).flags

/-- Every adjust rule of the table is local. -/
def adjust_rules_local (db : cap_database) : Prop :=
  ∀ i f, db.adjust i = some f → adjust_rule_local f

/-- Two instances carry the same capability graph: the same registered ids,
flags and `children[]` arrays. -/
def same_graph (a b : msm_vidc_inst) : Prop :=
  ∀ i, (a.cap i).children = (b.cap i).children ∧ (a.cap i).cap = (b.cap i).cap ∧
       (a.cap i).flags = (b.cap i).flags

/-- The capabilities that `msm_vidc_adjust_property` puts on the children list
when it runs on `c`: none for an unregistered `c` (the early return of line
356), else the declared children. -/
def enqueued_children (inst : msm_vidc_inst) (c : Nat) : List Nat :=
  if (inst.cap c).cap = 0 then [] else declared_children (inst.cap c)

/-- Reachability in the capability graph: the ids handed to
`msm_vidc_adjust_property` by the root loop, closed under the declared
children of registered capabilities. -/
inductive reachable (db : cap_database) (inst : msm_vidc_inst) : Nat → Prop where
  | root (i : Nat) : i < db.INST_CAP_MAX → (inst.cap i).flags.CAP_FLAG_ROOT = true →
      reachable db inst (inst.cap i).cap
  | child (c k : Nat) : reachable db inst c → k ∈ enqueued_children inst c →
      reachable db inst k

/-- The child relation is acyclic, witnessed by a rank that drops along every
edge, and no capability declares more than `m` children. -/
def acyclic_graph (inst : msm_vidc_inst) (rk : Nat → Nat) (m : Nat) : Prop :=
  ∀ c, (enqueued_children inst c).length ≤ m ∧
       ∀ k ∈ enqueued_children inst c, rk k < rk c

/-- A loop body over the children list that keeps the capability graph and
only ever adds nodes at the tail of the children list. -/
def body_appends (B : msm_vidc_inst → Nat → Int × msm_vidc_inst) : Prop :=
  ∀ inst c, same_graph inst (B inst c).2 ∧
    ∃ extra, (B inst c).2.children = inst.children ++ extra

/-- A loop body that, when it succeeds on `c`, has added exactly the children
that `msm_vidc_adjust_property` enqueues for `c`. -/
def body_enqueues (B : msm_vidc_inst → Nat → Int × msm_vidc_inst) : Prop :=
  ∀ inst c, (B inst c).1 = 0 →
    (B inst c).2.children = inst.children ++ enqueued_children inst c

/-- The termination measure of the walk: each queued capability weighs
`(m + 1) ^ rank`. -/
def queue_weight (rk : Nat → Nat) (m : Nat) (q : List Nat) : Nat :=
  (q.map (fun x => (m + 1) ^ rk x)).sum

/-- The ids that the root loop hands to `msm_vidc_adjust_property` when it
walks the indices `is`: `cap[i].cap` for each `i` flagged CAP_FLAG_ROOT. -/
def root_ids (inst : msm_vidc_inst) (is : List Nat) : List Nat :=
  (is.filter (fun i => (inst.cap i).flags.CAP_FLAG_ROOT)).map (fun i => (inst.cap i).cap)

/-- The capability of a firmware-list node has no set rule
(`!capability->cap[curr_node->cap_id].set`). -/
def no_set_rule (db : cap_database) (c : Nat) : Bool :=
  (db.set c).isNone

/-- The capability of a firmware-list node has a set rule. -/
def has_set_rule (db : cap_database) (c : Nat) : Bool :=
  (db.set c).isSome

/-! ## Small capability tables used as concrete inputs -/

/-- No flag bit set. -/
def no_flags : cap_flags := ⟨false, false, false, false, false, false⟩

/-- An unregistered slot of `cap[]`: all fields zero, as after `kzalloc`. -/
def cap_unset : msm_vidc_inst_cap :=
  { cap := 0, min := 0, max := 0, step_or_mask := 0, value := 0, flags := no_flags,
    v4l2_id := 0, hfi_id := 0, parents := [], children := [] }

/-- A registered capability `id` with control id `100 + id`, property id
`200 + id`, range 0..100, value 0, the root and dynamic flags as given and the
arrays `parents[]` and `children[]` as given. -/
def mk_cap (id : Nat) (root dyn : Bool) (parents kids : List Nat) : msm_vidc_inst_cap :=
  { cap := id, min := 0, max := 100, step_or_mask := 1, value := 0,
    flags := ⟨root, dyn, false, false, false, false⟩,
    v4l2_id := 100 + id, hfi_id := 200 + id, parents := parents, children := kids }

/-- The array `cap[]` whose first slots are `l`; every further slot is
unregistered. -/
def table_of (l : List msm_vidc_inst_cap) : Nat → msm_vidc_inst_cap :=
  fun i => l.getD i cap_unset

/-- A session over the table `l` with both lists empty, not in the error
state, not in request mode, every allocation succeeding. -/
def inst_of (streaming : Bool) (l : List msm_vidc_inst_cap) : msm_vidc_inst :=
  { state := msm_vidc_inst_state.other 0, codec := msm_vidc_codec_type.MSM_VIDC_H264,
    streaming := streaming, request := false, hfi_rc_type := 0, hfi_layer_type := 0,
    cap := table_of l, children := [], firmware := [], alloc_outcomes := [] }

/-- A build with eight capability slots and no adjust or set rule at all. The
transport refuses the property id 202 with -EINVAL and accepts every other
packet. -/
def db_plain : cap_database :=
  { INST_CAP_MAX := 8, adjust := fun _ => none, set := fun _ => none,
    V4L2_CID_MPEG_VIDC_MIN_BITSTREAM_SIZE_OVERWRITE := 1, META_CTRL_IDS := [],
    msm_vidc_update_bitstream_buffer_size := fun _ => 0,
    msm_vidc_update_meta_port_settings := fun _ => 0,
    HFI_HOST_FLAGS_NONE := 0, HFI_PORT_BITSTREAM := 1, HFI_PORT_NONE := 0,
    HFI_PAYLOAD_Q16 := 9,
    get_hfi_port := fun _ p => if p = msm_vidc_port_type.INPUT_PORT then 2 else 1,
    venus_hfi_session_property := fun _ pkt => if pkt.hfi_id = 202 then -EINVAL else 0 }

/-- An adjust rule by which capability `child` takes over the value of its
parent `parent`. -/
def adjust_rule_follow (child parent : Nat) (inst : msm_vidc_inst)
    (_ctrl : Option v4l2_ctrl) : Int × msm_vidc_inst :=
  (0, msm_vidc_update_cap_value inst child (inst.cap parent).value)

/-- The adjust rules of `db_adjust_follows`: capability 2 follows capability
1 and capability 3 follows capability 2. -/
def adjust_follow_table (i : Nat) :
    Option (msm_vidc_inst → Option v4l2_ctrl → Int × msm_vidc_inst) :=
  if i = 2 then some (adjust_rule_follow 2 1)
  else if i = 3 then some (adjust_rule_follow 3 2)
  else none

/-- The build `db_plain` with the adjust rules of `adjust_follow_table`. -/
def db_adjust_follows : cap_database :=
  { db_plain with adjust := adjust_follow_table }

/-- The set rules of `db_set_rules`: capabilities 1, 2 and 3 are sent by
`msm_vidc_set_q16`, every other capability has no set rule. -/
def set_rules_table (i : Nat) : Option (msm_vidc_inst → Nat → Int × List hfi_property) :=
  if i = 1 ∨ i = 2 ∨ i = 3 then some (msm_vidc_set_q16 db_plain) else none

/-- The build `db_plain` with the set rules of `set_rules_table`. The
property id of capability 2 is 202, which the transport refuses, so the set
rule of capability 2 fails and those of 1 and 3 succeed. -/
def db_set_rules : cap_database :=
  { db_plain with set := set_rules_table }

/-- A chain: root 1 with child 2, which has child 3. Capabilities 2 and 3 may
be adjusted while streaming. -/
def table_chain : List msm_vidc_inst_cap :=
  [cap_unset, mk_cap 1 true false [0, 0] [2, 0], mk_cap 2 false true [1, 0] [3, 0],
    mk_cap 3 false true [2, 0] [0, 0]]

/-- A diamond: root 1 with children 2 and 3, both of which have child 4. -/
def table_diamond : List msm_vidc_inst_cap :=
  [cap_unset, mk_cap 1 true false [0, 0] [2, 3], mk_cap 2 false false [1, 0] [4, 0],
    mk_cap 3 false false [1, 0] [4, 0], mk_cap 4 false false [2, 3] [0, 0]]

/-- Root 1 with children 3 and 2 in this order; 3 is also a child of 2. -/
def table_late_parent : List msm_vidc_inst_cap :=
  [cap_unset, mk_cap 1 true false [0, 0] [3, 2], mk_cap 2 false false [1, 0] [3, 0],
    mk_cap 3 false false [1, 2] [0, 0]]

/-- Two roots without children: capability 1 may not be changed while
streaming, capability 2 may. -/
def table_static_only : List msm_vidc_inst_cap :=
  [cap_unset, mk_cap 1 true false [0, 0] [0, 0], mk_cap 2 true true [0, 0] [0, 0]]

/-- A rank for the tables above: the capability id counted down from 8. -/
def rank_down (c : Nat) : Nat := 8 - c

/-- The instance with its children list replaced by `q`. -/
def with_children (inst : msm_vidc_inst) (q : List Nat) : msm_vidc_inst :=
  { inst with children := q }

/-! ## Constants of the headers and 32-bit arithmetic -/

/-- The enumerators, macros and the one inline helper that the adjust rules
of `msm_vidc_control.c` take from headers outside this source file. Their
numeric values are not fixed here.

* the capability enumerators (indices into `cap[]`);
* the `HFI_RC_*` and `HFI_HIER_*` values of the firmware interface (`u32`);
* the V4L2 menu values that the rules compare capability values with;
* the four layer ceilings `MAX_*_ENH_LAYER_*`;
* `is_image_session`. -/
structure header_constants where
  BITRATE_MODE : Nat
  LOSSLESS : Nat
  FRAME_RC_ENABLE : Nat
  FRAME_SKIP_MODE : Nat
  LAYER_TYPE : Nat
  LAYER_ENABLE : Nat
  ENH_LAYER_COUNT : Nat
  GOP_SIZE : Nat
  B_FRAME : Nat
  LTR_COUNT : Nat
  USE_LTR : Nat
  MARK_LTR : Nat
  HFI_RC_VBR_CFR : Nat
  HFI_RC_CBR_CFR : Nat
  HFI_RC_CQ : Nat
  HFI_RC_OFF : Nat
  HFI_RC_CBR_VFR : Nat
  HFI_RC_LOSSLESS : Nat
  HFI_HIER_P_SLIDING_WINDOW : Nat
  HFI_HIER_P_HYBRID_LTR : Nat
  HFI_HIER_B : Nat
  V4L2_MPEG_VIDEO_BITRATE_MODE_VBR : Int
  V4L2_MPEG_VIDEO_BITRATE_MODE_CBR : Int
  V4L2_MPEG_VIDEO_BITRATE_MODE_CQ : Int
  V4L2_MPEG_VIDEO_H264_HIERARCHICAL_CODING_B : Int
  V4L2_MPEG_VIDEO_HEVC_HIERARCHICAL_CODING_B : Int
  MAX_ENH_LAYER_HB : Int
  MAX_AVC_ENH_LAYER_HYBRID_HP : Int
  MAX_AVC_ENH_LAYER_SLIDING_WINDOW : Int
  MAX_HEVC_ENH_LAYER_SLIDING_WINDOW : Int
  is_image_session : msm_vidc_inst → Bool

/-- The conversion of an integer to `u32`: the value modulo 2^32. -/
def to_u32 (x : Int) : Int := x % 4294967296

/-- The conversion of an integer to `s32`: the value modulo 2^32, taken in
-2^31 .. 2^31 - 1. -/
def to_s32 (x : Int) : Int :=
  if x % 4294967296 < 2147483648 then x % 4294967296 else x % 4294967296 - 4294967296

/-- The C expression `a << n` on `int`. For a count 0 <= n <= 31 and a result
that fits it is `a * 2^n`. Elsewhere the C standard leaves the value open; the
embedding takes what the shift instruction gives: the count modulo 32 and the
result wrapped to 32 bits. -/
def shl_s32 (a n : Int) : Int :=
  to_s32 (a * 2 ^ (n % 32).toNat)

/-- The expression `ctrl ? ctrl->val : capability->cap[cap].value` that opens
every adjust rule. -/
def requested_value (inst : msm_vidc_inst) (ctrl : Option v4l2_ctrl) (cap : Nat) : Int :=
  match ctrl with
  | some c => c.val
  | none => (inst.cap cap).value

/-! ## Parent lookup -/

/-- The loop of `is_parent_available` over the array `parents[]`: it stops at
the array bound or at the first zero entry. -/
def is_parent_available_loop : List Nat → Nat → Bool
  | [], _ => false
  | p :: ps, check_parent =>
    if p = 0 then false
    else if p = check_parent then true
    else is_parent_available_loop ps check_parent

/-- The function `is_parent_available` (lines 241-256). -/
def is_parent_available (inst : msm_vidc_inst) (cap check_parent : Nat) : Bool :=
  is_parent_available_loop (inst.cap cap).parents check_parent

/-- The function `msm_vidc_get_parent_value` (lines 277-302): the return code
and the content of `*value` after the call; `value` is what `*value` held
before. The two derived fields are `u32` and are read into an `s32`. -/
def msm_vidc_get_parent_value (k : header_constants) (inst : msm_vidc_inst)
    (cap parent : Nat) (value : Int) : Int × Int :=
  if is_parent_available inst cap parent = true then
    if parent = k.BITRATE_MODE then (0, to_s32 inst.hfi_rc_type)
    else if parent = k.LAYER_TYPE then (0, to_s32 inst.hfi_layer_type)
    else (0, (inst.cap parent).value)
  else (-EINVAL, value)

/-! ## The adjust rules -/

/-- The function `msm_vidc_adjust_bitrate_mode` (lines 744-789). -/
def msm_vidc_adjust_bitrate_mode (k : header_constants) (inst : msm_vidc_inst)
    (_ctrl : Option v4l2_ctrl) : Int × msm_vidc_inst :=
  let bitrate_mode := (inst.cap k.BITRATE_MODE).value
  let lossless := (inst.cap k.LOSSLESS).value
  let frame_rc := (inst.cap k.FRAME_RC_ENABLE).value
  let frame_skip := (inst.cap k.FRAME_SKIP_MODE).value
  let hfi_value : Nat :=
    if lossless ≠ 0 then k.HFI_RC_LOSSLESS
    else if frame_rc = 0 ∧ k.is_image_session inst = false then k.HFI_RC_OFF
    else if bitrate_mode = k.V4L2_MPEG_VIDEO_BITRATE_MODE_VBR then k.HFI_RC_VBR_CFR
    else if bitrate_mode = k.V4L2_MPEG_VIDEO_BITRATE_MODE_CBR then
      (if frame_skip ≠ 0 then k.HFI_RC_CBR_VFR else k.HFI_RC_CBR_CFR)
    else if bitrate_mode = k.V4L2_MPEG_VIDEO_BITRATE_MODE_CQ then k.HFI_RC_CQ
    else 0
  (0, { inst with hfi_rc_type := hfi_value })

/-- The function `msm_vidc_adjust_ltr_count` (lines 834-862). -/
def msm_vidc_adjust_ltr_count (k : header_constants) (inst : msm_vidc_inst)
    (ctrl : Option v4l2_ctrl) : Int × msm_vidc_inst :=
  let adjusted_value := requested_value inst ctrl k.LTR_COUNT
  let p := msm_vidc_get_parent_value k inst k.LTR_COUNT k.BITRATE_MODE (-1)
  if p.1 ≠ 0 then (-EINVAL, inst)
  else
    let rc_type := p.2
    let adjusted_value1 :=
      if rc_type ≠ k.HFI_RC_OFF ∧ rc_type ≠ k.HFI_RC_CBR_CFR ∧ rc_type ≠ k.HFI_RC_CBR_VFR then 0
      else adjusted_value
    (0, msm_vidc_update_cap_value inst k.LTR_COUNT adjusted_value1)

/-- The function `msm_vidc_adjust_use_ltr` (lines 864-898). -/
def msm_vidc_adjust_use_ltr (k : header_constants) (inst : msm_vidc_inst)
    (ctrl : Option v4l2_ctrl) : Int × msm_vidc_inst :=
  let adjusted_value := requested_value inst ctrl k.USE_LTR
  let p := msm_vidc_get_parent_value k inst k.USE_LTR k.LTR_COUNT (-1)
  if p.1 ≠ 0 then (-EINVAL, inst)
  else
    let ltr_count := p.2
    if ltr_count = 0 then (0, msm_vidc_update_cap_value inst k.USE_LTR 0)
    else if adjusted_value ≤ 0 ∨ adjusted_value ≥ shl_s32 1 ltr_count then (-EINVAL, inst)
    else (0, msm_vidc_update_cap_value inst k.USE_LTR adjusted_value)

/-- The function `msm_vidc_adjust_mark_ltr` (lines 900-933). The subtraction
`ltr_count - 1` of line 922 is taken on `s32`: at the least count it wraps
to the greatest `s32` value, as the kernel build has it. -/
def msm_vidc_adjust_mark_ltr (k : header_constants) (inst : msm_vidc_inst)
    (ctrl : Option v4l2_ctrl) : Int × msm_vidc_inst :=
  let adjusted_value := requested_value inst ctrl k.MARK_LTR
  let p := msm_vidc_get_parent_value k inst k.MARK_LTR k.LTR_COUNT (-1)
  if p.1 ≠ 0 then (-EINVAL, inst)
  else
    let ltr_count := p.2
    if ltr_count = 0 then (0, msm_vidc_update_cap_value inst k.MARK_LTR 0)
    else if adjusted_value < 0 ∨ adjusted_value > to_s32 (ltr_count - 1) then (-EINVAL, inst)
    else (0, msm_vidc_update_cap_value inst k.MARK_LTR adjusted_value)

/-- The statement `inst->capabilities->cap[cap].max = v` (line 1106). -/
def set_cap_max (inst : msm_vidc_inst) (cap : Nat) (v : Int) : msm_vidc_inst :=
  { inst with cap := Function.update inst.cap cap { inst.cap cap with max := v } }

/-- The value of `hb_requested` in
`msm_vidc_adjust_static_layer_count_and_type` (lines 1052-1065). -/
def hb_requested (k : header_constants) (inst : msm_vidc_inst) : Bool :=
  if inst.codec = msm_vidc_codec_type.MSM_VIDC_H264 then
    decide ((inst.cap k.LAYER_TYPE).value = k.V4L2_MPEG_VIDEO_H264_HIERARCHICAL_CODING_B)
  else if inst.codec = msm_vidc_codec_type.MSM_VIDC_HEVC then
    decide ((inst.cap k.LAYER_TYPE).value = k.V4L2_MPEG_VIDEO_HEVC_HIERARCHICAL_CODING_B)
  else false

/-- The layer type chosen at lines 1075-1084. -/
def decide_hfi_layer_type (k : header_constants) (inst : msm_vidc_inst) : Nat :=
  if hb_requested k inst = true then k.HFI_HIER_B
  else if inst.codec = msm_vidc_codec_type.MSM_VIDC_H264 ∧
      inst.hfi_rc_type = k.HFI_RC_VBR_CFR then k.HFI_HIER_P_HYBRID_LTR
  else k.HFI_HIER_P_SLIDING_WINDOW

/-- The clamp of the layer count at lines 1086-1101, for the layer type just
stored in `inst->hfi_layer_type`. -/
def sanitize_layer_count (k : header_constants) (inst : msm_vidc_inst) (layer_count : Int) :
    Int :=
  if inst.hfi_layer_type = k.HFI_HIER_B then
    (if layer_count > k.MAX_ENH_LAYER_HB then k.MAX_ENH_LAYER_HB else layer_count)
  else if inst.hfi_layer_type = k.HFI_HIER_P_HYBRID_LTR then
    (if layer_count > k.MAX_AVC_ENH_LAYER_HYBRID_HP then k.MAX_AVC_ENH_LAYER_HYBRID_HP
     else layer_count)
  else if inst.hfi_layer_type = k.HFI_HIER_P_SLIDING_WINDOW then
    (if inst.codec = msm_vidc_codec_type.MSM_VIDC_H264 then
      (if layer_count > k.MAX_AVC_ENH_LAYER_SLIDING_WINDOW then
        k.MAX_AVC_ENH_LAYER_SLIDING_WINDOW else layer_count)
     else
      (if layer_count > k.MAX_HEVC_ENH_LAYER_SLIDING_WINDOW then
        k.MAX_HEVC_ENH_LAYER_SLIDING_WINDOW else layer_count))
  else layer_count

/-- The part of `msm_vidc_adjust_static_layer_count_and_type` before the label
`exit` (lines 1041-1101): the instance and the local `layer_count` with which
the label is reached. -/
def static_layer_resolve (k : header_constants) (inst : msm_vidc_inst) (layer_count : Int) :
    msm_vidc_inst × Int :=
  if layer_count = 0 then (inst, layer_count)
  else if inst.hfi_rc_type = k.HFI_RC_CQ then (inst, 0)
  else if inst.codec = msm_vidc_codec_type.MSM_VIDC_H264 ∧
      (inst.cap k.LAYER_ENABLE).value = 0 then (inst, 0)
  else if hb_requested k inst = true ∧ inst.hfi_rc_type ≠ k.HFI_RC_VBR_CFR then (inst, 0)
  else
    let inst1 : msm_vidc_inst := { inst with hfi_layer_type := decide_hfi_layer_type k inst }
    (inst1, sanitize_layer_count k inst1 layer_count)

/-- The function `msm_vidc_adjust_static_layer_count_and_type`
(lines 1031-1108). -/
def msm_vidc_adjust_static_layer_count_and_type (k : header_constants) (inst : msm_vidc_inst)
    (layer_count : Int) : Int × msm_vidc_inst :=
  let r := static_layer_resolve k inst layer_count
  (0, set_cap_max (msm_vidc_update_cap_value r.1 k.ENH_LAYER_COUNT r.2) k.ENH_LAYER_COUNT r.2)

/-- The function `msm_vidc_adjust_layer_count` (lines 1110-1153). -/
def msm_vidc_adjust_layer_count (k : header_constants) (inst : msm_vidc_inst)
    (ctrl : Option v4l2_ctrl) : Int × msm_vidc_inst :=
  let client_layer_count := requested_value inst ctrl k.ENH_LAYER_COUNT
  if is_parent_available inst k.ENH_LAYER_COUNT k.BITRATE_MODE = false then (-EINVAL, inst)
  else if inst.streaming = false then
    msm_vidc_adjust_static_layer_count_and_type k inst client_layer_count
  else if inst.hfi_layer_type = k.HFI_HIER_P_HYBRID_LTR ∨
      inst.hfi_layer_type = k.HFI_HIER_P_SLIDING_WINDOW then
    let client_layer_count1 :=
      if client_layer_count > (inst.cap k.ENH_LAYER_COUNT).max then
        (inst.cap k.ENH_LAYER_COUNT).max
      else client_layer_count
    (0, msm_vidc_update_cap_value inst k.ENH_LAYER_COUNT client_layer_count1)
  else (0, inst)

/-- The calibration block of `msm_vidc_adjust_gop_size` (lines 1189-1199) for
a non-zero layer count: `min_gop_size` and `num_subgops` are `u32`, so the sum
and the product are taken modulo 2^32, and the result goes back into the
`s32` local `adjusted_value`. -/
def calibrate_gop_size (enh_layer_count adjusted_value : Int) : Int :=
  let min_gop_size : Int := to_u32 (shl_s32 1 enh_layer_count)
  let num_subgops : Int := to_u32 (to_u32 adjusted_value + min_gop_size / 2) / min_gop_size
  if num_subgops ≠ 0 then to_s32 (to_u32 (num_subgops * min_gop_size))
  else to_s32 min_gop_size

/-- The function `msm_vidc_adjust_gop_size` (lines 1161-1205). -/
def msm_vidc_adjust_gop_size (k : header_constants) (inst : msm_vidc_inst)
    (ctrl : Option v4l2_ctrl) : Int × msm_vidc_inst :=
  let adjusted_value := requested_value inst ctrl k.GOP_SIZE
  let p := msm_vidc_get_parent_value k inst k.GOP_SIZE k.ENH_LAYER_COUNT (-1)
  if p.1 ≠ 0 then (-EINVAL, inst)
  else
    let enh_layer_count := p.2
    if enh_layer_count = 0 then (0, msm_vidc_update_cap_value inst k.GOP_SIZE adjusted_value)
    else if inst.hfi_layer_type = k.HFI_HIER_P_SLIDING_WINDOW ∨
        inst.hfi_layer_type = k.HFI_HIER_P_HYBRID_LTR then
      (0, msm_vidc_update_cap_value inst k.GOP_SIZE
        (calibrate_gop_size enh_layer_count adjusted_value))
    else (0, msm_vidc_update_cap_value inst k.GOP_SIZE adjusted_value)

/-- The value computed at lines 1234-1237 of `msm_vidc_adjust_b_frame`:
`(2 << enh_layer_count) - 1` on `int`, then compared with the `u32` constant
`max_bframe_size = 7`, which makes the comparison unsigned. -/
def b_frame_from_layers (enh_layer_count : Int) : Int :=
  let adjusted_value := to_s32 (shl_s32 2 enh_layer_count - 1)
  if to_u32 adjusted_value > 7 then 7 else adjusted_value

/-- The function `msm_vidc_adjust_b_frame` (lines 1207-1242). -/
def msm_vidc_adjust_b_frame (k : header_constants) (inst : msm_vidc_inst)
    (_ctrl : Option v4l2_ctrl) : Int × msm_vidc_inst :=
  if inst.streaming = true then (0, inst)
  else
    let p := msm_vidc_get_parent_value k inst k.B_FRAME k.ENH_LAYER_COUNT (-1)
    if p.1 ≠ 0 then (-EINVAL, inst)
    else
      let enh_layer_count := p.2
      if enh_layer_count = 0 ∨ inst.hfi_layer_type ≠ k.HFI_HIER_B then
        (0, msm_vidc_update_cap_value inst k.B_FRAME 0)
      else (0, msm_vidc_update_cap_value inst k.B_FRAME (b_frame_from_layers enh_layer_count))

/-! ## An encoder table used as concrete input -/

/-- Sample values for the header constants: the capability enumerators count
up from 1, the rate-control and layer values and the ceilings are those of the
firmware interface of this driver generation. -/
def consts_sample : header_constants :=
  { BITRATE_MODE := 1, LOSSLESS := 2, FRAME_RC_ENABLE := 3, FRAME_SKIP_MODE := 4,
    LAYER_TYPE := 5, LAYER_ENABLE := 6, ENH_LAYER_COUNT := 7, GOP_SIZE := 8, B_FRAME := 9,
    LTR_COUNT := 10, USE_LTR := 11, MARK_LTR := 12,
    HFI_RC_VBR_CFR := 0, HFI_RC_CBR_CFR := 1, HFI_RC_CQ := 2, HFI_RC_OFF := 3,
    HFI_RC_CBR_VFR := 4, HFI_RC_LOSSLESS := 5,
    HFI_HIER_P_SLIDING_WINDOW := 1, HFI_HIER_P_HYBRID_LTR := 2, HFI_HIER_B := 3,
    V4L2_MPEG_VIDEO_BITRATE_MODE_VBR := 0, V4L2_MPEG_VIDEO_BITRATE_MODE_CBR := 1,
    V4L2_MPEG_VIDEO_BITRATE_MODE_CQ := 2,
    V4L2_MPEG_VIDEO_H264_HIERARCHICAL_CODING_B := 0,
    V4L2_MPEG_VIDEO_HEVC_HIERARCHICAL_CODING_B := 0,
    MAX_ENH_LAYER_HB := 3, MAX_AVC_ENH_LAYER_HYBRID_HP := 5,
    MAX_AVC_ENH_LAYER_SLIDING_WINDOW := 3, MAX_HEVC_ENH_LAYER_SLIDING_WINDOW := 5,
    is_image_session := fun inst => decide (inst.codec = msm_vidc_codec_type.MSM_VIDC_HEIC) }

/-- A registered capability with the given range, value, parents and
children; control id `100 + id`, property id `200 + id`. -/
def mk_cap_range (id : Nat) (lo hi v : Int) (root : Bool) (parents kids : List Nat) :
    msm_vidc_inst_cap :=
  { cap := id, min := lo, max := hi, step_or_mask := 1, value := v,
    flags := ⟨root, true, false, false, false, false⟩,
    v4l2_id := 100 + id, hfi_id := 200 + id, parents := parents, children := kids }

/-- An encoder table over the enumerators of `consts_sample`: rate control CBR
with frame rate control on, no frame skip, not lossless; layer type P, layers
enabled; every count at 0, GOP size 30. -/
def table_encoder : List msm_vidc_inst_cap :=
  [cap_unset,
   mk_cap_range 1 0 2 1 true [0, 0] [7, 10],
   mk_cap_range 2 0 1 0 true [0, 0] [1, 0],
   mk_cap_range 3 0 1 1 true [0, 0] [1, 0],
   mk_cap_range 4 0 1 0 true [0, 0] [1, 0],
   mk_cap_range 5 0 1 1 true [0, 0] [7, 0],
   mk_cap_range 6 0 1 1 true [0, 0] [7, 0],
   mk_cap_range 7 0 5 0 false [1, 5] [8, 9],
   mk_cap_range 8 0 100 30 false [7, 0] [0, 0],
   mk_cap_range 9 0 7 0 false [7, 0] [0, 0],
   mk_cap_range 10 0 2 0 false [1, 0] [11, 12],
   mk_cap_range 11 0 3 0 false [10, 0] [0, 0],
   mk_cap_range 12 0 1 0 false [10, 0] [0, 0]]

/-- The encoder session over `table_encoder` with the given streaming flag,
resolved rate-control kind and resolved layer type. -/
def inst_encoder (streaming : Bool) (rc_type layer_type : Nat) : msm_vidc_inst :=
  { inst_of streaming table_encoder with hfi_rc_type := rc_type, hfi_layer_type := layer_type }

/-! ## Constants of the headers used by the profile, entropy and QP rules -/

/-- The further enumerators, constants and the inline helper that the
profile, entropy-mode and QP rules of `msm_vidc_control.c` take from headers
outside this source file. Their numeric values are not fixed here.

* the capability enumerators `PIX_FMTS` .. `B_FRAME_MAX_QP`;
* the two 10-bit colour formats `MSM_VIDC_FMT_P010`, `MSM_VIDC_FMT_TP10C`;
* the V4L2 menu values of the HEVC profile, the H.264 profile and the H.264
  entropy mode that the rules name;
* `is_10bit_colorformat`, an inline helper of the driver header;
* `CAP_FLAG_CLIENT_SET`: the numeric value of the flag bit, which matters
  where the result of `flags & CAP_FLAG_CLIENT_SET` is used as a number;
* `HFI_PAYLOAD_32_PACKED`: a payload kind of the firmware interface. -/
structure control_constants extends header_constants where
  PIX_FMTS : Nat
  PROFILE : Nat
  ENTROPY_MODE : Nat
  MIN_FRAME_QP : Nat
  MAX_FRAME_QP : Nat
  I_FRAME_QP : Nat
  P_FRAME_QP : Nat
  B_FRAME_QP : Nat
  I_FRAME_MIN_QP : Nat
  P_FRAME_MIN_QP : Nat
  B_FRAME_MIN_QP : Nat
  I_FRAME_MAX_QP : Nat
  P_FRAME_MAX_QP : Nat
  B_FRAME_MAX_QP : Nat
  MSM_VIDC_FMT_P010 : Int
  MSM_VIDC_FMT_TP10C : Int
  V4L2_MPEG_VIDEO_HEVC_PROFILE_MAIN : Int
  V4L2_MPEG_VIDEO_HEVC_PROFILE_MAIN_STILL_PICTURE : Int
  V4L2_MPEG_VIDEO_HEVC_PROFILE_MAIN_10 : Int
  V4L2_MPEG_VIDEO_H264_PROFILE_BASELINE : Int
  V4L2_MPEG_VIDEO_H264_PROFILE_CONSTRAINED_BASELINE : Int
  V4L2_MPEG_VIDEO_H264_ENTROPY_MODE_CAVLC : Int
  is_10bit_colorformat : Int → Bool
  CAP_FLAG_CLIENT_SET : Nat
  HFI_PAYLOAD_32_PACKED : Nat

/-! ## The profile, entropy-mode and HEVC QP rules -/

/-- The function `msm_vidc_adjust_entropy_mode` (lines 706-742). The codec
test comes before the parent lookup, and its branch returns 0. -/
def msm_vidc_adjust_entropy_mode (k : control_constants) (inst : msm_vidc_inst)
    (ctrl : Option v4l2_ctrl) : Int × msm_vidc_inst :=
  let adjusted_value := requested_value inst ctrl k.ENTROPY_MODE
  if inst.codec ≠ msm_vidc_codec_type.MSM_VIDC_H264 then (0, inst)
  else
    let p := msm_vidc_get_parent_value k.toheader_constants inst k.ENTROPY_MODE k.PROFILE (-1)
    if p.1 ≠ 0 then (-EINVAL, inst)
    else
      let profile := p.2
      let adjusted_value1 :=
        if profile = k.V4L2_MPEG_VIDEO_H264_PROFILE_BASELINE ∨
            profile = k.V4L2_MPEG_VIDEO_H264_PROFILE_CONSTRAINED_BASELINE then
          k.V4L2_MPEG_VIDEO_H264_ENTROPY_MODE_CAVLC
        else adjusted_value
      (0, msm_vidc_update_cap_value inst k.ENTROPY_MODE adjusted_value1)

/-- The function `msm_vidc_adjust_profile` (lines 791-832). -/
def msm_vidc_adjust_profile (k : control_constants) (inst : msm_vidc_inst)
    (ctrl : Option v4l2_ctrl) : Int × msm_vidc_inst :=
  let adjusted_value := requested_value inst ctrl k.PROFILE
  let p := msm_vidc_get_parent_value k.toheader_constants inst k.PROFILE k.PIX_FMTS (-1)
  if p.1 ≠ 0 then (-EINVAL, inst)
  else
    let pix_fmt := p.2
    let adjusted_value1 :=
      if pix_fmt = k.MSM_VIDC_FMT_TP10C ∨ pix_fmt = k.MSM_VIDC_FMT_P010 then
        k.V4L2_MPEG_VIDEO_HEVC_PROFILE_MAIN_10
      else if adjusted_value = k.V4L2_MPEG_VIDEO_HEVC_PROFILE_MAIN_10 then
        (if k.is_image_session inst = true then
          k.V4L2_MPEG_VIDEO_HEVC_PROFILE_MAIN_STILL_PICTURE
         else k.V4L2_MPEG_VIDEO_HEVC_PROFILE_MAIN)
      else adjusted_value
    (0, msm_vidc_update_cap_value inst k.PROFILE adjusted_value1)

/-- The statement `CAP_TO_8BIT_QP(capability->cap[cap].value)` (lines 14-17):
a negative value becomes 0, any other value stays. -/
def CAP_TO_8BIT_QP (inst : msm_vidc_inst) (cap : Nat) : msm_vidc_inst :=
  if (inst.cap cap).value < 0 then
    { inst with cap := Function.update inst.cap cap { inst.cap cap with value := 0 } }
  else inst

/-- The function `msm_vidc_adjust_hevc_qp` (lines 304-342). -/
def msm_vidc_adjust_hevc_qp (k : control_constants) (inst : msm_vidc_inst) (cap_id : Nat) :
    Int × msm_vidc_inst :=
  if ¬ (inst.codec = msm_vidc_codec_type.MSM_VIDC_HEVC ∨
      inst.codec = msm_vidc_codec_type.MSM_VIDC_HEIC) then (-EINVAL, inst)
  else
    let p := msm_vidc_get_parent_value k.toheader_constants inst cap_id k.PIX_FMTS (-1)
    if p.1 ≠ 0 then (-EINVAL, inst)
    else
      let pix_fmt := p.2
      if pix_fmt = k.MSM_VIDC_FMT_P010 ∨ pix_fmt = k.MSM_VIDC_FMT_TP10C then (0, inst)
      else
        let inst1 := CAP_TO_8BIT_QP inst cap_id
        if cap_id = k.MIN_FRAME_QP then
          (0, CAP_TO_8BIT_QP (CAP_TO_8BIT_QP (CAP_TO_8BIT_QP inst1 k.I_FRAME_MIN_QP)
            k.P_FRAME_MIN_QP) k.B_FRAME_MIN_QP)
        else if cap_id = k.MAX_FRAME_QP then
          (0, CAP_TO_8BIT_QP (CAP_TO_8BIT_QP (CAP_TO_8BIT_QP inst1 k.I_FRAME_MAX_QP)
            k.P_FRAME_MAX_QP) k.B_FRAME_MAX_QP)
        else if cap_id = k.I_FRAME_QP then
          (0, CAP_TO_8BIT_QP (CAP_TO_8BIT_QP inst1 k.P_FRAME_QP) k.B_FRAME_QP)
        else (0, inst1)

/-- The function `msm_vidc_adjust_hevc_min_qp` (lines 1244-1259). -/
def msm_vidc_adjust_hevc_min_qp (k : control_constants) (inst : msm_vidc_inst)
    (_ctrl : Option v4l2_ctrl) : Int × msm_vidc_inst :=
  msm_vidc_adjust_hevc_qp k inst k.MIN_FRAME_QP

/-- The function `msm_vidc_adjust_hevc_max_qp` (lines 1261-1276). -/
def msm_vidc_adjust_hevc_max_qp (k : control_constants) (inst : msm_vidc_inst)
    (_ctrl : Option v4l2_ctrl) : Int × msm_vidc_inst :=
  msm_vidc_adjust_hevc_qp k inst k.MAX_FRAME_QP

/-- The function `msm_vidc_adjust_hevc_frame_qp` (lines 1278-1293). -/
def msm_vidc_adjust_hevc_frame_qp (k : control_constants) (inst : msm_vidc_inst)
    (_ctrl : Option v4l2_ctrl) : Int × msm_vidc_inst :=
  msm_vidc_adjust_hevc_qp k inst k.I_FRAME_QP

/-! ## The QP set rules -/

/-- The expression `capability->cap[cap].flags & CAP_FLAG_CLIENT_SET` as a
number: the value of the flag bit when the flag is set, else 0. -/
def client_set_bits (k : control_constants) (inst : msm_vidc_inst) (cap : Nat) : Nat :=
  if (inst.cap cap).flags.CAP_FLAG_CLIENT_SET = true then k.CAP_FLAG_CLIENT_SET else 0

/-- The operator `a || b` of C on two numbers: 1 when either is non-zero. -/
def logical_or (a b : Nat) : Nat := if a ≠ 0 ∨ b ≠ 0 then 1 else 0

/-- The bit pattern of an `s32` value read as `u32`. -/
def u32_of (x : Int) : Nat := (x % 4294967296).toNat

/-- The expression `i_qp_enable | p_qp_enable << 1 | b_qp_enable << 2` on
`u32` operands. -/
def client_qp_enable (i_qp_enable p_qp_enable b_qp_enable : Nat) : Nat :=
  i_qp_enable % 4294967296 ||| p_qp_enable * 2 % 4294967296 ||| b_qp_enable * 4 % 4294967296

/-- The expression
`i_frame_qp | p_frame_qp << 8 | b_frame_qp << 16 | client_qp_enable << 24`
stored into the `u32` `hfi_value`: the three QPs are `s32`, the mask is
`u32`. -/
def pack_qp (i_frame_qp p_frame_qp b_frame_qp : Int) (enable : Nat) : Nat :=
  u32_of i_frame_qp ||| u32_of (shl_s32 p_frame_qp 8) ||| u32_of (shl_s32 b_frame_qp 16) |||
    enable * 16777216 % 4294967296

/-- The `u32` variable `offset` of the three QP set rules: 12 for a 10-bit
colour format, else 0. -/
def qp_offset (k : control_constants) (inst : msm_vidc_inst) : Int :=
  if k.is_10bit_colorformat (inst.cap k.PIX_FMTS).value = true then 12 else 0

/-- The function `msm_vidc_set_min_qp` (lines 1478-1535). A sum `s32 + u32`
is formed in `u32` and stored into an `s32`. -/
def msm_vidc_set_min_qp (db : cap_database) (k : control_constants) (inst : msm_vidc_inst)
    (cap_id : Nat) : Int × List hfi_property :=
  let min_qp_enable := client_set_bits k inst k.MIN_FRAME_QP
  let i_qp_enable := logical_or min_qp_enable (client_set_bits k inst k.I_FRAME_MIN_QP)
  let p_qp_enable := logical_or min_qp_enable (client_set_bits k inst k.P_FRAME_MIN_QP)
  let b_qp_enable := logical_or min_qp_enable (client_set_bits k inst k.B_FRAME_MIN_QP)
  let enable := client_qp_enable i_qp_enable p_qp_enable b_qp_enable
  if enable = 0 then (0, [])
  else
    let offset := qp_offset k inst
    let i_frame_qp :=
      to_s32 (max (inst.cap k.I_FRAME_MIN_QP).value (inst.cap k.MIN_FRAME_QP).value + offset)
    let p_frame_qp :=
      to_s32 (max (inst.cap k.P_FRAME_MIN_QP).value (inst.cap k.MIN_FRAME_QP).value + offset)
    let b_frame_qp :=
      to_s32 (max (inst.cap k.B_FRAME_MIN_QP).value (inst.cap k.MIN_FRAME_QP).value + offset)
    msm_vidc_packetize_control db inst cap_id k.HFI_PAYLOAD_32_PACKED
      (pack_qp i_frame_qp p_frame_qp b_frame_qp enable) 4

/-- The function `msm_vidc_set_max_qp` (lines 1537-1594). The three per-type
enable bits read the flags of I_FRAME_MIN_QP, P_FRAME_MIN_QP and
B_FRAME_MIN_QP (lines 1554-1559), the values read the `*_MAX_QP`
capabilities (lines 1575-1580). -/
def msm_vidc_set_max_qp (db : cap_database) (k : control_constants) (inst : msm_vidc_inst)
    (cap_id : Nat) : Int × List hfi_property :=
  let max_qp_enable := client_set_bits k inst k.MAX_FRAME_QP
  let i_qp_enable := logical_or max_qp_enable (client_set_bits k inst k.I_FRAME_MIN_QP)
  let p_qp_enable := logical_or max_qp_enable (client_set_bits k inst k.P_FRAME_MIN_QP)
  let b_qp_enable := logical_or max_qp_enable (client_set_bits k inst k.B_FRAME_MIN_QP)
  let enable := client_qp_enable i_qp_enable p_qp_enable b_qp_enable
  if enable = 0 then (0, [])
  else
    let offset := qp_offset k inst
    let i_frame_qp :=
      to_s32 (min (inst.cap k.I_FRAME_MAX_QP).value (inst.cap k.MAX_FRAME_QP).value + offset)
    let p_frame_qp :=
      to_s32 (min (inst.cap k.P_FRAME_MAX_QP).value (inst.cap k.MAX_FRAME_QP).value + offset)
    let b_frame_qp :=
      to_s32 (min (inst.cap k.B_FRAME_MAX_QP).value (inst.cap k.MAX_FRAME_QP).value + offset)
    msm_vidc_packetize_control db inst cap_id k.HFI_PAYLOAD_32_PACKED
      (pack_qp i_frame_qp p_frame_qp b_frame_qp enable) 4

/-- The three enable words of `msm_vidc_set_frame_qp` (lines 1616-1627): 1
each when the rate control is off, else the result of
`flags & CAP_FLAG_CLIENT_SET` as it is. -/
def frame_qp_enables (k : control_constants) (inst : msm_vidc_inst) (rc_type : Int) :
    Nat × Nat × Nat :=
  if rc_type = k.HFI_RC_OFF then (1, 1, 1)
  else (client_set_bits k inst k.I_FRAME_QP, client_set_bits k inst k.P_FRAME_QP,
    client_set_bits k inst k.B_FRAME_QP)

/-- The function `msm_vidc_set_frame_qp` (lines 1596-1651). -/
def msm_vidc_set_frame_qp (db : cap_database) (k : control_constants) (inst : msm_vidc_inst)
    (cap_id : Nat) : Int × List hfi_property :=
  let p := msm_vidc_get_parent_value k.toheader_constants inst k.I_FRAME_QP k.BITRATE_MODE (-1)
  if p.1 ≠ 0 then (-EINVAL, [])
  else
    let en := frame_qp_enables k inst p.2
    let enable := client_qp_enable en.1 en.2.1 en.2.2
    if enable = 0 then (0, [])
    else
      let offset := qp_offset k inst
      let i_frame_qp := to_s32 ((inst.cap k.I_FRAME_QP).value + offset)
      let p_frame_qp := to_s32 ((inst.cap k.P_FRAME_QP).value + offset)
      let b_frame_qp := to_s32 ((inst.cap k.B_FRAME_QP).value + offset)
      msm_vidc_packetize_control db inst cap_id k.HFI_PAYLOAD_32_PACKED
        (pack_qp i_frame_qp p_frame_qp b_frame_qp enable) 4

/-! ## A table with the profile and QP capabilities used as concrete input -/

/-- Sample values for the further constants, over `consts_sample`: the
capability enumerators 13..26, the colour formats TP10C = 8 and P010 = 16,
the HEVC profiles MAIN = 0, MAIN_STILL_PICTURE = 1, MAIN_10 = 2, the H.264
profiles BASELINE = 0 and CONSTRAINED_BASELINE = 1, CAVLC = 0, and the flag
bit CAP_FLAG_CLIENT_SET = 32. -/
def consts_control : control_constants :=
  { toheader_constants := consts_sample,
    PIX_FMTS := 13, PROFILE := 14, ENTROPY_MODE := 15,
    MIN_FRAME_QP := 16, MAX_FRAME_QP := 17,
    I_FRAME_QP := 18, P_FRAME_QP := 19, B_FRAME_QP := 20,
    I_FRAME_MIN_QP := 21, P_FRAME_MIN_QP := 22, B_FRAME_MIN_QP := 23,
    I_FRAME_MAX_QP := 24, P_FRAME_MAX_QP := 25, B_FRAME_MAX_QP := 26,
    MSM_VIDC_FMT_P010 := 16, MSM_VIDC_FMT_TP10C := 8,
    V4L2_MPEG_VIDEO_HEVC_PROFILE_MAIN := 0,
    V4L2_MPEG_VIDEO_HEVC_PROFILE_MAIN_STILL_PICTURE := 1,
    V4L2_MPEG_VIDEO_HEVC_PROFILE_MAIN_10 := 2,
    V4L2_MPEG_VIDEO_H264_PROFILE_BASELINE := 0,
    V4L2_MPEG_VIDEO_H264_PROFILE_CONSTRAINED_BASELINE := 1,
    V4L2_MPEG_VIDEO_H264_ENTROPY_MODE_CAVLC := 0,
    is_10bit_colorformat := fun f => decide (f = 16 ∨ f = 8),
    CAP_FLAG_CLIENT_SET := 32,
    HFI_PAYLOAD_32_PACKED := 7 }

/-- The encoder table followed by the capabilities 13..26: PIX_FMTS (an 8-bit
format, value 2), PROFILE (2), ENTROPY_MODE (1), the umbrella MIN_FRAME_QP
(-12) and MAX_FRAME_QP (51), the frame QPs (10 each), the per-type minimum
QPs (-12 each) and the per-type maximum QPs (51 each). -/
def table_control : List msm_vidc_inst_cap :=
  table_encoder ++
    [mk_cap_range 13 0 16 2 true [0, 0] [14, 16],
     mk_cap_range 14 0 2 2 false [13, 0] [15, 0],
     mk_cap_range 15 0 1 1 false [14, 0] [0, 0],
     mk_cap_range 16 (-12) 51 (-12) false [13, 0] [0, 0],
     mk_cap_range 17 (-12) 51 51 false [13, 0] [0, 0],
     mk_cap_range 18 (-12) 51 10 false [13, 1] [0, 0],
     mk_cap_range 19 (-12) 51 10 false [13, 1] [0, 0],
     mk_cap_range 20 (-12) 51 10 false [13, 1] [0, 0],
     mk_cap_range 21 (-12) 51 (-12) false [13, 0] [0, 0],
     mk_cap_range 22 (-12) 51 (-12) false [13, 0] [0, 0],
     mk_cap_range 23 (-12) 51 (-12) false [13, 0] [0, 0],
     mk_cap_range 24 (-12) 51 51 false [13, 0] [0, 0],
     mk_cap_range 25 (-12) 51 51 false [13, 0] [0, 0],
     mk_cap_range 26 (-12) 51 51 false [13, 0] [0, 0]]

/-- A non-streaming session of the given codec over `table_control` with the
derived field `hfi_rc_type` as given. -/
def inst_control (codec : msm_vidc_codec_type) (rc_type : Nat) : msm_vidc_inst :=
  { inst_of false table_control with codec := codec, hfi_rc_type := rc_type }

/-- The session `inst` with another codec. -/
def with_codec (inst : msm_vidc_inst) (codec : msm_vidc_codec_type) : msm_vidc_inst :=
  { inst with codec := codec }

/-- The session `inst` with the streaming state of the output queue as
given. -/
def with_streaming (inst : msm_vidc_inst) (streaming : Bool) : msm_vidc_inst :=
  { inst with streaming := streaming }

/-! ## Constants of the headers used by the remaining rules and the enum maps -/

/-- The further enumerators and constants that the rules for IR_RANDOM,
TIME_DELTA_BASED_RC and TRANSFORM_8X8 and the two enum maps of
`msm_vidc_control.c` take from headers outside this source file. Their
numeric values are not fixed here.

* three capability enumerators;
* the V4L2 menu values and the driver value `V4L2_MPEG_MSM_VIDC_DISABLE`
  named by `msm_vidc_adjust_transform_8x8`;
* the control ids that label the cases of the two `switch` statements on
  `v4l2_id`, and the menu values that label their inner cases;
* the `HFI_*` values written by the enum maps. -/
structure driver_constants extends control_constants where
  IR_RANDOM : Nat
  TIME_DELTA_BASED_RC : Nat
  TRANSFORM_8X8 : Nat
  V4L2_MPEG_VIDEO_H264_PROFILE_HIGH : Int
  V4L2_MPEG_VIDEO_H264_PROFILE_CONSTRAINED_HIGH : Int
  V4L2_MPEG_MSM_VIDC_DISABLE : Int
  V4L2_CID_MPEG_VIDEO_H264_ENTROPY_MODE : Nat
  V4L2_MPEG_VIDEO_H264_ENTROPY_MODE_CABAC : Int
  V4L2_CID_MPEG_VIDEO_BITRATE_MODE : Nat
  V4L2_CID_MPEG_VIDEO_HEVC_PROFILE : Nat
  V4L2_CID_MPEG_VIDEO_H264_PROFILE : Nat
  V4L2_CID_MPEG_VIDEO_VP9_PROFILE : Nat
  V4L2_CID_MPEG_VIDEO_HEVC_LEVEL : Nat
  V4L2_CID_MPEG_VIDEO_H264_LEVEL : Nat
  V4L2_CID_MPEG_VIDEO_HEVC_TIER : Nat
  V4L2_CID_MPEG_VIDC_VIDEO_BLUR_TYPES : Nat
  V4L2_CID_MPEG_VIDEO_HEVC_HIER_CODING_TYPE : Nat
  V4L2_MPEG_VIDEO_HEVC_HIERARCHICAL_CODING_P : Int
  V4L2_CID_ROTATE : Nat
  HFI_ROTATION_NONE : Nat
  HFI_ROTATION_90 : Nat
  HFI_ROTATION_180 : Nat
  HFI_ROTATION_270 : Nat
  V4L2_CID_MPEG_VIDEO_HEVC_LOOP_FILTER_MODE : Nat
  V4L2_MPEG_VIDEO_HEVC_LOOP_FILTER_MODE_ENABLED : Int
  V4L2_MPEG_VIDEO_HEVC_LOOP_FILTER_MODE_DISABLED : Int
  DB_HEVC_DISABLE_SLICE_BOUNDARY : Int
  V4L2_CID_MPEG_VIDEO_H264_LOOP_FILTER_MODE : Nat
  V4L2_MPEG_VIDEO_H264_LOOP_FILTER_MODE_ENABLED : Int
  V4L2_MPEG_VIDEO_H264_LOOP_FILTER_MODE_DISABLED : Int
  DB_H264_DISABLE_SLICE_BOUNDARY : Int
  HFI_DEBLOCK_ALL_BOUNDARY : Nat
  HFI_DEBLOCK_DISABLE : Nat
  HFI_DEBLOCK_DISABLE_AT_SLICE_BOUNDARY : Nat
  V4L2_CID_MPEG_VIDEO_HEVC_SIZE_OF_LENGTH_FIELD : Nat
  V4L2_MPEG_VIDEO_HEVC_SIZE_4 : Int
  HFI_NAL_LENGTH_SIZE_4 : Nat
  HFI_NAL_LENGTH_STARTCODES : Nat

/-! ## The remaining adjust rules -/

/-- The function `msm_vidc_adjust_ir_random` (lines 935-962). A missing
parent is not an error here, and `inst->hfi_rc_type` is read directly. -/
def msm_vidc_adjust_ir_random (k : driver_constants) (inst : msm_vidc_inst)
    (ctrl : Option v4l2_ctrl) : Int × msm_vidc_inst :=
  let adjusted_value := requested_value inst ctrl k.IR_RANDOM
  let adjusted_value1 :=
    if is_parent_available inst k.IR_RANDOM k.BITRATE_MODE = true ∧
        inst.hfi_rc_type ≠ k.HFI_RC_CBR_CFR ∧ inst.hfi_rc_type ≠ k.HFI_RC_CBR_VFR then 0
    else adjusted_value
  (0, msm_vidc_update_cap_value inst k.IR_RANDOM adjusted_value1)

/-- The function `msm_vidc_adjust_delta_based_rc` (lines 964-992). -/
def msm_vidc_adjust_delta_based_rc (k : driver_constants) (inst : msm_vidc_inst)
    (ctrl : Option v4l2_ctrl) : Int × msm_vidc_inst :=
  let adjusted_value := requested_value inst ctrl k.TIME_DELTA_BASED_RC
  let p := msm_vidc_get_parent_value k.toheader_constants inst k.TIME_DELTA_BASED_RC
    k.BITRATE_MODE (-1)
  if p.1 ≠ 0 then (-EINVAL, inst)
  else
    let rc_type := p.2
    let adjusted_value1 :=
      if rc_type = k.HFI_RC_OFF ∨ rc_type = k.HFI_RC_CQ then 0 else adjusted_value
    (0, msm_vidc_update_cap_value inst k.TIME_DELTA_BASED_RC adjusted_value1)

/-- The function `msm_vidc_adjust_transform_8x8` (lines 994-1029). -/
def msm_vidc_adjust_transform_8x8 (k : driver_constants) (inst : msm_vidc_inst)
    (ctrl : Option v4l2_ctrl) : Int × msm_vidc_inst :=
  let adjusted_value := requested_value inst ctrl k.TRANSFORM_8X8
  if inst.codec ≠ msm_vidc_codec_type.MSM_VIDC_H264 then (0, inst)
  else
    let p := msm_vidc_get_parent_value k.toheader_constants inst k.TRANSFORM_8X8 k.PROFILE (-1)
    if p.1 ≠ 0 then (-EINVAL, inst)
    else
      let profile := p.2
      let adjusted_value1 :=
        if profile ≠ k.V4L2_MPEG_VIDEO_H264_PROFILE_HIGH ∧
            profile ≠ k.V4L2_MPEG_VIDEO_H264_PROFILE_CONSTRAINED_HIGH then
          k.V4L2_MPEG_MSM_VIDC_DISABLE
        else adjusted_value
      (0, msm_vidc_update_cap_value inst k.TRANSFORM_8X8 adjusted_value1)

/-! ## The enum maps -/

/-- The declared parents of a capability: the entries of `parents[]` before
the first zero entry, which is what the loop of `is_parent_available`
walks. -/
def declared_parents (c : msm_vidc_inst_cap) : List Nat :=
  c.parents.takeWhile (fun k => k ≠ 0)

/-- Every adjust rule of the table leaves the session state alone. Every
adjust rule defined in `msm_vidc_control.c` is of this kind. -/
def adjust_rules_keep_state (db : cap_database) : Prop :=
  ∀ i f, db.adjust i = some f → ∀ inst ctrl, (f inst ctrl).2.state = inst.state

/-- The client-set flag of capability `c`. -/
def client_set (inst : msm_vidc_inst) (c : Nat) : Bool :=
  (inst.cap c).flags.CAP_FLAG_CLIENT_SET

/-! ## Further tables used as concrete inputs -/

/-- Sample values for the further constants, over `consts_control`: the
capability enumerators 27..29, control ids 301..314 and small distinct
values for the menu and `HFI_*` constants. -/
def consts_driver : driver_constants :=
  { tocontrol_constants := consts_control,
    IR_RANDOM := 27, TIME_DELTA_BASED_RC := 28, TRANSFORM_8X8 := 29,
    V4L2_MPEG_VIDEO_H264_PROFILE_HIGH := 4,
    V4L2_MPEG_VIDEO_H264_PROFILE_CONSTRAINED_HIGH := 12,
    V4L2_MPEG_MSM_VIDC_DISABLE := 0,
    V4L2_CID_MPEG_VIDEO_H264_ENTROPY_MODE := 301,
    V4L2_MPEG_VIDEO_H264_ENTROPY_MODE_CABAC := 1,
    V4L2_CID_MPEG_VIDEO_BITRATE_MODE := 302,
    V4L2_CID_MPEG_VIDEO_HEVC_PROFILE := 303,
    V4L2_CID_MPEG_VIDEO_H264_PROFILE := 304,
    V4L2_CID_MPEG_VIDEO_VP9_PROFILE := 305,
    V4L2_CID_MPEG_VIDEO_HEVC_LEVEL := 306,
    V4L2_CID_MPEG_VIDEO_H264_LEVEL := 307,
    V4L2_CID_MPEG_VIDEO_HEVC_TIER := 308,
    V4L2_CID_MPEG_VIDC_VIDEO_BLUR_TYPES := 309,
    V4L2_CID_MPEG_VIDEO_HEVC_HIER_CODING_TYPE := 310,
    V4L2_MPEG_VIDEO_HEVC_HIERARCHICAL_CODING_P := 1,
    V4L2_CID_ROTATE := 311,
    HFI_ROTATION_NONE := 1, HFI_ROTATION_90 := 2, HFI_ROTATION_180 := 3, HFI_ROTATION_270 := 4,
    V4L2_CID_MPEG_VIDEO_HEVC_LOOP_FILTER_MODE := 312,
    V4L2_MPEG_VIDEO_HEVC_LOOP_FILTER_MODE_ENABLED := 1,
    V4L2_MPEG_VIDEO_HEVC_LOOP_FILTER_MODE_DISABLED := 0,
    DB_HEVC_DISABLE_SLICE_BOUNDARY := 2,
    V4L2_CID_MPEG_VIDEO_H264_LOOP_FILTER_MODE := 313,
    V4L2_MPEG_VIDEO_H264_LOOP_FILTER_MODE_ENABLED := 0,
    V4L2_MPEG_VIDEO_H264_LOOP_FILTER_MODE_DISABLED := 1,
    DB_H264_DISABLE_SLICE_BOUNDARY := 2,
    HFI_DEBLOCK_ALL_BOUNDARY := 0, HFI_DEBLOCK_DISABLE := 1,
    HFI_DEBLOCK_DISABLE_AT_SLICE_BOUNDARY := 2,
    V4L2_CID_MPEG_VIDEO_HEVC_SIZE_OF_LENGTH_FIELD := 314,
    V4L2_MPEG_VIDEO_HEVC_SIZE_4 := 4,
    HFI_NAL_LENGTH_SIZE_4 := 4, HFI_NAL_LENGTH_STARTCODES := 0 }

/-- The table `table_control` followed by the capabilities 27..29: IR_RANDOM
(range 0..5, value 0) and TIME_DELTA_BASED_RC (0..1, value 1), both with
BITRATE_MODE as parent, and TRANSFORM_8X8 (0..1, value 1) with PROFILE as
parent. -/
def table_driver : List msm_vidc_inst_cap :=
  table_control ++
    [mk_cap_range 27 0 5 0 false [1, 0] [0, 0],
     mk_cap_range 28 0 1 1 false [1, 0] [0, 0],
     mk_cap_range 29 0 1 1 false [14, 0] [0, 0]]

/-- A non-streaming session of the given codec over `table_driver` with the
derived field `hfi_rc_type` as given. -/
def inst_driver (codec : msm_vidc_codec_type) (rc_type : Nat) : msm_vidc_inst :=
  { inst_of false table_driver with codec := codec, hfi_rc_type := rc_type }

/-- The encoder table in which USE_LTR (slot 11) declares no parent. -/
def table_missing_parent : List msm_vidc_inst_cap :=
  table_encoder.set 11 (mk_cap_range 11 0 3 0 false [0, 0] [0, 0])

/-- A build over thirteen slots whose only adjust rules are the two LTR
rules, on USE_LTR and MARK_LTR. -/
def db_ltr : cap_database :=
  { db_plain with
    INST_CAP_MAX := 13,
    adjust := fun i =>
      if i = 11 then some (msm_vidc_adjust_use_ltr consts_sample)
      else if i = 12 then some (msm_vidc_adjust_mark_ltr consts_sample)
      else none }

/-- A build over twenty-seven slots whose adjust rules are the GOP size rule
and the three HEVC QP rules. -/
def db_qp : cap_database :=
  { db_plain with
    INST_CAP_MAX := 27,
    adjust := fun i =>
      if i = 8 then some (msm_vidc_adjust_gop_size consts_sample)
      else if i = 16 then some (msm_vidc_adjust_hevc_min_qp consts_control)
      else if i = 17 then some (msm_vidc_adjust_hevc_max_qp consts_control)
      else if i = 18 then some (msm_vidc_adjust_hevc_frame_qp consts_control)
      else none }

/-- The fifteen adjust rules that `msm_vidc_control.c` defines, in the order
of the source. -/
def adjust_rules_of_file (k : driver_constants) :
    List (msm_vidc_inst → Option v4l2_ctrl → Int × msm_vidc_inst) :=
  [msm_vidc_adjust_entropy_mode k.tocontrol_constants,
   msm_vidc_adjust_bitrate_mode k.toheader_constants,
   msm_vidc_adjust_profile k.tocontrol_constants,
   msm_vidc_adjust_ltr_count k.toheader_constants,
   msm_vidc_adjust_use_ltr k.toheader_constants,
   msm_vidc_adjust_mark_ltr k.toheader_constants,
   msm_vidc_adjust_ir_random k,
   msm_vidc_adjust_delta_based_rc k,
   msm_vidc_adjust_transform_8x8 k,
   msm_vidc_adjust_layer_count k.toheader_constants,
   msm_vidc_adjust_gop_size k.toheader_constants,
   msm_vidc_adjust_b_frame k.toheader_constants,
   msm_vidc_adjust_hevc_min_qp k.tocontrol_constants,
   msm_vidc_adjust_hevc_max_qp k.tocontrol_constants,
   msm_vidc_adjust_hevc_frame_qp k.tocontrol_constants]

/-- The instance `b` differs from `a` at most in capability values and
bounds and in the two derived fields: the two lists, the session state and,
for every capability, the registered id, the flags and the array
`children[]` are the same. -/
def frame_kept (a b : msm_vidc_inst) : Prop :=
  b.children = a.children ∧ b.firmware = a.firmware ∧ b.state = a.state ∧
  ∀ i, (b.cap i).children = (a.cap i).children ∧ (b.cap i).cap = (a.cap i).cap ∧
       (b.cap i).flags = (a.cap i).flags

/-- Four capabilities, one for each combination of the two port flags: slot 1
has both, slot 2 the input flag, slot 3 the output flag, slot 4 neither. -/
def table_ports : List msm_vidc_inst_cap :=
  [cap_unset,
   { mk_cap 1 false false [0, 0] [0, 0] with flags := ⟨false, false, false, true, true, false⟩ },
   { mk_cap 2 false false [0, 0] [0, 0] with flags := ⟨false, false, false, true, false, false⟩ },
   { mk_cap 3 false false [0, 0] [0, 0] with flags := ⟨false, false, false, false, true, false⟩ },
   mk_cap 4 false false [0, 0] [0, 0]]

/-- A tree: root 1 with child 2, which has the children 3 and 4. -/
def table_tree : List msm_vidc_inst_cap :=
  [cap_unset, mk_cap 1 true false [0, 0] [2, 0], mk_cap 2 false false [1, 0] [3, 4],
    mk_cap 3 false false [2, 0] [0, 0], mk_cap 4 false false [2, 0] [0, 0]]

/-! # Lemmas -/

/-! ## Frame facts of the list primitives -/

theorem kzalloc_frame (inst : msm_vidc_inst) :
    (kzalloc inst).2.children = inst.children ∧ (kzalloc inst).2.firmware = inst.firmware ∧
    (kzalloc inst).2.cap = inst.cap ∧ (kzalloc inst).2.state = inst.state := by
  unfold kzalloc
  split <;> simp

theorem add_capid_child (inst : msm_vidc_inst) (k : Nat) :
    let r := msm_vidc_add_capid_to_list inst k msm_vidc_ctrl_list_type.CHILD_LIST
    r.2.cap = inst.cap ∧ r.2.firmware = inst.firmware ∧ r.2.state = inst.state ∧
    (r.1 = 0 → r.2.children = inst.children ++ [k]) ∧
    (r.1 ≠ 0 → r.2.children = inst.children) := by
  have hk := kzalloc_frame inst
  simp only [msm_vidc_add_capid_to_list]
  rcases h : kzalloc inst with ⟨b, i1⟩
  rw [h] at hk
  cases b <;> simp_all [ENOMEM]

theorem add_capid_fw (inst : msm_vidc_inst) (k : Nat) :
    let r := msm_vidc_add_capid_to_list inst k msm_vidc_ctrl_list_type.FW_LIST
    r.2.cap = inst.cap ∧ r.2.children = inst.children ∧ r.2.state = inst.state ∧
    (r.1 = 0 → (k ∈ inst.firmware → r.2.firmware = inst.firmware) ∧
               (k ∉ inst.firmware → r.2.firmware = inst.firmware ++ [k])) ∧
    (r.1 ≠ 0 → r.2.firmware = inst.firmware) := by
  have hk := kzalloc_frame inst
  simp only [msm_vidc_add_capid_to_list]
  by_cases hm : k ∈ inst.firmware
  · simp [hm]
  · rcases h : kzalloc inst with ⟨b, i1⟩
    rw [h] at hk
    cases b <;> simp_all [ENOMEM]

theorem add_children_loop_spec (ks : List Nat) : ∀ inst : msm_vidc_inst,
    (add_children_loop ks inst).2.cap = inst.cap ∧
    (add_children_loop ks inst).2.firmware = inst.firmware ∧
    (add_children_loop ks inst).2.state = inst.state ∧
    ((add_children_loop ks inst).1 = 0 →
      (add_children_loop ks inst).2.children
        = inst.children ++ ks.takeWhile (fun k => k ≠ 0)) ∧
    (∃ extra, (add_children_loop ks inst).2.children = inst.children ++ extra) := by
  induction ks with
  | nil => intro inst; simp [add_children_loop]
  | cons k ks ih =>
    intro inst
    by_cases hk : k = 0
    · simp [add_children_loop, hk]
    · have h1 := add_capid_child inst k
      simp only at h1
      obtain ⟨hc, hf, hs, hok, hbad⟩ := h1
      by_cases hr : (msm_vidc_add_capid_to_list inst k msm_vidc_ctrl_list_type.CHILD_LIST).1 = 0
      · have ih1 := ih (msm_vidc_add_capid_to_list inst k msm_vidc_ctrl_list_type.CHILD_LIST).2
        obtain ⟨ic, ifw, is, iok, ⟨extra, iex⟩⟩ := ih1
        simp only [add_children_loop, hk, hr, if_false, ne_eq, not_true_eq_false,
          not_false_eq_true, List.takeWhile_cons, decide_True, decide_not, if_true]
        refine ⟨by rw [ic, hc], by rw [ifw, hf], by rw [is, hs], ?_, ?_⟩
        · intro h0
          rw [iok h0, hok hr]
          simp
        · exact ⟨k :: extra, by rw [iex, hok hr]; simp⟩
      · simp only [add_children_loop, hk, hr, if_false, ne_eq, not_false_eq_true, if_true]
        exact ⟨hc, hf, hs, fun h => by first | exact absurd h hr | exact h.elim,
          ⟨[], by simp [hbad hr]⟩⟩

theorem add_children_spec (inst : msm_vidc_inst) (c : Nat) :
    (msm_vidc_add_children inst c).2.cap = inst.cap ∧
    (msm_vidc_add_children inst c).2.firmware = inst.firmware ∧
    (msm_vidc_add_children inst c).2.state = inst.state ∧
    ((msm_vidc_add_children inst c).1 = 0 →
      (msm_vidc_add_children inst c).2.children
        = inst.children ++ declared_children (inst.cap c)) ∧
    (∃ extra, (msm_vidc_add_children inst c).2.children = inst.children ++ extra) :=
  add_children_loop_spec (inst.cap c).children inst

theorem update_cap_value_frame (inst : msm_vidc_inst) (c : Nat) (v : Int) :
    (msm_vidc_update_cap_value inst c v).children = inst.children ∧
    (msm_vidc_update_cap_value inst c v).firmware = inst.firmware ∧
    ∀ i, ((msm_vidc_update_cap_value inst c v).cap i).children = (inst.cap i).children ∧
         ((msm_vidc_update_cap_value inst c v).cap i).cap = (inst.cap i).cap ∧
         ((msm_vidc_update_cap_value inst c v).cap i).flags = (inst.cap i).flags := by
  refine ⟨rfl, rfl, ?_⟩
  intro i
  by_cases h : i = c
  · subst h; simp [msm_vidc_update_cap_value]
  · simp [msm_vidc_update_cap_value, Function.update_noteq h]

theorem same_graph_refl (a : msm_vidc_inst) : same_graph a a :=
  fun _ => ⟨rfl, rfl, rfl⟩

theorem same_graph_trans {a b c : msm_vidc_inst} (h1 : same_graph a b) (h2 : same_graph b c) :
    same_graph a c :=
  fun i => ⟨(h1 i).1.trans (h2 i).1, (h1 i).2.1.trans (h2 i).2.1, (h1 i).2.2.trans (h2 i).2.2⟩

theorem same_graph_of_cap_eq {a b : msm_vidc_inst} (h : b.cap = a.cap) : same_graph a b :=
  fun i => by rw [h]; exact ⟨rfl, rfl, rfl⟩

theorem enqueued_children_congr {a b : msm_vidc_inst} (h : same_graph a b) (c : Nat) :
    enqueued_children b c = enqueued_children a c := by
  unfold enqueued_children declared_children
  rw [(h c).1, (h c).2.1]

/-! ## The dynamic adjust of one capability -/

theorem dynamic_adjust_step_frame (db : cap_database) (hloc : adjust_rules_local db)
    (inst : msm_vidc_inst) (cap_id : Nat) (ctrl : Option v4l2_ctrl) :
    (dynamic_adjust_step db inst cap_id ctrl).2.children = inst.children ∧
    (dynamic_adjust_step db inst cap_id ctrl).2.firmware = inst.firmware ∧
    same_graph inst (dynamic_adjust_step db inst cap_id ctrl).2 := by
  unfold dynamic_adjust_step
  cases ha : db.adjust cap_id with
  | some f =>
    have := hloc cap_id f ha inst ctrl
    exact ⟨this.1, this.2.1, fun i => ⟨(this.2.2 i).1.symm, (this.2.2 i).2.1.symm,
      (this.2.2 i).2.2.symm⟩⟩
  | none =>
    cases ctrl with
    | none => exact ⟨rfl, rfl, same_graph_refl _⟩
    | some c =>
      have := update_cap_value_frame inst cap_id c.val
      exact ⟨this.1, this.2.1, fun i => ⟨(this.2.2 i).1.symm, (this.2.2 i).2.1.symm,
        (this.2.2 i).2.2.symm⟩⟩

theorem dynamic_enqueue_step_children (inst : msm_vidc_inst) (cap_id : Nat) (prev : Int)
    (h0 : (dynamic_enqueue_step inst cap_id prev).1 = 0) :
    (dynamic_enqueue_step inst cap_id prev).2.cap = inst.cap ∧
    (dynamic_enqueue_step inst cap_id prev).2.children =
      inst.children ++
        (if (inst.cap cap_id).value ≠ prev then declared_children (inst.cap cap_id) else []) := by
  unfold dynamic_enqueue_step at h0 ⊢
  by_cases hv : (inst.cap cap_id).value = prev
  · simp only [hv, ne_eq, not_true_eq_false, if_false] at h0 ⊢
    have hq := add_capid_fw inst cap_id
    simp only at hq
    exact ⟨hq.1, by simp [hq.2.1]⟩
  · simp only [hv, ne_eq, not_false_eq_true, if_true] at h0 ⊢
    have hadd := add_children_spec inst cap_id
    by_cases h2 : (msm_vidc_add_children inst cap_id).1 = 0
    · simp only [h2, not_true_eq_false, if_false] at h0 ⊢
      have hq := add_capid_fw (msm_vidc_add_children inst cap_id).2 cap_id
      simp only at hq
      exact ⟨by rw [hq.1, hadd.1], by rw [hq.2.1, hadd.2.2.2.1 h2]⟩
    · simp only [h2, not_false_eq_true, if_true] at h0

/-! ## The static adjust of one capability -/

theorem static_adjust_step_frame (db : cap_database) (hloc : adjust_rules_local db)
    (inst : msm_vidc_inst) (cap_id : Nat) :
    (static_adjust_step db inst cap_id).2.children = inst.children ∧
    (static_adjust_step db inst cap_id).2.firmware = inst.firmware ∧
    same_graph inst (static_adjust_step db inst cap_id).2 := by
  unfold static_adjust_step
  cases ha : db.adjust cap_id with
  | some f =>
    have := hloc cap_id f ha inst none
    exact ⟨this.1, this.2.1, fun i => ⟨(this.2.2 i).1.symm, (this.2.2 i).2.1.symm,
      (this.2.2 i).2.2.symm⟩⟩
  | none => exact ⟨rfl, rfl, same_graph_refl _⟩

theorem static_enqueue_step_spec (inst : msm_vidc_inst) (c : Nat) :
    (static_enqueue_step inst c).2.cap = inst.cap ∧
    (∃ extra, (static_enqueue_step inst c).2.children = inst.children ++ extra) ∧
    ((static_enqueue_step inst c).1 = 0 →
      (static_enqueue_step inst c).2.children = inst.children ++ declared_children (inst.cap c) ∧
      (static_enqueue_step inst c).2.firmware =
        if c ∈ inst.firmware then inst.firmware else inst.firmware ++ [c]) := by
  have hadd := add_children_spec inst c
  obtain ⟨ac, af, -, aok, aex⟩ := hadd
  have hq := add_capid_fw (msm_vidc_add_children inst c).2 c
  simp only at hq
  obtain ⟨qc, qch, -, qok, -⟩ := hq
  unfold static_enqueue_step
  by_cases h2 : (msm_vidc_add_children inst c).1 = 0
  · simp only [h2, ne_eq, not_true_eq_false, if_false]
    refine ⟨by rw [qc, ac], ?_, ?_⟩
    · obtain ⟨e, he⟩ := aex
      exact ⟨e, by rw [qch, he]⟩
    · intro h0
      refine ⟨by rw [qch, aok h2], ?_⟩
      by_cases hm : c ∈ inst.firmware
      · rw [if_pos hm, (qok h0).1 (by rw [af]; exact hm), af]
      · rw [if_neg hm, (qok h0).2 (by rw [af]; exact hm), af]
  · simp only [h2, ne_eq, not_false_eq_true, if_true]
    exact ⟨ac, aex, fun h => h.elim⟩

theorem adjust_property_spec (db : cap_database) (hloc : adjust_rules_local db)
    (inst : msm_vidc_inst) (c : Nat) :
    same_graph inst (msm_vidc_adjust_property db inst c).2 ∧
    (∃ extra, (msm_vidc_adjust_property db inst c).2.children = inst.children ++ extra) ∧
    ((msm_vidc_adjust_property db inst c).1 = 0 →
      (msm_vidc_adjust_property db inst c).2.children
        = inst.children ++ enqueued_children inst c ∧
      (msm_vidc_adjust_property db inst c).2.firmware =
        if (inst.cap c).cap = 0 ∨ c ∈ inst.firmware then inst.firmware
        else inst.firmware ++ [c]) := by
  unfold msm_vidc_adjust_property enqueued_children
  by_cases hreg : (inst.cap c).cap = 0
  · simp only [hreg, if_true, true_or]
    exact ⟨same_graph_refl _, ⟨[], by simp⟩, fun _ => ⟨by simp, trivial⟩⟩
  · simp only [hreg, if_false, false_or]
    obtain ⟨sch, sfw, sg⟩ := static_adjust_step_frame db hloc inst c
    by_cases h1 : (static_adjust_step db inst c).1 = 0
    · simp only [h1, ne_eq, not_true_eq_false, if_false]
      obtain ⟨ec, eex, eok⟩ := static_enqueue_step_spec (static_adjust_step db inst c).2 c
      refine ⟨same_graph_trans sg (same_graph_of_cap_eq ec), ?_, ?_⟩
      · obtain ⟨e, he⟩ := eex
        exact ⟨e, by rw [he, sch]⟩
      · intro h0
        obtain ⟨k1, k2⟩ := eok h0
        refine ⟨?_, ?_⟩
        · rw [k1, sch]
          unfold declared_children
          rw [← (sg c).1]
        · rw [k2, sfw]
    · simp only [h1, ne_eq, not_false_eq_true, if_true]
      exact ⟨sg, ⟨[], by simp [sch]⟩, fun h => h.elim⟩

/-! ## The walk over the children list -/

theorem walk_nil (B : msm_vidc_inst → Nat → Int × msm_vidc_inst) (fuel : Nat)
    (inst : msm_vidc_inst) (h : inst.children = []) :
    children_list_for_each_entry_safe B fuel inst = some (0, inst, []) := by
  cases fuel <;> simp [children_list_for_each_entry_safe, h]

theorem walk_zero (B : msm_vidc_inst → Nat → Int × msm_vidc_inst)
    (inst : msm_vidc_inst) (c : Nat) (rest : List Nat) (h : inst.children = c :: rest) :
    children_list_for_each_entry_safe B 0 inst = none := by
  simp [children_list_for_each_entry_safe, h]

theorem walk_succ (B : msm_vidc_inst → Nat → Int × msm_vidc_inst) (fuel : Nat)
    (inst : msm_vidc_inst) (c : Nat) (rest : List Nat) (h : inst.children = c :: rest) :
    children_list_for_each_entry_safe B (fuel + 1) inst =
      if (B inst c).1 ≠ 0 then some ((B inst c).1, (B inst c).2, [c])
      else if rest = [] then
        some (0, { (B inst c).2 with children := (B inst c).2.children.tail }, [c])
      else
        match children_list_for_each_entry_safe B fuel
            { (B inst c).2 with children := (B inst c).2.children.tail } with
        | none => none
        | some (rc, inst2, visited) => some (rc, inst2, c :: visited) := by
  rw [children_list_for_each_entry_safe]
  simp only [h]

theorem walk_failure_keeps_entry (B : msm_vidc_inst → Nat → Int × msm_vidc_inst)
    (hB : body_appends B) : ∀ (fuel : Nat) (inst : msm_vidc_inst) (rc : Int)
      (inst' : msm_vidc_inst) (V : List Nat),
    children_list_for_each_entry_safe B fuel inst = some (rc, inst', V) → rc ≠ 0 →
    ∃ c tail, V.getLast? = some c ∧ inst'.children = c :: tail := by
  intro fuel
  induction fuel with
  | zero =>
    intro inst rc inst' V h hrc
    cases hq : inst.children with
    | nil => rw [walk_nil B 0 inst hq] at h; simp at h; exact absurd h.1.symm hrc
    | cons c rest => rw [walk_zero B inst c rest hq] at h; simp at h
  | succ n ih =>
    intro inst rc inst' V h hrc
    cases hq : inst.children with
    | nil => rw [walk_nil B _ inst hq] at h; simp at h; exact absurd h.1.symm hrc
    | cons c rest =>
      rw [walk_succ B n inst c rest hq] at h
      by_cases h1 : (B inst c).1 = 0
      · rw [if_neg (not_not.mpr h1)] at h
        by_cases hr : rest = []
        · rw [if_pos hr] at h
          simp at h
          exact absurd h.1.symm hrc
        · rw [if_neg hr] at h
          cases hw : children_list_for_each_entry_safe B n
              { (B inst c).2 with children := (B inst c).2.children.tail } with
          | none => rw [hw] at h; simp at h
          | some t =>
            obtain ⟨rc2, inst2, V2⟩ := t
            rw [hw] at h
            simp at h
            obtain ⟨e1, e2, e3⟩ := h
            subst e1 e2 e3
            obtain ⟨c2, tail, hl, hc⟩ := ih _ _ _ _ hw hrc
            refine ⟨c2, tail, ?_, hc⟩
            cases V2 with
            | nil => simp at hl
            | cons v vs => simpa using hl
      · rw [if_pos h1] at h
        simp at h
        obtain ⟨e1, e2, e3⟩ := h
        subst e1 e2 e3
        obtain ⟨extra, hex⟩ := (hB inst c).2
        exact ⟨c, rest ++ extra, by simp, by rw [hex, hq]; simp⟩

theorem walk_success_exact (B : msm_vidc_inst → Nat → Int × msm_vidc_inst)
    (hB : body_appends B) (hE : body_enqueues B) :
    ∀ (fuel : Nat) (inst inst' : msm_vidc_inst) (V : List Nat),
    children_list_for_each_entry_safe B fuel inst = some (0, inst', V) →
    same_graph inst inst' ∧
    V = inst.children ++ V.dropLast.flatMap (enqueued_children inst) ∧
    inst'.children = (match V.getLast? with
      | none => []
      | some l => enqueued_children inst l) := by
  intro fuel
  induction fuel with
  | zero =>
    intro inst inst' V h
    cases hq : inst.children with
    | nil =>
      rw [walk_nil B 0 inst hq] at h; simp at h
      obtain ⟨e1, e2⟩ := h
      subst e1 e2
      exact ⟨same_graph_refl _, by simp, by simp [hq]⟩
    | cons c rest => rw [walk_zero B inst c rest hq] at h; simp at h
  | succ n ih =>
    intro inst inst' V h
    cases hq : inst.children with
    | nil =>
      rw [walk_nil B _ inst hq] at h; simp at h
      obtain ⟨e1, e2⟩ := h
      subst e1 e2
      exact ⟨same_graph_refl _, by simp, by simp [hq]⟩
    | cons c rest =>
      rw [walk_succ B n inst c rest hq] at h
      by_cases h1 : (B inst c).1 = 0
      · rw [if_neg (not_not.mpr h1)] at h
        have hch := hE inst c h1
        have hg := (hB inst c).1
        rw [hq] at hch
        by_cases hr : rest = []
        · rw [if_pos hr] at h
          simp at h
          obtain ⟨e2, e3⟩ := h
          subst e2 e3
          subst hr
          refine ⟨hg, by simp, ?_⟩
          simp [hch]
        · rw [if_neg hr] at h
          cases hw : children_list_for_each_entry_safe B n
              { (B inst c).2 with children := (B inst c).2.children.tail } with
          | none => rw [hw] at h; simp at h
          | some t =>
            obtain ⟨rc2, inst2, V2⟩ := t
            rw [hw] at h
            simp at h
            obtain ⟨e1, e2, e3⟩ := h
            subst e1 e2 e3
            obtain ⟨g2, hv, hc⟩ := ih _ _ _ hw
            have hg1 : same_graph inst
                { (B inst c).2 with children := (B inst c).2.children.tail } := hg
            have hk : enqueued_children
                { (B inst c).2 with children := (B inst c).2.children.tail }
                = enqueued_children inst := by
              funext x; exact enqueued_children_congr hg1 x
            rw [hk] at hv hc
            simp only [hch, List.cons_append, List.tail_cons] at hv
            have hne : V2 ≠ [] := by
              intro he
              rw [he] at hv
              simp at hv
              exact hr hv.1
            refine ⟨same_graph_trans hg1 g2, ?_, ?_⟩
            · rw [List.dropLast_cons_of_ne_nil hne]
              simp only [List.flatMap_cons, List.cons_append, List.cons.injEq, true_and]
              rw [List.append_assoc] at hv
              exact hv
            · rw [hc]
              cases V2 with
              | nil => exact absurd rfl hne
              | cons v vs => simp
      · rw [if_pos h1] at h
        simp at h
        exact absurd h.1 h1

theorem walk_success_invariant (B : msm_vidc_inst → Nat → Int × msm_vidc_inst)
    (hB : body_appends B) (hE : body_enqueues B) (inst0 : msm_vidc_inst) (P : Nat → Prop)
    (hP : ∀ c k, P c → k ∈ enqueued_children inst0 c → P k) :
    ∀ (fuel : Nat) (inst inst' : msm_vidc_inst) (V : List Nat),
    same_graph inst0 inst → (∀ x ∈ inst.children, P x) →
    children_list_for_each_entry_safe B fuel inst = some (0, inst', V) →
    ∀ x ∈ V, P x := by
  intro fuel
  induction fuel with
  | zero =>
    intro inst inst' V _ _ h
    cases hq : inst.children with
    | nil =>
      rw [walk_nil B 0 inst hq] at h; simp at h
      rw [h.2]; simp
    | cons c rest => rw [walk_zero B inst c rest hq] at h; simp at h
  | succ n ih =>
    intro inst inst' V hg0 hall h
    cases hq : inst.children with
    | nil =>
      rw [walk_nil B _ inst hq] at h; simp at h
      rw [h.2]; simp
    | cons c rest =>
      rw [walk_succ B n inst c rest hq] at h
      rw [hq] at hall
      have hPc : P c := hall c (by simp)
      by_cases h1 : (B inst c).1 = 0
      · rw [if_neg (not_not.mpr h1)] at h
        have hch := hE inst c h1
        have hg := (hB inst c).1
        rw [hq] at hch
        by_cases hr : rest = []
        · rw [if_pos hr] at h
          simp at h
          rw [← h.2]
          intro x hx
          simp at hx
          rw [hx]; exact hPc
        · rw [if_neg hr] at h
          cases hw : children_list_for_each_entry_safe B n
              { (B inst c).2 with children := (B inst c).2.children.tail } with
          | none => rw [hw] at h; simp at h
          | some t =>
            obtain ⟨rc2, inst2, V2⟩ := t
            rw [hw] at h
            simp at h
            obtain ⟨e1, e2, e3⟩ := h
            subst e1 e2 e3
            have hg1 : same_graph inst0
                { (B inst c).2 with children := (B inst c).2.children.tail } :=
              same_graph_trans hg0 hg
            have hall1 : ∀ x ∈ ({ (B inst c).2 with
                children := (B inst c).2.children.tail } : msm_vidc_inst).children, P x := by
              intro x hx
              simp only [hch, List.cons_append, List.tail_cons, List.mem_append] at hx
              rcases hx with hx | hx
              · exact hall x (by simp [hx])
              · rw [enqueued_children_congr hg0 c] at hx
                exact hP c x hPc hx
            have := ih _ _ _ hg1 hall1 hw
            intro x hx
            simp at hx
            rcases hx with hx | hx
            · rw [hx]; exact hPc
            · exact this x hx
      · rw [if_pos h1] at h
        simp at h
        exact absurd h.1 h1

theorem queue_weight_pos (rk : Nat → Nat) (m : Nat) (c : Nat) (q : List Nat) :
    0 < queue_weight rk m (c :: q) := by
  unfold queue_weight
  simp only [List.map_cons, List.sum_cons]
  have : 0 < (m + 1) ^ rk c := Nat.pow_pos (Nat.succ_pos m)
  omega

theorem queue_weight_append (rk : Nat → Nat) (m : Nat) (p q : List Nat) :
    queue_weight rk m (p ++ q) = queue_weight rk m p + queue_weight rk m q := by
  unfold queue_weight
  rw [List.map_append, List.sum_append]

theorem queue_weight_children_lt (rk : Nat → Nat) (m : Nat) (n : Nat) (K : List Nat)
    (hlen : K.length ≤ m) (hrk : ∀ k ∈ K, rk k < n) :
    queue_weight rk m K < (m + 1) ^ n := by
  cases n with
  | zero =>
    cases K with
    | nil => simp [queue_weight]
    | cons k ks => exact absurd (hrk k (by simp)) (Nat.not_lt_zero _)
  | succ n =>
    have hle : queue_weight rk m K ≤ K.length • (m + 1) ^ n := by
      unfold queue_weight
      have := List.sum_le_card_nsmul (K.map (fun x => (m + 1) ^ rk x)) ((m + 1) ^ n) (by
        intro x hx
        rw [List.mem_map] at hx
        obtain ⟨k, hk, rfl⟩ := hx
        exact Nat.pow_le_pow_right (Nat.succ_pos m) (Nat.lt_succ_iff.mp (hrk k hk)))
      simpa using this
    have h2 : K.length • (m + 1) ^ n ≤ m * (m + 1) ^ n := by
      rw [smul_eq_mul]
      exact Nat.mul_le_mul_right _ hlen
    have h3 : m * (m + 1) ^ n < (m + 1) ^ (n + 1) := by
      rw [pow_succ]
      have : 0 < (m + 1) ^ n := Nat.pow_pos (Nat.succ_pos m)
      nlinarith
    omega

theorem acyclic_graph_congr {a b : msm_vidc_inst} (h : same_graph a b) (rk : Nat → Nat)
    (m : Nat) (ha : acyclic_graph a rk m) : acyclic_graph b rk m := by
  intro c
  rw [enqueued_children_congr h c]
  exact ha c

theorem walk_terminates (B : msm_vidc_inst → Nat → Int × msm_vidc_inst)
    (hB : body_appends B) (hE : body_enqueues B) (rk : Nat → Nat) (m : Nat) :
    ∀ (fuel : Nat) (inst : msm_vidc_inst), acyclic_graph inst rk m →
    queue_weight rk m inst.children ≤ fuel →
    ∃ r, children_list_for_each_entry_safe B fuel inst = some r := by
  intro fuel
  induction fuel with
  | zero =>
    intro inst _ hw
    cases hq : inst.children with
    | nil => exact ⟨_, walk_nil B 0 inst hq⟩
    | cons c rest =>
      rw [hq] at hw
      have := queue_weight_pos rk m c rest
      omega
  | succ n ih =>
    intro inst hac hw
    cases hq : inst.children with
    | nil => exact ⟨_, walk_nil B _ inst hq⟩
    | cons c rest =>
      rw [walk_succ B n inst c rest hq]
      by_cases h1 : (B inst c).1 = 0
      · rw [if_neg (not_not.mpr h1)]
        by_cases hr : rest = []
        · rw [if_pos hr]; exact ⟨_, rfl⟩
        · rw [if_neg hr]
          have hch := hE inst c h1
          have hg := (hB inst c).1
          rw [hq] at hch hw
          have hac1 : acyclic_graph
              { (B inst c).2 with children := (B inst c).2.children.tail } rk m :=
            acyclic_graph_congr hg rk m hac
          have hlt := queue_weight_children_lt rk m (rk c) (enqueued_children inst c)
            (hac c).1 (hac c).2
          have hw1 : queue_weight rk m ({ (B inst c).2 with
              children := (B inst c).2.children.tail } : msm_vidc_inst).children ≤ n := by
            simp only [hch, List.cons_append, List.tail_cons]
            rw [queue_weight_append]
            have e : queue_weight rk m (c :: rest)
                = (m + 1) ^ rk c + queue_weight rk m rest := by
              simp [queue_weight]
            omega
          obtain ⟨r, hr2⟩ := ih _ hac1 hw1
          rw [hr2]
          obtain ⟨rc2, inst2, V2⟩ := r
          exact ⟨_, rfl⟩
      · rw [if_pos h1]; exact ⟨_, rfl⟩

/-! ## The root loop -/

theorem root_ids_congr {a b : msm_vidc_inst} (h : same_graph a b) (is : List Nat) :
    root_ids b is = root_ids a is := by
  unfold root_ids
  have e1 : (fun i => (b.cap i).flags.CAP_FLAG_ROOT) = fun i => (a.cap i).flags.CAP_FLAG_ROOT := by
    funext i; rw [(h i).2.2]
  have e2 : (fun i => (b.cap i).cap) = fun i => (a.cap i).cap := by
    funext i; rw [(h i).2.1]
  rw [e1, e2]

theorem adjust_roots_loop_spec (db : cap_database) (hloc : adjust_rules_local db)
    (is : List Nat) : ∀ inst : msm_vidc_inst,
    same_graph inst (adjust_roots_loop db is inst).2.1 ∧
    ((adjust_roots_loop db is inst).1 = 0 →
      (adjust_roots_loop db is inst).2.2 = root_ids inst is ∧
      (adjust_roots_loop db is inst).2.1.children =
        inst.children ++ (root_ids inst is).flatMap (enqueued_children inst)) := by
  induction is with
  | nil => intro inst; simp [adjust_roots_loop, root_ids, same_graph_refl]
  | cons i is ih =>
    intro inst
    by_cases hroot : (inst.cap i).flags.CAP_FLAG_ROOT = true
    · obtain ⟨sg, -, sok⟩ := adjust_property_spec db hloc inst (inst.cap i).cap
      by_cases h1 : (msm_vidc_adjust_property db inst (inst.cap i).cap).1 = 0
      · obtain ⟨ig, iok⟩ := ih (msm_vidc_adjust_property db inst (inst.cap i).cap).2
        simp only [adjust_roots_loop, hroot, if_true, h1, ne_eq, not_true_eq_false, if_false]
        refine ⟨same_graph_trans sg ig, ?_⟩
        intro h0
        obtain ⟨i1, i2⟩ := iok h0
        have hk : enqueued_children (msm_vidc_adjust_property db inst (inst.cap i).cap).2
            = enqueued_children inst := by
          funext x; exact enqueued_children_congr sg x
        rw [root_ids_congr sg, hk] at i2
        rw [root_ids_congr sg] at i1
        have hr : root_ids inst (i :: is) = (inst.cap i).cap :: root_ids inst is := by
          simp [root_ids, hroot]
        rw [hr, i1, i2, (sok h1).1]
        simp
      · simp only [adjust_roots_loop, hroot, if_true, h1, ne_eq, not_false_eq_true]
        exact ⟨sg, fun h => h.elim⟩
    · obtain ⟨ig, iok⟩ := ih inst
      have hr : root_ids inst (i :: is) = root_ids inst is := by
        simp [root_ids, hroot]
      simp only [adjust_roots_loop, hroot, Bool.false_eq_true, if_false, hr]
      exact ⟨ig, iok⟩

/-! ## The static pass -/

theorem adjust_property_body_appends (db : cap_database) (hloc : adjust_rules_local db) :
    body_appends (msm_vidc_adjust_property db) :=
  fun inst c => ⟨(adjust_property_spec db hloc inst c).1, (adjust_property_spec db hloc inst c).2.1⟩

theorem adjust_property_body_enqueues (db : cap_database) (hloc : adjust_rules_local db) :
    body_enqueues (msm_vidc_adjust_property db) :=
  fun inst c h => ((adjust_property_spec db hloc inst c).2.2 h).1

theorem root_ids_reachable (db : cap_database) (inst : msm_vidc_inst) :
    ∀ c ∈ root_ids inst (List.range db.INST_CAP_MAX), reachable db inst c := by
  intro c hc
  unfold root_ids at hc
  rw [List.mem_map] at hc
  obtain ⟨i, hi, rfl⟩ := hc
  rw [List.mem_filter, List.mem_range] at hi
  exact reachable.root i hi.1 hi.2

theorem static_pass_terminates (db : cap_database) (inst : msm_vidc_inst) (rk : Nat → Nat)
    (m : Nat) (hloc : adjust_rules_local db) (hac : acyclic_graph inst rk m) :
    ∃ fuel r, msm_vidc_adjust_v4l2_properties db fuel inst = some r := by
  obtain ⟨rg, -⟩ := adjust_roots_loop_spec db hloc (List.range db.INST_CAP_MAX) inst
  by_cases h1 : (adjust_roots_loop db (List.range db.INST_CAP_MAX) inst).1 = 0
  · obtain ⟨r, hr⟩ := walk_terminates (msm_vidc_adjust_property db)
      (adjust_property_body_appends db hloc) (adjust_property_body_enqueues db hloc) rk m
      (queue_weight rk m (adjust_roots_loop db (List.range db.INST_CAP_MAX) inst).2.1.children)
      (adjust_roots_loop db (List.range db.INST_CAP_MAX) inst).2.1
      (acyclic_graph_congr rg rk m hac) (le_refl _)
    refine ⟨queue_weight rk m
      (adjust_roots_loop db (List.range db.INST_CAP_MAX) inst).2.1.children, ?_⟩
    unfold msm_vidc_adjust_v4l2_properties
    simp only [h1, ne_eq, not_true_eq_false, if_false]
    rw [hr]
    obtain ⟨rc, i1, V⟩ := r
    exact ⟨_, rfl⟩
  · refine ⟨0, adjust_roots_loop db (List.range db.INST_CAP_MAX) inst, ?_⟩
    unfold msm_vidc_adjust_v4l2_properties
    simp only [h1, ne_eq, not_false_eq_true, if_true]

theorem static_pass_success (db : cap_database) (inst : msm_vidc_inst)
    (hloc : adjust_rules_local db) (hq : inst.children = [])
    (fuel : Nat) (inst' : msm_vidc_inst) (visited : List Nat)
    (h : msm_vidc_adjust_v4l2_properties db fuel inst = some (0, inst', visited)) :
    ∃ V, visited = root_ids inst (List.range db.INST_CAP_MAX) ++ V ∧
      V = (root_ids inst (List.range db.INST_CAP_MAX)).flatMap (enqueued_children inst)
            ++ V.dropLast.flatMap (enqueued_children inst) ∧
      inst'.children = (match V.getLast? with
        | none => []
        | some l => enqueued_children inst l) ∧
      (∀ x ∈ V, reachable db inst x) := by
  obtain ⟨rg, rok⟩ := adjust_roots_loop_spec db hloc (List.range db.INST_CAP_MAX) inst
  unfold msm_vidc_adjust_v4l2_properties at h
  by_cases h1 : (adjust_roots_loop db (List.range db.INST_CAP_MAX) inst).1 = 0
  · simp only [h1, ne_eq, not_true_eq_false, if_false] at h
    obtain ⟨r1, r2⟩ := rok h1
    rw [hq, List.nil_append] at r2
    cases hw : children_list_for_each_entry_safe (msm_vidc_adjust_property db) fuel
        (adjust_roots_loop db (List.range db.INST_CAP_MAX) inst).2.1 with
    | none => rw [hw] at h; simp at h
    | some t =>
      obtain ⟨rc, i1, V⟩ := t
      rw [hw] at h
      simp only [Option.some.injEq, Prod.mk.injEq] at h
      obtain ⟨e1, e2, e3⟩ := h
      subst e1 e2
      obtain ⟨-, hv, hc⟩ := walk_success_exact (msm_vidc_adjust_property db)
        (adjust_property_body_appends db hloc) (adjust_property_body_enqueues db hloc)
        _ _ _ _ hw
      have hk : enqueued_children (adjust_roots_loop db (List.range db.INST_CAP_MAX) inst).2.1
          = enqueued_children inst := by
        funext x; exact enqueued_children_congr rg x
      rw [hk, r2] at hv
      rw [hk] at hc
      refine ⟨V, by rw [← e3, r1], hv, hc, ?_⟩
      apply walk_success_invariant (msm_vidc_adjust_property db)
        (adjust_property_body_appends db hloc) (adjust_property_body_enqueues db hloc)
        inst (reachable db inst) (fun c k hc hk => reachable.child c k hc hk) fuel _ _ V rg _ hw
      intro x hx
      rw [r2, List.mem_flatMap] at hx
      obtain ⟨r, hr, hxr⟩ := hx
      exact reachable.child r x (root_ids_reachable db inst r hr) hxr
  · simp only [h1, ne_eq, not_false_eq_true, if_true, Option.some.injEq] at h
    rw [h] at h1
    exact absurd rfl h1

/-! ## The drain of the firmware list -/

theorem set_loop_none (db : cap_database) (kept rest : List Nat) (c : Nat)
    (inst : msm_vidc_inst) (hs : db.set c = none) :
    set_properties_loop db kept (c :: rest) inst
      = set_properties_loop db (kept ++ [c]) rest inst := by
  simp only [set_properties_loop, hs]

theorem set_loop_fail (db : cap_database) (kept rest : List Nat) (c : Nat)
    (inst : msm_vidc_inst) (f : msm_vidc_inst → Nat → Int × List hfi_property)
    (hs : db.set c = some f) (h : (f inst c).1 ≠ 0) :
    set_properties_loop db kept (c :: rest) inst = ((f inst c).1, inst, [(c, (f inst c).2)]) := by
  simp only [set_properties_loop, hs, h, ne_eq, not_false_eq_true, if_true]

theorem set_loop_ok (db : cap_database) (kept rest : List Nat) (c : Nat)
    (inst : msm_vidc_inst) (f : msm_vidc_inst → Nat → Int × List hfi_property)
    (hs : db.set c = some f) (h : (f inst c).1 = 0) :
    set_properties_loop db kept (c :: rest) inst =
      ((set_properties_loop db kept rest (with_firmware inst (kept ++ rest))).1,
       (set_properties_loop db kept rest (with_firmware inst (kept ++ rest))).2.1,
       (c, (f inst c).2) ::
         (set_properties_loop db kept rest (with_firmware inst (kept ++ rest))).2.2) := by
  simp only [set_properties_loop, hs, h, ne_eq, not_true_eq_false, if_false]

theorem filter_no_set_cons_none (db : cap_database) (c : Nat) (l : List Nat)
    (hs : db.set c = none) :
    List.filter (no_set_rule db) (c :: l) = c :: List.filter (no_set_rule db) l ∧
    List.filter (has_set_rule db) (c :: l) = List.filter (has_set_rule db) l := by
  simp [no_set_rule, has_set_rule, hs]

theorem filter_no_set_cons_some (db : cap_database) (c : Nat) (l : List Nat)
    (f : msm_vidc_inst → Nat → Int × List hfi_property) (hs : db.set c = some f) :
    List.filter (no_set_rule db) (c :: l) = List.filter (no_set_rule db) l ∧
    List.filter (has_set_rule db) (c :: l) = c :: List.filter (has_set_rule db) l := by
  simp [no_set_rule, has_set_rule, hs]

theorem set_loop_success (db : cap_database) (todo : List Nat) :
    ∀ (kept : List Nat) (inst : msm_vidc_inst),
    (set_properties_loop db kept todo (with_firmware inst (kept ++ todo))).1 = 0 →
    (set_properties_loop db kept todo (with_firmware inst (kept ++ todo))).2.1
      = with_firmware inst (kept ++ todo.filter (no_set_rule db)) ∧
    (set_properties_loop db kept todo (with_firmware inst (kept ++ todo))).2.2.map Prod.fst
      = todo.filter (has_set_rule db) := by
  induction todo with
  | nil => intro kept inst _; simp [set_properties_loop]
  | cons c rest ih =>
    intro kept inst h0
    cases hs : db.set c with
    | none =>
      obtain ⟨f1, f2⟩ := filter_no_set_cons_none db c rest hs
      have e : kept ++ c :: rest = (kept ++ [c]) ++ rest := by simp
      have e2 : kept ++ c :: List.filter (no_set_rule db) rest
          = (kept ++ [c]) ++ List.filter (no_set_rule db) rest := by simp
      rw [set_loop_none db kept rest c _ hs, e] at h0 ⊢
      rw [f1, f2, e2]
      exact ih (kept ++ [c]) inst h0
    | some f =>
      obtain ⟨f1, f2⟩ := filter_no_set_cons_some db c rest f hs
      by_cases h1 : (f (with_firmware inst (kept ++ c :: rest)) c).1 = 0
      · rw [set_loop_ok db kept rest c _ f hs h1] at h0 ⊢
        have e : with_firmware (with_firmware inst (kept ++ c :: rest)) (kept ++ rest)
            = with_firmware inst (kept ++ rest) := rfl
        rw [e] at h0 ⊢
        obtain ⟨i1, i2⟩ := ih kept inst h0
        rw [f1, f2]
        exact ⟨i1, by simp only [List.map_cons, i2]⟩
      · rw [set_loop_fail db kept rest c _ f hs h1] at h0
        exact absurd h0 h1

theorem set_loop_stops (db : cap_database) (inst : msm_vidc_inst) (e : Nat) (post : List Nat)
    (f : msm_vidc_inst → Nat → Int × List hfi_property) (he : db.set e = some f) :
    ∀ (pre kept : List Nat),
    (∀ p1 p p2 g, pre = p1 ++ p :: p2 → db.set p = some g →
      (g (with_firmware inst (kept ++ (p1.filter (no_set_rule db) ++ p :: (p2 ++ e :: post))))
        p).1 = 0) →
    (f (with_firmware inst (kept ++ (pre.filter (no_set_rule db) ++ e :: post))) e).1 ≠ 0 →
    (set_properties_loop db kept (pre ++ e :: post)
        (with_firmware inst (kept ++ (pre ++ e :: post)))).1
      = (f (with_firmware inst (kept ++ (pre.filter (no_set_rule db) ++ e :: post))) e).1 ∧
    (set_properties_loop db kept (pre ++ e :: post)
        (with_firmware inst (kept ++ (pre ++ e :: post)))).2.1
      = with_firmware inst (kept ++ (pre.filter (no_set_rule db) ++ e :: post)) ∧
    (set_properties_loop db kept (pre ++ e :: post)
        (with_firmware inst (kept ++ (pre ++ e :: post)))).2.2.map Prod.fst
      = pre.filter (has_set_rule db) ++ [e] := by
  intro pre
  induction pre with
  | nil =>
    intro kept _ hfail
    simp only [List.filter_nil, List.nil_append] at hfail ⊢
    rw [set_loop_fail db kept post e _ f he hfail]
    simp
  | cons c ps ih =>
    intro kept hpre hfail
    cases hs : db.set c with
    | none =>
      obtain ⟨f1, f2⟩ := filter_no_set_cons_none db c ps hs
      have e1 : kept ++ (c :: ps ++ e :: post) = (kept ++ [c]) ++ (ps ++ e :: post) := by simp
      have e2 : kept ++ (c :: List.filter (no_set_rule db) ps ++ e :: post)
          = (kept ++ [c]) ++ (List.filter (no_set_rule db) ps ++ e :: post) := by simp
      rw [f1, e2] at hfail
      rw [f1, f2, e2, List.cons_append, set_loop_none db kept _ c _ hs,
        ← List.cons_append, e1]
      apply ih (kept ++ [c]) _ hfail
      intro p1 p p2 g hp hg
      have := hpre (c :: p1) p p2 g (by rw [hp]; rfl) hg
      rw [(filter_no_set_cons_none db c p1 hs).1] at this
      simpa using this
    | some g =>
      obtain ⟨f1, f2⟩ := filter_no_set_cons_some db c ps g hs
      rw [f1] at hfail
      have hg0 := hpre [] c ps g rfl hs
      simp only [List.filter_nil, List.nil_append] at hg0
      rw [f1, f2, List.cons_append, set_loop_ok db kept _ c _ g hs hg0]
      have hw : with_firmware (with_firmware inst (kept ++ c :: (ps ++ e :: post)))
          (kept ++ (ps ++ e :: post)) = with_firmware inst (kept ++ (ps ++ e :: post)) := rfl
      rw [hw]
      have hpre1 : ∀ p1 p p2 g, ps = p1 ++ p :: p2 → db.set p = some g →
          (g (with_firmware inst (kept ++ (p1.filter (no_set_rule db)
            ++ p :: (p2 ++ e :: post)))) p).1 = 0 := by
        intro p1 p p2 g2 hp hg
        have := hpre (c :: p1) p p2 g2 (by rw [hp]; rfl) hg
        rw [(filter_no_set_cons_some db c p1 g hs).1] at this
        exact this
      obtain ⟨i1, i2, i3⟩ := ih kept hpre1 hfail
      exact ⟨i1, i2, by simp only [List.map_cons, i3, List.cons_append]⟩

/-! ## The dynamic adjust as a loop body -/

theorem dynamic_enqueue_step_frame (inst : msm_vidc_inst) (cap_id : Nat) (prev : Int) :
    (dynamic_enqueue_step inst cap_id prev).2.cap = inst.cap ∧
    ∃ extra, (dynamic_enqueue_step inst cap_id prev).2.children = inst.children ++ extra := by
  unfold dynamic_enqueue_step
  by_cases hv : (inst.cap cap_id).value = prev
  · simp only [hv, ne_eq, not_true_eq_false, if_false]
    have hq := add_capid_fw inst cap_id
    simp only at hq
    exact ⟨hq.1, ⟨[], by simp [hq.2.1]⟩⟩
  · simp only [hv, ne_eq, not_false_eq_true, if_true]
    obtain ⟨ac, -, -, -, ⟨extra, aex⟩⟩ := add_children_spec inst cap_id
    by_cases h2 : (msm_vidc_add_children inst cap_id).1 = 0
    · simp only [h2, not_true_eq_false, if_false]
      have hq := add_capid_fw (msm_vidc_add_children inst cap_id).2 cap_id
      simp only at hq
      exact ⟨by rw [hq.1, ac], ⟨extra, by rw [hq.2.1, aex]⟩⟩
    · simp only [h2, not_false_eq_true, if_true]
      exact ⟨ac, ⟨extra, aex⟩⟩

theorem adjust_dynamic_property_body_appends (db : cap_database) (hloc : adjust_rules_local db) :
    body_appends (fun i c => msm_vidc_adjust_dynamic_property db i c none) := by
  intro inst c
  simp only
  unfold msm_vidc_adjust_dynamic_property
  by_cases hf : (inst.cap c).flags.CAP_FLAG_DYNAMIC_ALLOWED = false
  · rw [if_pos hf]
    exact ⟨same_graph_refl _, ⟨[], by simp [msm_vidc_change_inst_state]⟩⟩
  · rw [if_neg hf]
    by_cases hn : ((none : Option v4l2_ctrl).isNone && (db.adjust c).isNone) = true
    · rw [if_pos hn]
      exact ⟨same_graph_refl _, ⟨[], by simp⟩⟩
    · rw [if_neg hn]
      obtain ⟨sch, -, sg⟩ := dynamic_adjust_step_frame db hloc inst c none
      by_cases h1 : (dynamic_adjust_step db inst c none).1 = 0
      · simp only [h1, ne_eq, not_true_eq_false, if_false]
        obtain ⟨ec, ⟨extra, eex⟩⟩ :=
          dynamic_enqueue_step_frame (dynamic_adjust_step db inst c none).2 c (inst.cap c).value
        exact ⟨same_graph_trans sg (same_graph_of_cap_eq ec), ⟨extra, by rw [eex, sch]⟩⟩
      · simp only [h1, ne_eq, not_false_eq_true, if_true]
        exact ⟨sg, ⟨[], by simp [sch]⟩⟩

/-! ## Facts about the concrete tables -/

theorem db_plain_local : adjust_rules_local db_plain := by
  intro i f h
  simp [db_plain] at h

theorem db_adjust_follows_local : adjust_rules_local db_adjust_follows := by
  intro i f h
  simp only [db_adjust_follows, adjust_follow_table] at h
  by_cases h2 : i = 2
  · simp only [h2, if_true, Option.some.injEq] at h
    subst h
    intro inst ctrl
    exact update_cap_value_frame inst 2 (inst.cap 1).value
  · by_cases h3 : i = 3
    · subst h3
      simp only [show ¬ (3 = 2) by decide, if_false, if_true, Option.some.injEq] at h
      subst h
      intro inst ctrl
      exact update_cap_value_frame inst 3 (inst.cap 2).value
    · simp [h2, h3] at h

theorem table_of_beyond (l : List msm_vidc_inst_cap) (i : Nat) (h : l.length ≤ i) :
    table_of l i = cap_unset := by
  unfold table_of
  exact List.getD_eq_default _ _ h

theorem diamond_acyclic : acyclic_graph (inst_of false table_diamond) rank_down 2 := by
  intro c
  rcases c with _ | _ | _ | _ | _ | c
  · decide
  · decide
  · decide
  · decide
  · decide
  · have : (inst_of false table_diamond).cap (c + 5) = cap_unset :=
      table_of_beyond table_diamond (c + 5) (by simp [table_diamond])
    simp [enqueued_children, this, cap_unset]

/-! ## Claims C1 to C10 -/

/-- C1: a successful `msm_vidc_adjust_dynamic_property` on `c` appends the
declared children of `c` to the children list exactly when the value stored
for `c` after the call differs from the value before it; when the value is
the same the children list is what it was. A call that succeeds is a call on
a capability that carries CAP_FLAG_DYNAMIC_ALLOWED. -/
theorem adjust_dynamic_property_children_iff_changed (db : cap_database)
    (inst inst' : msm_vidc_inst) (cap_id : Nat) (ctrl : Option v4l2_ctrl)
    (hloc : adjust_rules_local db)
    (hok : msm_vidc_adjust_dynamic_property db inst cap_id ctrl = (0, inst')) :
    (inst.cap cap_id).flags.CAP_FLAG_DYNAMIC_ALLOWED = true ∧
    ((inst'.cap cap_id).value ≠ (inst.cap cap_id).value →
        inst'.children = inst.children ++ declared_children (inst.cap cap_id)) ∧
    ((inst'.cap cap_id).value = (inst.cap cap_id).value → inst'.children = inst.children) := by
  have hstep := dynamic_adjust_step_frame db hloc inst cap_id ctrl
  unfold msm_vidc_adjust_dynamic_property at hok
  by_cases hf : (inst.cap cap_id).flags.CAP_FLAG_DYNAMIC_ALLOWED = false
  · simp [hf, EINVAL] at hok
  · by_cases hn : (ctrl.isNone && (db.adjust cap_id).isNone) = true
    · simp [hf, hn, EINVAL] at hok
    · rw [if_neg hf, if_neg hn] at hok
      refine ⟨by simpa using hf, ?_⟩
      obtain ⟨hch, -, hcap⟩ := hstep
      by_cases h1 : (dynamic_adjust_step db inst cap_id ctrl).1 = 0
      · simp only [h1, ne_eq, not_true_eq_false, if_false] at hok
        have h0 : (dynamic_enqueue_step (dynamic_adjust_step db inst cap_id ctrl).2 cap_id
            (inst.cap cap_id).value).1 = 0 := by rw [hok]
        have henq := dynamic_enqueue_step_children _ cap_id (inst.cap cap_id).value h0
        rw [hok] at henq
        simp only at henq
        obtain ⟨ec, ech⟩ := henq
        rw [ech, ec, hch]
        unfold declared_children
        rw [← (hcap cap_id).1]
        constructor
        · intro hne; rw [if_pos hne]
        · intro he; rw [if_neg (not_not.mpr he)]; simp
      · simp only [h1, ne_eq, not_false_eq_true, if_true] at hok
        rw [hok] at h1
        exact absurd rfl h1

/-- Witness for C1: on the chain table, with capability 1 at value 5 and the
adjust rule that lets capability 2 follow capability 1, the children
adjustment call on 2 succeeds, changes the value of 2 from 0 to 5 and puts
its child 3 on the children list. -/
theorem adjust_dynamic_property_children_iff_changed_witness :
    adjust_rules_local db_adjust_follows ∧
    (msm_vidc_adjust_dynamic_property db_adjust_follows
        (msm_vidc_update_cap_value (inst_of true table_chain) 1 5) 2 none).1 = 0 ∧
    ((msm_vidc_adjust_dynamic_property db_adjust_follows
        (msm_vidc_update_cap_value (inst_of true table_chain) 1 5) 2 none).2.cap 2).value = 5 ∧
    (msm_vidc_adjust_dynamic_property db_adjust_follows
        (msm_vidc_update_cap_value (inst_of true table_chain) 1 5) 2 none).2.children = [3] :=
  ⟨db_adjust_follows_local, by decide, by decide,
    ((adjust_dynamic_property_children_iff_changed db_adjust_follows
      (msm_vidc_update_cap_value (inst_of true table_chain) 1 5) _ 2 none
      db_adjust_follows_local (Prod.ext (by decide) rfl)).2.1 (by decide)).trans (by decide)⟩

/-- Counterexample to C2 as stated: on the diamond table (root 1, children 2
and 3, both with child 4) the static pass succeeds from empty lists and runs
`msm_vidc_adjust_property` on the reachable capability 4 twice. -/
theorem static_pass_visits_diamond_twice :
    (inst_of false table_diamond).children = [] ∧
    (inst_of false table_diamond).firmware = [] ∧
    acyclic_graph (inst_of false table_diamond) rank_down 2 ∧
    reachable db_plain (inst_of false table_diamond) 4 ∧
    (msm_vidc_adjust_v4l2_properties db_plain 10 (inst_of false table_diamond)).map
      (fun t => (t.1, t.2.2, t.2.2.count 4)) = some (0, [1, 2, 3, 4, 4], 2) :=
  ⟨rfl, rfl, diamond_acyclic,
    reachable.child 2 4
      (reachable.child 1 2 (reachable.root 1 (by decide) (by decide)) (by decide))
      (by decide),
    by decide⟩

/-- C2, amended: the static pass over an acyclic table returns. When it
succeeds from an empty children list, `msm_vidc_adjust_property` has been run
on every capability flagged CAP_FLAG_ROOT, on every child enqueued by a
visited capability other than the one visited last, and only on capabilities
reachable from a root. Nothing bounds the number of visits by one. -/
theorem static_pass_visits (db : cap_database) (inst : msm_vidc_inst) (rk : Nat → Nat)
    (m : Nat) (hloc : adjust_rules_local db) (hac : acyclic_graph inst rk m)
    (hq : inst.children = []) :
    (∃ fuel r, msm_vidc_adjust_v4l2_properties db fuel inst = some r) ∧
    ∀ fuel inst' visited,
      msm_vidc_adjust_v4l2_properties db fuel inst = some (0, inst', visited) →
      (∀ i, i < db.INST_CAP_MAX → (inst.cap i).flags.CAP_FLAG_ROOT = true →
        (inst.cap i).cap ∈ visited) ∧
      (∀ c ∈ visited.dropLast, ∀ k ∈ enqueued_children inst c, k ∈ visited) ∧
      (∀ c ∈ visited, reachable db inst c) := by
  refine ⟨static_pass_terminates db inst rk m hloc hac, ?_⟩
  intro fuel inst' visited h
  obtain ⟨V, hvis, hV, -, hreach⟩ := static_pass_success db inst hloc hq fuel inst' visited h
  have hroot : ∀ i, i < db.INST_CAP_MAX → (inst.cap i).flags.CAP_FLAG_ROOT = true →
      (inst.cap i).cap ∈ root_ids inst (List.range db.INST_CAP_MAX) := by
    intro i hi hr
    unfold root_ids
    rw [List.mem_map]
    exact ⟨i, by rw [List.mem_filter, List.mem_range]; exact ⟨hi, hr⟩, rfl⟩
  refine ⟨?_, ?_, ?_⟩
  · intro i hi hr
    rw [hvis]
    exact List.mem_append_left _ (hroot i hi hr)
  · intro c hc k hk
    rw [hvis]
    by_cases hne : V = []
    · subst hne
      rw [List.append_nil] at hvis
      simp only [List.dropLast_nil, List.flatMap_nil, List.append_nil] at hV
      have hcR : c ∈ root_ids inst (List.range db.INST_CAP_MAX) := by
        rw [hvis] at hc
        exact List.mem_of_mem_dropLast hc
      have : k ∈ (root_ids inst (List.range db.INST_CAP_MAX)).flatMap
          (enqueued_children inst) := List.mem_flatMap.mpr ⟨c, hcR, hk⟩
      rw [← hV] at this
      exact absurd this (List.not_mem_nil k)
    · rw [hvis, List.dropLast_append_of_ne_nil _ hne, List.mem_append] at hc
      apply List.mem_append_right
      rw [hV, List.mem_append]
      rcases hc with hc | hc
      · exact Or.inl (List.mem_flatMap.mpr ⟨c, hc, hk⟩)
      · exact Or.inr (List.mem_flatMap.mpr ⟨c, hc, hk⟩)
  · intro c hc
    rw [hvis, List.mem_append] at hc
    rcases hc with hc | hc
    · exact root_ids_reachable db inst c hc
    · exact hreach c hc

/-- Witness for C2 amended: the diamond table meets the hypotheses. -/
theorem static_pass_visits_witness :
    adjust_rules_local db_plain ∧
    acyclic_graph (inst_of false table_diamond) rank_down 2 ∧
    (inst_of false table_diamond).children = [] ∧
    ((∃ fuel r, msm_vidc_adjust_v4l2_properties db_plain fuel (inst_of false table_diamond)
        = some r) ∧
    ∀ fuel inst' visited,
      msm_vidc_adjust_v4l2_properties db_plain fuel (inst_of false table_diamond)
        = some (0, inst', visited) →
      (∀ i, i < db_plain.INST_CAP_MAX →
        ((inst_of false table_diamond).cap i).flags.CAP_FLAG_ROOT = true →
        ((inst_of false table_diamond).cap i).cap ∈ visited) ∧
      (∀ c ∈ visited.dropLast, ∀ k ∈ enqueued_children (inst_of false table_diamond) c,
        k ∈ visited) ∧
      (∀ c ∈ visited, reachable db_plain (inst_of false table_diamond) c)) :=
  ⟨db_plain_local, diamond_acyclic, rfl,
    static_pass_visits db_plain (inst_of false table_diamond) rank_down 2 db_plain_local
      diamond_acyclic rfl⟩

/-- C3, the code at the failing input: on the chain table (root 1, child 2,
grandchild 3, each child with an adjust rule that follows its parent) with
capability 1 set to 5, the static pass succeeds from empty lists. The firmware
list ends as [1, 2] without the registered, reachable capability 3; 3 is left
on the children list and keeps its old value 0. -/
theorem static_pass_chain_misses_grandchild :
    (msm_vidc_update_cap_value (inst_of false table_chain) 1 5).children = [] ∧
    (msm_vidc_update_cap_value (inst_of false table_chain) 1 5).firmware = [] ∧
    ((msm_vidc_update_cap_value (inst_of false table_chain) 1 5).cap 3).cap = 3 ∧
    reachable db_adjust_follows (msm_vidc_update_cap_value (inst_of false table_chain) 1 5) 3 ∧
    (msm_vidc_adjust_v4l2_properties db_adjust_follows 10
        (msm_vidc_update_cap_value (inst_of false table_chain) 1 5)).map
      (fun t => (t.1, t.2.1.firmware, t.2.1.children, t.2.2,
        (t.2.1.cap 2).value, (t.2.1.cap 3).value))
      = some (0, [1, 2], [3], [1, 2], 5, 0) :=
  ⟨rfl, rfl, rfl,
    reachable.child 2 3
      (reachable.child 1 2 (reachable.root 1 (by decide) (by decide)) (by decide))
      (by decide),
    by decide⟩

/-- Counterexample to C4 as stated: with capability 2 already on a
children list that holds no id twice, enqueuing the children of capability 1
(whose only child is 2) succeeds and leaves the list [2, 2]. -/
theorem add_children_makes_duplicate :
    (with_children (inst_of false table_chain) [2]).children.Nodup ∧
    (msm_vidc_add_children (with_children (inst_of false table_chain) [2]) 1).1 = 0 ∧
    (msm_vidc_add_children (with_children (inst_of false table_chain) [2]) 1).2.children
      = [2, 2] ∧
    ¬ (msm_vidc_add_children (with_children (inst_of false table_chain) [2]) 1).2.children.Nodup := by
  decide

/-- C4, amended: `msm_vidc_add_children` makes no membership test. When it
succeeds the children list is the old list followed by the declared children
of the capability, in order; it holds no id twice exactly when the old list
held none twice, the declared children are pairwise distinct and none of them
was already on the list. -/
theorem add_children_appends_all (inst : msm_vidc_inst) (cap_id : Nat)
    (hok : (msm_vidc_add_children inst cap_id).1 = 0) :
    (msm_vidc_add_children inst cap_id).2.children
      = inst.children ++ declared_children (inst.cap cap_id) ∧
    ((msm_vidc_add_children inst cap_id).2.children.Nodup ↔
      inst.children.Nodup ∧ (declared_children (inst.cap cap_id)).Nodup ∧
        inst.children.Disjoint (declared_children (inst.cap cap_id))) := by
  have h := (add_children_spec inst cap_id).2.2.2.1 hok
  exact ⟨h, by rw [h, List.nodup_append]⟩

/-- Witness for C4 amended: enqueuing the children of capability 1 of the
chain table on an empty children list. -/
theorem add_children_appends_all_witness :
    (msm_vidc_add_children (inst_of false table_chain) 1).1 = 0 ∧
    ((msm_vidc_add_children (inst_of false table_chain) 1).2.children
      = (inst_of false table_chain).children
          ++ declared_children ((inst_of false table_chain).cap 1) ∧
    ((msm_vidc_add_children (inst_of false table_chain) 1).2.children.Nodup ↔
      (inst_of false table_chain).children.Nodup ∧
        (declared_children ((inst_of false table_chain).cap 1)).Nodup ∧
        (inst_of false table_chain).children.Disjoint
          (declared_children ((inst_of false table_chain).cap 1)))) :=
  ⟨by decide, add_children_appends_all (inst_of false table_chain) 1 (by decide)⟩

/-- C5, the code at the failing input: on the table with root 1, children
[3, 2] and 3 also a child of 2, with capability 1 set to 5 and adjust rules by
which 2 follows 1 and 3 follows 2, the static pass succeeds and runs
`msm_vidc_adjust_property` on 1, 3, 2 in this order. The only run on 3 comes
before the run on its parent 2, so 3 ends with the old value 0 of its parent
while 2 ends with 5, and the entry for 3 that 2 enqueued is left on the
children list. -/
theorem static_pass_child_before_parent :
    acyclic_graph (msm_vidc_update_cap_value (inst_of false table_late_parent) 1 5)
      rank_down 2 ∧
    3 ∈ enqueued_children (msm_vidc_update_cap_value (inst_of false table_late_parent) 1 5) 2 ∧
    (msm_vidc_adjust_v4l2_properties db_adjust_follows 10
        (msm_vidc_update_cap_value (inst_of false table_late_parent) 1 5)).map
      (fun t => (t.1, t.2.2, t.2.1.children, (t.2.1.cap 2).value, (t.2.1.cap 3).value))
      = some (0, [1, 3, 2], [3], 5, 0) := by
  refine ⟨?_, by decide, by decide⟩
  apply acyclic_graph_congr (a := inst_of false table_late_parent)
  · intro i
    have := (update_cap_value_frame (inst_of false table_late_parent) 1 5).2.2 i
    exact ⟨this.1.symm, this.2.1.symm, this.2.2.symm⟩
  · intro c
    rcases c with _ | _ | _ | _ | c
    · decide
    · decide
    · decide
    · decide
    · have : (inst_of false table_late_parent).cap (c + 4) = cap_unset :=
        table_of_beyond table_late_parent (c + 4) (by simp [table_late_parent])
      simp [enqueued_children, this, cap_unset]

/-- Counterexample to C6 as stated: a streaming session that is not in the
error state gets a control for capability 1, which lacks
CAP_FLAG_DYNAMIC_ALLOWED. The call fails with -EBUSY, the session is not in
the error state afterwards, and a later call for capability 2 succeeds. -/
theorem s_ctrl_static_only_no_error_state :
    (inst_of true table_static_only).streaming = true ∧
    (inst_of true table_static_only).state ≠ msm_vidc_inst_state.MSM_VIDC_ERROR ∧
    ((inst_of true table_static_only).cap 1).flags.CAP_FLAG_DYNAMIC_ALLOWED = false ∧
    (msm_v4l2_op_s_ctrl db_plain 5 (inst_of true table_static_only) ⟨101, 5⟩).map
      (fun t => (t.1, decide (t.2.1.state = msm_vidc_inst_state.MSM_VIDC_ERROR)))
      = some (-16, false) ∧
    ((msm_v4l2_op_s_ctrl db_plain 5 (inst_of true table_static_only) ⟨101, 5⟩).bind
      (fun t => msm_v4l2_op_s_ctrl db_plain 5 t.2.1 ⟨102, 7⟩)).map
      (fun t => (t.1, (t.2.1.cap 2).value)) = some (0, 7) := by
  decide

/-- C6, amended: for a streaming session that is not in the error state, a
control whose capability `c` lacks CAP_FLAG_DYNAMIC_ALLOWED is refused by
`msm_v4l2_op_s_ctrl` with -EBUSY before any adjust runs and with no packet
sent. The session state is left as it was (not the error state). The one
change is the client-set flag of `c`, which is set: every other flag and
every other field of `c`, every other capability, every capability value and
every other field of the instance are as before. -/
theorem s_ctrl_static_only_busy (db : cap_database) (fuel : Nat) (inst : msm_vidc_inst)
    (ctrl : v4l2_ctrl)
    (hstate : inst.state ≠ msm_vidc_inst_state.MSM_VIDC_ERROR)
    (hstream : inst.streaming = true)
    (hcap : msm_vidc_get_cap_id db inst ctrl.id ≠ INST_CAP_NONE)
    (hflag : (inst.cap (msm_vidc_get_cap_id db inst ctrl.id)).flags.CAP_FLAG_DYNAMIC_ALLOWED
      = false) :
    msm_v4l2_op_s_ctrl db fuel inst ctrl
      = some (-EBUSY, set_client_set_flag inst (msm_vidc_get_cap_id db inst ctrl.id), []) ∧
    (set_client_set_flag inst (msm_vidc_get_cap_id db inst ctrl.id)).state = inst.state ∧
    (set_client_set_flag inst (msm_vidc_get_cap_id db inst ctrl.id)).state
      ≠ msm_vidc_inst_state.MSM_VIDC_ERROR ∧
    ((set_client_set_flag inst (msm_vidc_get_cap_id db inst ctrl.id)).cap
      (msm_vidc_get_cap_id db inst ctrl.id)).flags.CAP_FLAG_CLIENT_SET = true ∧
    (set_client_set_flag inst (msm_vidc_get_cap_id db inst ctrl.id)).cap
        (msm_vidc_get_cap_id db inst ctrl.id)
      = { inst.cap (msm_vidc_get_cap_id db inst ctrl.id) with
          flags := { (inst.cap (msm_vidc_get_cap_id db inst ctrl.id)).flags with
            CAP_FLAG_CLIENT_SET := true } } ∧
    (∀ d, d ≠ msm_vidc_get_cap_id db inst ctrl.id →
      (set_client_set_flag inst (msm_vidc_get_cap_id db inst ctrl.id)).cap d = inst.cap d) ∧
    (∀ d, ((set_client_set_flag inst (msm_vidc_get_cap_id db inst ctrl.id)).cap d).value
      = (inst.cap d).value) ∧
    set_client_set_flag inst (msm_vidc_get_cap_id db inst ctrl.id)
      = { inst with
          cap := (set_client_set_flag inst (msm_vidc_get_cap_id db inst ctrl.id)).cap } := by
  refine ⟨?_, rfl, hstate, ?_, ?_, ?_, ?_, rfl⟩
  · unfold msm_v4l2_op_s_ctrl
    rw [if_neg hstate]
    simp only [hcap, if_false]
    have hs : (set_client_set_flag inst (msm_vidc_get_cap_id db inst ctrl.id)).streaming
        = true := hstream
    have hf : ((set_client_set_flag inst (msm_vidc_get_cap_id db inst ctrl.id)).cap
        (msm_vidc_get_cap_id db inst ctrl.id)).flags.CAP_FLAG_DYNAMIC_ALLOWED = false := by
      simp [set_client_set_flag, hflag]
    simp [hs, hf]
  · simp [set_client_set_flag]
  · simp [set_client_set_flag]
  · intro d hd
    simp [set_client_set_flag, Function.update_noteq hd]
  · intro d
    by_cases hd : d = msm_vidc_get_cap_id db inst ctrl.id
    · subst hd
      simp [set_client_set_flag]
    · simp [set_client_set_flag, Function.update_noteq hd]

/-- Witness for C6 amended: the call of the counterexample. The client-set
flag of capability 1 is not set before the call and is set after it; the
value of capability 1 stays 0. -/
theorem s_ctrl_static_only_busy_witness :
    ((inst_of true table_static_only).cap 1).flags.CAP_FLAG_CLIENT_SET = false ∧
    msm_vidc_get_cap_id db_plain (inst_of true table_static_only) 101 = 1 ∧
    (msm_v4l2_op_s_ctrl db_plain 5 (inst_of true table_static_only) ⟨101, 5⟩).map
      (fun t => (t.1, (t.2.1.cap 1).flags.CAP_FLAG_CLIENT_SET, (t.2.1.cap 1).value,
        decide (t.2.1.state = (inst_of true table_static_only).state)))
      = some (-EBUSY, true, 0, true) ∧
    ((set_client_set_flag (inst_of true table_static_only)
      (msm_vidc_get_cap_id db_plain (inst_of true table_static_only) 101)).cap
      (msm_vidc_get_cap_id db_plain (inst_of true table_static_only) 101)).flags.CAP_FLAG_CLIENT_SET
      = true :=
  ⟨by decide, by decide,
   by
    rw [(s_ctrl_static_only_busy db_plain 5 (inst_of true table_static_only) ⟨101, 5⟩
      (by decide) rfl (by decide) (by decide)).1]
    decide,
   (s_ctrl_static_only_busy db_plain 5 (inst_of true table_static_only) ⟨101, 5⟩
      (by decide) rfl (by decide) (by decide)).2.2.2.1⟩

/-- C7: in the error state `msm_v4l2_op_s_ctrl` returns -EINVAL for every
control and value, and the instance it leaves is the instance it got: every
capability value and flag, the derived rate-control and layer-type fields and
both lists are as they were. -/
theorem s_ctrl_error_state_refused (db : cap_database) (fuel : Nat) (inst : msm_vidc_inst)
    (ctrl : v4l2_ctrl) (hstate : inst.state = msm_vidc_inst_state.MSM_VIDC_ERROR) :
    msm_v4l2_op_s_ctrl db fuel inst ctrl = some (-EINVAL, inst, []) ∧ -EINVAL ≠ 0 := by
  unfold msm_v4l2_op_s_ctrl
  rw [if_pos hstate]
  exact ⟨rfl, by decide⟩

/-- Witness for C7: the chain table in the error state. -/
theorem s_ctrl_error_state_refused_witness :
    msm_v4l2_op_s_ctrl db_plain 5
        (msm_vidc_change_inst_state (inst_of true table_chain)
          msm_vidc_inst_state.MSM_VIDC_ERROR) ⟨101, 5⟩
      = some (-EINVAL, msm_vidc_change_inst_state (inst_of true table_chain)
          msm_vidc_inst_state.MSM_VIDC_ERROR, []) ∧ -EINVAL ≠ 0 :=
  s_ctrl_error_state_refused db_plain 5
    (msm_vidc_change_inst_state (inst_of true table_chain) msm_vidc_inst_state.MSM_VIDC_ERROR)
    ⟨101, 5⟩ rfl

/-- C8, the code at the failing input: with the firmware list [4, 1], where
capability 4 has no set rule and the set rule of 1 succeeds,
`msm_vidc_set_v4l2_properties` returns 0, has called the set rule of 1 only,
and leaves the entry of 4 on the firmware list. -/
theorem set_properties_leaves_entry_without_set_rule :
    (db_set_rules.set 4).isNone = true ∧
    (msm_vidc_set_v4l2_properties db_set_rules
        (with_firmware (inst_of true table_chain) [4, 1])).1 = 0 ∧
    (msm_vidc_set_v4l2_properties db_set_rules
        (with_firmware (inst_of true table_chain) [4, 1])).2.1.firmware = [4] ∧
    (msm_vidc_set_v4l2_properties db_set_rules
        (with_firmware (inst_of true table_chain) [4, 1])).2.2.map Prod.fst = [1] := by
  decide

/-- C10: let the firmware list be `pre ++ e :: post`, let every set rule of an
entry of `pre` return 0 when its turn comes, and let the set rule of `e`
return a non-zero code when its turn comes. Then the drain returns exactly
that code; the set rules called are those of the entries of `pre` that have
one, in order, and then that of `e`, so none of `post`; the firmware list is
left as the entries of `pre` without a set rule, then `e`, then `post`. -/
theorem set_properties_stops_at_failure (db : cap_database) (inst : msm_vidc_inst)
    (pre : List Nat) (e : Nat) (post : List Nat)
    (f : msm_vidc_inst → Nat → Int × List hfi_property)
    (hfw : inst.firmware = pre ++ e :: post)
    (he : db.set e = some f)
    (hpre : ∀ p1 p p2 g, pre = p1 ++ p :: p2 → db.set p = some g →
      (g (with_firmware inst (p1.filter (no_set_rule db) ++ p :: (p2 ++ e :: post))) p).1 = 0)
    (hfail : (f (with_firmware inst (pre.filter (no_set_rule db) ++ e :: post)) e).1 ≠ 0) :
    (msm_vidc_set_v4l2_properties db inst).1
      = (f (with_firmware inst (pre.filter (no_set_rule db) ++ e :: post)) e).1 ∧
    (msm_vidc_set_v4l2_properties db inst).2.1
      = with_firmware inst (pre.filter (no_set_rule db) ++ e :: post) ∧
    (msm_vidc_set_v4l2_properties db inst).2.2.map Prod.fst
      = pre.filter (has_set_rule db) ++ [e] := by
  have h := set_loop_stops db inst e post f he pre []
    (by simpa using hpre) (by simpa using hfail)
  have hi : inst = with_firmware inst ([] ++ (pre ++ e :: post)) := by
    rw [List.nil_append, ← hfw]; rfl
  unfold msm_vidc_set_v4l2_properties
  rw [hfw]
  rw [← hi] at h
  simpa using h

/-- Witness for C10: the firmware list [4, 1, 4, 2, 3], where 4 has no set
rule, the rule of 1 succeeds and the rule of 2 fails because the transport
refuses its packet. -/
theorem set_properties_stops_at_failure_witness :
    (msm_vidc_set_v4l2_properties db_set_rules
        (with_firmware (inst_of true table_chain) [4, 1, 4, 2, 3])).1 = -22 ∧
    (msm_vidc_set_v4l2_properties db_set_rules
        (with_firmware (inst_of true table_chain) [4, 1, 4, 2, 3])).2.1.firmware
      = [4, 4, 2, 3] ∧
    (msm_vidc_set_v4l2_properties db_set_rules
        (with_firmware (inst_of true table_chain) [4, 1, 4, 2, 3])).2.2.map Prod.fst
      = [1, 2] := by
  have h := set_properties_stops_at_failure db_set_rules
    (with_firmware (inst_of true table_chain) [4, 1, 4, 2, 3]) [4, 1, 4] 2 [3]
    (msm_vidc_set_q16 db_plain) rfl rfl
    (by
      intro p1 p p2 g hp hg
      have hm : p ∈ [4, 1, 4] := by rw [hp]; simp
      simp only [List.mem_cons, List.mem_singleton, List.not_mem_nil, or_false] at hm
      rcases hm with hm | hm | hm
      · subst hm; simp [db_set_rules, set_rules_table] at hg
      · subst hm
        have : g = msm_vidc_set_q16 db_plain := by
          simp [db_set_rules, set_rules_table] at hg
          exact hg.symm
        subst this
        rfl
      · subst hm; simp [db_set_rules, set_rules_table] at hg)
    (by decide)
  obtain ⟨h1, h2, h3⟩ := h
  refine ⟨h1, ?_, h3⟩
  rw [h2]
  rfl

/-! ## 32-bit arithmetic -/

theorem to_u32_range (x : Int) : 0 ≤ to_u32 x ∧ to_u32 x < 4294967296 := by
  unfold to_u32
  omega

theorem to_u32_of_range (x : Int) (h0 : 0 ≤ x) (h1 : x < 4294967296) : to_u32 x = x := by
  unfold to_u32
  omega

theorem to_u32_to_s32 (x : Int) : to_u32 (to_s32 x) = to_u32 x := by
  unfold to_u32 to_s32
  split <;> omega

theorem to_s32_to_u32 (x : Int) : to_s32 (to_u32 x) = to_s32 x := by
  unfold to_u32 to_s32
  split <;> split <;> omega

theorem to_s32_of_range (x : Int) (h0 : -2147483648 ≤ x) (h1 : x < 2147483648) :
    to_s32 x = x := by
  unfold to_s32
  split <;> omega

/-- For a count 0 <= n <= 30 the expression `1 << n` is the power of two. -/
theorem shl_one (n : Int) (h0 : 0 ≤ n) (h30 : n ≤ 30) :
    shl_s32 1 n = 2 ^ n.toNat ∧ to_u32 (shl_s32 1 n) = 2 ^ n.toNat := by
  interval_cases n <;> exact ⟨rfl, rfl⟩

/-- For a count 1 <= n <= 30, `min_gop_size = 2^n` is twice `2^(n-1)` and
divides 2^32. -/
theorem min_gop_size_facts (n : Int) (h1 : 1 ≤ n) (h30 : n ≤ 30) :
    (2 : Int) ^ n.toNat = 2 * 2 ^ (n - 1).toNat ∧ (1 : Int) ≤ 2 ^ (n - 1).toNat ∧
    (2 : Int) ^ n.toNat * 2 ^ (32 - n).toNat = 4294967296 ∧
    (2 : Int) ^ n.toNat ≤ 1073741824 := by
  interval_cases n <;> decide

/-- A non-zero multiple `q * M` of `M = 2 * H` below 2^32, with `M` dividing
2^32, is a fixed point of the `u32` rounding step. -/
theorem round_step_fixed (M K H q : Int) (hM : M = 2 * H) (hH : 1 ≤ H)
    (hK : M * K = 4294967296) (hq : 1 ≤ q) (hlt : q * M < 4294967296) :
    to_u32 (q * M + M / 2) / M = q := by
  have hMpos : 0 < M := by omega
  have hhalf : M / 2 = H := by omega
  have hqK : q < K := by
    by_contra hc
    have : K ≤ q := by omega
    have : M * K ≤ q * M := by nlinarith
    omega
  have hb : q * M + H < 4294967296 := by
    have : q * M ≤ (K - 1) * M := by nlinarith
    have : (K - 1) * M = 4294967296 - M := by nlinarith
    omega
  have hnn : 0 ≤ q * M := by nlinarith
  rw [hhalf, to_u32_of_range _ (by omega) hb]
  rw [show q * M + H = H + q * M by ring, Int.add_mul_ediv_right _ _ (by omega : M ≠ 0)]
  rw [Int.ediv_eq_zero_of_lt (by omega) (by omega)]
  simp

theorem calibrate_gop_size_unfold (n g : Int) (h1 : 1 ≤ n) (h30 : n ≤ 30) :
    calibrate_gop_size n g =
      if to_u32 (to_u32 g + 2 ^ n.toNat / 2) / 2 ^ n.toNat ≠ 0 then
        to_s32 (to_u32 (to_u32 g + 2 ^ n.toNat / 2) / 2 ^ n.toNat * 2 ^ n.toNat)
      else to_s32 (2 ^ n.toNat) := by
  unfold calibrate_gop_size
  simp only [(shl_one n (by omega) h30).2, to_s32_to_u32]

/-- The value produced by the calibration, read back as `u32`, is a non-zero
multiple of `2^n` below 2^32. -/
theorem calibrate_gop_size_multiple (n g : Int) (h1 : 1 ≤ n) (h30 : n ≤ 30) :
    ∃ q : Int, 1 ≤ q ∧ q * 2 ^ n.toNat < 4294967296 ∧
      calibrate_gop_size n g = to_s32 (q * 2 ^ n.toNat) := by
  obtain ⟨hM, hH, hK, hle⟩ := min_gop_size_facts n h1 h30
  rw [calibrate_gop_size_unfold n g h1 h30]
  generalize (2 : Int) ^ n.toNat = M at *
  have hMpos : 0 < M := by omega
  obtain ⟨s0, s1⟩ := to_u32_range (to_u32 g + M / 2)
  have hq0 : 0 ≤ to_u32 (to_u32 g + M / 2) / M := Int.ediv_nonneg s0 (by omega)
  have hqm : to_u32 (to_u32 g + M / 2) / M * M ≤ to_u32 (to_u32 g + M / 2) :=
    Int.ediv_mul_le _ (by omega)
  by_cases hq : to_u32 (to_u32 g + M / 2) / M = 0
  · rw [if_neg (not_not.mpr hq)]
    exact ⟨1, by omega, by omega, by simp⟩
  · rw [if_pos hq]
    exact ⟨_, by omega, by omega, rfl⟩

/-- The calibration is idempotent for every count 1 <= n <= 30. -/
theorem calibrate_gop_size_idem (n g : Int) (h1 : 1 ≤ n) (h30 : n ≤ 30) :
    calibrate_gop_size n (calibrate_gop_size n g) = calibrate_gop_size n g := by
  obtain ⟨q, hq1, hqlt, hr⟩ := calibrate_gop_size_multiple n g h1 h30
  obtain ⟨hM, hH, hK, hle⟩ := min_gop_size_facts n h1 h30
  rw [hr, calibrate_gop_size_unfold n _ h1 h30, to_u32_to_s32]
  generalize (2 : Int) ^ n.toNat = M at *
  have hMpos : 0 < M := by omega
  have hnn : 0 ≤ q * M := by nlinarith
  rw [to_u32_of_range (q * M) hnn hqlt]
  rw [round_step_fixed M _ _ q hM hH hK hq1 hqlt]
  rw [if_pos (by omega)]

/-- The calibration rounds to the nearest multiple of `2^n` as long as the
rounded value fits an `s32`. -/
theorem calibrate_gop_size_nearest (n g : Int) (h1 : 1 ≤ n) (h30 : n ≤ 30) (hg : 0 ≤ g)
    (hfit : g + 2 ^ (n - 1).toNat ≤ 2147483647) :
    calibrate_gop_size n g % 2 ^ n.toNat = 0 ∧ 0 < calibrate_gop_size n g ∧
    (g < 2 ^ (n - 1).toNat → calibrate_gop_size n g = 2 ^ n.toNat) ∧
    (2 ^ (n - 1).toNat ≤ g →
      calibrate_gop_size n g = (g + 2 ^ (n - 1).toNat) / 2 ^ n.toNat * 2 ^ n.toNat ∧
      g - 2 ^ (n - 1).toNat < calibrate_gop_size n g ∧
      calibrate_gop_size n g ≤ g + 2 ^ (n - 1).toNat) := by
  obtain ⟨hM, hH, hK, hle⟩ := min_gop_size_facts n h1 h30
  rw [calibrate_gop_size_unfold n g h1 h30]
  generalize (2 : Int) ^ n.toNat = M at *
  generalize (2 : Int) ^ (n - 1).toNat = H at *
  have hMpos : 0 < M := by omega
  have hhalf : M / 2 = H := by omega
  rw [hhalf, to_u32_of_range g hg (by omega), to_u32_of_range (g + H) (by omega) (by omega)]
  have hq0 : 0 ≤ (g + H) / M := Int.ediv_nonneg (by omega) (by omega)
  have hqm : (g + H) / M * M ≤ g + H := Int.ediv_mul_le _ (by omega)
  have hqu : g + H < ((g + H) / M + 1) * M := Int.lt_ediv_add_one_mul_self _ hMpos
  by_cases hq : (g + H) / M = 0
  · rw [if_neg (not_not.mpr hq), to_s32_of_range M (by omega) (by omega)]
    rw [hq] at hqu
    refine ⟨Int.emod_self, hMpos, fun _ => rfl, fun h => ?_⟩
    omega
  · rw [if_pos hq]
    have hq1 : 1 ≤ (g + H) / M := by omega
    have hge : M ≤ (g + H) / M * M := by nlinarith
    rw [to_s32_of_range _ (by omega) (by omega)]
    refine ⟨Int.mul_emod_left _ _, by omega, fun hlt => ?_, fun _ => ⟨rfl, ?_, hqm⟩⟩
    · omega
    · have : ((g + H) / M + 1) * M = (g + H) / M * M + M := by ring
      omega

/-! ## Frame facts of the adjust rules -/

theorem update_cap_value_same (inst : msm_vidc_inst) (c : Nat) (v : Int) :
    ((msm_vidc_update_cap_value inst c v).cap c).value = v ∧
    ((msm_vidc_update_cap_value inst c v).cap c).min = (inst.cap c).min ∧
    ((msm_vidc_update_cap_value inst c v).cap c).max = (inst.cap c).max ∧
    ((msm_vidc_update_cap_value inst c v).cap c).parents = (inst.cap c).parents := by
  simp [msm_vidc_update_cap_value]

theorem update_cap_value_other (inst : msm_vidc_inst) (c d : Nat) (v : Int) (h : d ≠ c) :
    (msm_vidc_update_cap_value inst c v).cap d = inst.cap d := by
  simp [msm_vidc_update_cap_value, Function.update_noteq h]

theorem update_cap_value_parents (inst : msm_vidc_inst) (c d : Nat) (v : Int) :
    ((msm_vidc_update_cap_value inst c v).cap d).parents = (inst.cap d).parents := by
  by_cases h : d = c
  · subst h; exact (update_cap_value_same inst d v).2.2.2
  · rw [update_cap_value_other inst c d v h]

theorem is_parent_available_update (inst : msm_vidc_inst) (c a b : Nat) (v : Int) :
    is_parent_available (msm_vidc_update_cap_value inst c v) a b = is_parent_available inst a b := by
  unfold is_parent_available
  rw [update_cap_value_parents]

/-- A parent that is declared and is neither BITRATE_MODE nor LAYER_TYPE is
read from its capability value. -/
theorem get_parent_value_plain (k : header_constants) (inst : msm_vidc_inst)
    (cap parent : Nat) (value : Int) (hav : is_parent_available inst cap parent = true)
    (h1 : parent ≠ k.BITRATE_MODE) (h2 : parent ≠ k.LAYER_TYPE) :
    msm_vidc_get_parent_value k inst cap parent value = (0, (inst.cap parent).value) := by
  simp [msm_vidc_get_parent_value, hav, h1, h2]

/-- The parent BITRATE_MODE, when declared, is read from the derived field
`hfi_rc_type`. -/
theorem get_parent_value_bitrate_mode (k : header_constants) (inst : msm_vidc_inst)
    (cap : Nat) (value : Int) (hav : is_parent_available inst cap k.BITRATE_MODE = true) :
    msm_vidc_get_parent_value k inst cap k.BITRATE_MODE value = (0, to_s32 inst.hfi_rc_type) := by
  simp [msm_vidc_get_parent_value, hav]

/-- The value `(2 << n) - 1` capped at 7 is 1, 3 or 7 for every count. -/
theorem b_frame_from_layers_values (n : Int) :
    b_frame_from_layers n = 1 ∨ b_frame_from_layers n = 3 ∨ b_frame_from_layers n = 7 := by
  unfold b_frame_from_layers shl_s32
  have h0 : 0 ≤ n % 32 := Int.emod_nonneg n (by decide)
  have h1 : n % 32 < 32 := Int.emod_lt_of_pos n (by decide)
  generalize n % 32 = m at h0 h1
  interval_cases m <;> decide

/-- For a count 1 <= n <= 31 the value is `2^(n+1) - 1` capped at 7. -/
theorem b_frame_from_layers_eq (n : Int) (h1 : 1 ≤ n) (h31 : n ≤ 31) :
    b_frame_from_layers n = min (2 ^ (n.toNat + 1) - 1) 7 := by
  interval_cases n <;> decide

/-- The layer count with which the static calibration reaches `exit` is 0,
the requested count, or a ceiling below the requested count; the instance
differs from the one given in `hfi_layer_type` only. -/
theorem static_layer_resolve_cases (k : header_constants) (inst : msm_vidc_inst) (v : Int) :
    (static_layer_resolve k inst v).1.cap = inst.cap ∧
    ((static_layer_resolve k inst v).2 = 0 ∨ (static_layer_resolve k inst v).2 = v ∨
      ((static_layer_resolve k inst v).2 < v ∧
        ((static_layer_resolve k inst v).2 = k.MAX_ENH_LAYER_HB ∨
         (static_layer_resolve k inst v).2 = k.MAX_AVC_ENH_LAYER_HYBRID_HP ∨
         (static_layer_resolve k inst v).2 = k.MAX_AVC_ENH_LAYER_SLIDING_WINDOW ∨
         (static_layer_resolve k inst v).2 = k.MAX_HEVC_ENH_LAYER_SLIDING_WINDOW))) := by
  unfold static_layer_resolve
  split_ifs with h1 h2 h3 h4
  · exact ⟨rfl, Or.inr (Or.inl rfl)⟩
  · exact ⟨rfl, Or.inl rfl⟩
  · exact ⟨rfl, Or.inl rfl⟩
  · exact ⟨rfl, Or.inl rfl⟩
  · refine ⟨rfl, ?_⟩
    simp only
    unfold sanitize_layer_count
    split_ifs <;> first
      | exact Or.inr (Or.inl rfl)
      | exact Or.inr (Or.inr ⟨by omega, Or.inl rfl⟩)
      | exact Or.inr (Or.inr ⟨by omega, Or.inr (Or.inl rfl)⟩)
      | exact Or.inr (Or.inr ⟨by omega, Or.inr (Or.inr (Or.inl rfl))⟩)
      | exact Or.inr (Or.inr ⟨by omega, Or.inr (Or.inr (Or.inr rfl))⟩)

theorem set_cap_max_same (inst : msm_vidc_inst) (c : Nat) (v : Int) :
    ((set_cap_max inst c v).cap c).max = v ∧
    ((set_cap_max inst c v).cap c).value = (inst.cap c).value ∧
    ((set_cap_max inst c v).cap c).min = (inst.cap c).min := by
  simp [set_cap_max]

/-- A 32-bit unsigned field read into a signed variable equals a constant
below 2^31 exactly when the field holds that constant. -/
theorem to_s32_eq_const (t c : Nat) (ht : t < 4294967296) (hc : c < 2147483648) :
    to_s32 (t : Int) = (c : Int) ↔ t = c := by
  unfold to_s32
  split_ifs <;> omega

/-- With LTR_COUNT declared as parent, `msm_vidc_adjust_use_ltr` in closed
form. -/
theorem adjust_use_ltr_eq (k : header_constants) (inst : msm_vidc_inst)
    (ctrl : Option v4l2_ctrl)
    (hav : is_parent_available inst k.USE_LTR k.LTR_COUNT = true)
    (hd1 : k.LTR_COUNT ≠ k.BITRATE_MODE) (hd2 : k.LTR_COUNT ≠ k.LAYER_TYPE) :
    msm_vidc_adjust_use_ltr k inst ctrl =
      if (inst.cap k.LTR_COUNT).value = 0 then
        (0, msm_vidc_update_cap_value inst k.USE_LTR 0)
      else if requested_value inst ctrl k.USE_LTR ≤ 0 ∨
          requested_value inst ctrl k.USE_LTR ≥ shl_s32 1 (inst.cap k.LTR_COUNT).value then
        (-EINVAL, inst)
      else (0, msm_vidc_update_cap_value inst k.USE_LTR (requested_value inst ctrl k.USE_LTR)) := by
  unfold msm_vidc_adjust_use_ltr
  simp only [get_parent_value_plain k inst _ _ _ hav hd1 hd2, ne_eq, not_true_eq_false, if_false]

/-- With LTR_COUNT declared as parent, `msm_vidc_adjust_mark_ltr` in closed
form. -/
theorem adjust_mark_ltr_eq (k : header_constants) (inst : msm_vidc_inst)
    (ctrl : Option v4l2_ctrl)
    (hav : is_parent_available inst k.MARK_LTR k.LTR_COUNT = true)
    (hd1 : k.LTR_COUNT ≠ k.BITRATE_MODE) (hd2 : k.LTR_COUNT ≠ k.LAYER_TYPE) :
    msm_vidc_adjust_mark_ltr k inst ctrl =
      if (inst.cap k.LTR_COUNT).value = 0 then
        (0, msm_vidc_update_cap_value inst k.MARK_LTR 0)
      else if requested_value inst ctrl k.MARK_LTR < 0 ∨
          requested_value inst ctrl k.MARK_LTR > to_s32 ((inst.cap k.LTR_COUNT).value - 1) then
        (-EINVAL, inst)
      else (0, msm_vidc_update_cap_value inst k.MARK_LTR (requested_value inst ctrl k.MARK_LTR)) := by
  unfold msm_vidc_adjust_mark_ltr
  simp only [get_parent_value_plain k inst _ _ _ hav hd1 hd2, ne_eq, not_true_eq_false, if_false]

/-- The error return of an adjust rule is not the success code. -/
theorem einval_ne_zero (inst : msm_vidc_inst) : ((-EINVAL, inst) : Int × msm_vidc_inst).1 ≠ 0 := by
  show -EINVAL ≠ 0
  decide

/-! ## Closed forms of the adjust rules -/

/-- With ENH_LAYER_COUNT declared as parent, `msm_vidc_adjust_gop_size`
succeeds and stores the requested value, calibrated when the layer count is
not 0 and the layer type is a P type. -/
theorem adjust_gop_size_eq (k : header_constants) (inst : msm_vidc_inst)
    (ctrl : Option v4l2_ctrl)
    (hav : is_parent_available inst k.GOP_SIZE k.ENH_LAYER_COUNT = true)
    (hd1 : k.ENH_LAYER_COUNT ≠ k.BITRATE_MODE) (hd2 : k.ENH_LAYER_COUNT ≠ k.LAYER_TYPE) :
    msm_vidc_adjust_gop_size k inst ctrl =
      (0, msm_vidc_update_cap_value inst k.GOP_SIZE
        (if (inst.cap k.ENH_LAYER_COUNT).value = 0 then requested_value inst ctrl k.GOP_SIZE
         else if inst.hfi_layer_type = k.HFI_HIER_P_SLIDING_WINDOW ∨
             inst.hfi_layer_type = k.HFI_HIER_P_HYBRID_LTR then
           calibrate_gop_size (inst.cap k.ENH_LAYER_COUNT).value
             (requested_value inst ctrl k.GOP_SIZE)
         else requested_value inst ctrl k.GOP_SIZE)) := by
  unfold msm_vidc_adjust_gop_size
  simp only [get_parent_value_plain k inst _ _ _ hav hd1 hd2, ne_eq, not_true_eq_false, if_false]
  split_ifs <;> rfl

/-- With ENH_LAYER_COUNT declared as parent, the static-phase
`msm_vidc_adjust_b_frame` succeeds and stores 0 or the capped value. -/
theorem adjust_b_frame_eq (k : header_constants) (inst : msm_vidc_inst)
    (ctrl : Option v4l2_ctrl) (hs : inst.streaming = false)
    (hav : is_parent_available inst k.B_FRAME k.ENH_LAYER_COUNT = true)
    (hd1 : k.ENH_LAYER_COUNT ≠ k.BITRATE_MODE) (hd2 : k.ENH_LAYER_COUNT ≠ k.LAYER_TYPE) :
    msm_vidc_adjust_b_frame k inst ctrl =
      (0, msm_vidc_update_cap_value inst k.B_FRAME
        (if (inst.cap k.ENH_LAYER_COUNT).value = 0 ∨ inst.hfi_layer_type ≠ k.HFI_HIER_B then 0
         else b_frame_from_layers (inst.cap k.ENH_LAYER_COUNT).value)) := by
  unfold msm_vidc_adjust_b_frame
  simp only [hs, Bool.false_eq_true, if_false,
    get_parent_value_plain k inst _ _ _ hav hd1 hd2, ne_eq, not_true_eq_false]
  split_ifs <;> rfl

/-! ## Claims C11 to C20 -/

/-- The range of the stored value after `msm_vidc_adjust_layer_count` and
`msm_vidc_adjust_gop_size`, in terms of the value the rule starts from. -/
theorem layer_count_and_gop_size_range_of_request (k : header_constants) (inst : msm_vidc_inst)
    (ctrl : Option v4l2_ctrl) :
    ((inst.cap k.ENH_LAYER_COUNT).min ≤ requested_value inst ctrl k.ENH_LAYER_COUNT →
      requested_value inst ctrl k.ENH_LAYER_COUNT ≤ (inst.cap k.ENH_LAYER_COUNT).max →
      (inst.cap k.ENH_LAYER_COUNT).min ≤ (inst.cap k.ENH_LAYER_COUNT).value →
      (inst.cap k.ENH_LAYER_COUNT).value ≤ (inst.cap k.ENH_LAYER_COUNT).max →
      (inst.cap k.ENH_LAYER_COUNT).min ≤ k.MAX_ENH_LAYER_HB →
      (inst.cap k.ENH_LAYER_COUNT).min ≤ k.MAX_AVC_ENH_LAYER_HYBRID_HP →
      (inst.cap k.ENH_LAYER_COUNT).min ≤ k.MAX_AVC_ENH_LAYER_SLIDING_WINDOW →
      (inst.cap k.ENH_LAYER_COUNT).min ≤ k.MAX_HEVC_ENH_LAYER_SLIDING_WINDOW →
      (msm_vidc_adjust_layer_count k inst ctrl).1 = 0 →
      ((msm_vidc_adjust_layer_count k inst ctrl).2.cap k.ENH_LAYER_COUNT).min
        = (inst.cap k.ENH_LAYER_COUNT).min ∧
      ((msm_vidc_adjust_layer_count k inst ctrl).2.cap k.ENH_LAYER_COUNT).value
        ≤ ((msm_vidc_adjust_layer_count k inst ctrl).2.cap k.ENH_LAYER_COUNT).max ∧
      (((msm_vidc_adjust_layer_count k inst ctrl).2.cap k.ENH_LAYER_COUNT).value = 0 ∨
        ((inst.cap k.ENH_LAYER_COUNT).min
            ≤ ((msm_vidc_adjust_layer_count k inst ctrl).2.cap k.ENH_LAYER_COUNT).value ∧
          ((msm_vidc_adjust_layer_count k inst ctrl).2.cap k.ENH_LAYER_COUNT).value
            ≤ (inst.cap k.ENH_LAYER_COUNT).max))) ∧
    (is_parent_available inst k.GOP_SIZE k.ENH_LAYER_COUNT = true →
      k.ENH_LAYER_COUNT ≠ k.BITRATE_MODE → k.ENH_LAYER_COUNT ≠ k.LAYER_TYPE →
      (inst.cap k.GOP_SIZE).min ≤ requested_value inst ctrl k.GOP_SIZE →
      requested_value inst ctrl k.GOP_SIZE ≤ (inst.cap k.GOP_SIZE).max →
      (msm_vidc_adjust_gop_size k inst ctrl).1 = 0 ∧
      ((msm_vidc_adjust_gop_size k inst ctrl).2.cap k.GOP_SIZE).min = (inst.cap k.GOP_SIZE).min ∧
      ((msm_vidc_adjust_gop_size k inst ctrl).2.cap k.GOP_SIZE).max = (inst.cap k.GOP_SIZE).max ∧
      (((inst.cap k.ENH_LAYER_COUNT).value = 0 ∨
          ¬ (inst.hfi_layer_type = k.HFI_HIER_P_SLIDING_WINDOW ∨
            inst.hfi_layer_type = k.HFI_HIER_P_HYBRID_LTR)) →
        ((msm_vidc_adjust_gop_size k inst ctrl).2.cap k.GOP_SIZE).value
          = requested_value inst ctrl k.GOP_SIZE) ∧
      ((inst.hfi_layer_type = k.HFI_HIER_P_SLIDING_WINDOW ∨
          inst.hfi_layer_type = k.HFI_HIER_P_HYBRID_LTR) →
        1 ≤ (inst.cap k.ENH_LAYER_COUNT).value → (inst.cap k.ENH_LAYER_COUNT).value ≤ 30 →
        0 ≤ requested_value inst ctrl k.GOP_SIZE →
        requested_value inst ctrl k.GOP_SIZE
          + 2 ^ ((inst.cap k.ENH_LAYER_COUNT).value - 1).toNat ≤ 2147483647 →
        ((msm_vidc_adjust_gop_size k inst ctrl).2.cap k.GOP_SIZE).value
          % 2 ^ (inst.cap k.ENH_LAYER_COUNT).value.toNat = 0 ∧
        (((msm_vidc_adjust_gop_size k inst ctrl).2.cap k.GOP_SIZE).value
            = 2 ^ (inst.cap k.ENH_LAYER_COUNT).value.toNat ∨
          ((inst.cap k.GOP_SIZE).min - 2 ^ ((inst.cap k.ENH_LAYER_COUNT).value - 1).toNat
              < ((msm_vidc_adjust_gop_size k inst ctrl).2.cap k.GOP_SIZE).value ∧
            ((msm_vidc_adjust_gop_size k inst ctrl).2.cap k.GOP_SIZE).value
              ≤ (inst.cap k.GOP_SIZE).max
                + 2 ^ ((inst.cap k.ENH_LAYER_COUNT).value - 1).toNat)))) := by
  constructor
  · intro hlo hhi hvlo hvhi c1 c2 c3 c4 hok
    unfold msm_vidc_adjust_layer_count at hok ⊢
    by_cases hav : is_parent_available inst k.ENH_LAYER_COUNT k.BITRATE_MODE = false
    · rw [if_pos hav] at hok
      simp [EINVAL] at hok
    · rw [if_neg hav]
      by_cases hs : inst.streaming = false
      · rw [if_pos hs]
        unfold msm_vidc_adjust_static_layer_count_and_type
        obtain ⟨hcap, hcases⟩ := static_layer_resolve_cases k inst
          (requested_value inst ctrl k.ENH_LAYER_COUNT)
        generalize static_layer_resolve k inst (requested_value inst ctrl k.ENH_LAYER_COUNT)
          = r at hcap hcases
        simp only
        obtain ⟨m1, m2, m3⟩ := set_cap_max_same
          (msm_vidc_update_cap_value r.1 k.ENH_LAYER_COUNT r.2) k.ENH_LAYER_COUNT r.2
        obtain ⟨u1, u2, -, -⟩ := update_cap_value_same r.1 k.ENH_LAYER_COUNT r.2
        rw [m1, m2, m3, u1, u2, hcap]
        refine ⟨rfl, le_refl _, ?_⟩
        rcases hcases with h | h | ⟨hlt, h | h | h | h⟩
        · exact Or.inl h
        · exact Or.inr ⟨by omega, by omega⟩
        · exact Or.inr ⟨by omega, by omega⟩
        · exact Or.inr ⟨by omega, by omega⟩
        · exact Or.inr ⟨by omega, by omega⟩
        · exact Or.inr ⟨by omega, by omega⟩
      · rw [if_neg hs]
        by_cases hp : inst.hfi_layer_type = k.HFI_HIER_P_HYBRID_LTR ∨
            inst.hfi_layer_type = k.HFI_HIER_P_SLIDING_WINDOW
        · rw [if_pos hp]
          simp only
          obtain ⟨u1, u2, u3, -⟩ := update_cap_value_same inst k.ENH_LAYER_COUNT
            (if requested_value inst ctrl k.ENH_LAYER_COUNT > (inst.cap k.ENH_LAYER_COUNT).max
              then (inst.cap k.ENH_LAYER_COUNT).max
              else requested_value inst ctrl k.ENH_LAYER_COUNT)
          rw [u1, u2, u3]
          refine ⟨rfl, ?_, Or.inr ?_⟩
          · split_ifs <;> omega
          · split_ifs <;> constructor <;> omega
        · rw [if_neg hp]
          exact ⟨rfl, hvhi, Or.inr ⟨hvlo, hvhi⟩⟩
  · intro hav hd1 hd2 hlo hhi
    rw [adjust_gop_size_eq k inst ctrl hav hd1 hd2]
    simp only
    obtain ⟨u1, u2, u3, -⟩ := update_cap_value_same inst k.GOP_SIZE
      (if (inst.cap k.ENH_LAYER_COUNT).value = 0 then requested_value inst ctrl k.GOP_SIZE
       else if inst.hfi_layer_type = k.HFI_HIER_P_SLIDING_WINDOW ∨
           inst.hfi_layer_type = k.HFI_HIER_P_HYBRID_LTR then
         calibrate_gop_size (inst.cap k.ENH_LAYER_COUNT).value
           (requested_value inst ctrl k.GOP_SIZE)
       else requested_value inst ctrl k.GOP_SIZE)
    rw [u1, u2, u3]
    refine ⟨trivial, rfl, rfl, ?_, ?_⟩
    · intro h
      rcases h with h | h
      · rw [if_pos h]
      · split_ifs <;> rfl
    · intro hp h1 h30 hg hfit
      rw [if_neg (by omega), if_pos hp]
      obtain ⟨n1, n2, n3, n4⟩ := calibrate_gop_size_nearest _ _ h1 h30 hg hfit
      refine ⟨n1, ?_⟩
      by_cases hsmall : requested_value inst ctrl k.GOP_SIZE
          < 2 ^ ((inst.cap k.ENH_LAYER_COUNT).value - 1).toNat
      · exact Or.inl (n3 hsmall)
      · obtain ⟨-, b1, b2⟩ := n4 (by omega)
        exact Or.inr ⟨by omega, by omega⟩

/-- C12: with ENH_LAYER_COUNT declared as parent of GOP_SIZE and a layer
count 0 <= n <= 30, for every layer type and every requested GOP size,
`msm_vidc_adjust_gop_size` succeeds, and running it again on the value it
stored (passed as the control value or read from the capability) succeeds and
stores the same value. -/
theorem adjust_gop_size_idempotent (k : header_constants) (inst : msm_vidc_inst)
    (ctrl ctrl2 : Option v4l2_ctrl)
    (hav : is_parent_available inst k.GOP_SIZE k.ENH_LAYER_COUNT = true)
    (hd1 : k.ENH_LAYER_COUNT ≠ k.BITRATE_MODE) (hd2 : k.ENH_LAYER_COUNT ≠ k.LAYER_TYPE)
    (hd3 : k.ENH_LAYER_COUNT ≠ k.GOP_SIZE)
    (h0 : 0 ≤ (inst.cap k.ENH_LAYER_COUNT).value)
    (h30 : (inst.cap k.ENH_LAYER_COUNT).value ≤ 30)
    (hctrl2 : ∀ c, ctrl2 = some c →
      c.val = ((msm_vidc_adjust_gop_size k inst ctrl).2.cap k.GOP_SIZE).value) :
    (msm_vidc_adjust_gop_size k inst ctrl).1 = 0 ∧
    (msm_vidc_adjust_gop_size k (msm_vidc_adjust_gop_size k inst ctrl).2 ctrl2).1 = 0 ∧
    ((msm_vidc_adjust_gop_size k (msm_vidc_adjust_gop_size k inst ctrl).2 ctrl2).2.cap
        k.GOP_SIZE).value
      = ((msm_vidc_adjust_gop_size k inst ctrl).2.cap k.GOP_SIZE).value := by
  have hreq : requested_value (msm_vidc_adjust_gop_size k inst ctrl).2 ctrl2 k.GOP_SIZE
      = ((msm_vidc_adjust_gop_size k inst ctrl).2.cap k.GOP_SIZE).value := by
    cases ctrl2 with
    | none => rfl
    | some c => exact hctrl2 c rfl
  rw [adjust_gop_size_eq k inst ctrl hav hd1 hd2] at hreq ⊢
  simp only at hreq ⊢
  generalize hr : (if (inst.cap k.ENH_LAYER_COUNT).value = 0 then
      requested_value inst ctrl k.GOP_SIZE
    else if inst.hfi_layer_type = k.HFI_HIER_P_SLIDING_WINDOW ∨
        inst.hfi_layer_type = k.HFI_HIER_P_HYBRID_LTR then
      calibrate_gop_size (inst.cap k.ENH_LAYER_COUNT).value
        (requested_value inst ctrl k.GOP_SIZE)
    else requested_value inst ctrl k.GOP_SIZE) = r at hreq ⊢
  have hav2 : is_parent_available (msm_vidc_update_cap_value inst k.GOP_SIZE r) k.GOP_SIZE
      k.ENH_LAYER_COUNT = true := by
    rw [is_parent_available_update]; exact hav
  have hn : ((msm_vidc_update_cap_value inst k.GOP_SIZE r).cap k.ENH_LAYER_COUNT).value
      = (inst.cap k.ENH_LAYER_COUNT).value := by
    rw [update_cap_value_other inst k.GOP_SIZE k.ENH_LAYER_COUNT r hd3]
  have hl : (msm_vidc_update_cap_value inst k.GOP_SIZE r).hfi_layer_type
      = inst.hfi_layer_type := rfl
  have hstored : ((msm_vidc_update_cap_value inst k.GOP_SIZE r).cap k.GOP_SIZE).value = r :=
    (update_cap_value_same inst k.GOP_SIZE r).1
  rw [adjust_gop_size_eq k _ ctrl2 hav2 hd1 hd2]
  simp only
  rw [(update_cap_value_same _ k.GOP_SIZE _).1, hn, hl, hreq, hstored]
  refine ⟨trivial, trivial, ?_⟩
  by_cases hz : (inst.cap k.ENH_LAYER_COUNT).value = 0
  · rw [if_pos hz]
  · rw [if_neg hz]
    by_cases hp : inst.hfi_layer_type = k.HFI_HIER_P_SLIDING_WINDOW ∨
        inst.hfi_layer_type = k.HFI_HIER_P_HYBRID_LTR
    · rw [if_pos hp]
      rw [if_neg hz, if_pos hp] at hr
      rw [← hr]
      exact calibrate_gop_size_idem _ _ (by omega) h30
    · rw [if_neg hp]

/-- Witness for C12: layer count 3 under sliding-window P layering, requested
GOP size 100; the value 104 is stored, and stored again on a second run. -/
theorem adjust_gop_size_idempotent_witness :
    ((msm_vidc_adjust_gop_size consts_sample
        (msm_vidc_update_cap_value (inst_encoder false 1 1) 7 3) (some ⟨108, 100⟩)).2.cap 8).value
      = 104 ∧
    ((msm_vidc_adjust_gop_size consts_sample
        (msm_vidc_adjust_gop_size consts_sample
          (msm_vidc_update_cap_value (inst_encoder false 1 1) 7 3) (some ⟨108, 100⟩)).2
        none).2.cap 8).value
      = ((msm_vidc_adjust_gop_size consts_sample
        (msm_vidc_update_cap_value (inst_encoder false 1 1) 7 3) (some ⟨108, 100⟩)).2.cap 8).value :=
  ⟨by decide,
    (adjust_gop_size_idempotent consts_sample
      (msm_vidc_update_cap_value (inst_encoder false 1 1) 7 3) (some ⟨108, 100⟩) none
      (by decide) (by decide) (by decide) (by decide) (by decide) (by decide)
      (fun c h => by simp at h)).2.2⟩

/-- Counterexample to C13 as stated, under sliding-window P layering. With
layer count 1 and requested GOP size 2147483647 the sum g + 2^0 fits 32 bits,
and the value stored is -2147483648, not a positive multiple of 2. With layer
count 31 and requested GOP size 0 the sum 0 + 2^30 fits 32 bits, and the value
stored is again -2147483648, not 2^31. -/
theorem adjust_gop_size_wraps :
    (2147483647 : Int) + 2 ^ (1 - 1) < 4294967296 ∧
    ((msm_vidc_adjust_gop_size consts_sample
        (msm_vidc_update_cap_value (inst_encoder false 1 1) 7 1)
        (some ⟨108, 2147483647⟩)).2.cap 8).value = -2147483648 ∧
    (0 : Int) + 2 ^ (31 - 1) < 2147483648 ∧
    ((msm_vidc_adjust_gop_size consts_sample
        (msm_vidc_update_cap_value (inst_encoder false 1 1) 7 31)
        (some ⟨108, 0⟩)).2.cap 8).value = -2147483648 := by
  decide

/-- C13, amended: with ENH_LAYER_COUNT declared as parent, under P layering,
`msm_vidc_adjust_gop_size` succeeds. Let g be the requested GOP size, which
is `ctrl->val` when a control is passed and the stored GOP_SIZE value for the
NULL control. For a layer count 0 the rule stores g; for 1 <= n <= 30 and
0 <= g with g + 2^(n-1) <= 2^31 - 1 it stores a positive multiple r of 2^n
with r = 2^n when g < 2^(n-1) and otherwise
r = floor((g + 2^(n-1)) / 2^n) * 2^n, so that g - 2^(n-1) < r <= g + 2^(n-1)
and a tie goes up. -/
theorem adjust_gop_size_rounds_to_nearest (k : header_constants) (inst : msm_vidc_inst)
    (ctrl : Option v4l2_ctrl) (g : Int)
    (hsome : ∀ c, ctrl = some c → g = c.val)
    (hnone : ctrl = none → g = (inst.cap k.GOP_SIZE).value)
    (hav : is_parent_available inst k.GOP_SIZE k.ENH_LAYER_COUNT = true)
    (hd1 : k.ENH_LAYER_COUNT ≠ k.BITRATE_MODE) (hd2 : k.ENH_LAYER_COUNT ≠ k.LAYER_TYPE)
    (hp : inst.hfi_layer_type = k.HFI_HIER_P_SLIDING_WINDOW ∨
      inst.hfi_layer_type = k.HFI_HIER_P_HYBRID_LTR) :
    (msm_vidc_adjust_gop_size k inst ctrl).1 = 0 ∧
    ((inst.cap k.ENH_LAYER_COUNT).value = 0 →
      ((msm_vidc_adjust_gop_size k inst ctrl).2.cap k.GOP_SIZE).value = g) ∧
    (1 ≤ (inst.cap k.ENH_LAYER_COUNT).value → (inst.cap k.ENH_LAYER_COUNT).value ≤ 30 →
      0 ≤ g →
      g + 2 ^ ((inst.cap k.ENH_LAYER_COUNT).value - 1).toNat ≤ 2147483647 →
      ((msm_vidc_adjust_gop_size k inst ctrl).2.cap k.GOP_SIZE).value
        % 2 ^ (inst.cap k.ENH_LAYER_COUNT).value.toNat = 0 ∧
      0 < ((msm_vidc_adjust_gop_size k inst ctrl).2.cap k.GOP_SIZE).value ∧
      (g < 2 ^ ((inst.cap k.ENH_LAYER_COUNT).value - 1).toNat →
        ((msm_vidc_adjust_gop_size k inst ctrl).2.cap k.GOP_SIZE).value
          = 2 ^ (inst.cap k.ENH_LAYER_COUNT).value.toNat) ∧
      (2 ^ ((inst.cap k.ENH_LAYER_COUNT).value - 1).toNat ≤ g →
        ((msm_vidc_adjust_gop_size k inst ctrl).2.cap k.GOP_SIZE).value
          = (g + 2 ^ ((inst.cap k.ENH_LAYER_COUNT).value - 1).toNat)
            / 2 ^ (inst.cap k.ENH_LAYER_COUNT).value.toNat
            * 2 ^ (inst.cap k.ENH_LAYER_COUNT).value.toNat ∧
        g - 2 ^ ((inst.cap k.ENH_LAYER_COUNT).value - 1).toNat
          < ((msm_vidc_adjust_gop_size k inst ctrl).2.cap k.GOP_SIZE).value ∧
        ((msm_vidc_adjust_gop_size k inst ctrl).2.cap k.GOP_SIZE).value
          ≤ g + 2 ^ ((inst.cap k.ENH_LAYER_COUNT).value - 1).toNat)) := by
  have hv : requested_value inst ctrl k.GOP_SIZE = g := by
    cases ctrl with
    | none => exact (hnone rfl).symm
    | some c => exact (hsome c rfl).symm
  subst hv
  rw [adjust_gop_size_eq k inst ctrl hav hd1 hd2]
  simp only
  rw [(update_cap_value_same inst k.GOP_SIZE _).1]
  refine ⟨trivial, fun hz => by rw [if_pos hz], ?_⟩
  intro h1 h30 hg hfit
  rw [if_neg (by omega), if_pos hp]
  exact calibrate_gop_size_nearest _ _ h1 h30 hg hfit

/-- Witness for C13 amended, under sliding-window P layering. With layer
count 3 the control value 100 is stored as 104 = floor(104 / 8) * 8 over the
stored 30, the control value 3 is stored as 8, and with the NULL control the
stored 100 becomes 104; with layer count 0 the control value 100 is stored as
it is.
The last line evaluates the return code and the stored value of each run. -/
theorem adjust_gop_size_rounds_to_nearest_witness :
    ((msm_vidc_adjust_gop_size consts_sample
        (msm_vidc_update_cap_value (inst_encoder false 1 1) 7 3) (some ⟨108, 100⟩)).2.cap 8).value
      = 104 ∧
    ((msm_vidc_adjust_gop_size consts_sample
        (msm_vidc_update_cap_value (inst_encoder false 1 1) 7 3) (some ⟨108, 3⟩)).2.cap 8).value
      = 8 ∧
    ((msm_vidc_adjust_gop_size consts_sample
        (msm_vidc_update_cap_value (msm_vidc_update_cap_value (inst_encoder false 1 1) 7 3)
          8 100) none).2.cap 8).value = 104 ∧
    ((msm_vidc_adjust_gop_size consts_sample (inst_encoder false 1 1)
        (some ⟨108, 100⟩)).2.cap 8).value = 100 ∧
    [((msm_vidc_adjust_gop_size consts_sample (msm_vidc_update_cap_value (inst_encoder false 1 1) 7 3) (some ⟨108, 100⟩)).1,
        ((msm_vidc_adjust_gop_size consts_sample (msm_vidc_update_cap_value (inst_encoder false 1 1) 7 3) (some ⟨108, 100⟩)).2.cap 8).value),
      ((msm_vidc_adjust_gop_size consts_sample (msm_vidc_update_cap_value (inst_encoder false 1 1) 7 3) (some ⟨108, 3⟩)).1,
        ((msm_vidc_adjust_gop_size consts_sample (msm_vidc_update_cap_value (inst_encoder false 1 1) 7 3) (some ⟨108, 3⟩)).2.cap 8).value),
      ((msm_vidc_adjust_gop_size consts_sample (msm_vidc_update_cap_value (msm_vidc_update_cap_value (inst_encoder false 1 1) 7 3) 8 100) none).1,
        ((msm_vidc_adjust_gop_size consts_sample (msm_vidc_update_cap_value (msm_vidc_update_cap_value (inst_encoder false 1 1) 7 3) 8 100) none).2.cap 8).value),
      ((msm_vidc_adjust_gop_size consts_sample (inst_encoder false 1 1) (some ⟨108, 100⟩)).1,
        ((msm_vidc_adjust_gop_size consts_sample (inst_encoder false 1 1) (some ⟨108, 100⟩)).2.cap 8).value)]
      = [(0, 104), (0, 8), (0, 104), (0, 100)] :=
  ⟨(((adjust_gop_size_rounds_to_nearest consts_sample
      (msm_vidc_update_cap_value (inst_encoder false 1 1) 7 3) (some ⟨108, 100⟩) 100
      (fun c h => by cases h; rfl) (fun h => by cases h)
      (by decide) (by decide) (by decide) (by decide)).2.2
      (by decide) (by decide) (by decide) (by decide)).2.2.2 (by decide)).1.trans (by decide),
   (((adjust_gop_size_rounds_to_nearest consts_sample
      (msm_vidc_update_cap_value (inst_encoder false 1 1) 7 3) (some ⟨108, 3⟩) 3
      (fun c h => by cases h; rfl) (fun h => by cases h)
      (by decide) (by decide) (by decide) (by decide)).2.2
      (by decide) (by decide) (by decide) (by decide)).2.2.1 (by decide)).trans (by decide),
   (((adjust_gop_size_rounds_to_nearest consts_sample
      (msm_vidc_update_cap_value (msm_vidc_update_cap_value (inst_encoder false 1 1) 7 3)
        8 100) none 100
      (fun c h => by cases h) (fun _ => by decide)
      (by decide) (by decide) (by decide) (by decide)).2.2
      (by decide) (by decide) (by decide) (by decide)).2.2.2 (by decide)).1.trans (by decide),
   (adjust_gop_size_rounds_to_nearest consts_sample (inst_encoder false 1 1)
      (some ⟨108, 100⟩) 100
      (fun c h => by cases h; rfl) (fun h => by cases h)
      (by decide) (by decide) (by decide) (by decide)).2.1 (by decide),
   by decide⟩

/-- C14: for a non-streaming session with ENH_LAYER_COUNT declared as parent
of B_FRAME and a non-negative layer count, `msm_vidc_adjust_b_frame` succeeds
for every requested value and stores one of 0, 1, 3, 7. -/
theorem adjust_b_frame_values (k : header_constants) (inst : msm_vidc_inst)
    (ctrl : Option v4l2_ctrl) (hs : inst.streaming = false)
    (hav : is_parent_available inst k.B_FRAME k.ENH_LAYER_COUNT = true)
    (hd1 : k.ENH_LAYER_COUNT ≠ k.BITRATE_MODE) (hd2 : k.ENH_LAYER_COUNT ≠ k.LAYER_TYPE)
    (_h0 : 0 ≤ (inst.cap k.ENH_LAYER_COUNT).value) :
    (msm_vidc_adjust_b_frame k inst ctrl).1 = 0 ∧
    (((msm_vidc_adjust_b_frame k inst ctrl).2.cap k.B_FRAME).value = 0 ∨
     ((msm_vidc_adjust_b_frame k inst ctrl).2.cap k.B_FRAME).value = 1 ∨
     ((msm_vidc_adjust_b_frame k inst ctrl).2.cap k.B_FRAME).value = 3 ∨
     ((msm_vidc_adjust_b_frame k inst ctrl).2.cap k.B_FRAME).value = 7) := by
  rw [adjust_b_frame_eq k inst ctrl hs hav hd1 hd2]
  simp only
  rw [(update_cap_value_same inst k.B_FRAME _).1]
  refine ⟨trivial, ?_⟩
  split_ifs
  · exact Or.inl rfl
  · exact Or.inr (b_frame_from_layers_values _)

/-- Witness for C14: hierarchical-B layering with layer count 1 and a
requested value 5; the value stored is 3. -/
theorem adjust_b_frame_values_witness :
    ((msm_vidc_adjust_b_frame consts_sample
        (msm_vidc_update_cap_value (inst_encoder false 0 3) 7 1) (some ⟨109, 5⟩)).2.cap 9).value
      = 3 ∧
    (((msm_vidc_adjust_b_frame consts_sample
        (msm_vidc_update_cap_value (inst_encoder false 0 3) 7 1) (some ⟨109, 5⟩)).2.cap 9).value
      = 0 ∨
     ((msm_vidc_adjust_b_frame consts_sample
        (msm_vidc_update_cap_value (inst_encoder false 0 3) 7 1) (some ⟨109, 5⟩)).2.cap 9).value
      = 1 ∨
     ((msm_vidc_adjust_b_frame consts_sample
        (msm_vidc_update_cap_value (inst_encoder false 0 3) 7 1) (some ⟨109, 5⟩)).2.cap 9).value
      = 3 ∨
     ((msm_vidc_adjust_b_frame consts_sample
        (msm_vidc_update_cap_value (inst_encoder false 0 3) 7 1) (some ⟨109, 5⟩)).2.cap 9).value
      = 7) :=
  ⟨by decide,
    (adjust_b_frame_values consts_sample
      (msm_vidc_update_cap_value (inst_encoder false 0 3) 7 1) (some ⟨109, 5⟩)
      (by decide) (by decide) (by decide) (by decide) (by decide)).2⟩

/-- Counterexample to C15 as stated: the resolved layer type is
hierarchical-B and the layer count is 0. The static-phase
`msm_vidc_adjust_b_frame` succeeds and stores 0, while
min((2 << 0) - 1, 7) is 1. -/
theorem adjust_b_frame_zero_layers :
    (inst_encoder false 0 3).streaming = false ∧
    (inst_encoder false 0 3).hfi_layer_type = consts_sample.HFI_HIER_B ∧
    ((inst_encoder false 0 3).cap consts_sample.ENH_LAYER_COUNT).value = 0 ∧
    (msm_vidc_adjust_b_frame consts_sample (inst_encoder false 0 3) none).1 = 0 ∧
    ((msm_vidc_adjust_b_frame consts_sample (inst_encoder false 0 3) none).2.cap
        consts_sample.B_FRAME).value = 0 ∧
    min (shl_s32 2 0 - 1) 7 = 1 := by
  decide

/-- C15, amended: for a non-streaming session with ENH_LAYER_COUNT declared
as parent of B_FRAME, `msm_vidc_adjust_b_frame` succeeds whatever the client
requested; it stores 0 when the resolved layer type is not hierarchical-B or
the layer count is 0, and for hierarchical-B with a layer count
1 <= n <= 31 it stores min(2^(n+1) - 1, 7). -/
theorem adjust_b_frame_value (k : header_constants) (inst : msm_vidc_inst)
    (ctrl : Option v4l2_ctrl) (hs : inst.streaming = false)
    (hav : is_parent_available inst k.B_FRAME k.ENH_LAYER_COUNT = true)
    (hd1 : k.ENH_LAYER_COUNT ≠ k.BITRATE_MODE) (hd2 : k.ENH_LAYER_COUNT ≠ k.LAYER_TYPE) :
    (msm_vidc_adjust_b_frame k inst ctrl).1 = 0 ∧
    ((inst.hfi_layer_type ≠ k.HFI_HIER_B ∨ (inst.cap k.ENH_LAYER_COUNT).value = 0) →
      ((msm_vidc_adjust_b_frame k inst ctrl).2.cap k.B_FRAME).value = 0) ∧
    (inst.hfi_layer_type = k.HFI_HIER_B → 1 ≤ (inst.cap k.ENH_LAYER_COUNT).value →
      (inst.cap k.ENH_LAYER_COUNT).value ≤ 31 →
      ((msm_vidc_adjust_b_frame k inst ctrl).2.cap k.B_FRAME).value
        = min (2 ^ ((inst.cap k.ENH_LAYER_COUNT).value.toNat + 1) - 1) 7) := by
  rw [adjust_b_frame_eq k inst ctrl hs hav hd1 hd2]
  simp only
  rw [(update_cap_value_same inst k.B_FRAME _).1]
  refine ⟨trivial, ?_, ?_⟩
  · intro h
    rw [if_pos (by tauto)]
  · intro hb h1 h31
    rw [if_neg (by
      intro h
      rcases h with h | h
      · omega
      · exact h hb)]
    exact b_frame_from_layers_eq _ h1 h31

/-- Witness for C15 amended: hierarchical-B layering with layer count 1; the
value stored is min(2^2 - 1, 7) = 3. -/
theorem adjust_b_frame_value_witness :
    ((msm_vidc_adjust_b_frame consts_sample
        (msm_vidc_update_cap_value (inst_encoder false 0 3) 7 1) (some ⟨109, 5⟩)).2.cap 9).value
      = min (2 ^ ((1 : Int).toNat + 1) - 1) 7 :=
  (adjust_b_frame_value consts_sample
    (msm_vidc_update_cap_value (inst_encoder false 0 3) 7 1) (some ⟨109, 5⟩)
    (by decide) (by decide) (by decide) (by decide)).2.2 (by decide) (by decide) (by decide)

/-- C16: with LTR_COUNT declared as parent of USE_LTR and a requested value
v, which is `ctrl->val` when a control is passed and the stored USE_LTR value
for the NULL control: when ltr_count = 0, `msm_vidc_adjust_use_ltr` succeeds
and stores 0; when 1 <= ltr_count <= 30, it returns an error (-EINVAL,
nothing stored) if and only if v <= 0 or v >= 2^ltr_count, and otherwise
succeeds and stores v. -/
theorem adjust_use_ltr_accepts_iff (k : header_constants) (inst : msm_vidc_inst)
    (ctrl : Option v4l2_ctrl) (v : Int)
    (hsome : ∀ c, ctrl = some c → v = c.val)
    (hnone : ctrl = none → v = (inst.cap k.USE_LTR).value)
    (hav : is_parent_available inst k.USE_LTR k.LTR_COUNT = true)
    (hd1 : k.LTR_COUNT ≠ k.BITRATE_MODE) (hd2 : k.LTR_COUNT ≠ k.LAYER_TYPE) :
    ((inst.cap k.LTR_COUNT).value = 0 →
      (msm_vidc_adjust_use_ltr k inst ctrl).1 = 0 ∧
      ((msm_vidc_adjust_use_ltr k inst ctrl).2.cap k.USE_LTR).value = 0) ∧
    (1 ≤ (inst.cap k.LTR_COUNT).value → (inst.cap k.LTR_COUNT).value ≤ 30 →
      ((msm_vidc_adjust_use_ltr k inst ctrl).1 ≠ 0 ↔
        (v ≤ 0 ∨ v ≥ 2 ^ (inst.cap k.LTR_COUNT).value.toNat)) ∧
      ((v ≤ 0 ∨ v ≥ 2 ^ (inst.cap k.LTR_COUNT).value.toNat) →
        msm_vidc_adjust_use_ltr k inst ctrl = (-EINVAL, inst)) ∧
      (¬ (v ≤ 0 ∨ v ≥ 2 ^ (inst.cap k.LTR_COUNT).value.toNat) →
        (msm_vidc_adjust_use_ltr k inst ctrl).1 = 0 ∧
        ((msm_vidc_adjust_use_ltr k inst ctrl).2.cap k.USE_LTR).value = v)) := by
  have hv : requested_value inst ctrl k.USE_LTR = v := by
    cases ctrl with
    | none => exact (hnone rfl).symm
    | some c => exact (hsome c rfl).symm
  subst hv
  rw [adjust_use_ltr_eq k inst ctrl hav hd1 hd2]
  refine ⟨?_, ?_⟩
  · intro hz
    rw [if_pos hz]
    exact ⟨rfl, (update_cap_value_same inst k.USE_LTR 0).1⟩
  · intro h1 h30
    rw [if_neg (by omega), (shl_one _ (by omega) h30).1]
    by_cases hb : requested_value inst ctrl k.USE_LTR ≤ 0 ∨
        requested_value inst ctrl k.USE_LTR ≥ 2 ^ (inst.cap k.LTR_COUNT).value.toNat
    · rw [if_pos hb]
      refine ⟨⟨fun _ => hb, fun _ => einval_ne_zero inst⟩, fun _ => rfl, fun h => (h hb).elim⟩
    · rw [if_neg hb]
      refine ⟨⟨fun h => (h rfl).elim, fun h => (hb h).elim⟩, fun h => (hb h).elim,
        fun _ => ⟨rfl, (update_cap_value_same inst k.USE_LTR _).1⟩⟩

/-- Witness for C16: ltr_count 2. The control value 3 is accepted and stored
over the stored 0, the control value 4 = 2^2 is refused; with the NULL
control the stored value 3 is accepted and kept, and the stored value 0 is
refused.
The last line evaluates the return code and the stored value of each run. -/
theorem adjust_use_ltr_accepts_iff_witness :
    ((msm_vidc_adjust_use_ltr consts_sample
        (msm_vidc_update_cap_value (inst_encoder false 1 1) 10 2) (some ⟨111, 3⟩)).1 = 0 ∧
      ((msm_vidc_adjust_use_ltr consts_sample
        (msm_vidc_update_cap_value (inst_encoder false 1 1) 10 2) (some ⟨111, 3⟩)).2.cap
          11).value = 3) ∧
    (msm_vidc_adjust_use_ltr consts_sample
        (msm_vidc_update_cap_value (inst_encoder false 1 1) 10 2) (some ⟨111, 4⟩)).1 ≠ 0 ∧
    ((msm_vidc_adjust_use_ltr consts_sample
        (msm_vidc_update_cap_value (msm_vidc_update_cap_value (inst_encoder false 1 1) 10 2)
          11 3) none).1 = 0 ∧
      ((msm_vidc_adjust_use_ltr consts_sample
        (msm_vidc_update_cap_value (msm_vidc_update_cap_value (inst_encoder false 1 1) 10 2)
          11 3) none).2.cap 11).value = 3) ∧
    msm_vidc_adjust_use_ltr consts_sample
        (msm_vidc_update_cap_value (inst_encoder false 1 1) 10 2) none
      = (-EINVAL, msm_vidc_update_cap_value (inst_encoder false 1 1) 10 2) ∧
    [((msm_vidc_adjust_use_ltr consts_sample (msm_vidc_update_cap_value (inst_encoder false 1 1) 10 2) (some ⟨111, 3⟩)).1,
        ((msm_vidc_adjust_use_ltr consts_sample (msm_vidc_update_cap_value (inst_encoder false 1 1) 10 2) (some ⟨111, 3⟩)).2.cap 11).value),
      ((msm_vidc_adjust_use_ltr consts_sample (msm_vidc_update_cap_value (inst_encoder false 1 1) 10 2) (some ⟨111, 4⟩)).1,
        ((msm_vidc_adjust_use_ltr consts_sample (msm_vidc_update_cap_value (inst_encoder false 1 1) 10 2) (some ⟨111, 4⟩)).2.cap 11).value),
      ((msm_vidc_adjust_use_ltr consts_sample (msm_vidc_update_cap_value (msm_vidc_update_cap_value (inst_encoder false 1 1) 10 2) 11 3) none).1,
        ((msm_vidc_adjust_use_ltr consts_sample (msm_vidc_update_cap_value (msm_vidc_update_cap_value (inst_encoder false 1 1) 10 2) 11 3) none).2.cap 11).value),
      ((msm_vidc_adjust_use_ltr consts_sample (msm_vidc_update_cap_value (inst_encoder false 1 1) 10 2) none).1,
        ((msm_vidc_adjust_use_ltr consts_sample (msm_vidc_update_cap_value (inst_encoder false 1 1) 10 2) none).2.cap 11).value)]
      = [(0, 3), (-22, 0), (0, 3), (-22, 0)] :=
  ⟨((adjust_use_ltr_accepts_iff consts_sample
      (msm_vidc_update_cap_value (inst_encoder false 1 1) 10 2) (some ⟨111, 3⟩) 3
      (fun c h => by cases h; rfl) (fun h => by cases h)
      (by decide) (by decide) (by decide)).2 (by decide) (by decide)).2.2 (by decide),
   ((adjust_use_ltr_accepts_iff consts_sample
      (msm_vidc_update_cap_value (inst_encoder false 1 1) 10 2) (some ⟨111, 4⟩) 4
      (fun c h => by cases h; rfl) (fun h => by cases h)
      (by decide) (by decide) (by decide)).2 (by decide) (by decide)).1.mpr (by decide),
   ((adjust_use_ltr_accepts_iff consts_sample
      (msm_vidc_update_cap_value (msm_vidc_update_cap_value (inst_encoder false 1 1) 10 2)
        11 3) none 3
      (fun c h => by cases h) (fun _ => by decide)
      (by decide) (by decide) (by decide)).2 (by decide) (by decide)).2.2 (by decide),
   ((adjust_use_ltr_accepts_iff consts_sample
      (msm_vidc_update_cap_value (inst_encoder false 1 1) 10 2) none 0
      (fun c h => by cases h) (fun _ => by decide)
      (by decide) (by decide) (by decide)).2 (by decide) (by decide)).2.1 (by decide),
   by decide⟩

/-- Counterexample to C17 as stated: ltr_count is 0 and the requested index
is 5, which is outside 0..ltr_count-1. `msm_vidc_adjust_mark_ltr` succeeds,
and it stores 0, not 5. -/
theorem adjust_mark_ltr_zero_count :
    is_parent_available (inst_encoder false 1 1) consts_sample.MARK_LTR
      consts_sample.LTR_COUNT = true ∧
    ((inst_encoder false 1 1).cap consts_sample.LTR_COUNT).value = 0 ∧
    ¬ ((0 : Int) ≤ 5 ∧ (5 : Int) ≤ 0 - 1) ∧
    (msm_vidc_adjust_mark_ltr consts_sample (inst_encoder false 1 1) (some ⟨112, 5⟩)).1 = 0 ∧
    ((msm_vidc_adjust_mark_ltr consts_sample (inst_encoder false 1 1) (some ⟨112, 5⟩)).2.cap
        consts_sample.MARK_LTR).value = 0 := by
  decide

/-- C17, amended: with LTR_COUNT declared as parent of MARK_LTR and a
requested index v, which is `ctrl->val` when a control is passed and the
stored MARK_LTR value for the NULL control: for every ltr_count >= 1,
`msm_vidc_adjust_mark_ltr` succeeds if and only if 0 <= v <= ltr_count - 1,
storing v, and returns -EINVAL with nothing stored for every other v; when
ltr_count = 0 it succeeds for every v and stores 0. -/
theorem adjust_mark_ltr_accepts_iff (k : header_constants) (inst : msm_vidc_inst)
    (ctrl : Option v4l2_ctrl) (v : Int)
    (hsome : ∀ c, ctrl = some c → v = c.val)
    (hnone : ctrl = none → v = (inst.cap k.MARK_LTR).value)
    (hav : is_parent_available inst k.MARK_LTR k.LTR_COUNT = true)
    (hd1 : k.LTR_COUNT ≠ k.BITRATE_MODE) (hd2 : k.LTR_COUNT ≠ k.LAYER_TYPE) :
    ((inst.cap k.LTR_COUNT).value = 0 →
      (msm_vidc_adjust_mark_ltr k inst ctrl).1 = 0 ∧
      ((msm_vidc_adjust_mark_ltr k inst ctrl).2.cap k.MARK_LTR).value = 0) ∧
    (1 ≤ (inst.cap k.LTR_COUNT).value → (inst.cap k.LTR_COUNT).value ≤ 2147483647 →
      ((msm_vidc_adjust_mark_ltr k inst ctrl).1 = 0 ↔
        (0 ≤ v ∧ v ≤ (inst.cap k.LTR_COUNT).value - 1)) ∧
      ((0 ≤ v ∧ v ≤ (inst.cap k.LTR_COUNT).value - 1) →
        ((msm_vidc_adjust_mark_ltr k inst ctrl).2.cap k.MARK_LTR).value = v) ∧
      (¬ (0 ≤ v ∧ v ≤ (inst.cap k.LTR_COUNT).value - 1) →
        msm_vidc_adjust_mark_ltr k inst ctrl = (-EINVAL, inst))) := by
  have hv : requested_value inst ctrl k.MARK_LTR = v := by
    cases ctrl with
    | none => exact (hnone rfl).symm
    | some c => exact (hsome c rfl).symm
  subst hv
  rw [adjust_mark_ltr_eq k inst ctrl hav hd1 hd2]
  refine ⟨?_, ?_⟩
  · intro hz
    rw [if_pos hz]
    exact ⟨rfl, (update_cap_value_same inst k.MARK_LTR 0).1⟩
  · intro h1 hmax
    rw [if_neg (by omega), to_s32_of_range _ (by omega) (by omega)]
    by_cases hb : requested_value inst ctrl k.MARK_LTR < 0 ∨
        requested_value inst ctrl k.MARK_LTR > (inst.cap k.LTR_COUNT).value - 1
    · rw [if_pos hb]
      have hnot : ¬ (0 ≤ requested_value inst ctrl k.MARK_LTR ∧
          requested_value inst ctrl k.MARK_LTR ≤ (inst.cap k.LTR_COUNT).value - 1) := by
        omega
      refine ⟨⟨fun h => ?_, fun h => (hnot h).elim⟩, fun h => (hnot h).elim, fun _ => rfl⟩
      exact absurd h (einval_ne_zero inst)
    · rw [if_neg hb]
      have hin : 0 ≤ requested_value inst ctrl k.MARK_LTR ∧
          requested_value inst ctrl k.MARK_LTR ≤ (inst.cap k.LTR_COUNT).value - 1 := by
        omega
      refine ⟨⟨fun _ => hin, fun _ => rfl⟩,
        fun _ => (update_cap_value_same inst k.MARK_LTR _).1, fun h => (h hin).elim⟩

/-- Witness for C17 amended: ltr_count 2. The control index 1 is accepted and
stored over the stored 0, the control index 2 is refused; with the NULL
control the stored index 1 is accepted and kept, and the stored index 5 is
refused.
The last line evaluates the return code and the stored value of each run. -/
theorem adjust_mark_ltr_accepts_iff_witness :
    ((msm_vidc_adjust_mark_ltr consts_sample
        (msm_vidc_update_cap_value (inst_encoder false 1 1) 10 2) (some ⟨112, 1⟩)).2.cap
          12).value = 1 ∧
    msm_vidc_adjust_mark_ltr consts_sample
        (msm_vidc_update_cap_value (inst_encoder false 1 1) 10 2) (some ⟨112, 2⟩)
      = (-EINVAL, msm_vidc_update_cap_value (inst_encoder false 1 1) 10 2) ∧
    ((msm_vidc_adjust_mark_ltr consts_sample
        (msm_vidc_update_cap_value (msm_vidc_update_cap_value (inst_encoder false 1 1) 10 2)
          12 1) none).2.cap 12).value = 1 ∧
    msm_vidc_adjust_mark_ltr consts_sample
        (msm_vidc_update_cap_value (msm_vidc_update_cap_value (inst_encoder false 1 1) 10 2)
          12 5) none
      = (-EINVAL, msm_vidc_update_cap_value
          (msm_vidc_update_cap_value (inst_encoder false 1 1) 10 2) 12 5) ∧
    [((msm_vidc_adjust_mark_ltr consts_sample (msm_vidc_update_cap_value (inst_encoder false 1 1) 10 2) (some ⟨112, 1⟩)).1,
        ((msm_vidc_adjust_mark_ltr consts_sample (msm_vidc_update_cap_value (inst_encoder false 1 1) 10 2) (some ⟨112, 1⟩)).2.cap 12).value),
      ((msm_vidc_adjust_mark_ltr consts_sample (msm_vidc_update_cap_value (inst_encoder false 1 1) 10 2) (some ⟨112, 2⟩)).1,
        ((msm_vidc_adjust_mark_ltr consts_sample (msm_vidc_update_cap_value (inst_encoder false 1 1) 10 2) (some ⟨112, 2⟩)).2.cap 12).value),
      ((msm_vidc_adjust_mark_ltr consts_sample (msm_vidc_update_cap_value (msm_vidc_update_cap_value (inst_encoder false 1 1) 10 2) 12 1) none).1,
        ((msm_vidc_adjust_mark_ltr consts_sample (msm_vidc_update_cap_value (msm_vidc_update_cap_value (inst_encoder false 1 1) 10 2) 12 1) none).2.cap 12).value),
      ((msm_vidc_adjust_mark_ltr consts_sample (msm_vidc_update_cap_value (msm_vidc_update_cap_value (inst_encoder false 1 1) 10 2) 12 5) none).1,
        ((msm_vidc_adjust_mark_ltr consts_sample (msm_vidc_update_cap_value (msm_vidc_update_cap_value (inst_encoder false 1 1) 10 2) 12 5) none).2.cap 12).value)]
      = [(0, 1), (-22, 0), (0, 1), (-22, 5)] :=
  ⟨((adjust_mark_ltr_accepts_iff consts_sample
      (msm_vidc_update_cap_value (inst_encoder false 1 1) 10 2) (some ⟨112, 1⟩) 1
      (fun c h => by cases h; rfl) (fun h => by cases h)
      (by decide) (by decide) (by decide)).2 (by decide) (by decide)).2.1 (by decide),
   ((adjust_mark_ltr_accepts_iff consts_sample
      (msm_vidc_update_cap_value (inst_encoder false 1 1) 10 2) (some ⟨112, 2⟩) 2
      (fun c h => by cases h; rfl) (fun h => by cases h)
      (by decide) (by decide) (by decide)).2 (by decide) (by decide)).2.2 (by decide),
   ((adjust_mark_ltr_accepts_iff consts_sample
      (msm_vidc_update_cap_value (msm_vidc_update_cap_value (inst_encoder false 1 1) 10 2)
        12 1) none 1
      (fun c h => by cases h) (fun _ => by decide)
      (by decide) (by decide) (by decide)).2 (by decide) (by decide)).2.1 (by decide),
   ((adjust_mark_ltr_accepts_iff consts_sample
      (msm_vidc_update_cap_value (msm_vidc_update_cap_value (inst_encoder false 1 1) 10 2)
        12 5) none 5
      (fun c h => by cases h) (fun _ => by decide)
      (by decide) (by decide) (by decide)).2 (by decide) (by decide)).2.2 (by decide),
   by decide⟩

/-- C18: with BITRATE_MODE declared as parent of LTR_COUNT,
`msm_vidc_adjust_ltr_count` succeeds for every requested count v, which is
`ctrl->val` when a control is passed and the stored LTR_COUNT value for the
NULL control; it stores v when the resolved rate-control kind `hfi_rc_type`
is HFI_RC_OFF, HFI_RC_CBR_CFR or HFI_RC_CBR_VFR, and stores 0 for every other
kind. -/
theorem adjust_ltr_count_value (k : header_constants) (inst : msm_vidc_inst)
    (ctrl : Option v4l2_ctrl) (v : Int)
    (hsome : ∀ c, ctrl = some c → v = c.val)
    (hnone : ctrl = none → v = (inst.cap k.LTR_COUNT).value)
    (hav : is_parent_available inst k.LTR_COUNT k.BITRATE_MODE = true)
    (hrc : inst.hfi_rc_type < 4294967296)
    (hoff : k.HFI_RC_OFF < 2147483648) (hcfr : k.HFI_RC_CBR_CFR < 2147483648)
    (hvfr : k.HFI_RC_CBR_VFR < 2147483648) :
    (msm_vidc_adjust_ltr_count k inst ctrl).1 = 0 ∧
    ((inst.hfi_rc_type = k.HFI_RC_OFF ∨ inst.hfi_rc_type = k.HFI_RC_CBR_CFR ∨
        inst.hfi_rc_type = k.HFI_RC_CBR_VFR) →
      ((msm_vidc_adjust_ltr_count k inst ctrl).2.cap k.LTR_COUNT).value = v) ∧
    (¬ (inst.hfi_rc_type = k.HFI_RC_OFF ∨ inst.hfi_rc_type = k.HFI_RC_CBR_CFR ∨
        inst.hfi_rc_type = k.HFI_RC_CBR_VFR) →
      ((msm_vidc_adjust_ltr_count k inst ctrl).2.cap k.LTR_COUNT).value = 0) := by
  have hv : requested_value inst ctrl k.LTR_COUNT = v := by
    cases ctrl with
    | none => exact (hnone rfl).symm
    | some c => exact (hsome c rfl).symm
  subst hv
  unfold msm_vidc_adjust_ltr_count
  simp only [get_parent_value_bitrate_mode k inst _ _ hav, ne_eq, not_true_eq_false, if_false,
    to_s32_eq_const _ _ hrc hoff, to_s32_eq_const _ _ hrc hcfr, to_s32_eq_const _ _ hrc hvfr,
    (update_cap_value_same inst k.LTR_COUNT _).1]
  refine ⟨trivial, ?_, ?_⟩
  · intro h
    rw [if_neg (by tauto)]
  · intro h
    rw [if_pos (by tauto)]

/-- Witness for C18: under constant-frame-rate CBR the control value 2 is
stored over the stored 0, and with the NULL control the stored count 2 is
kept; under constant-frame-rate VBR both give 0.
The last line evaluates the return code and the stored value of each run. -/
theorem adjust_ltr_count_value_witness :
    ((msm_vidc_adjust_ltr_count consts_sample (inst_encoder false 1 1) (some ⟨110, 2⟩)).2.cap
        10).value = 2 ∧
    ((msm_vidc_adjust_ltr_count consts_sample
        (msm_vidc_update_cap_value (inst_encoder false 1 1) 10 2) none).2.cap 10).value = 2 ∧
    ((msm_vidc_adjust_ltr_count consts_sample (inst_encoder false 0 1) (some ⟨110, 2⟩)).2.cap
        10).value = 0 ∧
    ((msm_vidc_adjust_ltr_count consts_sample
        (msm_vidc_update_cap_value (inst_encoder false 0 1) 10 2) none).2.cap 10).value = 0 ∧
    [((msm_vidc_adjust_ltr_count consts_sample (inst_encoder false 1 1) (some ⟨110, 2⟩)).1,
        ((msm_vidc_adjust_ltr_count consts_sample (inst_encoder false 1 1) (some ⟨110, 2⟩)).2.cap 10).value),
      ((msm_vidc_adjust_ltr_count consts_sample (msm_vidc_update_cap_value (inst_encoder false 1 1) 10 2) none).1,
        ((msm_vidc_adjust_ltr_count consts_sample (msm_vidc_update_cap_value (inst_encoder false 1 1) 10 2) none).2.cap 10).value),
      ((msm_vidc_adjust_ltr_count consts_sample (inst_encoder false 0 1) (some ⟨110, 2⟩)).1,
        ((msm_vidc_adjust_ltr_count consts_sample (inst_encoder false 0 1) (some ⟨110, 2⟩)).2.cap 10).value),
      ((msm_vidc_adjust_ltr_count consts_sample (msm_vidc_update_cap_value (inst_encoder false 0 1) 10 2) none).1,
        ((msm_vidc_adjust_ltr_count consts_sample (msm_vidc_update_cap_value (inst_encoder false 0 1) 10 2) none).2.cap 10).value)]
      = [(0, 2), (0, 2), (0, 0), (0, 0)] :=
  ⟨(adjust_ltr_count_value consts_sample (inst_encoder false 1 1) (some ⟨110, 2⟩) 2
      (fun c h => by cases h; rfl) (fun h => by cases h)
      (by decide) (by decide) (by decide) (by decide) (by decide)).2.1 (by decide),
   (adjust_ltr_count_value consts_sample
      (msm_vidc_update_cap_value (inst_encoder false 1 1) 10 2) none 2
      (fun c h => by cases h) (fun _ => by decide)
      (by decide) (by decide) (by decide) (by decide) (by decide)).2.1 (by decide),
   (adjust_ltr_count_value consts_sample (inst_encoder false 0 1) (some ⟨110, 2⟩) 2
      (fun c h => by cases h; rfl) (fun h => by cases h)
      (by decide) (by decide) (by decide) (by decide) (by decide)).2.2 (by decide),
   (adjust_ltr_count_value consts_sample
      (msm_vidc_update_cap_value (inst_encoder false 0 1) 10 2) none 2
      (fun c h => by cases h) (fun _ => by decide)
      (by decide) (by decide) (by decide) (by decide) (by decide)).2.2 (by decide),
   by decide⟩

/-- C19: `msm_vidc_adjust_bitrate_mode` succeeds, changes nothing but the
derived field `hfi_rc_type`, and resolves it by strict priority: lossless
when LOSSLESS is non-zero; otherwise off when FRAME_RC_ENABLE is zero and the
session is not an image session; otherwise VBR gives constant-frame-rate VBR,
CBR gives variable-frame-rate CBR with frame skip and constant-frame-rate CBR
without, and CQ gives constant quality. -/
theorem adjust_bitrate_mode_priority (k : header_constants) (inst : msm_vidc_inst)
    (ctrl : Option v4l2_ctrl)
    (hvc : k.V4L2_MPEG_VIDEO_BITRATE_MODE_VBR ≠ k.V4L2_MPEG_VIDEO_BITRATE_MODE_CBR)
    (hvq : k.V4L2_MPEG_VIDEO_BITRATE_MODE_VBR ≠ k.V4L2_MPEG_VIDEO_BITRATE_MODE_CQ)
    (hcq : k.V4L2_MPEG_VIDEO_BITRATE_MODE_CBR ≠ k.V4L2_MPEG_VIDEO_BITRATE_MODE_CQ) :
    (msm_vidc_adjust_bitrate_mode k inst ctrl).1 = 0 ∧
    (msm_vidc_adjust_bitrate_mode k inst ctrl).2.cap = inst.cap ∧
    ((inst.cap k.LOSSLESS).value ≠ 0 →
      (msm_vidc_adjust_bitrate_mode k inst ctrl).2.hfi_rc_type = k.HFI_RC_LOSSLESS) ∧
    ((inst.cap k.LOSSLESS).value = 0 → (inst.cap k.FRAME_RC_ENABLE).value = 0 →
      k.is_image_session inst = false →
      (msm_vidc_adjust_bitrate_mode k inst ctrl).2.hfi_rc_type = k.HFI_RC_OFF) ∧
    ((inst.cap k.LOSSLESS).value = 0 →
      ((inst.cap k.FRAME_RC_ENABLE).value ≠ 0 ∨ k.is_image_session inst = true) →
      ((inst.cap k.BITRATE_MODE).value = k.V4L2_MPEG_VIDEO_BITRATE_MODE_VBR →
        (msm_vidc_adjust_bitrate_mode k inst ctrl).2.hfi_rc_type = k.HFI_RC_VBR_CFR) ∧
      ((inst.cap k.BITRATE_MODE).value = k.V4L2_MPEG_VIDEO_BITRATE_MODE_CBR →
        (inst.cap k.FRAME_SKIP_MODE).value ≠ 0 →
        (msm_vidc_adjust_bitrate_mode k inst ctrl).2.hfi_rc_type = k.HFI_RC_CBR_VFR) ∧
      ((inst.cap k.BITRATE_MODE).value = k.V4L2_MPEG_VIDEO_BITRATE_MODE_CBR →
        (inst.cap k.FRAME_SKIP_MODE).value = 0 →
        (msm_vidc_adjust_bitrate_mode k inst ctrl).2.hfi_rc_type = k.HFI_RC_CBR_CFR) ∧
      ((inst.cap k.BITRATE_MODE).value = k.V4L2_MPEG_VIDEO_BITRATE_MODE_CQ →
        (msm_vidc_adjust_bitrate_mode k inst ctrl).2.hfi_rc_type = k.HFI_RC_CQ)) := by
  unfold msm_vidc_adjust_bitrate_mode
  simp only
  refine ⟨trivial, trivial, ?_, ?_, ?_⟩
  · intro hl
    rw [if_pos hl]
  · intro hl hf hi
    rw [if_neg (by simp [hl]), if_pos ⟨hf, hi⟩]
  · intro hl hfi
    have hgate : ¬ ((inst.cap k.FRAME_RC_ENABLE).value = 0 ∧ k.is_image_session inst = false) := by
      rintro ⟨a, b⟩
      rcases hfi with h | h
      · exact h a
      · rw [b] at h; exact Bool.false_ne_true h
    rw [if_neg (by simp [hl]), if_neg hgate]
    refine ⟨?_, ?_, ?_, ?_⟩
    · intro hb
      rw [if_pos hb]
    · intro hb hs
      rw [if_neg (by rw [hb]; exact fun h => hvc h.symm), if_pos hb, if_pos hs]
    · intro hb hs
      rw [if_neg (by rw [hb]; exact fun h => hvc h.symm), if_pos hb, if_neg (by simp [hs])]
    · intro hb
      rw [if_neg (by rw [hb]; exact fun h => hvq h.symm),
        if_neg (by rw [hb]; exact fun h => hcq h.symm), if_pos hb]

/-- Witness for C19: CBR with frame skip off, rate control enabled and
lossless off resolves to constant-frame-rate CBR. -/
theorem adjust_bitrate_mode_priority_witness :
    (msm_vidc_adjust_bitrate_mode consts_sample (inst_encoder false 0 0) none).2.hfi_rc_type
      = consts_sample.HFI_RC_CBR_CFR :=
  ((adjust_bitrate_mode_priority consts_sample (inst_encoder false 0 0) none
      (by decide) (by decide) (by decide)).2.2.2.2 (by decide) (Or.inl (by decide))).2.2.1
    (by decide) (by decide)

/-- Counterexample to C20 as stated: BITRATE_MODE is CBR, frame skip is 0,
lossless is 0, FRAME_RC_ENABLE is 0 and the session is not an image session.
`msm_vidc_adjust_bitrate_mode` resolves the kind to HFI_RC_OFF, which differs
from HFI_RC_CBR_CFR. -/
theorem adjust_bitrate_mode_cbr_rc_disabled :
    ((msm_vidc_update_cap_value (inst_encoder false 0 0) 3 0).cap
        consts_sample.BITRATE_MODE).value = consts_sample.V4L2_MPEG_VIDEO_BITRATE_MODE_CBR ∧
    ((msm_vidc_update_cap_value (inst_encoder false 0 0) 3 0).cap
        consts_sample.FRAME_SKIP_MODE).value = 0 ∧
    ((msm_vidc_update_cap_value (inst_encoder false 0 0) 3 0).cap
        consts_sample.LOSSLESS).value = 0 ∧
    (msm_vidc_adjust_bitrate_mode consts_sample
        (msm_vidc_update_cap_value (inst_encoder false 0 0) 3 0) none).1 = 0 ∧
    (msm_vidc_adjust_bitrate_mode consts_sample
        (msm_vidc_update_cap_value (inst_encoder false 0 0) 3 0) none).2.hfi_rc_type
      = consts_sample.HFI_RC_OFF ∧
    consts_sample.HFI_RC_OFF ≠ consts_sample.HFI_RC_CBR_CFR := by
  decide

/-- C20, amended: for every session whose BITRATE_MODE is CBR, whose frame
skip mode is 0, whose lossless flag is 0, and whose FRAME_RC_ENABLE is
non-zero or which is an image session, `msm_vidc_adjust_bitrate_mode`
succeeds and resolves the rate-control kind to HFI_RC_CBR_CFR. -/
theorem adjust_bitrate_mode_cbr_cfr (k : header_constants) (inst : msm_vidc_inst)
    (ctrl : Option v4l2_ctrl)
    (hvc : k.V4L2_MPEG_VIDEO_BITRATE_MODE_VBR ≠ k.V4L2_MPEG_VIDEO_BITRATE_MODE_CBR)
    (hb : (inst.cap k.BITRATE_MODE).value = k.V4L2_MPEG_VIDEO_BITRATE_MODE_CBR)
    (hs : (inst.cap k.FRAME_SKIP_MODE).value = 0)
    (hl : (inst.cap k.LOSSLESS).value = 0)
    (hfi : (inst.cap k.FRAME_RC_ENABLE).value ≠ 0 ∨ k.is_image_session inst = true) :
    (msm_vidc_adjust_bitrate_mode k inst ctrl).1 = 0 ∧
    (msm_vidc_adjust_bitrate_mode k inst ctrl).2.hfi_rc_type = k.HFI_RC_CBR_CFR := by
  unfold msm_vidc_adjust_bitrate_mode
  simp only
  have hgate : ¬ ((inst.cap k.FRAME_RC_ENABLE).value = 0 ∧ k.is_image_session inst = false) := by
    rintro ⟨a, b⟩
    rcases hfi with h | h
    · exact h a
    · rw [b] at h; exact Bool.false_ne_true h
  refine ⟨trivial, ?_⟩
  rw [if_neg (by simp [hl]), if_neg hgate,
    if_neg (by rw [hb]; exact fun h => hvc h.symm), if_pos hb, if_neg (by simp [hs])]

/-- Witness for C20 amended: the encoder table with rate control enabled. -/
theorem adjust_bitrate_mode_cbr_cfr_witness :
    (msm_vidc_adjust_bitrate_mode consts_sample (inst_encoder false 0 0) none).1 = 0 ∧
    (msm_vidc_adjust_bitrate_mode consts_sample (inst_encoder false 0 0) none).2.hfi_rc_type
      = consts_sample.HFI_RC_CBR_CFR :=
  adjust_bitrate_mode_cbr_cfr consts_sample (inst_encoder false 0 0) none
    (by decide) (by decide) (by decide) (by decide) (Or.inl (by decide))

/-! ## Closed forms of the profile and entropy-mode rules -/

/-- With PIX_FMTS declared as parent, `msm_vidc_adjust_profile` succeeds and
stores the profile chosen from the pixel format. -/
theorem adjust_profile_eq (k : control_constants) (inst : msm_vidc_inst)
    (ctrl : Option v4l2_ctrl)
    (hav : is_parent_available inst k.PROFILE k.PIX_FMTS = true)
    (hd1 : k.PIX_FMTS ≠ k.BITRATE_MODE) (hd2 : k.PIX_FMTS ≠ k.LAYER_TYPE) :
    msm_vidc_adjust_profile k inst ctrl =
      (0, msm_vidc_update_cap_value inst k.PROFILE
        (if (inst.cap k.PIX_FMTS).value = k.MSM_VIDC_FMT_TP10C ∨
            (inst.cap k.PIX_FMTS).value = k.MSM_VIDC_FMT_P010 then
          k.V4L2_MPEG_VIDEO_HEVC_PROFILE_MAIN_10
        else if requested_value inst ctrl k.PROFILE = k.V4L2_MPEG_VIDEO_HEVC_PROFILE_MAIN_10 then
          (if k.is_image_session inst = true then
            k.V4L2_MPEG_VIDEO_HEVC_PROFILE_MAIN_STILL_PICTURE
           else k.V4L2_MPEG_VIDEO_HEVC_PROFILE_MAIN)
        else requested_value inst ctrl k.PROFILE)) := by
  unfold msm_vidc_adjust_profile
  simp only [get_parent_value_plain k.toheader_constants inst _ _ _ hav hd1 hd2, ne_eq,
    not_true_eq_false, if_false]

/-- For an H.264 session with PROFILE declared as parent,
`msm_vidc_adjust_entropy_mode` succeeds and stores CAVLC or the requested
mode. -/
theorem adjust_entropy_mode_eq (k : control_constants) (inst : msm_vidc_inst)
    (ctrl : Option v4l2_ctrl) (hc : inst.codec = msm_vidc_codec_type.MSM_VIDC_H264)
    (hav : is_parent_available inst k.ENTROPY_MODE k.PROFILE = true)
    (hd1 : k.PROFILE ≠ k.BITRATE_MODE) (hd2 : k.PROFILE ≠ k.LAYER_TYPE) :
    msm_vidc_adjust_entropy_mode k inst ctrl =
      (0, msm_vidc_update_cap_value inst k.ENTROPY_MODE
        (if (inst.cap k.PROFILE).value = k.V4L2_MPEG_VIDEO_H264_PROFILE_BASELINE ∨
            (inst.cap k.PROFILE).value = k.V4L2_MPEG_VIDEO_H264_PROFILE_CONSTRAINED_BASELINE then
          k.V4L2_MPEG_VIDEO_H264_ENTROPY_MODE_CAVLC
        else requested_value inst ctrl k.ENTROPY_MODE)) := by
  unfold msm_vidc_adjust_entropy_mode
  simp only [hc, get_parent_value_plain k.toheader_constants inst _ _ _ hav hd1 hd2, ne_eq,
    not_true_eq_false, if_false]

/-! ## The static layer calibration -/

/-- What `msm_vidc_adjust_static_layer_count_and_type` leaves behind, in terms
of the state with which the label `exit` is reached. -/
theorem static_layer_calibration_eq (k : header_constants) (inst : msm_vidc_inst) (v : Int) :
    (msm_vidc_adjust_static_layer_count_and_type k inst v).1 = 0 ∧
    (msm_vidc_adjust_static_layer_count_and_type k inst v).2.hfi_layer_type
      = (static_layer_resolve k inst v).1.hfi_layer_type ∧
    ((msm_vidc_adjust_static_layer_count_and_type k inst v).2.cap k.ENH_LAYER_COUNT).value
      = (static_layer_resolve k inst v).2 ∧
    ((msm_vidc_adjust_static_layer_count_and_type k inst v).2.cap k.ENH_LAYER_COUNT).max
      = (static_layer_resolve k inst v).2 := by
  unfold msm_vidc_adjust_static_layer_count_and_type
  simp only
  obtain ⟨m1, m2, -⟩ := set_cap_max_same
    (msm_vidc_update_cap_value (static_layer_resolve k inst v).1 k.ENH_LAYER_COUNT
      (static_layer_resolve k inst v).2) k.ENH_LAYER_COUNT (static_layer_resolve k inst v).2
  obtain ⟨u1, -⟩ := update_cap_value_same (static_layer_resolve k inst v).1 k.ENH_LAYER_COUNT
    (static_layer_resolve k inst v).2
  exact ⟨trivial, rfl, by rw [m2, u1], m1⟩

/-- On each of the three early exits that disable layer encoding the label
`exit` is reached with the instance as it was and the count 0. -/
theorem static_layer_resolve_gate (k : header_constants) (inst : msm_vidc_inst) (v : Int)
    (hg : inst.hfi_rc_type = k.HFI_RC_CQ ∨
      (inst.codec = msm_vidc_codec_type.MSM_VIDC_H264 ∧ (inst.cap k.LAYER_ENABLE).value = 0) ∨
      (hb_requested k inst = true ∧ inst.hfi_rc_type ≠ k.HFI_RC_VBR_CFR)) :
    (static_layer_resolve k inst v).1 = inst ∧ (static_layer_resolve k inst v).2 = 0 := by
  unfold static_layer_resolve
  by_cases h0 : v = 0
  · rw [if_pos h0]
    exact ⟨rfl, h0⟩
  · rw [if_neg h0]
    by_cases h1 : inst.hfi_rc_type = k.HFI_RC_CQ
    · rw [if_pos h1]
      exact ⟨rfl, rfl⟩
    · rw [if_neg h1]
      by_cases h2 : inst.codec = msm_vidc_codec_type.MSM_VIDC_H264 ∧
          (inst.cap k.LAYER_ENABLE).value = 0
      · rw [if_pos h2]
        exact ⟨rfl, rfl⟩
      · rw [if_neg h2]
        have h3 : hb_requested k inst = true ∧ inst.hfi_rc_type ≠ k.HFI_RC_VBR_CFR := by
          rcases hg with h | h | h
          · exact (h1 h).elim
          · exact (h2 h).elim
          · exact h
        rw [if_pos h3]
        exact ⟨rfl, rfl⟩

/-- Past the early exits the layer type is decided and the count is clamped
for it. -/
theorem static_layer_resolve_pass (k : header_constants) (inst : msm_vidc_inst) (v : Int)
    (h0 : v ≠ 0) (h1 : inst.hfi_rc_type ≠ k.HFI_RC_CQ)
    (h2 : ¬ (inst.codec = msm_vidc_codec_type.MSM_VIDC_H264 ∧
      (inst.cap k.LAYER_ENABLE).value = 0))
    (h3 : ¬ (hb_requested k inst = true ∧ inst.hfi_rc_type ≠ k.HFI_RC_VBR_CFR)) :
    (static_layer_resolve k inst v).1.hfi_layer_type = decide_hfi_layer_type k inst ∧
    (static_layer_resolve k inst v).1.codec = inst.codec ∧
    (static_layer_resolve k inst v).2
      = sanitize_layer_count k (static_layer_resolve k inst v).1 v := by
  unfold static_layer_resolve
  rw [if_neg h0, if_neg h1, if_neg h2, if_neg h3]
  exact ⟨rfl, rfl, rfl⟩

/-- The comparison `if (layer_count > c) layer_count = c` leaves the smaller
of the two. -/
theorem clamp_above_eq_min (v c : Int) : (if v > c then c else v) = min v c := by
  split_ifs with h
  · exact (min_eq_right (le_of_lt h)).symm
  · exact (min_eq_left (not_lt.mp h)).symm

/-! ## The clamp of the HEVC QP capabilities -/

/-- One `CAP_TO_8BIT_QP` replaces the value of its capability by
max(value, 0) and leaves every other field and capability alone. -/
theorem cap_to_8bit_qp_cap (inst : msm_vidc_inst) (c d : Nat) :
    (CAP_TO_8BIT_QP inst c).cap d =
      { inst.cap d with
        value := if d = c then max (inst.cap d).value 0 else (inst.cap d).value } := by
  unfold CAP_TO_8BIT_QP
  by_cases hneg : (inst.cap c).value < 0
  · rw [if_pos hneg]
    by_cases hd : d = c
    · subst hd
      simp only [Function.update_same, if_true]
      rw [max_eq_right (le_of_lt hneg)]
    · simp only [Function.update_noteq hd, if_neg hd]
  · rw [if_neg hneg]
    by_cases hd : d = c
    · subst hd
      rw [if_pos rfl, max_eq_left (not_lt.mp hneg)]
    · rw [if_neg hd]

/-- The value left by one `CAP_TO_8BIT_QP`. -/
theorem cap_to_8bit_qp_value (inst : msm_vidc_inst) (c d : Nat) :
    ((CAP_TO_8BIT_QP inst c).cap d).value =
      if d = c then max (inst.cap d).value 0 else (inst.cap d).value := by
  rw [cap_to_8bit_qp_cap]

/-- One `CAP_TO_8BIT_QP` changes no field of a capability but `value`. -/
theorem cap_to_8bit_qp_frame (inst : msm_vidc_inst) (c d : Nat) :
    (CAP_TO_8BIT_QP inst c).cap d = { inst.cap d with value := ((CAP_TO_8BIT_QP inst c).cap d).value } := by
  rw [cap_to_8bit_qp_cap]

/-- The clamp at 0 is idempotent. -/
theorem max_zero_idem (v : Int) : max (max v 0) 0 = max v 0 :=
  max_eq_left (le_max_right v 0)

/-- Four clamps in a row, on the capabilities `a`, `b`, `c`, `e`: the value
of each of the four becomes max(value, 0), every other value stays, and no
other field changes. -/
theorem cap_to_8bit_qp_four (inst : msm_vidc_inst) (a b c e d : Nat) :
    ((CAP_TO_8BIT_QP (CAP_TO_8BIT_QP (CAP_TO_8BIT_QP (CAP_TO_8BIT_QP inst a) b) c) e).cap
        d).value
      = (if d = a ∨ d = b ∨ d = c ∨ d = e then max (inst.cap d).value 0
         else (inst.cap d).value) ∧
    (CAP_TO_8BIT_QP (CAP_TO_8BIT_QP (CAP_TO_8BIT_QP (CAP_TO_8BIT_QP inst a) b) c) e).cap d
      = { inst.cap d with
          value := ((CAP_TO_8BIT_QP (CAP_TO_8BIT_QP (CAP_TO_8BIT_QP
            (CAP_TO_8BIT_QP inst a) b) c) e).cap d).value } := by
  simp only [cap_to_8bit_qp_cap]
  refine ⟨?_, trivial⟩
  have key : ∀ (pa pb pc pe : Prop) [Decidable pa] [Decidable pb] [Decidable pc] [Decidable pe]
      (x : Int),
      (if pe then max (if pc then max (if pb then max (if pa then max x 0 else x) 0
          else if pa then max x 0 else x) 0
        else if pb then max (if pa then max x 0 else x) 0 else if pa then max x 0 else x) 0
       else if pc then max (if pb then max (if pa then max x 0 else x) 0
          else if pa then max x 0 else x) 0
        else if pb then max (if pa then max x 0 else x) 0 else if pa then max x 0 else x)
      = if pa ∨ pb ∨ pc ∨ pe then max x 0 else x := by
    intro pa pb pc pe _ _ _ _ x
    by_cases ha : pa <;> by_cases hb : pb <;> by_cases hc : pc <;> by_cases he : pe <;>
      simp [ha, hb, hc, he]
  exact key _ _ _ _ _

/-- Three clamps in a row, on the capabilities `a`, `b`, `c`. -/
theorem cap_to_8bit_qp_three (inst : msm_vidc_inst) (a b c d : Nat) :
    ((CAP_TO_8BIT_QP (CAP_TO_8BIT_QP (CAP_TO_8BIT_QP inst a) b) c).cap d).value
      = (if d = a ∨ d = b ∨ d = c then max (inst.cap d).value 0 else (inst.cap d).value) ∧
    (CAP_TO_8BIT_QP (CAP_TO_8BIT_QP (CAP_TO_8BIT_QP inst a) b) c).cap d
      = { inst.cap d with
          value := ((CAP_TO_8BIT_QP (CAP_TO_8BIT_QP (CAP_TO_8BIT_QP inst a) b) c).cap
            d).value } := by
  simp only [cap_to_8bit_qp_cap]
  refine ⟨?_, trivial⟩
  have key : ∀ (pa pb pc : Prop) [Decidable pa] [Decidable pb] [Decidable pc] (x : Int),
      (if pc then max (if pb then max (if pa then max x 0 else x) 0
          else if pa then max x 0 else x) 0
        else if pb then max (if pa then max x 0 else x) 0 else if pa then max x 0 else x)
      = if pa ∨ pb ∨ pc then max x 0 else x := by
    intro pa pb pc _ _ _ x
    by_cases ha : pa <;> by_cases hb : pb <;> by_cases hc : pc <;> simp [ha, hb, hc]
  exact key _ _ _ _

/-! ## The packed QP payload -/

/-- A value 0..255 read as `u32`. -/
theorem u32_of_byte (x : Nat) (hx : x ≤ 255) : u32_of (to_s32 (x : Int)) = x := by
  unfold u32_of to_s32
  split_ifs <;> omega

/-- A value 0..255 shifted left by 8 and read as `u32`. -/
theorem u32_of_byte_shl8 (x : Nat) (hx : x ≤ 255) :
    u32_of (shl_s32 (to_s32 (x : Int)) 8) = 256 * x := by
  have h1 : to_s32 (x : Int) = x := by
    unfold to_s32
    split_ifs <;> omega
  have e8 : ((8 : Int) % 32).toNat = 8 := by decide
  have p8 : (2 : Int) ^ 8 = 256 := by norm_num
  rw [h1]
  unfold u32_of shl_s32
  rw [e8, p8]
  unfold to_s32
  clear h1
  split_ifs <;> omega

/-- A value 0..255 shifted left by 16 and read as `u32`. -/
theorem u32_of_byte_shl16 (x : Nat) (hx : x ≤ 255) :
    u32_of (shl_s32 (to_s32 (x : Int)) 16) = 65536 * x := by
  have h1 : to_s32 (x : Int) = x := by
    unfold to_s32
    split_ifs <;> omega
  have e16 : ((16 : Int) % 32).toNat = 16 := by decide
  have p16 : (2 : Int) ^ 16 = 65536 := by norm_num
  rw [h1]
  unfold u32_of shl_s32
  rw [e16, p16]
  unfold to_s32
  clear h1
  split_ifs <;> omega

/-- Four fields that do not overlap: the bitwise OR is the sum. -/
theorem or_fields_eq_add (x y z e : Nat) (hx : x ≤ 255) (hy : y ≤ 255) (hz : z ≤ 255) :
    x ||| 256 * y ||| 65536 * z ||| 16777216 * e = x + 256 * y + 65536 * z + 16777216 * e := by
  have h1 := @Nat.mul_add_lt_is_or 8 x (by omega) y
  have h2 := @Nat.mul_add_lt_is_or 16 (x + 256 * y) (by omega) z
  have h3 := @Nat.mul_add_lt_is_or 24 (x + 256 * y + 65536 * z) (by omega) e
  norm_num at h1 h2 h3
  rw [Nat.lor_comm x, ← h1, Nat.lor_comm _ (65536 * z), Nat.add_comm (256 * y) x, ← h2,
    Nat.lor_comm _ (16777216 * e), Nat.add_comm (65536 * z), ← h3]
  omega

/-- The payload word built from three QPs in 0..255 and an enable mask in
0..7. -/
theorem pack_qp_small (x y z e : Nat) (hx : x ≤ 255) (hy : y ≤ 255) (hz : z ≤ 255)
    (he : e ≤ 7) :
    pack_qp (to_s32 (x : Int)) (to_s32 (y : Int)) (to_s32 (z : Int)) e
      = x + 256 * y + 65536 * z + 16777216 * e := by
  unfold pack_qp
  rw [u32_of_byte x hx, u32_of_byte_shl8 y hy, u32_of_byte_shl16 z hz,
    Nat.mod_eq_of_lt (by omega), Nat.mul_comm e, or_fields_eq_add x y z e hx hy hz]

/-- The fields of the payload word built from three QPs in 0..255 and an
enable mask in 0..7: bytes 0, 1 and 2 are the QPs, and what lies above bit
23 is the mask. -/
theorem pack_qp_fields (s1 s2 s3 : Int) (e : Nat) (h1 : 0 ≤ s1 ∧ s1 ≤ 255)
    (h2 : 0 ≤ s2 ∧ s2 ≤ 255) (h3 : 0 ≤ s3 ∧ s3 ≤ 255) (he : e ≤ 7) :
    ((pack_qp (to_s32 s1) (to_s32 s2) (to_s32 s3) e % 256 : Nat) : Int) = s1 ∧
    ((pack_qp (to_s32 s1) (to_s32 s2) (to_s32 s3) e / 256 % 256 : Nat) : Int) = s2 ∧
    ((pack_qp (to_s32 s1) (to_s32 s2) (to_s32 s3) e / 65536 % 256 : Nat) : Int) = s3 ∧
    pack_qp (to_s32 s1) (to_s32 s2) (to_s32 s3) e / 16777216 = e := by
  obtain ⟨x, hx⟩ : ∃ x : Nat, s1 = x := ⟨s1.toNat, (Int.toNat_of_nonneg h1.1).symm⟩
  obtain ⟨y, hy⟩ : ∃ y : Nat, s2 = y := ⟨s2.toNat, (Int.toNat_of_nonneg h2.1).symm⟩
  obtain ⟨z, hz⟩ : ∃ z : Nat, s3 = z := ⟨s3.toNat, (Int.toNat_of_nonneg h3.1).symm⟩
  subst hx hy hz
  rw [pack_qp_small x y z e (by omega) (by omega) (by omega) he]
  refine ⟨?_, ?_, ?_, ?_⟩ <;> omega

/-- The operator `||` with a non-zero left operand gives 1. -/
theorem logical_or_left (a b : Nat) (h : a ≠ 0) : logical_or a b = 1 := by
  unfold logical_or
  rw [if_pos (Or.inl h)]

/-- Three enable words equal to 1 make the mask 7. -/
theorem client_qp_enable_all : client_qp_enable 1 1 1 = 7 := by
  decide

/-! ## Claims C21 to C30 -/

/-- C21: with PIX_FMTS declared as parent of PROFILE,
`msm_vidc_adjust_profile` succeeds. Let v be the requested profile, which is
`ctrl->val` when a control is passed and the stored PROFILE value for the
NULL control. The rule stores MAIN_10 when the pixel format is P010 or TP10C,
whatever was requested; for every other pixel format it stores v unless v is
MAIN_10, in which case it stores MAIN_STILL_PICTURE for an image session and
MAIN otherwise. The stored profile is MAIN_10 if and only if the pixel format
is P010 or TP10C. -/
theorem adjust_profile_value (k : control_constants) (inst : msm_vidc_inst)
    (ctrl : Option v4l2_ctrl) (v : Int)
    (hsome : ∀ c, ctrl = some c → v = c.val)
    (hnone : ctrl = none → v = (inst.cap k.PROFILE).value)
    (hav : is_parent_available inst k.PROFILE k.PIX_FMTS = true)
    (hd1 : k.PIX_FMTS ≠ k.BITRATE_MODE) (hd2 : k.PIX_FMTS ≠ k.LAYER_TYPE)
    (hm : k.V4L2_MPEG_VIDEO_HEVC_PROFILE_MAIN ≠ k.V4L2_MPEG_VIDEO_HEVC_PROFILE_MAIN_10)
    (hsp : k.V4L2_MPEG_VIDEO_HEVC_PROFILE_MAIN_STILL_PICTURE
      ≠ k.V4L2_MPEG_VIDEO_HEVC_PROFILE_MAIN_10) :
    (msm_vidc_adjust_profile k inst ctrl).1 = 0 ∧
    (((inst.cap k.PIX_FMTS).value = k.MSM_VIDC_FMT_P010 ∨
        (inst.cap k.PIX_FMTS).value = k.MSM_VIDC_FMT_TP10C) →
      ((msm_vidc_adjust_profile k inst ctrl).2.cap k.PROFILE).value
        = k.V4L2_MPEG_VIDEO_HEVC_PROFILE_MAIN_10) ∧
    (¬ ((inst.cap k.PIX_FMTS).value = k.MSM_VIDC_FMT_P010 ∨
        (inst.cap k.PIX_FMTS).value = k.MSM_VIDC_FMT_TP10C) →
      (v ≠ k.V4L2_MPEG_VIDEO_HEVC_PROFILE_MAIN_10 →
        ((msm_vidc_adjust_profile k inst ctrl).2.cap k.PROFILE).value
          = v) ∧
      (v = k.V4L2_MPEG_VIDEO_HEVC_PROFILE_MAIN_10 →
        k.is_image_session inst = true →
        ((msm_vidc_adjust_profile k inst ctrl).2.cap k.PROFILE).value
          = k.V4L2_MPEG_VIDEO_HEVC_PROFILE_MAIN_STILL_PICTURE) ∧
      (v = k.V4L2_MPEG_VIDEO_HEVC_PROFILE_MAIN_10 →
        k.is_image_session inst = false →
        ((msm_vidc_adjust_profile k inst ctrl).2.cap k.PROFILE).value
          = k.V4L2_MPEG_VIDEO_HEVC_PROFILE_MAIN)) ∧
    (((msm_vidc_adjust_profile k inst ctrl).2.cap k.PROFILE).value
        = k.V4L2_MPEG_VIDEO_HEVC_PROFILE_MAIN_10 ↔
      ((inst.cap k.PIX_FMTS).value = k.MSM_VIDC_FMT_P010 ∨
        (inst.cap k.PIX_FMTS).value = k.MSM_VIDC_FMT_TP10C)) := by
  have hv : requested_value inst ctrl k.PROFILE = v := by
    cases ctrl with
    | none => exact (hnone rfl).symm
    | some c => exact (hsome c rfl).symm
  subst hv
  rw [adjust_profile_eq k inst ctrl hav hd1 hd2]
  simp only
  rw [(update_cap_value_same inst k.PROFILE _).1]
  refine ⟨trivial, ?_, ?_, ?_⟩
  · intro h
    rw [if_pos (by tauto)]
  · intro h
    have h' : ¬ ((inst.cap k.PIX_FMTS).value = k.MSM_VIDC_FMT_TP10C ∨
        (inst.cap k.PIX_FMTS).value = k.MSM_VIDC_FMT_P010) := by tauto
    rw [if_neg h']
    refine ⟨?_, ?_, ?_⟩
    · intro hr
      rw [if_neg hr]
    · intro hr hi
      rw [if_pos hr, if_pos hi]
    · intro hr hi
      rw [if_pos hr, if_neg (by rw [hi]; exact Bool.false_ne_true)]
  · constructor
    · intro hst
      by_contra h
      have h' : ¬ ((inst.cap k.PIX_FMTS).value = k.MSM_VIDC_FMT_TP10C ∨
          (inst.cap k.PIX_FMTS).value = k.MSM_VIDC_FMT_P010) := by tauto
      rw [if_neg h'] at hst
      by_cases hr : requested_value inst ctrl k.PROFILE = k.V4L2_MPEG_VIDEO_HEVC_PROFILE_MAIN_10
      · rw [if_pos hr] at hst
        by_cases hi : k.is_image_session inst = true
        · rw [if_pos hi] at hst
          exact hsp hst
        · rw [if_neg hi] at hst
          exact hm hst
      · rw [if_neg hr] at hst
        exact hr hst
    · intro h
      rw [if_pos (by tauto)]

/-- Witness for C21: an HEVC session. With the 10-bit format P010 the control
value MAIN (0) gives MAIN_10 (2). With the 8-bit format of the table, whose
stored profile is MAIN_10: the control value MAIN_10 gives MAIN, the control
value 1 is stored as it is, and with the NULL control a stored profile 1 is
kept.
The last line evaluates the return code and the stored value of each run. -/
theorem adjust_profile_value_witness :
    ((msm_vidc_adjust_profile consts_control
        (msm_vidc_update_cap_value (inst_control msm_vidc_codec_type.MSM_VIDC_HEVC 1) 13 16)
        (some ⟨114, 0⟩)).2.cap 14).value = 2 ∧
    ((msm_vidc_adjust_profile consts_control
        (inst_control msm_vidc_codec_type.MSM_VIDC_HEVC 1) (some ⟨114, 2⟩)).2.cap 14).value
      = 0 ∧
    ((inst_control msm_vidc_codec_type.MSM_VIDC_HEVC 1).cap 14).value = 2 ∧
    ((msm_vidc_adjust_profile consts_control
        (inst_control msm_vidc_codec_type.MSM_VIDC_HEVC 1) (some ⟨114, 1⟩)).2.cap 14).value
      = 1 ∧
    ((msm_vidc_adjust_profile consts_control
        (msm_vidc_update_cap_value (inst_control msm_vidc_codec_type.MSM_VIDC_HEVC 1) 14 1)
        none).2.cap 14).value = 1 ∧
    [((msm_vidc_adjust_profile consts_control (msm_vidc_update_cap_value (inst_control msm_vidc_codec_type.MSM_VIDC_HEVC 1) 13 16) (some ⟨114, 0⟩)).1,
        ((msm_vidc_adjust_profile consts_control (msm_vidc_update_cap_value (inst_control msm_vidc_codec_type.MSM_VIDC_HEVC 1) 13 16) (some ⟨114, 0⟩)).2.cap 14).value),
      ((msm_vidc_adjust_profile consts_control (inst_control msm_vidc_codec_type.MSM_VIDC_HEVC 1) (some ⟨114, 2⟩)).1,
        ((msm_vidc_adjust_profile consts_control (inst_control msm_vidc_codec_type.MSM_VIDC_HEVC 1) (some ⟨114, 2⟩)).2.cap 14).value),
      ((msm_vidc_adjust_profile consts_control (inst_control msm_vidc_codec_type.MSM_VIDC_HEVC 1) (some ⟨114, 1⟩)).1,
        ((msm_vidc_adjust_profile consts_control (inst_control msm_vidc_codec_type.MSM_VIDC_HEVC 1) (some ⟨114, 1⟩)).2.cap 14).value),
      ((msm_vidc_adjust_profile consts_control (msm_vidc_update_cap_value (inst_control msm_vidc_codec_type.MSM_VIDC_HEVC 1) 14 1) none).1,
        ((msm_vidc_adjust_profile consts_control (msm_vidc_update_cap_value (inst_control msm_vidc_codec_type.MSM_VIDC_HEVC 1) 14 1) none).2.cap 14).value)]
      = [(0, 2), (0, 0), (0, 1), (0, 1)] :=
  ⟨(adjust_profile_value consts_control
      (msm_vidc_update_cap_value (inst_control msm_vidc_codec_type.MSM_VIDC_HEVC 1) 13 16)
      (some ⟨114, 0⟩) 0 (fun c h => by cases h; rfl) (fun h => by cases h)
      (by decide) (by decide) (by decide) (by decide) (by decide)).2.1
      (Or.inl (by decide)),
   ((adjust_profile_value consts_control
      (inst_control msm_vidc_codec_type.MSM_VIDC_HEVC 1) (some ⟨114, 2⟩) 2
      (fun c h => by cases h; rfl) (fun h => by cases h)
      (by decide) (by decide) (by decide) (by decide) (by decide)).2.2.1
      (by decide)).2.2 (by decide) (by decide),
   by decide,
   ((adjust_profile_value consts_control
      (inst_control msm_vidc_codec_type.MSM_VIDC_HEVC 1) (some ⟨114, 1⟩) 1
      (fun c h => by cases h; rfl) (fun h => by cases h)
      (by decide) (by decide) (by decide) (by decide) (by decide)).2.2.1
      (by decide)).1 (by decide),
   ((adjust_profile_value consts_control
      (msm_vidc_update_cap_value (inst_control msm_vidc_codec_type.MSM_VIDC_HEVC 1) 14 1)
      none 1 (fun c h => by cases h) (fun _ => by decide)
      (by decide) (by decide) (by decide) (by decide) (by decide)).2.2.1
      (by decide)).1 (by decide),
   by decide⟩

/-- C22: for an H.264 session with PROFILE declared as parent,
`msm_vidc_adjust_entropy_mode` succeeds and stores CAVLC when the profile is
baseline or constrained baseline, and the requested entropy mode v for every
other profile, where v is `ctrl->val` when a control is passed and the
stored ENTROPY_MODE value for the NULL control; for a session of any other
codec it returns 0 and changes nothing. -/
theorem adjust_entropy_mode_value (k : control_constants) (inst : msm_vidc_inst)
    (ctrl : Option v4l2_ctrl) (v : Int)
    (hsome : ∀ c, ctrl = some c → v = c.val)
    (hnone : ctrl = none → v = (inst.cap k.ENTROPY_MODE).value)
    (hd1 : k.PROFILE ≠ k.BITRATE_MODE) (hd2 : k.PROFILE ≠ k.LAYER_TYPE) :
    (inst.codec = msm_vidc_codec_type.MSM_VIDC_H264 →
      is_parent_available inst k.ENTROPY_MODE k.PROFILE = true →
      (msm_vidc_adjust_entropy_mode k inst ctrl).1 = 0 ∧
      (((inst.cap k.PROFILE).value = k.V4L2_MPEG_VIDEO_H264_PROFILE_BASELINE ∨
          (inst.cap k.PROFILE).value = k.V4L2_MPEG_VIDEO_H264_PROFILE_CONSTRAINED_BASELINE) →
        ((msm_vidc_adjust_entropy_mode k inst ctrl).2.cap k.ENTROPY_MODE).value
          = k.V4L2_MPEG_VIDEO_H264_ENTROPY_MODE_CAVLC) ∧
      (¬ ((inst.cap k.PROFILE).value = k.V4L2_MPEG_VIDEO_H264_PROFILE_BASELINE ∨
          (inst.cap k.PROFILE).value = k.V4L2_MPEG_VIDEO_H264_PROFILE_CONSTRAINED_BASELINE) →
        ((msm_vidc_adjust_entropy_mode k inst ctrl).2.cap k.ENTROPY_MODE).value
          = v)) ∧
    (inst.codec ≠ msm_vidc_codec_type.MSM_VIDC_H264 →
      msm_vidc_adjust_entropy_mode k inst ctrl = (0, inst)) := by
  have hv : requested_value inst ctrl k.ENTROPY_MODE = v := by
    cases ctrl with
    | none => exact (hnone rfl).symm
    | some c => exact (hsome c rfl).symm
  subst hv
  constructor
  · intro hc hav
    rw [adjust_entropy_mode_eq k inst ctrl hc hav hd1 hd2]
    simp only
    rw [(update_cap_value_same inst k.ENTROPY_MODE _).1]
    refine ⟨trivial, fun h => by rw [if_pos h], fun h => by rw [if_neg h]⟩
  · intro hc
    unfold msm_vidc_adjust_entropy_mode
    simp only [ne_eq, hc, not_false_eq_true, if_true]

/-- Witness for C22: an H.264 session whose stored entropy mode is 1. With
the baseline profile the control value 1 gives CAVLC (0); with the profile 2
of the table the control value 0 is stored as it is, and with the NULL
control the stored mode 1 is kept; an HEVC session is left as it is.
The last line evaluates the return code and the stored value of each run. -/
theorem adjust_entropy_mode_value_witness :
    ((msm_vidc_adjust_entropy_mode consts_control
        (msm_vidc_update_cap_value (inst_control msm_vidc_codec_type.MSM_VIDC_H264 1) 14 0)
        (some ⟨115, 1⟩)).2.cap 15).value = 0 ∧
    ((inst_control msm_vidc_codec_type.MSM_VIDC_H264 1).cap 15).value = 1 ∧
    ((msm_vidc_adjust_entropy_mode consts_control
        (inst_control msm_vidc_codec_type.MSM_VIDC_H264 1) (some ⟨115, 0⟩)).2.cap 15).value
      = 0 ∧
    ((msm_vidc_adjust_entropy_mode consts_control
        (inst_control msm_vidc_codec_type.MSM_VIDC_H264 1) none).2.cap 15).value = 1 ∧
    msm_vidc_adjust_entropy_mode consts_control
        (inst_control msm_vidc_codec_type.MSM_VIDC_HEVC 1) (some ⟨115, 0⟩)
      = (0, inst_control msm_vidc_codec_type.MSM_VIDC_HEVC 1) ∧
    [((msm_vidc_adjust_entropy_mode consts_control (msm_vidc_update_cap_value (inst_control msm_vidc_codec_type.MSM_VIDC_H264 1) 14 0) (some ⟨115, 1⟩)).1,
        ((msm_vidc_adjust_entropy_mode consts_control (msm_vidc_update_cap_value (inst_control msm_vidc_codec_type.MSM_VIDC_H264 1) 14 0) (some ⟨115, 1⟩)).2.cap 15).value),
      ((msm_vidc_adjust_entropy_mode consts_control (inst_control msm_vidc_codec_type.MSM_VIDC_H264 1) (some ⟨115, 0⟩)).1,
        ((msm_vidc_adjust_entropy_mode consts_control (inst_control msm_vidc_codec_type.MSM_VIDC_H264 1) (some ⟨115, 0⟩)).2.cap 15).value),
      ((msm_vidc_adjust_entropy_mode consts_control (inst_control msm_vidc_codec_type.MSM_VIDC_H264 1) none).1,
        ((msm_vidc_adjust_entropy_mode consts_control (inst_control msm_vidc_codec_type.MSM_VIDC_H264 1) none).2.cap 15).value),
      ((msm_vidc_adjust_entropy_mode consts_control (inst_control msm_vidc_codec_type.MSM_VIDC_HEVC 1) (some ⟨115, 0⟩)).1,
        ((msm_vidc_adjust_entropy_mode consts_control (inst_control msm_vidc_codec_type.MSM_VIDC_HEVC 1) (some ⟨115, 0⟩)).2.cap 15).value)]
      = [(0, 0), (0, 0), (0, 1), (0, 1)] :=
  ⟨((adjust_entropy_mode_value consts_control
      (msm_vidc_update_cap_value (inst_control msm_vidc_codec_type.MSM_VIDC_H264 1) 14 0)
      (some ⟨115, 1⟩) 1 (fun c h => by cases h; rfl) (fun h => by cases h)
      (by decide) (by decide)).1 (by decide) (by decide)).2.1
      (Or.inl (by decide)),
   by decide,
   ((adjust_entropy_mode_value consts_control
      (inst_control msm_vidc_codec_type.MSM_VIDC_H264 1) (some ⟨115, 0⟩) 0
      (fun c h => by cases h; rfl) (fun h => by cases h)
      (by decide) (by decide)).1 (by decide) (by decide)).2.2 (by decide),
   ((adjust_entropy_mode_value consts_control
      (inst_control msm_vidc_codec_type.MSM_VIDC_H264 1) none 1
      (fun c h => by cases h) (fun _ => by decide)
      (by decide) (by decide)).1 (by decide) (by decide)).2.2 (by decide),
   (adjust_entropy_mode_value consts_control
      (inst_control msm_vidc_codec_type.MSM_VIDC_HEVC 1) (some ⟨115, 0⟩) 0
      (fun c h => by cases h; rfl) (fun h => by cases h)
      (by decide) (by decide)).2 (by decide),
   by decide⟩

/-- Counterexample to C24 as stated: an HEVC session with LAYER_ENABLE 0,
rate control constant-frame-rate CBR and a requested layer count 2. The
static calibration stores the count 2, not 0. -/
theorem static_layer_count_hevc_layer_enable_ignored :
    (with_codec (msm_vidc_update_cap_value (inst_encoder false 1 0) 6 0)
      msm_vidc_codec_type.MSM_VIDC_HEVC).codec = msm_vidc_codec_type.MSM_VIDC_HEVC ∧
    ((with_codec (msm_vidc_update_cap_value (inst_encoder false 1 0) 6 0)
      msm_vidc_codec_type.MSM_VIDC_HEVC).cap consts_sample.LAYER_ENABLE).value = 0 ∧
    (msm_vidc_adjust_static_layer_count_and_type consts_sample
      (with_codec (msm_vidc_update_cap_value (inst_encoder false 1 0) 6 0)
        msm_vidc_codec_type.MSM_VIDC_HEVC) 2).1 = 0 ∧
    ((msm_vidc_adjust_static_layer_count_and_type consts_sample
      (with_codec (msm_vidc_update_cap_value (inst_encoder false 1 0) 6 0)
        msm_vidc_codec_type.MSM_VIDC_HEVC) 2).2.cap consts_sample.ENH_LAYER_COUNT).value
      = 2 := by
  decide

/-- C24, amended: the static layer calibration succeeds and resolves
ENH_LAYER_COUNT (value and max) to 0 for every requested layer count when the
resolved rate control is CQ, for every codec, and when the session is H.264
with a LAYER_ENABLE value of 0. -/
theorem static_layer_count_zero (k : header_constants) (inst : msm_vidc_inst) (v : Int)
    (hg : inst.hfi_rc_type = k.HFI_RC_CQ ∨
      (inst.codec = msm_vidc_codec_type.MSM_VIDC_H264 ∧
        (inst.cap k.LAYER_ENABLE).value = 0)) :
    (msm_vidc_adjust_static_layer_count_and_type k inst v).1 = 0 ∧
    ((msm_vidc_adjust_static_layer_count_and_type k inst v).2.cap k.ENH_LAYER_COUNT).value
      = 0 ∧
    ((msm_vidc_adjust_static_layer_count_and_type k inst v).2.cap k.ENH_LAYER_COUNT).max
      = 0 := by
  obtain ⟨e0, -, e2, e3⟩ := static_layer_calibration_eq k inst v
  rw [e2, e3]
  have hg' : inst.hfi_rc_type = k.HFI_RC_CQ ∨
      (inst.codec = msm_vidc_codec_type.MSM_VIDC_H264 ∧ (inst.cap k.LAYER_ENABLE).value = 0) ∨
      (hb_requested k inst = true ∧ inst.hfi_rc_type ≠ k.HFI_RC_VBR_CFR) := by tauto
  obtain ⟨-, g2⟩ := static_layer_resolve_gate k inst v hg'
  exact ⟨e0, g2, g2⟩

/-- Witness for C24 amended: an H.264 session with LAYER_ENABLE 0 and a
requested count 5, and an HEVC session under CQ with a requested count 2. -/
theorem static_layer_count_zero_witness :
    ((msm_vidc_adjust_static_layer_count_and_type consts_sample
      (msm_vidc_update_cap_value (inst_encoder false 0 0) 6 0)
      5).2.cap consts_sample.ENH_LAYER_COUNT).value = 0 ∧
    ((msm_vidc_adjust_static_layer_count_and_type consts_sample
      (with_codec (inst_encoder false 2 0) msm_vidc_codec_type.MSM_VIDC_HEVC)
      2).2.cap consts_sample.ENH_LAYER_COUNT).value = 0 :=
  ⟨(static_layer_count_zero consts_sample
      (msm_vidc_update_cap_value (inst_encoder false 0 0) 6 0) 5
      (Or.inr ⟨by decide, by decide⟩)).2.1,
   (static_layer_count_zero consts_sample
      (with_codec (inst_encoder false 2 0) msm_vidc_codec_type.MSM_VIDC_HEVC) 2
      (Or.inl (by decide))).2.1⟩

/-- Counterexample to C25 as stated: an H.264 session with requested count 5,
hierarchical-P requested and rate control constant-frame-rate VBR, in which
LAYER_ENABLE is 0. The static calibration stores the count 0 and leaves the
layer type 0 of the fresh session, while min(5, MAX_AVC_ENH_LAYER_HYBRID_HP)
is 5 and the hybrid-LTR kind is 2. -/
theorem static_layer_count_scenario_layer_enable_off :
    (msm_vidc_update_cap_value (inst_encoder false 0 0) 6 0).codec
      = msm_vidc_codec_type.MSM_VIDC_H264 ∧
    hb_requested consts_sample (msm_vidc_update_cap_value (inst_encoder false 0 0) 6 0)
      = false ∧
    (msm_vidc_update_cap_value (inst_encoder false 0 0) 6 0).hfi_rc_type
      = consts_sample.HFI_RC_VBR_CFR ∧
    ((msm_vidc_adjust_static_layer_count_and_type consts_sample
      (msm_vidc_update_cap_value (inst_encoder false 0 0) 6 0)
      5).2.cap consts_sample.ENH_LAYER_COUNT).value = 0 ∧
    (msm_vidc_adjust_static_layer_count_and_type consts_sample
      (msm_vidc_update_cap_value (inst_encoder false 0 0) 6 0) 5).2.hfi_layer_type = 0 ∧
    min 5 consts_sample.MAX_AVC_ENH_LAYER_HYBRID_HP = 5 ∧
    consts_sample.HFI_HIER_P_HYBRID_LTR = 2 := by
  decide

/-- C25, amended: with the three layer kinds distinct, a non-zero count
resolved by the static layer calibration equals min(requested count,
ceiling), the ceiling being MAX_ENH_LAYER_HB for the resolved kind
hierarchical-B, MAX_AVC_ENH_LAYER_HYBRID_HP for hybrid-LTR,
MAX_AVC_ENH_LAYER_SLIDING_WINDOW for sliding-window under H.264 and
MAX_HEVC_ENH_LAYER_SLIDING_WINDOW for sliding-window under any other codec.
For an H.264 session with requested count 5, hierarchical-B not requested,
rate control constant-frame-rate VBR (distinct from CQ) and a non-zero
LAYER_ENABLE, the resolved kind is hybrid-LTR and the count is
min(5, MAX_AVC_ENH_LAYER_HYBRID_HP). -/
theorem static_layer_count_clamped (k : header_constants) (inst : msm_vidc_inst) (v : Int)
    (d1 : k.HFI_HIER_B ≠ k.HFI_HIER_P_HYBRID_LTR)
    (d2 : k.HFI_HIER_B ≠ k.HFI_HIER_P_SLIDING_WINDOW)
    (d3 : k.HFI_HIER_P_HYBRID_LTR ≠ k.HFI_HIER_P_SLIDING_WINDOW) :
    (((msm_vidc_adjust_static_layer_count_and_type k inst v).2.cap k.ENH_LAYER_COUNT).value
        ≠ 0 →
      ((msm_vidc_adjust_static_layer_count_and_type k inst v).2.hfi_layer_type = k.HFI_HIER_B ∧
        ((msm_vidc_adjust_static_layer_count_and_type k inst v).2.cap k.ENH_LAYER_COUNT).value
          = min v k.MAX_ENH_LAYER_HB) ∨
      ((msm_vidc_adjust_static_layer_count_and_type k inst v).2.hfi_layer_type
          = k.HFI_HIER_P_HYBRID_LTR ∧
        ((msm_vidc_adjust_static_layer_count_and_type k inst v).2.cap k.ENH_LAYER_COUNT).value
          = min v k.MAX_AVC_ENH_LAYER_HYBRID_HP) ∨
      ((msm_vidc_adjust_static_layer_count_and_type k inst v).2.hfi_layer_type
          = k.HFI_HIER_P_SLIDING_WINDOW ∧
        inst.codec = msm_vidc_codec_type.MSM_VIDC_H264 ∧
        ((msm_vidc_adjust_static_layer_count_and_type k inst v).2.cap k.ENH_LAYER_COUNT).value
          = min v k.MAX_AVC_ENH_LAYER_SLIDING_WINDOW) ∨
      ((msm_vidc_adjust_static_layer_count_and_type k inst v).2.hfi_layer_type
          = k.HFI_HIER_P_SLIDING_WINDOW ∧
        inst.codec ≠ msm_vidc_codec_type.MSM_VIDC_H264 ∧
        ((msm_vidc_adjust_static_layer_count_and_type k inst v).2.cap k.ENH_LAYER_COUNT).value
          = min v k.MAX_HEVC_ENH_LAYER_SLIDING_WINDOW)) ∧
    (inst.codec = msm_vidc_codec_type.MSM_VIDC_H264 → v = 5 → hb_requested k inst = false →
      inst.hfi_rc_type = k.HFI_RC_VBR_CFR → k.HFI_RC_VBR_CFR ≠ k.HFI_RC_CQ →
      (inst.cap k.LAYER_ENABLE).value ≠ 0 →
      (msm_vidc_adjust_static_layer_count_and_type k inst v).2.hfi_layer_type
        = k.HFI_HIER_P_HYBRID_LTR ∧
      ((msm_vidc_adjust_static_layer_count_and_type k inst v).2.cap k.ENH_LAYER_COUNT).value
        = min 5 k.MAX_AVC_ENH_LAYER_HYBRID_HP) := by
  obtain ⟨-, e1, e2, -⟩ := static_layer_calibration_eq k inst v
  rw [e1, e2]
  have hsan : ∀ t : Nat, (static_layer_resolve k inst v).1.hfi_layer_type = t →
      (static_layer_resolve k inst v).1.codec = inst.codec →
      (static_layer_resolve k inst v).2
        = sanitize_layer_count k (static_layer_resolve k inst v).1 v →
      (t = k.HFI_HIER_B ∨ t = k.HFI_HIER_P_HYBRID_LTR ∨ t = k.HFI_HIER_P_SLIDING_WINDOW) →
      (t = k.HFI_HIER_B ∧ (static_layer_resolve k inst v).2 = min v k.MAX_ENH_LAYER_HB) ∨
      (t = k.HFI_HIER_P_HYBRID_LTR ∧
        (static_layer_resolve k inst v).2 = min v k.MAX_AVC_ENH_LAYER_HYBRID_HP) ∨
      (t = k.HFI_HIER_P_SLIDING_WINDOW ∧ inst.codec = msm_vidc_codec_type.MSM_VIDC_H264 ∧
        (static_layer_resolve k inst v).2 = min v k.MAX_AVC_ENH_LAYER_SLIDING_WINDOW) ∨
      (t = k.HFI_HIER_P_SLIDING_WINDOW ∧ inst.codec ≠ msm_vidc_codec_type.MSM_VIDC_H264 ∧
        (static_layer_resolve k inst v).2 = min v k.MAX_HEVC_ENH_LAYER_SLIDING_WINDOW) := by
    intro t ht hc hs hcases
    unfold sanitize_layer_count at hs
    rw [ht, hc] at hs
    rcases hcases with h | h | h
    · rw [if_pos h, clamp_above_eq_min] at hs
      exact Or.inl ⟨h, hs⟩
    · rw [if_neg (by rw [h]; exact fun e => d1 e.symm), if_pos h, clamp_above_eq_min] at hs
      exact Or.inr (Or.inl ⟨h, hs⟩)
    · rw [if_neg (by rw [h]; exact fun e => d2 e.symm),
        if_neg (by rw [h]; exact fun e => d3 e.symm), if_pos h] at hs
      by_cases hh : inst.codec = msm_vidc_codec_type.MSM_VIDC_H264
      · rw [if_pos hh, clamp_above_eq_min] at hs
        exact Or.inr (Or.inr (Or.inl ⟨h, hh, hs⟩))
      · rw [if_neg hh, clamp_above_eq_min] at hs
        exact Or.inr (Or.inr (Or.inr ⟨h, hh, hs⟩))
  have hkind : decide_hfi_layer_type k inst = k.HFI_HIER_B ∨
      decide_hfi_layer_type k inst = k.HFI_HIER_P_HYBRID_LTR ∨
      decide_hfi_layer_type k inst = k.HFI_HIER_P_SLIDING_WINDOW := by
    unfold decide_hfi_layer_type
    split_ifs
    · exact Or.inl rfl
    · exact Or.inr (Or.inl rfl)
    · exact Or.inr (Or.inr rfl)
  constructor
  · intro hnz
    by_cases hg : inst.hfi_rc_type = k.HFI_RC_CQ ∨
        (inst.codec = msm_vidc_codec_type.MSM_VIDC_H264 ∧ (inst.cap k.LAYER_ENABLE).value = 0) ∨
        (hb_requested k inst = true ∧ inst.hfi_rc_type ≠ k.HFI_RC_VBR_CFR)
    · exact (hnz (static_layer_resolve_gate k inst v hg).2).elim
    · have hv : v ≠ 0 := by
        intro h0
        apply hnz
        unfold static_layer_resolve
        rw [if_pos h0]
        exact h0
      obtain ⟨p1, p2, p3⟩ := static_layer_resolve_pass k inst v hv (by tauto) (by tauto)
        (by tauto)
      have := hsan _ rfl p2 p3 (by rw [p1]; exact hkind)
      exact this
  · intro hc hv hb hrc hcq hle
    subst hv
    obtain ⟨p1, p2, p3⟩ := static_layer_resolve_pass k inst 5 (by decide)
      (by rw [hrc]; exact hcq) (fun h => hle h.2)
      (fun h => by rw [hb] at h; exact Bool.false_ne_true h.1)
    have hty : (static_layer_resolve k inst 5).1.hfi_layer_type = k.HFI_HIER_P_HYBRID_LTR := by
      rw [p1]
      unfold decide_hfi_layer_type
      rw [if_neg (by rw [hb]; exact Bool.false_ne_true), if_pos ⟨hc, hrc⟩]
    refine ⟨hty, ?_⟩
    rcases hsan _ hty p2 p3 (Or.inr (Or.inl rfl)) with h | h | h | h
    · exact (d1 h.1.symm).elim
    · exact h.2
    · exact (d3 h.1).elim
    · exact (d3 h.1).elim

/-- Witness for C25 amended: an H.264 session under constant-frame-rate VBR
with hierarchical-P requested, layer encoding enabled and a requested count
5. -/
theorem static_layer_count_clamped_witness :
    (msm_vidc_adjust_static_layer_count_and_type consts_sample (inst_encoder false 0 0)
      5).2.hfi_layer_type = consts_sample.HFI_HIER_P_HYBRID_LTR ∧
    ((msm_vidc_adjust_static_layer_count_and_type consts_sample (inst_encoder false 0 0)
      5).2.cap consts_sample.ENH_LAYER_COUNT).value
      = min 5 consts_sample.MAX_AVC_ENH_LAYER_HYBRID_HP :=
  (static_layer_count_clamped consts_sample (inst_encoder false 0 0) 5
    (by decide) (by decide) (by decide)).2 (by decide) rfl (by decide) (by decide)
    (by decide) (by decide)

/-- C26: while the session is streaming, with BITRATE_MODE declared as parent
of ENH_LAYER_COUNT, `msm_vidc_adjust_layer_count` with requested count v,
which is `ctrl->val` when a control is passed and the stored ENH_LAYER_COUNT
value for the NULL control, succeeds and leaves the max m of ENH_LAYER_COUNT
alone; under a hierarchical-P kind it stores min(v, m); under any other layer
type, and so under hierarchical-B when distinct from the P kinds, it changes
nothing; a stored count that is at most m stays at most m. The static
calibration of a session `inst0` leaves max equal to the count it
resolved. -/
theorem adjust_layer_count_dynamic (k : header_constants) (inst inst0 : msm_vidc_inst)
    (ctrl : Option v4l2_ctrl) (v : Int)
    (hsome : ∀ c, ctrl = some c → v = c.val)
    (hnone : ctrl = none → v = (inst.cap k.ENH_LAYER_COUNT).value)
    (v0 : Int) (hs : inst.streaming = true)
    (hav : is_parent_available inst k.ENH_LAYER_COUNT k.BITRATE_MODE = true) :
    (msm_vidc_adjust_layer_count k inst ctrl).1 = 0 ∧
    ((msm_vidc_adjust_layer_count k inst ctrl).2.cap k.ENH_LAYER_COUNT).max
      = (inst.cap k.ENH_LAYER_COUNT).max ∧
    ((inst.hfi_layer_type = k.HFI_HIER_P_HYBRID_LTR ∨
        inst.hfi_layer_type = k.HFI_HIER_P_SLIDING_WINDOW) →
      ((msm_vidc_adjust_layer_count k inst ctrl).2.cap k.ENH_LAYER_COUNT).value
        = min (v) (inst.cap k.ENH_LAYER_COUNT).max) ∧
    (¬ (inst.hfi_layer_type = k.HFI_HIER_P_HYBRID_LTR ∨
        inst.hfi_layer_type = k.HFI_HIER_P_SLIDING_WINDOW) →
      (msm_vidc_adjust_layer_count k inst ctrl).2 = inst) ∧
    (inst.hfi_layer_type = k.HFI_HIER_B → k.HFI_HIER_B ≠ k.HFI_HIER_P_HYBRID_LTR →
      k.HFI_HIER_B ≠ k.HFI_HIER_P_SLIDING_WINDOW →
      (msm_vidc_adjust_layer_count k inst ctrl).2 = inst) ∧
    ((inst.cap k.ENH_LAYER_COUNT).value ≤ (inst.cap k.ENH_LAYER_COUNT).max →
      ((msm_vidc_adjust_layer_count k inst ctrl).2.cap k.ENH_LAYER_COUNT).value
        ≤ (inst.cap k.ENH_LAYER_COUNT).max) ∧
    ((msm_vidc_adjust_static_layer_count_and_type k inst0 v0).2.cap k.ENH_LAYER_COUNT).max
      = ((msm_vidc_adjust_static_layer_count_and_type k inst0 v0).2.cap
          k.ENH_LAYER_COUNT).value := by
  have hv : requested_value inst ctrl k.ENH_LAYER_COUNT = v := by
    cases ctrl with
    | none => exact (hnone rfl).symm
    | some c => exact (hsome c rfl).symm
  subst hv
  have hstatic : ((msm_vidc_adjust_static_layer_count_and_type k inst0 v0).2.cap
      k.ENH_LAYER_COUNT).max
      = ((msm_vidc_adjust_static_layer_count_and_type k inst0 v0).2.cap
          k.ENH_LAYER_COUNT).value := by
    obtain ⟨-, -, e2, e3⟩ := static_layer_calibration_eq k inst0 v0
    rw [e2, e3]
  unfold msm_vidc_adjust_layer_count
  rw [if_neg (by rw [hav]; exact Bool.noConfusion), if_neg (by rw [hs]; exact Bool.noConfusion)]
  by_cases hp : inst.hfi_layer_type = k.HFI_HIER_P_HYBRID_LTR ∨
      inst.hfi_layer_type = k.HFI_HIER_P_SLIDING_WINDOW
  · rw [if_pos hp]
    simp only
    obtain ⟨u1, -, u3, -⟩ := update_cap_value_same inst k.ENH_LAYER_COUNT
      (if requested_value inst ctrl k.ENH_LAYER_COUNT > (inst.cap k.ENH_LAYER_COUNT).max
        then (inst.cap k.ENH_LAYER_COUNT).max
        else requested_value inst ctrl k.ENH_LAYER_COUNT)
    rw [u1, u3, clamp_above_eq_min]
    refine ⟨trivial, rfl, fun _ => rfl, fun h => (h hp).elim, ?_, fun _ => min_le_right _ _,
      hstatic⟩
    intro hb e1 e2
    rcases hp with h | h
    · exact (e1 (hb.symm.trans h)).elim
    · exact (e2 (hb.symm.trans h)).elim
  · rw [if_neg hp]
    exact ⟨rfl, rfl, fun h => (hp h).elim, fun _ => rfl, fun _ _ _ => rfl, fun h => h, hstatic⟩

/-- Witness for C26: a streaming H.264 session under sliding-window P whose
static calibration resolved the count 3, so that the stored count and max are
3. The control value 5 is stored as 3 = min(5, 3), the control value 2 is
stored as 2, and with the NULL control the stored count 3 is kept.
The last line evaluates the return code and the stored value of each run. -/
theorem adjust_layer_count_dynamic_witness :
    ((with_streaming (msm_vidc_adjust_static_layer_count_and_type consts_sample
        (inst_encoder false 1 0) 5).2 true).cap consts_sample.ENH_LAYER_COUNT).value = 3 ∧
    ((with_streaming (msm_vidc_adjust_static_layer_count_and_type consts_sample
        (inst_encoder false 1 0) 5).2 true).cap consts_sample.ENH_LAYER_COUNT).max = 3 ∧
    ((msm_vidc_adjust_layer_count consts_sample
      (with_streaming (msm_vidc_adjust_static_layer_count_and_type consts_sample
        (inst_encoder false 1 0) 5).2 true) (some ⟨107, 5⟩)).2.cap
        consts_sample.ENH_LAYER_COUNT).value = 3 ∧
    ((msm_vidc_adjust_layer_count consts_sample
      (with_streaming (msm_vidc_adjust_static_layer_count_and_type consts_sample
        (inst_encoder false 1 0) 5).2 true) (some ⟨107, 2⟩)).2.cap
        consts_sample.ENH_LAYER_COUNT).value = 2 ∧
    ((msm_vidc_adjust_layer_count consts_sample
      (with_streaming (msm_vidc_adjust_static_layer_count_and_type consts_sample
        (inst_encoder false 1 0) 5).2 true) none).2.cap
        consts_sample.ENH_LAYER_COUNT).value = 3 ∧
    [((msm_vidc_adjust_layer_count consts_sample
        (with_streaming (msm_vidc_adjust_static_layer_count_and_type consts_sample
          (inst_encoder false 1 0) 5).2 true) (some ⟨107, 5⟩)).1,
        ((msm_vidc_adjust_layer_count consts_sample
        (with_streaming (msm_vidc_adjust_static_layer_count_and_type consts_sample
          (inst_encoder false 1 0) 5).2 true) (some ⟨107, 5⟩)).2.cap 7).value),
      ((msm_vidc_adjust_layer_count consts_sample
        (with_streaming (msm_vidc_adjust_static_layer_count_and_type consts_sample
          (inst_encoder false 1 0) 5).2 true) (some ⟨107, 2⟩)).1,
        ((msm_vidc_adjust_layer_count consts_sample
        (with_streaming (msm_vidc_adjust_static_layer_count_and_type consts_sample
          (inst_encoder false 1 0) 5).2 true) (some ⟨107, 2⟩)).2.cap 7).value),
      ((msm_vidc_adjust_layer_count consts_sample
        (with_streaming (msm_vidc_adjust_static_layer_count_and_type consts_sample
          (inst_encoder false 1 0) 5).2 true) none).1,
        ((msm_vidc_adjust_layer_count consts_sample
        (with_streaming (msm_vidc_adjust_static_layer_count_and_type consts_sample
          (inst_encoder false 1 0) 5).2 true) none).2.cap 7).value)]
      = [(0, 3), (0, 2), (0, 3)] :=
  ⟨by decide, by decide,
   ((adjust_layer_count_dynamic consts_sample
      (with_streaming (msm_vidc_adjust_static_layer_count_and_type consts_sample
        (inst_encoder false 1 0) 5).2 true) (inst_encoder false 1 0) (some ⟨107, 5⟩) 5
      (fun c h => by cases h; rfl) (fun h => by cases h) 5
      (by decide) (by decide)).2.2.1 (Or.inr (by decide))).trans (by decide),
   ((adjust_layer_count_dynamic consts_sample
      (with_streaming (msm_vidc_adjust_static_layer_count_and_type consts_sample
        (inst_encoder false 1 0) 5).2 true) (inst_encoder false 1 0) (some ⟨107, 2⟩) 2
      (fun c h => by cases h; rfl) (fun h => by cases h) 5
      (by decide) (by decide)).2.2.1 (Or.inr (by decide))).trans (by decide),
   ((adjust_layer_count_dynamic consts_sample
      (with_streaming (msm_vidc_adjust_static_layer_count_and_type consts_sample
        (inst_encoder false 1 0) 5).2 true) (inst_encoder false 1 0) none 3
      (fun c h => by cases h) (fun _ => by decide) 5
      (by decide) (by decide)).2.2.1 (Or.inr (by decide))).trans (by decide),
   by decide⟩

/-- C27: for an HEVC or HEIC session, a trigger c among MIN_FRAME_QP,
MAX_FRAME_QP and I_FRAME_QP (three distinct enumerators) and PIX_FMTS
declared as parent of c, `msm_vidc_adjust_hevc_qp` succeeds. When the pixel
format is P010 or TP10C it changes nothing. Otherwise the value of c and of
each member of its group (I/P/B_FRAME_MIN_QP for MIN_FRAME_QP,
I/P/B_FRAME_MAX_QP for MAX_FRAME_QP, P/B_FRAME_QP for I_FRAME_QP) becomes
max(old value, 0), with no upper clamp, every other capability value stays,
and no field other than `value` changes. -/
theorem adjust_hevc_qp_clamps (k : control_constants) (inst : msm_vidc_inst) (c : Nat)
    (hcodec : inst.codec = msm_vidc_codec_type.MSM_VIDC_HEVC ∨
      inst.codec = msm_vidc_codec_type.MSM_VIDC_HEIC)
    (hav : is_parent_available inst c k.PIX_FMTS = true)
    (hd1 : k.PIX_FMTS ≠ k.BITRATE_MODE) (hd2 : k.PIX_FMTS ≠ k.LAYER_TYPE)
    (hmm : k.MIN_FRAME_QP ≠ k.MAX_FRAME_QP) (hmi : k.MIN_FRAME_QP ≠ k.I_FRAME_QP)
    (hxi : k.MAX_FRAME_QP ≠ k.I_FRAME_QP)
    (hc : c = k.MIN_FRAME_QP ∨ c = k.MAX_FRAME_QP ∨ c = k.I_FRAME_QP) :
    (msm_vidc_adjust_hevc_qp k inst c).1 = 0 ∧
    (((inst.cap k.PIX_FMTS).value = k.MSM_VIDC_FMT_P010 ∨
        (inst.cap k.PIX_FMTS).value = k.MSM_VIDC_FMT_TP10C) →
      (msm_vidc_adjust_hevc_qp k inst c).2 = inst) ∧
    (¬ ((inst.cap k.PIX_FMTS).value = k.MSM_VIDC_FMT_P010 ∨
        (inst.cap k.PIX_FMTS).value = k.MSM_VIDC_FMT_TP10C) →
      ∀ d : Nat,
        (((msm_vidc_adjust_hevc_qp k inst c).2.cap d).value =
          if d = c ∨
              (c = k.MIN_FRAME_QP ∧
                (d = k.I_FRAME_MIN_QP ∨ d = k.P_FRAME_MIN_QP ∨ d = k.B_FRAME_MIN_QP)) ∨
              (c = k.MAX_FRAME_QP ∧
                (d = k.I_FRAME_MAX_QP ∨ d = k.P_FRAME_MAX_QP ∨ d = k.B_FRAME_MAX_QP)) ∨
              (c = k.I_FRAME_QP ∧ (d = k.P_FRAME_QP ∨ d = k.B_FRAME_QP))
          then max (inst.cap d).value 0 else (inst.cap d).value) ∧
        (msm_vidc_adjust_hevc_qp k inst c).2.cap d =
          { inst.cap d with value := ((msm_vidc_adjust_hevc_qp k inst c).2.cap d).value }) := by
  have hcodec' : ¬ ¬ (inst.codec = msm_vidc_codec_type.MSM_VIDC_HEVC ∨
      inst.codec = msm_vidc_codec_type.MSM_VIDC_HEIC) := fun h => h hcodec
  unfold msm_vidc_adjust_hevc_qp
  rw [if_neg hcodec']
  simp only [get_parent_value_plain k.toheader_constants inst _ _ _ hav hd1 hd2, ne_eq,
    not_true_eq_false, if_false]
  by_cases h10 : (inst.cap k.PIX_FMTS).value = k.MSM_VIDC_FMT_P010 ∨
      (inst.cap k.PIX_FMTS).value = k.MSM_VIDC_FMT_TP10C
  · rw [if_pos h10]
    exact ⟨rfl, fun _ => rfl, fun h => (h h10).elim⟩
  · rw [if_neg h10]
    rcases hc with hc | hc | hc
    · subst hc
      rw [if_pos rfl]
      refine ⟨rfl, fun h => (h10 h).elim, fun _ d => ?_⟩
      obtain ⟨v, f⟩ := cap_to_8bit_qp_four inst k.MIN_FRAME_QP k.I_FRAME_MIN_QP
        k.P_FRAME_MIN_QP k.B_FRAME_MIN_QP d
      refine ⟨?_, f⟩
      rw [v]
      exact if_congr (by simp only [true_and, hmm, hmi, false_and, or_false]) rfl rfl
    · subst hc
      rw [if_neg (fun h => hmm h.symm), if_pos rfl]
      refine ⟨rfl, fun h => (h10 h).elim, fun _ d => ?_⟩
      obtain ⟨v, f⟩ := cap_to_8bit_qp_four inst k.MAX_FRAME_QP k.I_FRAME_MAX_QP
        k.P_FRAME_MAX_QP k.B_FRAME_MAX_QP d
      refine ⟨?_, f⟩
      rw [v]
      exact if_congr (by simp only [true_and, hmm.symm, hxi, false_and, or_false, false_or])
        rfl rfl
    · subst hc
      rw [if_neg (fun h => hmi h.symm), if_neg (fun h => hxi h.symm), if_pos rfl]
      refine ⟨rfl, fun h => (h10 h).elim, fun _ d => ?_⟩
      obtain ⟨v, f⟩ := cap_to_8bit_qp_three inst k.I_FRAME_QP k.P_FRAME_QP k.B_FRAME_QP d
      refine ⟨?_, f⟩
      rw [v]
      exact if_congr (by simp only [true_and, hmi.symm, hxi.symm, false_and, false_or]) rfl rfl

/-- Witness for C27: an HEVC session with an 8-bit pixel format and the
trigger MIN_FRAME_QP; the value -12 of P_FRAME_MIN_QP becomes 0 and the value
51 of MAX_FRAME_QP stays. -/
theorem adjust_hevc_qp_clamps_witness :
    ((msm_vidc_adjust_hevc_qp consts_control
        (inst_control msm_vidc_codec_type.MSM_VIDC_HEVC 1) 16).2.cap 22).value
      = max (-12) 0 ∧
    ((msm_vidc_adjust_hevc_qp consts_control
        (inst_control msm_vidc_codec_type.MSM_VIDC_HEVC 1) 16).2.cap 17).value = 51 :=
  ⟨((adjust_hevc_qp_clamps consts_control (inst_control msm_vidc_codec_type.MSM_VIDC_HEVC 1) 16
      (Or.inl rfl) (by decide) (by decide) (by decide) (by decide) (by decide) (by decide)
      (Or.inl rfl)).2.2 (by decide) 22).1,
   ((adjust_hevc_qp_clamps consts_control (inst_control msm_vidc_codec_type.MSM_VIDC_HEVC 1) 16
      (Or.inl rfl) (by decide) (by decide) (by decide) (by decide) (by decide) (by decide)
      (Or.inl rfl)).2.2 (by decide) 17).1⟩

/-- C28: when MIN_FRAME_QP is client-set (the flag bit being a non-zero
mask), `msm_vidc_set_min_qp` hands exactly one packet to the transport, of the
kind HFI_PAYLOAD_32_PACKED, and returns the code of the transport. With each
of the three sums max(per-type minimum QP, MIN_FRAME_QP) + offset in 0..255
(offset 12 for a 10-bit colour format, else 0), bytes 0, 1 and 2 of the
payload are the sums for I, P and B, and the bits from 24 up hold exactly 7:
bits 24, 25 and 26 are set. For a 10-bit format with MIN_FRAME_QP = 5 and no
per-type minimum above 5, each of the three bytes is 17. -/
theorem set_min_qp_payload (db : cap_database) (k : control_constants) (inst : msm_vidc_inst)
    (cap_id : Nat)
    (hset : (inst.cap k.MIN_FRAME_QP).flags.CAP_FLAG_CLIENT_SET = true)
    (hbit : k.CAP_FLAG_CLIENT_SET ≠ 0) :
    (k.is_10bit_colorformat (inst.cap k.PIX_FMTS).value = true → qp_offset k inst = 12) ∧
    (k.is_10bit_colorformat (inst.cap k.PIX_FMTS).value = false → qp_offset k inst = 0) ∧
    ∃ pkt : hfi_property,
      msm_vidc_set_min_qp db k inst cap_id = (db.venus_hfi_session_property inst pkt, [pkt]) ∧
      pkt.hfi_id = (inst.cap cap_id).hfi_id ∧
      pkt.payload_type = k.HFI_PAYLOAD_32_PACKED ∧
      ((0 ≤ max (inst.cap k.I_FRAME_MIN_QP).value (inst.cap k.MIN_FRAME_QP).value
            + qp_offset k inst ∧
          max (inst.cap k.I_FRAME_MIN_QP).value (inst.cap k.MIN_FRAME_QP).value
            + qp_offset k inst ≤ 255) →
        (0 ≤ max (inst.cap k.P_FRAME_MIN_QP).value (inst.cap k.MIN_FRAME_QP).value
            + qp_offset k inst ∧
          max (inst.cap k.P_FRAME_MIN_QP).value (inst.cap k.MIN_FRAME_QP).value
            + qp_offset k inst ≤ 255) →
        (0 ≤ max (inst.cap k.B_FRAME_MIN_QP).value (inst.cap k.MIN_FRAME_QP).value
            + qp_offset k inst ∧
          max (inst.cap k.B_FRAME_MIN_QP).value (inst.cap k.MIN_FRAME_QP).value
            + qp_offset k inst ≤ 255) →
        ((pkt.payload % 256 : Nat) : Int)
          = max (inst.cap k.I_FRAME_MIN_QP).value (inst.cap k.MIN_FRAME_QP).value
            + qp_offset k inst ∧
        ((pkt.payload / 256 % 256 : Nat) : Int)
          = max (inst.cap k.P_FRAME_MIN_QP).value (inst.cap k.MIN_FRAME_QP).value
            + qp_offset k inst ∧
        ((pkt.payload / 65536 % 256 : Nat) : Int)
          = max (inst.cap k.B_FRAME_MIN_QP).value (inst.cap k.MIN_FRAME_QP).value
            + qp_offset k inst ∧
        pkt.payload / 16777216 = 7) ∧
      (k.is_10bit_colorformat (inst.cap k.PIX_FMTS).value = true →
        (inst.cap k.MIN_FRAME_QP).value = 5 →
        (inst.cap k.I_FRAME_MIN_QP).value ≤ 5 → (inst.cap k.P_FRAME_MIN_QP).value ≤ 5 →
        (inst.cap k.B_FRAME_MIN_QP).value ≤ 5 →
        pkt.payload % 256 = 17 ∧ pkt.payload / 256 % 256 = 17 ∧
        pkt.payload / 65536 % 256 = 17 ∧ pkt.payload / 16777216 = 7) := by
  have hoff1 : k.is_10bit_colorformat (inst.cap k.PIX_FMTS).value = true →
      qp_offset k inst = 12 := by
    intro h
    unfold qp_offset
    rw [if_pos h]
  have hoff0 : k.is_10bit_colorformat (inst.cap k.PIX_FMTS).value = false →
      qp_offset k inst = 0 := by
    intro h
    unfold qp_offset
    rw [if_neg (by rw [h]; exact Bool.false_ne_true)]
  refine ⟨hoff1, hoff0, ?_⟩
  have hmin : client_set_bits k inst k.MIN_FRAME_QP ≠ 0 := by
    unfold client_set_bits
    rw [if_pos hset]
    exact hbit
  unfold msm_vidc_set_min_qp
  simp only [logical_or_left _ _ hmin, client_qp_enable_all]
  rw [if_neg (by decide)]
  unfold msm_vidc_packetize_control
  refine ⟨_, rfl, rfl, rfl, ?_, ?_⟩
  · intro h1 h2 h3
    exact pack_qp_fields _ _ _ 7 h1 h2 h3 (by decide)
  · intro h10 h5 hi hp hb
    simp only
    rw [hoff1 h10, h5, max_eq_right hi, max_eq_right hp, max_eq_right hb]
    decide

/-- Witness for C28: the 10-bit format P010, MIN_FRAME_QP = 5 client-set and
the per-type minimum QPs at -12; the one packet carries 17 in each of the
three bytes and 7 above bit 23. -/
theorem set_min_qp_payload_witness :
    ∃ pkt : hfi_property,
      msm_vidc_set_min_qp db_plain consts_control
        (set_client_set_flag (msm_vidc_update_cap_value (msm_vidc_update_cap_value
          (inst_control msm_vidc_codec_type.MSM_VIDC_HEVC 1) 13 16) 16 5) 16) 16
        = (db_plain.venus_hfi_session_property
            (set_client_set_flag (msm_vidc_update_cap_value (msm_vidc_update_cap_value
              (inst_control msm_vidc_codec_type.MSM_VIDC_HEVC 1) 13 16) 16 5) 16) pkt, [pkt]) ∧
      pkt.payload % 256 = 17 ∧ pkt.payload / 256 % 256 = 17 ∧
      pkt.payload / 65536 % 256 = 17 ∧ pkt.payload / 16777216 = 7 :=
  match (set_min_qp_payload db_plain consts_control
    (set_client_set_flag (msm_vidc_update_cap_value (msm_vidc_update_cap_value
      (inst_control msm_vidc_codec_type.MSM_VIDC_HEVC 1) 13 16) 16 5) 16) 16
    (by decide) (by decide)).2.2 with
  | ⟨pkt, h1, _, _, _, h5⟩ =>
    ⟨pkt, h1, h5 (by decide) (by decide) (by decide) (by decide) (by decide)⟩

/-- C29, the code at two failing inputs, on an HEVC session with an 8-bit
format and every maximum QP at 51. With I_FRAME_MAX_QP client-set and nothing
else, `msm_vidc_set_max_qp` returns 0 and hands no packet to the transport.
With I_FRAME_MIN_QP client-set and none of MAX_FRAME_QP, I_FRAME_MAX_QP,
P_FRAME_MAX_QP, B_FRAME_MAX_QP client-set, it hands over one packet whose
bit 24 is set and whose bytes 0, 1, 2 are 51. -/
theorem set_max_qp_reads_min_qp_flags :
    ((set_client_set_flag (inst_control msm_vidc_codec_type.MSM_VIDC_HEVC 1) 24).cap
      consts_control.I_FRAME_MAX_QP).flags.CAP_FLAG_CLIENT_SET = true ∧
    msm_vidc_set_max_qp db_plain consts_control
      (set_client_set_flag (inst_control msm_vidc_codec_type.MSM_VIDC_HEVC 1) 24) 17
      = (0, []) ∧
    ((set_client_set_flag (inst_control msm_vidc_codec_type.MSM_VIDC_HEVC 1) 21).cap
      consts_control.MAX_FRAME_QP).flags.CAP_FLAG_CLIENT_SET = false ∧
    ((set_client_set_flag (inst_control msm_vidc_codec_type.MSM_VIDC_HEVC 1) 21).cap
      consts_control.I_FRAME_MAX_QP).flags.CAP_FLAG_CLIENT_SET = false ∧
    ((set_client_set_flag (inst_control msm_vidc_codec_type.MSM_VIDC_HEVC 1) 21).cap
      consts_control.P_FRAME_MAX_QP).flags.CAP_FLAG_CLIENT_SET = false ∧
    ((set_client_set_flag (inst_control msm_vidc_codec_type.MSM_VIDC_HEVC 1) 21).cap
      consts_control.B_FRAME_MAX_QP).flags.CAP_FLAG_CLIENT_SET = false ∧
    (msm_vidc_set_max_qp db_plain consts_control
      (set_client_set_flag (inst_control msm_vidc_codec_type.MSM_VIDC_HEVC 1) 21) 17).1 = 0 ∧
    (msm_vidc_set_max_qp db_plain consts_control
      (set_client_set_flag (inst_control msm_vidc_codec_type.MSM_VIDC_HEVC 1) 21) 17).2.map
        hfi_property.payload = [20132659] ∧
    20132659 / 16777216 % 2 = 1 ∧
    20132659 % 256 = 51 ∧ 20132659 / 256 % 256 = 51 ∧ 20132659 / 65536 % 256 = 51 := by
  decide

/-- C30, the code at a failing input: an HEVC session with an 8-bit format,
rate control constant-frame-rate CBR (not off), the three frame QPs at 10,
I_FRAME_QP client-set and the flag bit CAP_FLAG_CLIENT_SET = 32.
`msm_vidc_set_frame_qp` hands over one packet whose bytes 0, 1, 2 are 10,
whose bit 24 is clear and whose bit 29 is set: the result of
`flags & CAP_FLAG_CLIENT_SET` enters the mask as the number 32. With the
rate control off the same session gives the mask 7 in bits 24..26. -/
theorem set_frame_qp_mask_misplaced :
    consts_control.CAP_FLAG_CLIENT_SET = 32 ∧
    (set_client_set_flag (inst_control msm_vidc_codec_type.MSM_VIDC_HEVC 1) 18).hfi_rc_type
      ≠ consts_control.HFI_RC_OFF ∧
    ((set_client_set_flag (inst_control msm_vidc_codec_type.MSM_VIDC_HEVC 1) 18).cap
      consts_control.I_FRAME_QP).flags.CAP_FLAG_CLIENT_SET = true ∧
    (msm_vidc_set_frame_qp db_plain consts_control
      (set_client_set_flag (inst_control msm_vidc_codec_type.MSM_VIDC_HEVC 1) 18) 18).1 = 0 ∧
    (msm_vidc_set_frame_qp db_plain consts_control
      (set_client_set_flag (inst_control msm_vidc_codec_type.MSM_VIDC_HEVC 1) 18) 18).2.map
        hfi_property.payload = [537528842] ∧
    537528842 / 16777216 % 2 = 0 ∧
    537528842 / 536870912 % 2 = 1 ∧
    537528842 % 256 = 10 ∧ 537528842 / 256 % 256 = 10 ∧ 537528842 / 65536 % 256 = 10 ∧
    (msm_vidc_set_frame_qp db_plain consts_control
      (set_client_set_flag (inst_control msm_vidc_codec_type.MSM_VIDC_HEVC 3) 18) 18).2.map
        hfi_property.payload = [118098442] ∧
    118098442 / 16777216 = 7 := by
  decide

/-! ## What the adjust rules of the file leave alone -/

theorem frame_kept_refl (a : msm_vidc_inst) : frame_kept a a :=
  ⟨rfl, rfl, rfl, fun _ => ⟨rfl, rfl, rfl⟩⟩

theorem frame_kept_trans {a b c : msm_vidc_inst} (h1 : frame_kept a b) (h2 : frame_kept b c) :
    frame_kept a c :=
  ⟨h2.1.trans h1.1, h2.2.1.trans h1.2.1, h2.2.2.1.trans h1.2.2.1,
    fun i => ⟨(h2.2.2.2 i).1.trans (h1.2.2.2 i).1, (h2.2.2.2 i).2.1.trans (h1.2.2.2 i).2.1,
      (h2.2.2.2 i).2.2.trans (h1.2.2.2 i).2.2⟩⟩

theorem frame_kept_update (inst : msm_vidc_inst) (c : Nat) (v : Int) :
    frame_kept inst (msm_vidc_update_cap_value inst c v) := by
  obtain ⟨h1, h2, h3⟩ := update_cap_value_frame inst c v
  exact ⟨h1, h2, rfl, h3⟩

theorem frame_kept_set_cap_max (inst : msm_vidc_inst) (c : Nat) (v : Int) :
    frame_kept inst (set_cap_max inst c v) := by
  refine ⟨rfl, rfl, rfl, ?_⟩
  intro i
  by_cases h : i = c
  · subst h; simp [set_cap_max]
  · simp [set_cap_max, Function.update_noteq h]

theorem frame_kept_cap_to_8bit (inst : msm_vidc_inst) (c : Nat) :
    frame_kept inst (CAP_TO_8BIT_QP inst c) := by
  refine ⟨?_, ?_, ?_, ?_⟩
  · unfold CAP_TO_8BIT_QP; split_ifs <;> rfl
  · unfold CAP_TO_8BIT_QP; split_ifs <;> rfl
  · unfold CAP_TO_8BIT_QP; split_ifs <;> rfl
  · intro i
    rw [cap_to_8bit_qp_cap]
    exact ⟨rfl, rfl, rfl⟩

theorem frame_kept_static_layer_resolve (k : header_constants) (inst : msm_vidc_inst)
    (v : Int) : frame_kept inst (static_layer_resolve k inst v).1 := by
  unfold static_layer_resolve
  split_ifs <;> exact ⟨rfl, rfl, rfl, fun _ => ⟨rfl, rfl, rfl⟩⟩

theorem adjust_entropy_mode_frame (k : control_constants) (inst : msm_vidc_inst)
    (ctrl : Option v4l2_ctrl) : frame_kept inst (msm_vidc_adjust_entropy_mode k inst ctrl).2 := by
  unfold msm_vidc_adjust_entropy_mode
  simp only
  split_ifs <;> first | exact frame_kept_refl _ | exact frame_kept_update _ _ _

theorem adjust_bitrate_mode_frame (k : header_constants) (inst : msm_vidc_inst)
    (ctrl : Option v4l2_ctrl) : frame_kept inst (msm_vidc_adjust_bitrate_mode k inst ctrl).2 := by
  unfold msm_vidc_adjust_bitrate_mode
  exact ⟨rfl, rfl, rfl, fun _ => ⟨rfl, rfl, rfl⟩⟩

theorem adjust_profile_frame (k : control_constants) (inst : msm_vidc_inst)
    (ctrl : Option v4l2_ctrl) : frame_kept inst (msm_vidc_adjust_profile k inst ctrl).2 := by
  unfold msm_vidc_adjust_profile
  simp only
  split_ifs <;> first | exact frame_kept_refl _ | exact frame_kept_update _ _ _

theorem adjust_ltr_count_frame (k : header_constants) (inst : msm_vidc_inst)
    (ctrl : Option v4l2_ctrl) : frame_kept inst (msm_vidc_adjust_ltr_count k inst ctrl).2 := by
  unfold msm_vidc_adjust_ltr_count
  simp only
  split_ifs <;> first | exact frame_kept_refl _ | exact frame_kept_update _ _ _

theorem adjust_use_ltr_frame (k : header_constants) (inst : msm_vidc_inst)
    (ctrl : Option v4l2_ctrl) : frame_kept inst (msm_vidc_adjust_use_ltr k inst ctrl).2 := by
  unfold msm_vidc_adjust_use_ltr
  simp only
  split_ifs <;> first | exact frame_kept_refl _ | exact frame_kept_update _ _ _

theorem adjust_mark_ltr_frame (k : header_constants) (inst : msm_vidc_inst)
    (ctrl : Option v4l2_ctrl) : frame_kept inst (msm_vidc_adjust_mark_ltr k inst ctrl).2 := by
  unfold msm_vidc_adjust_mark_ltr
  simp only
  split_ifs <;> first | exact frame_kept_refl _ | exact frame_kept_update _ _ _

theorem adjust_ir_random_frame (k : driver_constants) (inst : msm_vidc_inst)
    (ctrl : Option v4l2_ctrl) : frame_kept inst (msm_vidc_adjust_ir_random k inst ctrl).2 := by
  unfold msm_vidc_adjust_ir_random
  exact frame_kept_update _ _ _

theorem adjust_delta_based_rc_frame (k : driver_constants) (inst : msm_vidc_inst)
    (ctrl : Option v4l2_ctrl) :
    frame_kept inst (msm_vidc_adjust_delta_based_rc k inst ctrl).2 := by
  unfold msm_vidc_adjust_delta_based_rc
  simp only
  split_ifs <;> first | exact frame_kept_refl _ | exact frame_kept_update _ _ _

theorem adjust_transform_8x8_frame (k : driver_constants) (inst : msm_vidc_inst)
    (ctrl : Option v4l2_ctrl) :
    frame_kept inst (msm_vidc_adjust_transform_8x8 k inst ctrl).2 := by
  unfold msm_vidc_adjust_transform_8x8
  simp only
  split_ifs <;> first | exact frame_kept_refl _ | exact frame_kept_update _ _ _

theorem adjust_layer_count_frame (k : header_constants) (inst : msm_vidc_inst)
    (ctrl : Option v4l2_ctrl) : frame_kept inst (msm_vidc_adjust_layer_count k inst ctrl).2 := by
  unfold msm_vidc_adjust_layer_count
  simp only
  split_ifs
  · exact frame_kept_refl _
  · unfold msm_vidc_adjust_static_layer_count_and_type
    exact frame_kept_trans (frame_kept_static_layer_resolve k inst _)
      (frame_kept_trans (frame_kept_update _ _ _) (frame_kept_set_cap_max _ _ _))
  · exact frame_kept_update _ _ _
  · exact frame_kept_update _ _ _
  · exact frame_kept_refl _

theorem adjust_gop_size_frame (k : header_constants) (inst : msm_vidc_inst)
    (ctrl : Option v4l2_ctrl) : frame_kept inst (msm_vidc_adjust_gop_size k inst ctrl).2 := by
  unfold msm_vidc_adjust_gop_size
  simp only
  split_ifs <;> first | exact frame_kept_refl _ | exact frame_kept_update _ _ _

theorem adjust_b_frame_frame (k : header_constants) (inst : msm_vidc_inst)
    (ctrl : Option v4l2_ctrl) : frame_kept inst (msm_vidc_adjust_b_frame k inst ctrl).2 := by
  unfold msm_vidc_adjust_b_frame
  simp only
  split_ifs <;> first | exact frame_kept_refl _ | exact frame_kept_update _ _ _

theorem frame_kept_cap3 (inst : msm_vidc_inst) (a b c : Nat) :
    frame_kept inst (CAP_TO_8BIT_QP (CAP_TO_8BIT_QP (CAP_TO_8BIT_QP inst a) b) c) :=
  frame_kept_trans (frame_kept_cap_to_8bit inst a)
    (frame_kept_trans (frame_kept_cap_to_8bit _ b) (frame_kept_cap_to_8bit _ c))

theorem frame_kept_cap4 (inst : msm_vidc_inst) (a b c e : Nat) :
    frame_kept inst
      (CAP_TO_8BIT_QP (CAP_TO_8BIT_QP (CAP_TO_8BIT_QP (CAP_TO_8BIT_QP inst a) b) c) e) :=
  frame_kept_trans (frame_kept_cap3 inst a b c) (frame_kept_cap_to_8bit _ e)

theorem adjust_hevc_qp_frame (k : control_constants) (inst : msm_vidc_inst) (c : Nat) :
    frame_kept inst (msm_vidc_adjust_hevc_qp k inst c).2 := by
  unfold msm_vidc_adjust_hevc_qp
  by_cases h1 : ¬ (inst.codec = msm_vidc_codec_type.MSM_VIDC_HEVC ∨
      inst.codec = msm_vidc_codec_type.MSM_VIDC_HEIC)
  · rw [if_pos h1]
    exact frame_kept_refl inst
  · rw [if_neg h1]
    simp only
    by_cases h2 : (msm_vidc_get_parent_value k.toheader_constants inst c k.PIX_FMTS (-1)).1 ≠ 0
    · rw [if_pos h2]
      exact frame_kept_refl inst
    · rw [if_neg h2]
      by_cases h3 : (msm_vidc_get_parent_value k.toheader_constants inst c k.PIX_FMTS (-1)).2
            = k.MSM_VIDC_FMT_P010 ∨
          (msm_vidc_get_parent_value k.toheader_constants inst c k.PIX_FMTS (-1)).2
            = k.MSM_VIDC_FMT_TP10C
      · rw [if_pos h3]
        exact frame_kept_refl inst
      · rw [if_neg h3]
        by_cases h4 : c = k.MIN_FRAME_QP
        · rw [if_pos h4]
          exact frame_kept_cap4 inst _ _ _ _
        · rw [if_neg h4]
          by_cases h5 : c = k.MAX_FRAME_QP
          · rw [if_pos h5]
            exact frame_kept_cap4 inst _ _ _ _
          · rw [if_neg h5]
            by_cases h6 : c = k.I_FRAME_QP
            · rw [if_pos h6]
              exact frame_kept_cap3 inst _ _ _
            · rw [if_neg h6]
              exact frame_kept_cap_to_8bit inst _

/-- Every adjust rule defined in the file keeps the frame. -/
theorem adjust_rules_of_file_frame (k : driver_constants) :
    ∀ f ∈ adjust_rules_of_file k, ∀ inst ctrl, frame_kept inst (f inst ctrl).2 := by
  intro f hf inst ctrl
  simp only [adjust_rules_of_file, List.mem_cons, List.mem_singleton, List.not_mem_nil,
    or_false] at hf
  rcases hf with h | h | h | h | h | h | h | h | h | h | h | h | h | h | h <;> subst h
  · exact adjust_entropy_mode_frame _ _ _
  · exact adjust_bitrate_mode_frame _ _ _
  · exact adjust_profile_frame _ _ _
  · exact adjust_ltr_count_frame _ _ _
  · exact adjust_use_ltr_frame _ _ _
  · exact adjust_mark_ltr_frame _ _ _
  · exact adjust_ir_random_frame _ _ _
  · exact adjust_delta_based_rc_frame _ _ _
  · exact adjust_transform_8x8_frame _ _ _
  · exact adjust_layer_count_frame _ _ _
  · exact adjust_gop_size_frame _ _ _
  · exact adjust_b_frame_frame _ _ _
  · exact adjust_hevc_qp_frame _ _ _
  · exact adjust_hevc_qp_frame _ _ _
  · exact adjust_hevc_qp_frame _ _ _

/-- A rule that keeps the frame is local. -/
theorem adjust_rule_local_of_frame
    (f : msm_vidc_inst → Option v4l2_ctrl → Int × msm_vidc_inst)
    (h : ∀ inst ctrl, frame_kept inst (f inst ctrl).2) : adjust_rule_local f :=
  fun inst ctrl => ⟨(h inst ctrl).1, (h inst ctrl).2.1, (h inst ctrl).2.2.2⟩

/-! ## Frame facts of the dynamic adjust, the walks and the drain -/

/-- The enqueue steps of the dynamic adjust leave the capabilities and the
session state alone; on success the firmware list holds `c`, appended when it
was not there. -/
theorem dynamic_enqueue_step_spec (inst : msm_vidc_inst) (c : Nat) (prev : Int) :
    (dynamic_enqueue_step inst c prev).2.cap = inst.cap ∧
    (dynamic_enqueue_step inst c prev).2.state = inst.state ∧
    ((dynamic_enqueue_step inst c prev).1 = 0 →
      (dynamic_enqueue_step inst c prev).2.firmware =
        if c ∈ inst.firmware then inst.firmware else inst.firmware ++ [c]) := by
  unfold dynamic_enqueue_step
  by_cases hv : (inst.cap c).value = prev
  · simp only [hv, ne_eq, not_true_eq_false, if_false]
    have hq := add_capid_fw inst c
    simp only at hq
    obtain ⟨qc, -, qs, qok, -⟩ := hq
    refine ⟨qc, qs, ?_⟩
    intro h0
    by_cases hm : c ∈ inst.firmware
    · rw [if_pos hm, (qok h0).1 hm]
    · rw [if_neg hm, (qok h0).2 hm]
  · simp only [hv, ne_eq, not_false_eq_true, if_true]
    obtain ⟨ac, af, as, -, -⟩ := add_children_spec inst c
    by_cases h2 : (msm_vidc_add_children inst c).1 = 0
    · simp only [h2, not_true_eq_false, if_false]
      have hq := add_capid_fw (msm_vidc_add_children inst c).2 c
      simp only at hq
      obtain ⟨qc, -, qs, qok, -⟩ := hq
      refine ⟨by rw [qc, ac], by rw [qs, as], ?_⟩
      intro h0
      by_cases hm : c ∈ inst.firmware
      · rw [if_pos hm, (qok h0).1 (by rw [af]; exact hm), af]
      · rw [if_neg hm, (qok h0).2 (by rw [af]; exact hm), af]
    · simp only [h2, not_false_eq_true, if_true]
      exact ⟨ac, as, fun h => h.elim⟩

/-- The dynamic adjust of one capability keeps the capability graph, whatever
control is passed. -/
theorem adjust_dynamic_property_same_graph (db : cap_database) (hloc : adjust_rules_local db)
    (inst : msm_vidc_inst) (c : Nat) (ctrl : Option v4l2_ctrl) :
    same_graph inst (msm_vidc_adjust_dynamic_property db inst c ctrl).2 := by
  unfold msm_vidc_adjust_dynamic_property
  by_cases hf : (inst.cap c).flags.CAP_FLAG_DYNAMIC_ALLOWED = false
  · rw [if_pos hf]
    exact same_graph_refl _
  · rw [if_neg hf]
    by_cases hn : (ctrl.isNone && (db.adjust c).isNone) = true
    · rw [if_pos hn]
      exact same_graph_refl _
    · rw [if_neg hn]
      obtain ⟨-, -, sg⟩ := dynamic_adjust_step_frame db hloc inst c ctrl
      by_cases h1 : (dynamic_adjust_step db inst c ctrl).1 = 0
      · simp only [h1, ne_eq, not_true_eq_false, if_false]
        obtain ⟨ec, -⟩ :=
          dynamic_enqueue_step_spec (dynamic_adjust_step db inst c ctrl).2 c (inst.cap c).value
        exact same_graph_trans sg (same_graph_of_cap_eq ec)
      · simp only [h1, ne_eq, not_false_eq_true, if_true]
        exact sg

/-- The adjust step of the dynamic adjust keeps the session state when the
rules of the table do. -/
theorem dynamic_adjust_step_state (db : cap_database) (hks : adjust_rules_keep_state db)
    (inst : msm_vidc_inst) (c : Nat) (ctrl : Option v4l2_ctrl) :
    (dynamic_adjust_step db inst c ctrl).2.state = inst.state := by
  unfold dynamic_adjust_step
  cases ha : db.adjust c with
  | some f => exact hks c f ha inst ctrl
  | none =>
    cases ctrl with
    | none => rfl
    | some v => rfl

/-- The dynamic adjust of one capability changes the session state only when
it refuses a capability that is not flagged CAP_FLAG_DYNAMIC_ALLOWED, and it
then returns -EINVAL. -/
theorem adjust_dynamic_property_state (db : cap_database) (hks : adjust_rules_keep_state db)
    (inst : msm_vidc_inst) (c : Nat) (ctrl : Option v4l2_ctrl) :
    (msm_vidc_adjust_dynamic_property db inst c ctrl).2.state = inst.state ∨
    ((inst.cap c).flags.CAP_FLAG_DYNAMIC_ALLOWED = false ∧
      (msm_vidc_adjust_dynamic_property db inst c ctrl).1 = -EINVAL) := by
  unfold msm_vidc_adjust_dynamic_property
  by_cases hf : (inst.cap c).flags.CAP_FLAG_DYNAMIC_ALLOWED = false
  · rw [if_pos hf]
    exact Or.inr ⟨hf, rfl⟩
  · rw [if_neg hf]
    left
    by_cases hn : (ctrl.isNone && (db.adjust c).isNone) = true
    · rw [if_pos hn]
    · rw [if_neg hn]
      have hs := dynamic_adjust_step_state db hks inst c ctrl
      by_cases h1 : (dynamic_adjust_step db inst c ctrl).1 = 0
      · simp only [h1, ne_eq, not_true_eq_false, if_false]
        obtain ⟨-, es, -⟩ :=
          dynamic_enqueue_step_spec (dynamic_adjust_step db inst c ctrl).2 c (inst.cap c).value
        rw [es, hs]
      · simp only [h1, ne_eq, not_false_eq_true, if_true]
        exact hs

/-- After a successful dynamic adjust of `c` the firmware list is the one
from before with `c` appended when it was not there. -/
theorem adjust_dynamic_property_firmware (db : cap_database) (hloc : adjust_rules_local db)
    (inst : msm_vidc_inst) (c : Nat) (ctrl : Option v4l2_ctrl)
    (h0 : (msm_vidc_adjust_dynamic_property db inst c ctrl).1 = 0) :
    (msm_vidc_adjust_dynamic_property db inst c ctrl).2.firmware =
      if c ∈ inst.firmware then inst.firmware else inst.firmware ++ [c] := by
  unfold msm_vidc_adjust_dynamic_property at h0 ⊢
  by_cases hf : (inst.cap c).flags.CAP_FLAG_DYNAMIC_ALLOWED = false
  · rw [if_pos hf] at h0
    exact absurd h0 (einval_ne_zero _)
  · rw [if_neg hf] at h0 ⊢
    by_cases hn : (ctrl.isNone && (db.adjust c).isNone) = true
    · rw [if_pos hn] at h0
      exact absurd h0 (einval_ne_zero _)
    · rw [if_neg hn] at h0 ⊢
      obtain ⟨-, sfw, -⟩ := dynamic_adjust_step_frame db hloc inst c ctrl
      by_cases h1 : (dynamic_adjust_step db inst c ctrl).1 = 0
      · simp only [h1, ne_eq, not_true_eq_false, if_false] at h0 ⊢
        obtain ⟨-, -, eok⟩ :=
          dynamic_enqueue_step_spec (dynamic_adjust_step db inst c ctrl).2 c (inst.cap c).value
        rw [eok h0, sfw]
      · simp only [h1, ne_eq, not_false_eq_true, if_true] at h0

/-- A walk over the children list whose body keeps the capability graph keeps
it, however the walk ends. -/
theorem walk_same_graph (B : msm_vidc_inst → Nat → Int × msm_vidc_inst)
    (hB : body_appends B) : ∀ (fuel : Nat) (inst : msm_vidc_inst) (rc : Int)
      (inst' : msm_vidc_inst) (V : List Nat),
    children_list_for_each_entry_safe B fuel inst = some (rc, inst', V) →
    same_graph inst inst' := by
  intro fuel
  induction fuel with
  | zero =>
    intro inst rc inst' V h
    cases hq : inst.children with
    | nil =>
      rw [walk_nil B 0 inst hq] at h
      simp only [Option.some.injEq, Prod.mk.injEq] at h
      rw [← h.2.1]
      exact same_graph_refl _
    | cons c rest => rw [walk_zero B inst c rest hq] at h; simp at h
  | succ n ih =>
    intro inst rc inst' V h
    cases hq : inst.children with
    | nil =>
      rw [walk_nil B _ inst hq] at h
      simp only [Option.some.injEq, Prod.mk.injEq] at h
      rw [← h.2.1]
      exact same_graph_refl _
    | cons c rest =>
      rw [walk_succ B n inst c rest hq] at h
      obtain ⟨sg, -⟩ := hB inst c
      by_cases h1 : (B inst c).1 = 0
      · rw [if_neg (not_not.mpr h1)] at h
        by_cases hr : rest = []
        · rw [if_pos hr] at h
          simp only [Option.some.injEq, Prod.mk.injEq] at h
          rw [← h.2.1]
          exact sg
        · rw [if_neg hr] at h
          cases hw : children_list_for_each_entry_safe B n
              { (B inst c).2 with children := (B inst c).2.children.tail } with
          | none => rw [hw] at h; simp at h
          | some t =>
            obtain ⟨rc2, inst2, V2⟩ := t
            rw [hw] at h
            simp only [Option.some.injEq, Prod.mk.injEq] at h
            rw [← h.2.1]
            have hmid : same_graph (B inst c).2
                { (B inst c).2 with children := (B inst c).2.children.tail } :=
              same_graph_of_cap_eq rfl
            exact same_graph_trans sg (same_graph_trans hmid (ih _ _ _ _ hw))
      · rw [if_pos h1] at h
        simp only [Option.some.injEq, Prod.mk.injEq] at h
        rw [← h.2.1]
        exact sg

/-- The walk of the dynamic pass over the children list changes the session
state only when it refuses a queued child that is not flagged
CAP_FLAG_DYNAMIC_ALLOWED; the walk then returns -EINVAL with that child at
the head of the list. -/
theorem dynamic_walk_state (db : cap_database) (hloc : adjust_rules_local db)
    (hks : adjust_rules_keep_state db) : ∀ (fuel : Nat) (inst : msm_vidc_inst) (rc : Int)
      (inst' : msm_vidc_inst) (V : List Nat),
    children_list_for_each_entry_safe
      (fun i c => msm_vidc_adjust_dynamic_property db i c none) fuel inst
        = some (rc, inst', V) →
    inst'.state = inst.state ∨
    (rc = -EINVAL ∧ ∃ c tail, inst'.children = c :: tail ∧
      (inst.cap c).flags.CAP_FLAG_DYNAMIC_ALLOWED = false) := by
  intro fuel
  induction fuel with
  | zero =>
    intro inst rc inst' V h
    cases hq : inst.children with
    | nil =>
      rw [walk_nil _ 0 inst hq] at h
      simp only [Option.some.injEq, Prod.mk.injEq] at h
      rw [← h.2.1]
      exact Or.inl rfl
    | cons c rest => rw [walk_zero _ inst c rest hq] at h; simp at h
  | succ n ih =>
    intro inst rc inst' V h
    cases hq : inst.children with
    | nil =>
      rw [walk_nil _ _ inst hq] at h
      simp only [Option.some.injEq, Prod.mk.injEq] at h
      rw [← h.2.1]
      exact Or.inl rfl
    | cons c rest =>
      rw [walk_succ _ n inst c rest hq] at h
      simp only at h
      obtain ⟨sg, ⟨extra, hex⟩⟩ := adjust_dynamic_property_body_appends db hloc inst c
      simp only at sg hex
      have hst := adjust_dynamic_property_state db hks inst c none
      by_cases h1 : (msm_vidc_adjust_dynamic_property db inst c none).1 = 0
      · have hsame : (msm_vidc_adjust_dynamic_property db inst c none).2.state = inst.state := by
          rcases hst with hs | ⟨-, hs⟩
          · exact hs
          · rw [h1] at hs
            exact absurd hs (by decide)
        rw [if_neg (not_not.mpr h1)] at h
        by_cases hr : rest = []
        · rw [if_pos hr] at h
          simp only [Option.some.injEq, Prod.mk.injEq] at h
          rw [← h.2.1]
          exact Or.inl hsame
        · rw [if_neg hr] at h
          cases hw : children_list_for_each_entry_safe
              (fun i c => msm_vidc_adjust_dynamic_property db i c none) n
              { (msm_vidc_adjust_dynamic_property db inst c none).2 with
                children := (msm_vidc_adjust_dynamic_property db inst c none).2.children.tail }
            with
          | none => rw [hw] at h; simp at h
          | some t =>
            obtain ⟨rc2, inst2, V2⟩ := t
            rw [hw] at h
            simp only [Option.some.injEq, Prod.mk.injEq] at h
            obtain ⟨e1, e2, -⟩ := h
            subst e1 e2
            rcases ih _ _ _ _ hw with hs | ⟨hrc, c2, tail, hc2, hfl⟩
            · exact Or.inl (hs.trans hsame)
            · refine Or.inr ⟨hrc, c2, tail, hc2, ?_⟩
              have : ((msm_vidc_adjust_dynamic_property db inst c none).2.cap c2).flags
                  = (inst.cap c2).flags := ((sg c2).2.2).symm
              rw [← this]
              exact hfl
      · rw [if_pos h1] at h
        simp only [Option.some.injEq, Prod.mk.injEq] at h
        obtain ⟨e1, e2, -⟩ := h
        subst e1 e2
        rcases hst with hs | ⟨hfl, hrc⟩
        · exact Or.inl hs
        · exact Or.inr ⟨hrc, c, rest ++ extra, by rw [hex, hq]; rfl, hfl⟩

/-- The drain of the firmware list changes nothing but the firmware list. -/
theorem set_loop_frame (db : cap_database) (todo : List Nat) :
    ∀ (kept : List Nat) (inst : msm_vidc_inst),
    (set_properties_loop db kept todo inst).2.1.cap = inst.cap ∧
    (set_properties_loop db kept todo inst).2.1.state = inst.state ∧
    (set_properties_loop db kept todo inst).2.1.children = inst.children := by
  induction todo with
  | nil => intro kept inst; simp [set_properties_loop]
  | cons c rest ih =>
    intro kept inst
    cases hs : db.set c with
    | none =>
      rw [set_loop_none db kept rest c inst hs]
      exact ih _ _
    | some f =>
      by_cases hr : (f inst c).1 = 0
      · rw [set_loop_ok db kept rest c inst f hs hr]
        exact ih kept (with_firmware inst (kept ++ rest))
      · rw [set_loop_fail db kept rest c inst f hs hr]
        exact ⟨rfl, rfl, rfl⟩

/-! ## The enum maps -/

/-- Setting the client-set flag of `c` changes that one flag bit only. -/
theorem set_client_set_flag_spec (inst : msm_vidc_inst) (c : Nat) :
    client_set (set_client_set_flag inst c) c = true ∧
    (∀ d, client_set inst d = true → client_set (set_client_set_flag inst c) d = true) ∧
    (set_client_set_flag inst c).state = inst.state ∧
    (set_client_set_flag inst c).children = inst.children ∧
    (set_client_set_flag inst c).firmware = inst.firmware ∧
    (set_client_set_flag inst c).hfi_rc_type = inst.hfi_rc_type ∧
    (set_client_set_flag inst c).hfi_layer_type = inst.hfi_layer_type ∧
    (∀ d, ((set_client_set_flag inst c).cap d).flags.CAP_FLAG_DYNAMIC_ALLOWED
      = (inst.cap d).flags.CAP_FLAG_DYNAMIC_ALLOWED) ∧
    (∀ d, ((set_client_set_flag inst c).cap d).value = (inst.cap d).value) ∧
    (∀ d, d ≠ c → (set_client_set_flag inst c).cap d = inst.cap d) := by
  refine ⟨by simp [client_set, set_client_set_flag], ?_, rfl, rfl, rfl, rfl, rfl, ?_, ?_, ?_⟩
  · intro d hd
    by_cases h : d = c
    · subst h; simp [client_set, set_client_set_flag]
    · simpa [client_set, set_client_set_flag, Function.update_noteq h] using hd
  · intro d
    by_cases h : d = c
    · subst h; simp [set_client_set_flag]
    · simp [set_client_set_flag, Function.update_noteq h]
  · intro d
    by_cases h : d = c
    · subst h; simp [set_client_set_flag]
    · simp [set_client_set_flag, Function.update_noteq h]
  · intro d h
    simp [set_client_set_flag, Function.update_noteq h]

/-- Instances with the same capability graph carry the same client-set
flags. -/
theorem client_set_of_same_graph {a b : msm_vidc_inst} (h : same_graph a b) (c : Nat) :
    client_set b c = client_set a c := by
  unfold client_set
  rw [(h c).2.2]

/-- What `msm_v4l2_op_s_ctrl` returns is the instance it was given, or an
instance with the capability graph of the one obtained by setting the
client-set flag of the capability found. -/
theorem s_ctrl_same_graph (db : cap_database) (hloc : adjust_rules_local db) (fuel : Nat)
    (inst : msm_vidc_inst) (ctrl : v4l2_ctrl)
    (r : Int × msm_vidc_inst × List (Nat × List hfi_property))
    (h : msm_v4l2_op_s_ctrl db fuel inst ctrl = some r) :
    ((inst.state = msm_vidc_inst_state.MSM_VIDC_ERROR ∨
        msm_vidc_get_cap_id db inst ctrl.id = INST_CAP_NONE) ∧ r.2.1 = inst) ∨
    ((inst.state ≠ msm_vidc_inst_state.MSM_VIDC_ERROR ∧
        msm_vidc_get_cap_id db inst ctrl.id ≠ INST_CAP_NONE) ∧
      same_graph (set_client_set_flag inst (msm_vidc_get_cap_id db inst ctrl.id)) r.2.1) := by
  unfold msm_v4l2_op_s_ctrl at h
  by_cases hE : inst.state = msm_vidc_inst_state.MSM_VIDC_ERROR
  · rw [if_pos hE] at h
    simp only [Option.some.injEq] at h
    rw [← h]
    exact Or.inl ⟨Or.inl hE, rfl⟩
  · rw [if_neg hE] at h
    simp only at h
    by_cases hN : msm_vidc_get_cap_id db inst ctrl.id = INST_CAP_NONE
    · rw [if_pos hN] at h
      simp only [Option.some.injEq] at h
      rw [← h]
      exact Or.inl ⟨Or.inr hN, rfl⟩
    · rw [if_neg hN] at h
      refine Or.inr ⟨⟨hE, hN⟩, ?_⟩
      generalize set_client_set_flag inst (msm_vidc_get_cap_id db inst ctrl.id) = inst1 at h ⊢
      generalize msm_vidc_get_cap_id db inst ctrl.id = c at h ⊢
      have hup : same_graph inst1 (msm_vidc_update_cap_value inst1 c ctrl.val) := by
        obtain ⟨-, -, u⟩ := update_cap_value_frame inst1 c ctrl.val
        exact fun i => ⟨(u i).1.symm, (u i).2.1.symm, (u i).2.2.symm⟩
      by_cases hS : inst1.streaming = false
      · rw [if_pos hS] at h
        split_ifs at h <;>
          (simp only [Option.some.injEq] at h; rw [← h]; exact hup)
      · rw [if_neg hS] at h
        by_cases hD : (inst1.cap c).flags.CAP_FLAG_DYNAMIC_ALLOWED = false
        · rw [if_pos hD] at h
          simp only [Option.some.injEq] at h
          rw [← h]
          exact same_graph_refl _
        · rw [if_neg hD] at h
          have sg1 := adjust_dynamic_property_same_graph db hloc inst1 c (some ctrl)
          by_cases h1 : (msm_vidc_adjust_dynamic_property db inst1 c (some ctrl)).1 = 0
          · rw [if_neg (not_not.mpr h1)] at h
            cases hw : children_list_for_each_entry_safe
                (fun i c => msm_vidc_adjust_dynamic_property db i c none) fuel
                (msm_vidc_adjust_dynamic_property db inst1 c (some ctrl)).2 with
            | none => rw [hw] at h; simp at h
            | some t =>
              obtain ⟨rc, inst3, V⟩ := t
              rw [hw] at h
              simp only at h
              have sg2 := walk_same_graph _ (adjust_dynamic_property_body_appends db hloc)
                _ _ _ _ _ hw
              by_cases hrc : rc = 0
              · rw [if_neg (not_not.mpr hrc)] at h
                by_cases hreq : inst3.request = true
                · rw [if_pos hreq] at h
                  simp only [Option.some.injEq] at h
                  rw [← h]
                  exact same_graph_trans sg1 sg2
                · rw [if_neg hreq] at h
                  simp only [Option.some.injEq] at h
                  rw [← h]
                  unfold msm_vidc_set_v4l2_properties
                  obtain ⟨fc, -, -⟩ := set_loop_frame db inst3.firmware [] inst3
                  exact same_graph_trans (same_graph_trans sg1 sg2) (same_graph_of_cap_eq fc)
              · rw [if_pos hrc] at h
                simp only [Option.some.injEq] at h
                rw [← h]
                exact same_graph_trans sg1 sg2
          · rw [if_pos h1] at h
            simp only [Option.some.injEq] at h
            rw [← h]
            exact sg1

/-- The static pass keeps the capability graph, however it ends. -/
theorem static_pass_same_graph (db : cap_database) (hloc : adjust_rules_local db) (fuel : Nat)
    (inst : msm_vidc_inst) (r : Int × msm_vidc_inst × List Nat)
    (h : msm_vidc_adjust_v4l2_properties db fuel inst = some r) :
    same_graph inst r.2.1 := by
  obtain ⟨rg, -⟩ := adjust_roots_loop_spec db hloc (List.range db.INST_CAP_MAX) inst
  unfold msm_vidc_adjust_v4l2_properties at h
  simp only at h
  by_cases h1 : (adjust_roots_loop db (List.range db.INST_CAP_MAX) inst).1 = 0
  · rw [if_neg (not_not.mpr h1)] at h
    cases hw : children_list_for_each_entry_safe (msm_vidc_adjust_property db) fuel
        (adjust_roots_loop db (List.range db.INST_CAP_MAX) inst).2.1 with
    | none => rw [hw] at h; simp at h
    | some t =>
      obtain ⟨rc, i1, V⟩ := t
      rw [hw] at h
      simp only [Option.some.injEq] at h
      rw [← h]
      exact same_graph_trans rg
        (walk_same_graph _ (adjust_property_body_appends db hloc) _ _ _ _ _ hw)
  · rw [if_pos h1] at h
    simp only [Option.some.injEq] at h
    rw [← h]
    exact rg

/-! ## The sample builds with adjust rules of the file -/

theorem db_ltr_frame : ∀ i f, db_ltr.adjust i = some f →
    ∀ inst ctrl, frame_kept inst (f inst ctrl).2 := by
  intro i f h
  simp only [db_ltr] at h
  split_ifs at h
  · cases h
    exact fun _ _ => adjust_use_ltr_frame _ _ _
  · cases h
    exact fun _ _ => adjust_mark_ltr_frame _ _ _

theorem db_ltr_local : adjust_rules_local db_ltr :=
  fun i f h => adjust_rule_local_of_frame f (db_ltr_frame i f h)

theorem db_ltr_keep_state : adjust_rules_keep_state db_ltr :=
  fun i f h inst ctrl => (db_ltr_frame i f h inst ctrl).2.2.1

/-! ## Declared parents -/

/-- The scan of `is_parent_available` finds exactly the entries before the
first zero entry. -/
theorem is_parent_available_loop_iff (p : Nat) : ∀ ps : List Nat,
    is_parent_available_loop ps p = true ↔ p ∈ ps.takeWhile (fun k => k ≠ 0) := by
  intro ps
  induction ps with
  | nil => simp [is_parent_available_loop]
  | cons a ps ih =>
    unfold is_parent_available_loop
    by_cases ha : a = 0
    · simp [ha]
    · rw [if_neg ha]
      by_cases hp : a = p
      · simp [hp, ha, List.takeWhile_cons]
        intro h0
        exact absurd (hp.trans h0) ha
      · rw [if_neg hp, ih]
        simp [List.takeWhile_cons, ha]
        intro h
        exact absurd h.symm hp

/-- The lookup `msm_vidc_get_parent_value` fails exactly for a parent that is
not declared, and then gives -EINVAL and leaves `*value` as it was. -/
theorem get_parent_value_fails_iff (k : header_constants) (inst : msm_vidc_inst)
    (cap parent : Nat) (v : Int) :
    ((msm_vidc_get_parent_value k inst cap parent v).1 ≠ 0 ↔
      parent ∉ declared_parents (inst.cap cap)) ∧
    ((msm_vidc_get_parent_value k inst cap parent v).1 ≠ 0 →
      msm_vidc_get_parent_value k inst cap parent v = (-EINVAL, v)) := by
  have hiff := is_parent_available_loop_iff parent (inst.cap cap).parents
  unfold msm_vidc_get_parent_value is_parent_available declared_parents
  by_cases h : is_parent_available_loop (inst.cap cap).parents parent = true
  · rw [if_pos h]
    have hm := hiff.mp h
    constructor
    · constructor
      · intro h1
        split_ifs at h1 <;> exact absurd rfl h1
      · intro h1
        exact absurd hm h1
    · intro h1
      split_ifs at h1 <;> exact absurd rfl h1
  · rw [if_neg h]
    have hm : parent ∉ (inst.cap cap).parents.takeWhile (fun k => k ≠ 0) :=
      fun hx => h (hiff.mpr hx)
    exact ⟨⟨fun _ => hm, fun _ => by show -EINVAL ≠ 0; decide⟩, fun _ => rfl⟩

/-! ## The session state across the control entry point -/

/-- With local rules that keep the session state, `msm_v4l2_op_s_ctrl` leaves
the state as it was, but for the one exit on which a queued child is not
dynamic-allowed. -/
theorem s_ctrl_state (db : cap_database) (hloc : adjust_rules_local db)
    (hks : adjust_rules_keep_state db) (fuel : Nat)
    (inst : msm_vidc_inst) (ctrl : v4l2_ctrl)
    (r : Int × msm_vidc_inst × List (Nat × List hfi_property))
    (h : msm_v4l2_op_s_ctrl db fuel inst ctrl = some r) :
    r.2.1.state = inst.state ∨
    (r.1 = -EINVAL ∧ ∃ c tail, r.2.1.children = c :: tail ∧
      (inst.cap c).flags.CAP_FLAG_DYNAMIC_ALLOWED = false) := by
  unfold msm_v4l2_op_s_ctrl at h
  by_cases hE : inst.state = msm_vidc_inst_state.MSM_VIDC_ERROR
  · rw [if_pos hE] at h
    simp only [Option.some.injEq] at h
    rw [← h]
    exact Or.inl rfl
  · rw [if_neg hE] at h
    simp only at h
    by_cases hN : msm_vidc_get_cap_id db inst ctrl.id = INST_CAP_NONE
    · rw [if_pos hN] at h
      simp only [Option.some.injEq] at h
      rw [← h]
      exact Or.inl rfl
    · rw [if_neg hN] at h
      obtain ⟨-, -, hst, -, -, -, -, hdyn, -, -⟩ :=
        set_client_set_flag_spec inst (msm_vidc_get_cap_id db inst ctrl.id)
      rw [← hst]
      have hdyn1 : ∀ d, (inst.cap d).flags.CAP_FLAG_DYNAMIC_ALLOWED =
          ((set_client_set_flag inst (msm_vidc_get_cap_id db inst ctrl.id)).cap d).flags.CAP_FLAG_DYNAMIC_ALLOWED :=
        fun d => (hdyn d).symm
      simp only [hdyn1]
      generalize set_client_set_flag inst (msm_vidc_get_cap_id db inst ctrl.id) = inst1 at h ⊢
      generalize msm_vidc_get_cap_id db inst ctrl.id = c at h ⊢
      by_cases hS : inst1.streaming = false
      · rw [if_pos hS] at h
        split_ifs at h <;>
          (simp only [Option.some.injEq] at h; rw [← h]; exact Or.inl rfl)
      · rw [if_neg hS] at h
        by_cases hD : (inst1.cap c).flags.CAP_FLAG_DYNAMIC_ALLOWED = false
        · rw [if_pos hD] at h
          simp only [Option.some.injEq] at h
          rw [← h]
          exact Or.inl rfl
        · rw [if_neg hD] at h
          have sg1 := adjust_dynamic_property_same_graph db hloc inst1 c (some ctrl)
          have st1 : (msm_vidc_adjust_dynamic_property db inst1 c (some ctrl)).2.state
              = inst1.state := by
            rcases adjust_dynamic_property_state db hks inst1 c (some ctrl) with h1 | h1
            · exact h1
            · exact absurd h1.1 hD
          by_cases h1 : (msm_vidc_adjust_dynamic_property db inst1 c (some ctrl)).1 = 0
          · rw [if_neg (not_not.mpr h1)] at h
            cases hw : children_list_for_each_entry_safe
                (fun i c => msm_vidc_adjust_dynamic_property db i c none) fuel
                (msm_vidc_adjust_dynamic_property db inst1 c (some ctrl)).2 with
            | none => rw [hw] at h; simp at h
            | some t =>
              obtain ⟨rc, inst3, V⟩ := t
              rw [hw] at h
              simp only at h
              have st2 := dynamic_walk_state db hloc hks _ _ _ _ _ hw
              rw [st1] at st2
              have st3 : inst3.state = inst1.state ∨
                  (rc = -EINVAL ∧ ∃ c tail, inst3.children = c :: tail ∧
                    (inst1.cap c).flags.CAP_FLAG_DYNAMIC_ALLOWED = false) := by
                rcases st2 with e | ⟨e1, d, tail, e2, e3⟩
                · exact Or.inl e
                · exact Or.inr ⟨e1, d, tail, e2, by rw [(sg1 d).2.2]; exact e3⟩
              by_cases hrc : rc = 0
              · rw [if_neg (not_not.mpr hrc)] at h
                have st4 : inst3.state = inst1.state := by
                  rcases st3 with e | ⟨e1, -⟩
                  · exact e
                  · rw [hrc] at e1
                    exact absurd e1 (by decide)
                by_cases hreq : inst3.request = true
                · rw [if_pos hreq] at h
                  simp only [Option.some.injEq] at h
                  rw [← h]
                  exact Or.inl st4
                · rw [if_neg hreq] at h
                  simp only [Option.some.injEq] at h
                  rw [← h]
                  unfold msm_vidc_set_v4l2_properties
                  obtain ⟨-, fs, -⟩ := set_loop_frame db inst3.firmware [] inst3
                  exact Or.inl (fs.trans st4)
              · rw [if_pos hrc] at h
                simp only [Option.some.injEq] at h
                rw [← h]
                exact st3
          · rw [if_pos h1] at h
            simp only [Option.some.injEq] at h
            rw [← h]
            exact Or.inl st1

/-- While the output queue streams and the capability found is
dynamic-allowed, `msm_v4l2_op_s_ctrl` is the dynamic adjustment of that
capability followed by the drain of the children list. -/
theorem s_ctrl_streaming_eq (db : cap_database) (fuel : Nat) (inst : msm_vidc_inst)
    (ctrl : v4l2_ctrl) (hE : inst.state ≠ msm_vidc_inst_state.MSM_VIDC_ERROR)
    (hN : msm_vidc_get_cap_id db inst ctrl.id ≠ INST_CAP_NONE)
    (hS : inst.streaming = true)
    (hD : (inst.cap (msm_vidc_get_cap_id db inst ctrl.id)).flags.CAP_FLAG_DYNAMIC_ALLOWED
      = true) :
    msm_v4l2_op_s_ctrl db fuel inst ctrl =
      if (msm_vidc_adjust_dynamic_property db
          (set_client_set_flag inst (msm_vidc_get_cap_id db inst ctrl.id))
          (msm_vidc_get_cap_id db inst ctrl.id) (some ctrl)).1 ≠ 0 then
        some ((msm_vidc_adjust_dynamic_property db
          (set_client_set_flag inst (msm_vidc_get_cap_id db inst ctrl.id))
          (msm_vidc_get_cap_id db inst ctrl.id) (some ctrl)).1,
          (msm_vidc_adjust_dynamic_property db
          (set_client_set_flag inst (msm_vidc_get_cap_id db inst ctrl.id))
          (msm_vidc_get_cap_id db inst ctrl.id) (some ctrl)).2, [])
      else
        match children_list_for_each_entry_safe
            (fun i c => msm_vidc_adjust_dynamic_property db i c none) fuel
            (msm_vidc_adjust_dynamic_property db
              (set_client_set_flag inst (msm_vidc_get_cap_id db inst ctrl.id))
              (msm_vidc_get_cap_id db inst ctrl.id) (some ctrl)).2 with
        | none => none
        | some (rc, inst3, _) =>
          if rc ≠ 0 then some (rc, inst3, [])
          else if inst3.request = true then some (0, inst3, [])
          else some (msm_vidc_set_v4l2_properties db inst3) := by
  obtain ⟨-, -, -, -, -, -, -, hdyn, -, -⟩ :=
    set_client_set_flag_spec inst (msm_vidc_get_cap_id db inst ctrl.id)
  have hS1 : ¬ (set_client_set_flag inst (msm_vidc_get_cap_id db inst ctrl.id)).streaming
      = false := by
    show ¬ inst.streaming = false
    rw [hS]
    decide
  have hD1 : ¬ ((set_client_set_flag inst (msm_vidc_get_cap_id db inst ctrl.id)).cap
      (msm_vidc_get_cap_id db inst ctrl.id)).flags.CAP_FLAG_DYNAMIC_ALLOWED = false := by
    rw [hdyn, hD]
    decide
  unfold msm_v4l2_op_s_ctrl
  rw [if_neg hE]
  simp only
  rw [if_neg hN, if_neg hS1, if_neg hD1]

/-- Before the output queue streams, `msm_v4l2_op_s_ctrl` stores the value and
returns; the return code is that of the two side procedures. -/
theorem s_ctrl_static_eq (db : cap_database) (fuel : Nat) (inst : msm_vidc_inst)
    (ctrl : v4l2_ctrl) (hE : inst.state ≠ msm_vidc_inst_state.MSM_VIDC_ERROR)
    (hN : msm_vidc_get_cap_id db inst ctrl.id ≠ INST_CAP_NONE)
    (hS : inst.streaming = false) :
    ∃ rc, msm_v4l2_op_s_ctrl db fuel inst ctrl =
      some (rc, msm_vidc_update_cap_value
        (set_client_set_flag inst (msm_vidc_get_cap_id db inst ctrl.id))
        (msm_vidc_get_cap_id db inst ctrl.id) ctrl.val, []) := by
  have hS1 : (set_client_set_flag inst (msm_vidc_get_cap_id db inst ctrl.id)).streaming
      = false := hS
  unfold msm_v4l2_op_s_ctrl
  rw [if_neg hE]
  simp only
  rw [if_neg hN, if_pos hS1]
  split_ifs
  · exact ⟨_, rfl⟩
  · exact ⟨_, rfl⟩
  · exact ⟨_, rfl⟩

/-! ## Claims C31 to C40 -/

/-- C32: `msm_vidc_get_port_info` returns HFI_PORT_BITSTREAM when the
capability has both port flags, the wire port of the input port when it has
the input flag only, the wire port of the output port when it has the output
flag only, and HFI_PORT_NONE when it has neither. The four cases cover every
capability, and the function has no error return. -/
theorem get_port_info_cases (db : cap_database) (inst : msm_vidc_inst) (cap_id : Nat) :
    ((inst.cap cap_id).flags.CAP_FLAG_INPUT_PORT = true →
      (inst.cap cap_id).flags.CAP_FLAG_OUTPUT_PORT = true →
      msm_vidc_get_port_info db inst cap_id = db.HFI_PORT_BITSTREAM) ∧
    ((inst.cap cap_id).flags.CAP_FLAG_INPUT_PORT = true →
      (inst.cap cap_id).flags.CAP_FLAG_OUTPUT_PORT = false →
      msm_vidc_get_port_info db inst cap_id
        = db.get_hfi_port inst msm_vidc_port_type.INPUT_PORT) ∧
    ((inst.cap cap_id).flags.CAP_FLAG_INPUT_PORT = false →
      (inst.cap cap_id).flags.CAP_FLAG_OUTPUT_PORT = true →
      msm_vidc_get_port_info db inst cap_id
        = db.get_hfi_port inst msm_vidc_port_type.OUTPUT_PORT) ∧
    ((inst.cap cap_id).flags.CAP_FLAG_INPUT_PORT = false →
      (inst.cap cap_id).flags.CAP_FLAG_OUTPUT_PORT = false →
      msm_vidc_get_port_info db inst cap_id = db.HFI_PORT_NONE) := by
  unfold msm_vidc_get_port_info
  refine ⟨?_, ?_, ?_, ?_⟩ <;> intro hi ho <;> simp [hi, ho]

/-- Witness for C32: the four capabilities of `table_ports` under `db_plain`,
whose bitstream port is 1, input port 2, output port 1 and HFI_PORT_NONE
0. -/
theorem get_port_info_cases_witness :
    msm_vidc_get_port_info db_plain (inst_of false table_ports) 1 = 1 ∧
    msm_vidc_get_port_info db_plain (inst_of false table_ports) 2 = 2 ∧
    msm_vidc_get_port_info db_plain (inst_of false table_ports) 3 = 1 ∧
    msm_vidc_get_port_info db_plain (inst_of false table_ports) 4 = 0 :=
  ⟨(get_port_info_cases db_plain (inst_of false table_ports) 1).1 (by decide) (by decide),
   (get_port_info_cases db_plain (inst_of false table_ports) 2).2.1 (by decide) (by decide),
   (get_port_info_cases db_plain (inst_of false table_ports) 3).2.2.1 (by decide) (by decide),
   (get_port_info_cases db_plain (inst_of false table_ports) 4).2.2.2 (by decide) (by decide)⟩

/-- C33: for a table whose adjust rules are local and a firmware list that
holds no id twice, after a successful `msm_vidc_adjust_dynamic_property` on
`c` the firmware list is the one from before, with `c` appended when it was
not queued; it holds `c` exactly once and still holds no id twice. This is so
whatever control is passed and whether or not the value changed. -/
theorem adjust_dynamic_property_queues_once (db : cap_database) (hloc : adjust_rules_local db)
    (inst : msm_vidc_inst) (c : Nat) (ctrl : Option v4l2_ctrl)
    (hnd : inst.firmware.Nodup)
    (h0 : (msm_vidc_adjust_dynamic_property db inst c ctrl).1 = 0) :
    (msm_vidc_adjust_dynamic_property db inst c ctrl).2.firmware
      = (if c ∈ inst.firmware then inst.firmware else inst.firmware ++ [c]) ∧
    (msm_vidc_adjust_dynamic_property db inst c ctrl).2.firmware.count c = 1 ∧
    (msm_vidc_adjust_dynamic_property db inst c ctrl).2.firmware.Nodup := by
  have hfw := adjust_dynamic_property_firmware db hloc inst c ctrl h0
  rw [hfw]
  refine ⟨rfl, ?_, ?_⟩
  · by_cases hm : c ∈ inst.firmware
    · rw [if_pos hm]
      exact List.count_eq_one_of_mem hnd hm
    · rw [if_neg hm, List.count_append, List.count_eq_zero_of_not_mem hm]
      simp
  · by_cases hm : c ∈ inst.firmware
    · rw [if_pos hm]
      exact hnd
    · rw [if_neg hm]
      exact List.Nodup.append hnd (List.nodup_singleton c)
        (by
          intro x hx hx1
          rw [List.mem_singleton] at hx1
          subst hx1
          exact hm hx)

theorem adjust_dynamic_property_queues_once_witness :
    (msm_vidc_adjust_dynamic_property db_plain (inst_of true table_chain) 2
        (some ⟨102, 7⟩)).2.firmware.count 2 = 1 ∧
    (msm_vidc_adjust_dynamic_property db_plain
        (with_firmware (inst_of true table_chain) [1, 2]) 2
        (some ⟨102, 0⟩)).2.firmware.count 2 = 1 :=
  ⟨(adjust_dynamic_property_queues_once db_plain db_plain_local (inst_of true table_chain) 2
      (some ⟨102, 7⟩) (by decide) (by decide)).2.1,
   (adjust_dynamic_property_queues_once db_plain db_plain_local
      (with_firmware (inst_of true table_chain) [1, 2]) 2
      (some ⟨102, 0⟩) (by decide) (by decide)).2.1⟩

/-- C34: the client-set flag is sticky. For a table whose adjust rules are
local and a capability `c` whose client-set flag is set, the flag is still set
after `msm_v4l2_op_s_ctrl` (any control, any outcome), after the static pass,
after `msm_vidc_adjust_dynamic_property` and `msm_vidc_adjust_property` on any
capability, after the drain `msm_vidc_set_v4l2_properties`, after every adjust
rule defined in the file and after `msm_vidc_update_cap_value`; and a call of
`msm_v4l2_op_s_ctrl` that gets past the state test and finds a capability for
the control leaves the flag set on that capability. -/
theorem client_set_flag_sticky (db : cap_database) (hloc : adjust_rules_local db)
    (k : driver_constants) (inst : msm_vidc_inst) (c : Nat)
    (hc : client_set inst c = true) :
    (∀ fuel ctrl r, msm_v4l2_op_s_ctrl db fuel inst ctrl = some r →
      client_set r.2.1 c = true) ∧
    (∀ fuel r, msm_vidc_adjust_v4l2_properties db fuel inst = some r →
      client_set r.2.1 c = true) ∧
    (∀ d ctrl, client_set (msm_vidc_adjust_dynamic_property db inst d ctrl).2 c = true) ∧
    (∀ d, client_set (msm_vidc_adjust_property db inst d).2 c = true) ∧
    client_set (msm_vidc_set_v4l2_properties db inst).2.1 c = true ∧
    (∀ f ∈ adjust_rules_of_file k, ∀ ctrl, client_set (f inst ctrl).2 c = true) ∧
    (∀ d v, client_set (msm_vidc_update_cap_value inst d v) c = true) ∧
    (∀ fuel ctrl r, msm_v4l2_op_s_ctrl db fuel inst ctrl = some r →
      inst.state ≠ msm_vidc_inst_state.MSM_VIDC_ERROR →
      msm_vidc_get_cap_id db inst ctrl.id ≠ INST_CAP_NONE →
      client_set r.2.1 (msm_vidc_get_cap_id db inst ctrl.id) = true) := by
  refine ⟨?_, ?_, ?_, ?_, ?_, ?_, ?_, ?_⟩
  · intro fuel ctrl r h
    rcases s_ctrl_same_graph db hloc fuel inst ctrl r h with ⟨-, e⟩ | ⟨-, sg⟩
    · rw [e]
      exact hc
    · rw [client_set_of_same_graph sg c]
      exact (set_client_set_flag_spec inst _).2.1 c hc
  · intro fuel r h
    rw [client_set_of_same_graph (static_pass_same_graph db hloc fuel inst r h) c]
    exact hc
  · intro d ctrl
    rw [client_set_of_same_graph (adjust_dynamic_property_same_graph db hloc inst d ctrl) c]
    exact hc
  · intro d
    rw [client_set_of_same_graph (adjust_property_spec db hloc inst d).1 c]
    exact hc
  · unfold msm_vidc_set_v4l2_properties
    rw [client_set_of_same_graph
      (same_graph_of_cap_eq (set_loop_frame db inst.firmware [] inst).1) c]
    exact hc
  · intro f hf ctrl
    unfold client_set
    rw [((adjust_rules_of_file_frame k f hf inst ctrl).2.2.2 c).2.2]
    exact hc
  · intro d v
    unfold client_set
    rw [((update_cap_value_frame inst d v).2.2 c).2.2]
    exact hc
  · intro fuel ctrl r h hE hN
    rcases s_ctrl_same_graph db hloc fuel inst ctrl r h with ⟨e, -⟩ | ⟨-, sg⟩
    · rcases e with e | e
      · exact absurd e hE
      · exact absurd e hN
    · rw [client_set_of_same_graph sg _]
      exact (set_client_set_flag_spec inst _).1

theorem client_set_flag_sticky_witness :
    client_set (set_client_set_flag (inst_of true table_chain) 2) 2 = true ∧
    client_set (msm_vidc_adjust_dynamic_property db_plain
      (set_client_set_flag (inst_of true table_chain) 2) 2 (some ⟨102, 7⟩)).2 2 = true ∧
    ((set_client_set_flag (inst_of true table_chain) 2).cap 2).value = 0 ∧
    ((msm_vidc_adjust_dynamic_property db_plain
      (set_client_set_flag (inst_of true table_chain) 2) 2 (some ⟨102, 7⟩)).2.cap 2).value
      = 7 :=
  ⟨by decide,
   (client_set_flag_sticky db_plain db_plain_local consts_driver
      (set_client_set_flag (inst_of true table_chain) 2) 2 (by decide)).2.2.1 2
      (some ⟨102, 7⟩),
   by decide, by decide⟩

/-- C35: a missing parent fails the call, not the session.
`msm_vidc_get_parent_value` fails exactly when the parent is not among the
declared parents of the capability (the entries of `parents[]` before the
first zero entry, never more than the array holds), and then returns -EINVAL
and leaves `*value` alone; the two LTR rules then return -EINVAL. For a table
whose adjust rules are local and keep the session state: when the rule of the
capability named by the control fails while streaming, `msm_v4l2_op_s_ctrl`
returns the code of the rule and the state is the one from before; when the
dynamic adjustment of the first queued child fails, `msm_v4l2_op_s_ctrl`
returns that code; and whatever `msm_v4l2_op_s_ctrl` returns, the state is the
one from before, but for the exit on which a queued child is not
dynamic-allowed. -/
theorem missing_parent_fails_call_not_session (db : cap_database)
    (hloc : adjust_rules_local db) (hks : adjust_rules_keep_state db)
    (k : header_constants) :
    (∀ inst cap parent v,
      ((msm_vidc_get_parent_value k inst cap parent v).1 ≠ 0 ↔
        parent ∉ declared_parents (inst.cap cap)) ∧
      ((msm_vidc_get_parent_value k inst cap parent v).1 ≠ 0 →
        msm_vidc_get_parent_value k inst cap parent v = (-EINVAL, v)) ∧
      (declared_parents (inst.cap cap)).length ≤ (inst.cap cap).parents.length) ∧
    (∀ inst ctrl, k.LTR_COUNT ∉ declared_parents (inst.cap k.USE_LTR) →
      msm_vidc_adjust_use_ltr k inst ctrl = (-EINVAL, inst)) ∧
    (∀ inst ctrl, k.LTR_COUNT ∉ declared_parents (inst.cap k.MARK_LTR) →
      msm_vidc_adjust_mark_ltr k inst ctrl = (-EINVAL, inst)) ∧
    (∀ fuel inst ctrl f, inst.state ≠ msm_vidc_inst_state.MSM_VIDC_ERROR →
      msm_vidc_get_cap_id db inst ctrl.id ≠ INST_CAP_NONE →
      inst.streaming = true →
      (inst.cap (msm_vidc_get_cap_id db inst ctrl.id)).flags.CAP_FLAG_DYNAMIC_ALLOWED = true →
      db.adjust (msm_vidc_get_cap_id db inst ctrl.id) = some f →
      (f (set_client_set_flag inst (msm_vidc_get_cap_id db inst ctrl.id)) (some ctrl)).1 ≠ 0 →
      msm_v4l2_op_s_ctrl db fuel inst ctrl = some
        ((f (set_client_set_flag inst (msm_vidc_get_cap_id db inst ctrl.id)) (some ctrl)).1,
         (f (set_client_set_flag inst (msm_vidc_get_cap_id db inst ctrl.id)) (some ctrl)).2,
         []) ∧
      (f (set_client_set_flag inst (msm_vidc_get_cap_id db inst ctrl.id))
        (some ctrl)).2.state = inst.state) ∧
    (∀ fuel inst ctrl d rest, inst.state ≠ msm_vidc_inst_state.MSM_VIDC_ERROR →
      msm_vidc_get_cap_id db inst ctrl.id ≠ INST_CAP_NONE →
      inst.streaming = true →
      (inst.cap (msm_vidc_get_cap_id db inst ctrl.id)).flags.CAP_FLAG_DYNAMIC_ALLOWED = true →
      (msm_vidc_adjust_dynamic_property db
        (set_client_set_flag inst (msm_vidc_get_cap_id db inst ctrl.id))
        (msm_vidc_get_cap_id db inst ctrl.id) (some ctrl)).1 = 0 →
      (msm_vidc_adjust_dynamic_property db
        (set_client_set_flag inst (msm_vidc_get_cap_id db inst ctrl.id))
        (msm_vidc_get_cap_id db inst ctrl.id) (some ctrl)).2.children = d :: rest →
      (msm_vidc_adjust_dynamic_property db
        (msm_vidc_adjust_dynamic_property db
          (set_client_set_flag inst (msm_vidc_get_cap_id db inst ctrl.id))
          (msm_vidc_get_cap_id db inst ctrl.id) (some ctrl)).2 d none).1 ≠ 0 →
      msm_v4l2_op_s_ctrl db (fuel + 1) inst ctrl = some
        ((msm_vidc_adjust_dynamic_property db
          (msm_vidc_adjust_dynamic_property db
            (set_client_set_flag inst (msm_vidc_get_cap_id db inst ctrl.id))
            (msm_vidc_get_cap_id db inst ctrl.id) (some ctrl)).2 d none).1,
         (msm_vidc_adjust_dynamic_property db
          (msm_vidc_adjust_dynamic_property db
            (set_client_set_flag inst (msm_vidc_get_cap_id db inst ctrl.id))
            (msm_vidc_get_cap_id db inst ctrl.id) (some ctrl)).2 d none).2, [])) ∧
    (∀ fuel inst ctrl r, msm_v4l2_op_s_ctrl db fuel inst ctrl = some r →
      r.2.1.state = inst.state ∨
      (r.1 = -EINVAL ∧ ∃ c tail, r.2.1.children = c :: tail ∧
        (inst.cap c).flags.CAP_FLAG_DYNAMIC_ALLOWED = false)) := by
  refine ⟨?_, ?_, ?_, ?_, ?_, ?_⟩
  · intro inst cap parent v
    refine ⟨(get_parent_value_fails_iff k inst cap parent v).1,
      (get_parent_value_fails_iff k inst cap parent v).2, ?_⟩
    unfold declared_parents
    exact (List.takeWhile_sublist _).length_le
  · intro inst ctrl h
    have h1 := (get_parent_value_fails_iff k inst k.USE_LTR k.LTR_COUNT (-1)).1.mpr h
    unfold msm_vidc_adjust_use_ltr
    simp only
    rw [if_pos h1]
  · intro inst ctrl h
    have h1 := (get_parent_value_fails_iff k inst k.MARK_LTR k.LTR_COUNT (-1)).1.mpr h
    unfold msm_vidc_adjust_mark_ltr
    simp only
    rw [if_pos h1]
  · intro fuel inst ctrl f hE hN hS hD hf hfail
    obtain ⟨-, -, hst, -, -, -, -, hdyn, -, -⟩ :=
      set_client_set_flag_spec inst (msm_vidc_get_cap_id db inst ctrl.id)
    have hadp : msm_vidc_adjust_dynamic_property db
        (set_client_set_flag inst (msm_vidc_get_cap_id db inst ctrl.id))
        (msm_vidc_get_cap_id db inst ctrl.id) (some ctrl)
        = f (set_client_set_flag inst (msm_vidc_get_cap_id db inst ctrl.id)) (some ctrl) := by
      unfold msm_vidc_adjust_dynamic_property dynamic_adjust_step
      rw [if_neg (by rw [hdyn, hD]; decide)]
      simp only [hf, Option.isNone_some, Bool.false_and, Bool.and_false]
      rw [if_neg (by decide), if_pos hfail]
    constructor
    · rw [s_ctrl_streaming_eq db fuel inst ctrl hE hN hS hD, hadp, if_pos hfail]
    · rw [hks _ f hf, hst]
  · intro fuel inst ctrl d rest hE hN hS hD h0 hch hfail
    rw [s_ctrl_streaming_eq db (fuel + 1) inst ctrl hE hN hS hD, if_neg (not_not.mpr h0),
      walk_succ _ fuel _ d rest hch, if_pos hfail]
    simp only
    rw [if_pos hfail]
  · intro fuel inst ctrl r h
    exact s_ctrl_state db hloc hks fuel inst ctrl r h

theorem missing_parent_fails_call_not_session_witness :
    consts_sample.LTR_COUNT ∉
      declared_parents ((inst_of true table_missing_parent).cap consts_sample.USE_LTR) ∧
    msm_v4l2_op_s_ctrl db_ltr (9 + 1) (inst_of true table_missing_parent) ⟨110, 2⟩ = some
      ((msm_vidc_adjust_dynamic_property db_ltr
          (msm_vidc_adjust_dynamic_property db_ltr
            (set_client_set_flag (inst_of true table_missing_parent)
              (msm_vidc_get_cap_id db_ltr (inst_of true table_missing_parent) 110))
            (msm_vidc_get_cap_id db_ltr (inst_of true table_missing_parent) 110)
            (some ⟨110, 2⟩)).2 11 none).1,
       (msm_vidc_adjust_dynamic_property db_ltr
          (msm_vidc_adjust_dynamic_property db_ltr
            (set_client_set_flag (inst_of true table_missing_parent)
              (msm_vidc_get_cap_id db_ltr (inst_of true table_missing_parent) 110))
            (msm_vidc_get_cap_id db_ltr (inst_of true table_missing_parent) 110)
            (some ⟨110, 2⟩)).2 11 none).2, []) ∧
    (msm_vidc_adjust_dynamic_property db_ltr
          (msm_vidc_adjust_dynamic_property db_ltr
            (set_client_set_flag (inst_of true table_missing_parent)
              (msm_vidc_get_cap_id db_ltr (inst_of true table_missing_parent) 110))
            (msm_vidc_get_cap_id db_ltr (inst_of true table_missing_parent) 110)
            (some ⟨110, 2⟩)).2 11 none).1 = -EINVAL ∧
    (msm_vidc_adjust_dynamic_property db_ltr
          (msm_vidc_adjust_dynamic_property db_ltr
            (set_client_set_flag (inst_of true table_missing_parent)
              (msm_vidc_get_cap_id db_ltr (inst_of true table_missing_parent) 110))
            (msm_vidc_get_cap_id db_ltr (inst_of true table_missing_parent) 110)
            (some ⟨110, 2⟩)).2 11 none).2.state = (inst_of true table_missing_parent).state :=
  ⟨by decide,
   (missing_parent_fails_call_not_session db_ltr db_ltr_local db_ltr_keep_state
      consts_sample).2.2.2.2.1 9 (inst_of true table_missing_parent) ⟨110, 2⟩ 11 [12]
      (by decide) (by decide) (by decide) (by decide) (by decide) (by decide) (by decide),
   by decide, by decide⟩

/-- C36: before activation the request is stored as it is. When the session
is not in the error state, the output queue does not stream and the control
maps to a capability `c`, `msm_v4l2_op_s_ctrl` returns, with no packet sent,
the instance in which the client-set flag of `c` is set and the value of `c`
is `ctrl->val`: the value of every other capability, the two derived fields
and both lists are the ones from before, and the adjust rules of the table
play no part in the result. -/
theorem s_ctrl_before_streaming_stores (db : cap_database) (fuel : Nat)
    (inst : msm_vidc_inst) (ctrl : v4l2_ctrl)
    (hE : inst.state ≠ msm_vidc_inst_state.MSM_VIDC_ERROR)
    (hS : inst.streaming = false)
    (hN : msm_vidc_get_cap_id db inst ctrl.id ≠ INST_CAP_NONE) :
    ∃ rc inst', msm_v4l2_op_s_ctrl db fuel inst ctrl = some (rc, inst', []) ∧
      inst' = msm_vidc_update_cap_value
        (set_client_set_flag inst (msm_vidc_get_cap_id db inst ctrl.id))
        (msm_vidc_get_cap_id db inst ctrl.id) ctrl.val ∧
      (inst'.cap (msm_vidc_get_cap_id db inst ctrl.id)).value = ctrl.val ∧
      (∀ d, d ≠ msm_vidc_get_cap_id db inst ctrl.id →
        (inst'.cap d).value = (inst.cap d).value) ∧
      inst'.hfi_rc_type = inst.hfi_rc_type ∧
      inst'.hfi_layer_type = inst.hfi_layer_type ∧
      inst'.children = inst.children ∧
      inst'.firmware = inst.firmware ∧
      inst'.state = inst.state ∧
      (∀ a, msm_v4l2_op_s_ctrl { db with adjust := a } fuel inst ctrl
        = msm_v4l2_op_s_ctrl db fuel inst ctrl) := by
  obtain ⟨rc, hrc⟩ := s_ctrl_static_eq db fuel inst ctrl hE hN hS
  refine ⟨rc, _, hrc, rfl, (update_cap_value_same _ _ _).1, ?_, rfl, rfl, rfl, rfl, rfl, ?_⟩
  · intro d hd
    rw [update_cap_value_other _ _ _ _ hd]
    exact (set_client_set_flag_spec inst _).2.2.2.2.2.2.2.2.1 d
  · intro a
    have hS1 : (set_client_set_flag inst (msm_vidc_get_cap_id db inst ctrl.id)).streaming
        = false := hS
    have e : msm_vidc_get_cap_id { db with adjust := a } inst ctrl.id
        = msm_vidc_get_cap_id db inst ctrl.id := rfl
    unfold msm_v4l2_op_s_ctrl
    rw [if_neg hE, if_neg hE]
    simp only [e]
    rw [if_neg hN, if_neg hN, if_pos hS1, if_pos hS1]
    rfl

theorem s_ctrl_before_streaming_stores_witness :
    ∃ rc inst', msm_v4l2_op_s_ctrl db_plain 0 (inst_of false table_chain) ⟨102, 7⟩
        = some (rc, inst', []) ∧
      inst' = msm_vidc_update_cap_value
        (set_client_set_flag (inst_of false table_chain)
          (msm_vidc_get_cap_id db_plain (inst_of false table_chain) 102))
        (msm_vidc_get_cap_id db_plain (inst_of false table_chain) 102) 7 ∧
      (inst'.cap (msm_vidc_get_cap_id db_plain (inst_of false table_chain) 102)).value = 7 ∧
      (∀ d, d ≠ msm_vidc_get_cap_id db_plain (inst_of false table_chain) 102 →
        (inst'.cap d).value = ((inst_of false table_chain).cap d).value) ∧
      inst'.hfi_rc_type = (inst_of false table_chain).hfi_rc_type ∧
      inst'.hfi_layer_type = (inst_of false table_chain).hfi_layer_type ∧
      inst'.children = (inst_of false table_chain).children ∧
      inst'.firmware = (inst_of false table_chain).firmware ∧
      inst'.state = (inst_of false table_chain).state ∧
      (∀ a, msm_v4l2_op_s_ctrl { db_plain with adjust := a } 0 (inst_of false table_chain)
          ⟨102, 7⟩
        = msm_v4l2_op_s_ctrl db_plain 0 (inst_of false table_chain) ⟨102, 7⟩) :=
  s_ctrl_before_streaming_stores db_plain 0 (inst_of false table_chain) ⟨102, 7⟩
    (by decide) (by decide) (by decide)

theorem tree_acyclic : acyclic_graph (inst_of false table_tree) rank_down 2 := by
  intro c
  rcases c with _ | _ | _ | _ | _ | c
  · decide
  · decide
  · decide
  · decide
  · decide
  · have : (inst_of false table_tree).cap (c + 5) = cap_unset :=
      table_of_beyond table_tree (c + 5) (by simp [table_tree])
    simp [enqueued_children, this, cap_unset]

/-- C37, the code at the failing input: on the tree table (root 1 with the
child 2, which has the children 3 and 4), which is acyclic and has no adjust
rule that could fail, the static pass started with both lists empty returns 0
after running on 1 and 2 only, and the children list it leaves holds 3 and
4. -/
theorem static_pass_tree_leaves_children_queued :
    acyclic_graph (inst_of false table_tree) rank_down 2 ∧
    (∀ i, db_plain.adjust i = none) ∧
    (inst_of false table_tree).children = [] ∧
    (inst_of false table_tree).firmware = [] ∧
    (msm_vidc_adjust_v4l2_properties db_plain 10 (inst_of false table_tree)).map
      (fun t => (t.1, t.2.1.children, t.2.2)) = some (0, [3, 4], [1, 2]) :=
  ⟨tree_acyclic, fun _ => rfl, rfl, rfl, by decide⟩

/-- C38, the code at the failing input: in a streaming HEVC session whose
MIN_FRAME_QP is 10, MAX_FRAME_QP is 51 and I_FRAME_QP is 10, the dynamic
adjustment with the requests 20, 40 and 25 returns 0 each time and leaves the
stored values 10, 51 and 10, for the 8-bit pixel format and, for
MIN_FRAME_QP, for a 10-bit one as well; `msm_v4l2_op_s_ctrl` returns 0 for the
request 20 on MIN_FRAME_QP and leaves 10. -/
theorem dynamic_hevc_qp_request_dropped :
    (msm_vidc_adjust_dynamic_property db_qp
      (with_streaming (msm_vidc_update_cap_value
        (inst_control msm_vidc_codec_type.MSM_VIDC_HEVC 1) 16 10) true) 16
      (some ⟨116, 20⟩)).1 = 0 ∧
    ((msm_vidc_adjust_dynamic_property db_qp
      (with_streaming (msm_vidc_update_cap_value
        (inst_control msm_vidc_codec_type.MSM_VIDC_HEVC 1) 16 10) true) 16
      (some ⟨116, 20⟩)).2.cap 16).value = 10 ∧
    (msm_vidc_adjust_dynamic_property db_qp
      (with_streaming (msm_vidc_update_cap_value (msm_vidc_update_cap_value
        (inst_control msm_vidc_codec_type.MSM_VIDC_HEVC 1) 13 16) 16 10) true) 16
      (some ⟨116, 20⟩)).1 = 0 ∧
    ((msm_vidc_adjust_dynamic_property db_qp
      (with_streaming (msm_vidc_update_cap_value (msm_vidc_update_cap_value
        (inst_control msm_vidc_codec_type.MSM_VIDC_HEVC 1) 13 16) 16 10) true) 16
      (some ⟨116, 20⟩)).2.cap 16).value = 10 ∧
    (msm_vidc_adjust_dynamic_property db_qp
      (with_streaming (inst_control msm_vidc_codec_type.MSM_VIDC_HEVC 1) true) 17
      (some ⟨117, 40⟩)).1 = 0 ∧
    ((msm_vidc_adjust_dynamic_property db_qp
      (with_streaming (inst_control msm_vidc_codec_type.MSM_VIDC_HEVC 1) true) 17
      (some ⟨117, 40⟩)).2.cap 17).value = 51 ∧
    (msm_vidc_adjust_dynamic_property db_qp
      (with_streaming (inst_control msm_vidc_codec_type.MSM_VIDC_HEVC 1) true) 18
      (some ⟨118, 25⟩)).1 = 0 ∧
    ((msm_vidc_adjust_dynamic_property db_qp
      (with_streaming (inst_control msm_vidc_codec_type.MSM_VIDC_HEVC 1) true) 18
      (some ⟨118, 25⟩)).2.cap 18).value = 10 ∧
    (msm_v4l2_op_s_ctrl db_qp 5
      (with_streaming (msm_vidc_update_cap_value
        (inst_control msm_vidc_codec_type.MSM_VIDC_HEVC 1) 16 10) true) ⟨116, 20⟩).map
      (fun r => (r.1, (r.2.1.cap 16).value)) = some (0, 10) := by
  decide

/-- C39, the code at the failing input: with two enhancement layers and the
sliding-window layer type, `msm_vidc_adjust_gop_size` resolves the GOP size 30
to 32 before streaming; the request 60 made while streaming is then stored as
60, through the rule itself and through `msm_vidc_adjust_dynamic_property`.
With no enhancement layer the static value is 30 and the request 60 is stored
as 60 as well. -/
theorem dynamic_gop_size_exceeds_static :
    ((msm_vidc_adjust_gop_size consts_sample
      (msm_vidc_update_cap_value (inst_encoder false 1 1) 7 2) none).2.cap 8).value = 32 ∧
    (msm_vidc_adjust_gop_size consts_sample
      (with_streaming (msm_vidc_adjust_gop_size consts_sample
        (msm_vidc_update_cap_value (inst_encoder false 1 1) 7 2) none).2 true)
      (some ⟨108, 60⟩)).1 = 0 ∧
    ((msm_vidc_adjust_gop_size consts_sample
      (with_streaming (msm_vidc_adjust_gop_size consts_sample
        (msm_vidc_update_cap_value (inst_encoder false 1 1) 7 2) none).2 true)
      (some ⟨108, 60⟩)).2.cap 8).value = 60 ∧
    (msm_vidc_adjust_dynamic_property db_qp
      (with_streaming (msm_vidc_adjust_gop_size consts_sample
        (msm_vidc_update_cap_value (inst_encoder false 1 1) 7 2) none).2 true) 8
      (some ⟨108, 60⟩)).1 = 0 ∧
    ((msm_vidc_adjust_dynamic_property db_qp
      (with_streaming (msm_vidc_adjust_gop_size consts_sample
        (msm_vidc_update_cap_value (inst_encoder false 1 1) 7 2) none).2 true) 8
      (some ⟨108, 60⟩)).2.cap 8).value = 60 ∧
    ((msm_vidc_adjust_gop_size consts_sample (inst_encoder false 1 1) none).2.cap 8).value
      = 30 ∧
    ((msm_vidc_adjust_gop_size consts_sample
      (with_streaming (msm_vidc_adjust_gop_size consts_sample
        (inst_encoder false 1 1) none).2 true)
      (some ⟨108, 60⟩)).2.cap 8).value = 60 := by
  decide

/-- C40: the LTR rules are atomic on rejection. Whenever
`msm_vidc_adjust_use_ltr` or `msm_vidc_adjust_mark_ltr` returns a non-zero
code, the code is -EINVAL and the instance is exactly the one from before the
call: every capability, USE_LTR and MARK_LTR included, the two derived fields
and both lists. -/
theorem ltr_rules_atomic_on_rejection (k : header_constants) (inst : msm_vidc_inst)
    (ctrl : Option v4l2_ctrl) :
    ((msm_vidc_adjust_use_ltr k inst ctrl).1 ≠ 0 →
      msm_vidc_adjust_use_ltr k inst ctrl = (-EINVAL, inst)) ∧
    ((msm_vidc_adjust_mark_ltr k inst ctrl).1 ≠ 0 →
      msm_vidc_adjust_mark_ltr k inst ctrl = (-EINVAL, inst)) := by
  constructor
  · unfold msm_vidc_adjust_use_ltr
    simp only
    intro h
    split_ifs at h ⊢ <;> first | rfl | exact absurd rfl h
  · unfold msm_vidc_adjust_mark_ltr
    simp only
    intro h
    split_ifs at h ⊢ <;> first | rfl | exact absurd rfl h

theorem ltr_rules_atomic_on_rejection_witness :
    (msm_vidc_adjust_use_ltr consts_sample
      (msm_vidc_update_cap_value (inst_encoder true 1 1) 10 2) (some ⟨111, 4⟩)).1 ≠ 0 ∧
    msm_vidc_adjust_use_ltr consts_sample
      (msm_vidc_update_cap_value (inst_encoder true 1 1) 10 2) (some ⟨111, 4⟩)
      = (-EINVAL, msm_vidc_update_cap_value (inst_encoder true 1 1) 10 2) ∧
    (msm_vidc_adjust_mark_ltr consts_sample
      (msm_vidc_update_cap_value (inst_encoder true 1 1) 10 2) (some ⟨112, 2⟩)).1 ≠ 0 ∧
    msm_vidc_adjust_mark_ltr consts_sample
      (msm_vidc_update_cap_value (inst_encoder true 1 1) 10 2) (some ⟨112, 2⟩)
      = (-EINVAL, msm_vidc_update_cap_value (inst_encoder true 1 1) 10 2) :=
  ⟨by decide,
   (ltr_rules_atomic_on_rejection consts_sample
      (msm_vidc_update_cap_value (inst_encoder true 1 1) 10 2) (some ⟨111, 4⟩)).1 (by decide),
   by decide,
   (ltr_rules_atomic_on_rejection consts_sample
      (msm_vidc_update_cap_value (inst_encoder true 1 1) 10 2) (some ⟨112, 2⟩)).2 (by decide)⟩

/-! ## What a pass leaves on the two lists -/

/-- Storing a value that is the forced constant `z`, or is `v` and lies
within the range, leaves the bounds alone and the stored value the constant,
or `v` within the range. -/
theorem range_kept_update (inst : msm_vidc_inst) (c : Nat) (w z v : Int)
    (h : w = z ∨ (w = v ∧ (inst.cap c).min ≤ w ∧ w ≤ (inst.cap c).max)) :
    ((msm_vidc_update_cap_value inst c w).cap c).min = (inst.cap c).min ∧
    ((msm_vidc_update_cap_value inst c w).cap c).max = (inst.cap c).max ∧
    (((msm_vidc_update_cap_value inst c w).cap c).value = z ∨
      (((msm_vidc_update_cap_value inst c w).cap c).value = v ∧
        (inst.cap c).min ≤ ((msm_vidc_update_cap_value inst c w).cap c).value ∧
        ((msm_vidc_update_cap_value inst c w).cap c).value ≤ (inst.cap c).max)) := by
  obtain ⟨u1, u2, u3, -⟩ := update_cap_value_same inst c w
  rw [u1, u2, u3]
  exact ⟨rfl, rfl, h⟩

theorem adjust_ltr_count_range (k : header_constants) (inst : msm_vidc_inst)
    (ctrl : Option v4l2_ctrl) (v : Int) (hv : requested_value inst ctrl k.LTR_COUNT = v)
    (hlo : (inst.cap k.LTR_COUNT).min ≤ v) (hhi : v ≤ (inst.cap k.LTR_COUNT).max)
    (hok : (msm_vidc_adjust_ltr_count k inst ctrl).1 = 0) :
    ((msm_vidc_adjust_ltr_count k inst ctrl).2.cap k.LTR_COUNT).min = (inst.cap k.LTR_COUNT).min ∧
    ((msm_vidc_adjust_ltr_count k inst ctrl).2.cap k.LTR_COUNT).max = (inst.cap k.LTR_COUNT).max ∧
    (((msm_vidc_adjust_ltr_count k inst ctrl).2.cap k.LTR_COUNT).value = 0 ∨
      (((msm_vidc_adjust_ltr_count k inst ctrl).2.cap k.LTR_COUNT).value = v ∧
        (inst.cap k.LTR_COUNT).min ≤ ((msm_vidc_adjust_ltr_count k inst ctrl).2.cap k.LTR_COUNT).value ∧
        ((msm_vidc_adjust_ltr_count k inst ctrl).2.cap k.LTR_COUNT).value ≤ (inst.cap k.LTR_COUNT).max)) := by
  subst hv
  unfold msm_vidc_adjust_ltr_count at hok ⊢
  simp only at hok ⊢
  split_ifs at hok ⊢ <;> first
    | exact absurd hok (einval_ne_zero _)
    | exact range_kept_update _ _ _ _ _ (Or.inl rfl)
    | exact range_kept_update _ _ _ _ _ (Or.inr ⟨rfl, hlo, hhi⟩)

theorem adjust_use_ltr_range (k : header_constants) (inst : msm_vidc_inst)
    (ctrl : Option v4l2_ctrl) (v : Int) (hv : requested_value inst ctrl k.USE_LTR = v)
    (hlo : (inst.cap k.USE_LTR).min ≤ v) (hhi : v ≤ (inst.cap k.USE_LTR).max)
    (hok : (msm_vidc_adjust_use_ltr k inst ctrl).1 = 0) :
    ((msm_vidc_adjust_use_ltr k inst ctrl).2.cap k.USE_LTR).min = (inst.cap k.USE_LTR).min ∧
    ((msm_vidc_adjust_use_ltr k inst ctrl).2.cap k.USE_LTR).max = (inst.cap k.USE_LTR).max ∧
    (((msm_vidc_adjust_use_ltr k inst ctrl).2.cap k.USE_LTR).value = 0 ∨
      (((msm_vidc_adjust_use_ltr k inst ctrl).2.cap k.USE_LTR).value = v ∧
        (inst.cap k.USE_LTR).min ≤ ((msm_vidc_adjust_use_ltr k inst ctrl).2.cap k.USE_LTR).value ∧
        ((msm_vidc_adjust_use_ltr k inst ctrl).2.cap k.USE_LTR).value ≤ (inst.cap k.USE_LTR).max)) := by
  subst hv
  unfold msm_vidc_adjust_use_ltr at hok ⊢
  simp only at hok ⊢
  split_ifs at hok ⊢ <;> first
    | exact absurd hok (einval_ne_zero _)
    | exact range_kept_update _ _ _ _ _ (Or.inl rfl)
    | exact range_kept_update _ _ _ _ _ (Or.inr ⟨rfl, hlo, hhi⟩)

theorem adjust_mark_ltr_range (k : header_constants) (inst : msm_vidc_inst)
    (ctrl : Option v4l2_ctrl) (v : Int) (hv : requested_value inst ctrl k.MARK_LTR = v)
    (hlo : (inst.cap k.MARK_LTR).min ≤ v) (hhi : v ≤ (inst.cap k.MARK_LTR).max)
    (hok : (msm_vidc_adjust_mark_ltr k inst ctrl).1 = 0) :
    ((msm_vidc_adjust_mark_ltr k inst ctrl).2.cap k.MARK_LTR).min = (inst.cap k.MARK_LTR).min ∧
    ((msm_vidc_adjust_mark_ltr k inst ctrl).2.cap k.MARK_LTR).max = (inst.cap k.MARK_LTR).max ∧
    (((msm_vidc_adjust_mark_ltr k inst ctrl).2.cap k.MARK_LTR).value = 0 ∨
      (((msm_vidc_adjust_mark_ltr k inst ctrl).2.cap k.MARK_LTR).value = v ∧
        (inst.cap k.MARK_LTR).min ≤ ((msm_vidc_adjust_mark_ltr k inst ctrl).2.cap k.MARK_LTR).value ∧
        ((msm_vidc_adjust_mark_ltr k inst ctrl).2.cap k.MARK_LTR).value ≤ (inst.cap k.MARK_LTR).max)) := by
  subst hv
  unfold msm_vidc_adjust_mark_ltr at hok ⊢
  simp only at hok ⊢
  split_ifs at hok ⊢ <;> first
    | exact absurd hok (einval_ne_zero _)
    | exact range_kept_update _ _ _ _ _ (Or.inl rfl)
    | exact range_kept_update _ _ _ _ _ (Or.inr ⟨rfl, hlo, hhi⟩)

theorem adjust_delta_based_rc_range (k : driver_constants) (inst : msm_vidc_inst)
    (ctrl : Option v4l2_ctrl) (v : Int) (hv : requested_value inst ctrl k.TIME_DELTA_BASED_RC = v)
    (hlo : (inst.cap k.TIME_DELTA_BASED_RC).min ≤ v) (hhi : v ≤ (inst.cap k.TIME_DELTA_BASED_RC).max)
    (hok : (msm_vidc_adjust_delta_based_rc k inst ctrl).1 = 0) :
    ((msm_vidc_adjust_delta_based_rc k inst ctrl).2.cap k.TIME_DELTA_BASED_RC).min = (inst.cap k.TIME_DELTA_BASED_RC).min ∧
    ((msm_vidc_adjust_delta_based_rc k inst ctrl).2.cap k.TIME_DELTA_BASED_RC).max = (inst.cap k.TIME_DELTA_BASED_RC).max ∧
    (((msm_vidc_adjust_delta_based_rc k inst ctrl).2.cap k.TIME_DELTA_BASED_RC).value = 0 ∨
      (((msm_vidc_adjust_delta_based_rc k inst ctrl).2.cap k.TIME_DELTA_BASED_RC).value = v ∧
        (inst.cap k.TIME_DELTA_BASED_RC).min ≤ ((msm_vidc_adjust_delta_based_rc k inst ctrl).2.cap k.TIME_DELTA_BASED_RC).value ∧
        ((msm_vidc_adjust_delta_based_rc k inst ctrl).2.cap k.TIME_DELTA_BASED_RC).value ≤ (inst.cap k.TIME_DELTA_BASED_RC).max)) := by
  subst hv
  unfold msm_vidc_adjust_delta_based_rc at hok ⊢
  simp only at hok ⊢
  split_ifs at hok ⊢ <;> first
    | exact absurd hok (einval_ne_zero _)
    | exact range_kept_update _ _ _ _ _ (Or.inl rfl)
    | exact range_kept_update _ _ _ _ _ (Or.inr ⟨rfl, hlo, hhi⟩)

theorem adjust_ir_random_range (k : driver_constants) (inst : msm_vidc_inst)
    (ctrl : Option v4l2_ctrl) (v : Int) (hv : requested_value inst ctrl k.IR_RANDOM = v)
    (hlo : (inst.cap k.IR_RANDOM).min ≤ v) (hhi : v ≤ (inst.cap k.IR_RANDOM).max) :
    (msm_vidc_adjust_ir_random k inst ctrl).1 = 0 ∧
    ((msm_vidc_adjust_ir_random k inst ctrl).2.cap k.IR_RANDOM).min = (inst.cap k.IR_RANDOM).min ∧
    ((msm_vidc_adjust_ir_random k inst ctrl).2.cap k.IR_RANDOM).max = (inst.cap k.IR_RANDOM).max ∧
    (((msm_vidc_adjust_ir_random k inst ctrl).2.cap k.IR_RANDOM).value = 0 ∨
      (((msm_vidc_adjust_ir_random k inst ctrl).2.cap k.IR_RANDOM).value = v ∧
        (inst.cap k.IR_RANDOM).min ≤ ((msm_vidc_adjust_ir_random k inst ctrl).2.cap k.IR_RANDOM).value ∧
        ((msm_vidc_adjust_ir_random k inst ctrl).2.cap k.IR_RANDOM).value ≤ (inst.cap k.IR_RANDOM).max)) := by
  subst hv
  unfold msm_vidc_adjust_ir_random
  simp only
  refine ⟨trivial, ?_⟩
  split_ifs <;> first
    | exact range_kept_update _ _ _ _ _ (Or.inl rfl)
    | exact range_kept_update _ _ _ _ _ (Or.inr ⟨rfl, hlo, hhi⟩)

theorem adjust_entropy_mode_range (k : control_constants) (inst : msm_vidc_inst)
    (ctrl : Option v4l2_ctrl) (v : Int) (hv : requested_value inst ctrl k.ENTROPY_MODE = v)
    (hlo : (inst.cap k.ENTROPY_MODE).min ≤ v) (hhi : v ≤ (inst.cap k.ENTROPY_MODE).max)
    (hvlo : (inst.cap k.ENTROPY_MODE).min ≤ (inst.cap k.ENTROPY_MODE).value)
    (hvhi : (inst.cap k.ENTROPY_MODE).value ≤ (inst.cap k.ENTROPY_MODE).max)
    (hok : (msm_vidc_adjust_entropy_mode k inst ctrl).1 = 0) :
    ((msm_vidc_adjust_entropy_mode k inst ctrl).2.cap k.ENTROPY_MODE).min = (inst.cap k.ENTROPY_MODE).min ∧
    ((msm_vidc_adjust_entropy_mode k inst ctrl).2.cap k.ENTROPY_MODE).max = (inst.cap k.ENTROPY_MODE).max ∧
    (((msm_vidc_adjust_entropy_mode k inst ctrl).2.cap k.ENTROPY_MODE).value = k.V4L2_MPEG_VIDEO_H264_ENTROPY_MODE_CAVLC ∨
      ((((msm_vidc_adjust_entropy_mode k inst ctrl).2.cap k.ENTROPY_MODE).value = v ∨
          (inst.codec ≠ msm_vidc_codec_type.MSM_VIDC_H264 ∧
            ((msm_vidc_adjust_entropy_mode k inst ctrl).2.cap k.ENTROPY_MODE).value = (inst.cap k.ENTROPY_MODE).value)) ∧
        (inst.cap k.ENTROPY_MODE).min ≤ ((msm_vidc_adjust_entropy_mode k inst ctrl).2.cap k.ENTROPY_MODE).value ∧
        ((msm_vidc_adjust_entropy_mode k inst ctrl).2.cap k.ENTROPY_MODE).value ≤ (inst.cap k.ENTROPY_MODE).max)) := by
  subst hv
  unfold msm_vidc_adjust_entropy_mode at hok ⊢
  simp only at hok ⊢
  by_cases hc : inst.codec ≠ msm_vidc_codec_type.MSM_VIDC_H264
  · rw [if_pos hc]
    exact ⟨rfl, rfl, Or.inr ⟨Or.inr ⟨hc, rfl⟩, hvlo, hvhi⟩⟩
  · rw [if_neg hc] at hok ⊢
    split_ifs at hok ⊢
    · exact absurd hok (einval_ne_zero _)
    · rw [(update_cap_value_same _ _ _).1, (update_cap_value_same _ _ _).2.1,
        (update_cap_value_same _ _ _).2.2.1]
      exact ⟨rfl, rfl, Or.inl rfl⟩
    · rw [(update_cap_value_same _ _ _).1, (update_cap_value_same _ _ _).2.1,
        (update_cap_value_same _ _ _).2.2.1]
      exact ⟨rfl, rfl, Or.inr ⟨Or.inl rfl, hlo, hhi⟩⟩

theorem adjust_transform_8x8_range (k : driver_constants) (inst : msm_vidc_inst)
    (ctrl : Option v4l2_ctrl) (v : Int) (hv : requested_value inst ctrl k.TRANSFORM_8X8 = v)
    (hlo : (inst.cap k.TRANSFORM_8X8).min ≤ v) (hhi : v ≤ (inst.cap k.TRANSFORM_8X8).max)
    (hvlo : (inst.cap k.TRANSFORM_8X8).min ≤ (inst.cap k.TRANSFORM_8X8).value)
    (hvhi : (inst.cap k.TRANSFORM_8X8).value ≤ (inst.cap k.TRANSFORM_8X8).max)
    (hok : (msm_vidc_adjust_transform_8x8 k inst ctrl).1 = 0) :
    ((msm_vidc_adjust_transform_8x8 k inst ctrl).2.cap k.TRANSFORM_8X8).min = (inst.cap k.TRANSFORM_8X8).min ∧
    ((msm_vidc_adjust_transform_8x8 k inst ctrl).2.cap k.TRANSFORM_8X8).max = (inst.cap k.TRANSFORM_8X8).max ∧
    (((msm_vidc_adjust_transform_8x8 k inst ctrl).2.cap k.TRANSFORM_8X8).value = k.V4L2_MPEG_MSM_VIDC_DISABLE ∨
      ((((msm_vidc_adjust_transform_8x8 k inst ctrl).2.cap k.TRANSFORM_8X8).value = v ∨
          (inst.codec ≠ msm_vidc_codec_type.MSM_VIDC_H264 ∧
            ((msm_vidc_adjust_transform_8x8 k inst ctrl).2.cap k.TRANSFORM_8X8).value = (inst.cap k.TRANSFORM_8X8).value)) ∧
        (inst.cap k.TRANSFORM_8X8).min ≤ ((msm_vidc_adjust_transform_8x8 k inst ctrl).2.cap k.TRANSFORM_8X8).value ∧
        ((msm_vidc_adjust_transform_8x8 k inst ctrl).2.cap k.TRANSFORM_8X8).value ≤ (inst.cap k.TRANSFORM_8X8).max)) := by
  subst hv
  unfold msm_vidc_adjust_transform_8x8 at hok ⊢
  simp only at hok ⊢
  by_cases hc : inst.codec ≠ msm_vidc_codec_type.MSM_VIDC_H264
  · rw [if_pos hc]
    exact ⟨rfl, rfl, Or.inr ⟨Or.inr ⟨hc, rfl⟩, hvlo, hvhi⟩⟩
  · rw [if_neg hc] at hok ⊢
    split_ifs at hok ⊢
    · exact absurd hok (einval_ne_zero _)
    · rw [(update_cap_value_same _ _ _).1, (update_cap_value_same _ _ _).2.1,
        (update_cap_value_same _ _ _).2.2.1]
      exact ⟨rfl, rfl, Or.inl rfl⟩
    · rw [(update_cap_value_same _ _ _).1, (update_cap_value_same _ _ _).2.1,
        (update_cap_value_same _ _ _).2.2.1]
      exact ⟨rfl, rfl, Or.inr ⟨Or.inl rfl, hlo, hhi⟩⟩

theorem adjust_profile_range (k : control_constants) (inst : msm_vidc_inst)
    (ctrl : Option v4l2_ctrl) (v : Int) (hv : requested_value inst ctrl k.PROFILE = v)
    (hlo : (inst.cap k.PROFILE).min ≤ v) (hhi : v ≤ (inst.cap k.PROFILE).max)
    (hok : (msm_vidc_adjust_profile k inst ctrl).1 = 0) :
    ((msm_vidc_adjust_profile k inst ctrl).2.cap k.PROFILE).min = (inst.cap k.PROFILE).min ∧
    ((msm_vidc_adjust_profile k inst ctrl).2.cap k.PROFILE).max = (inst.cap k.PROFILE).max ∧
    (((msm_vidc_adjust_profile k inst ctrl).2.cap k.PROFILE).value
        = k.V4L2_MPEG_VIDEO_HEVC_PROFILE_MAIN_10 ∨
      ((msm_vidc_adjust_profile k inst ctrl).2.cap k.PROFILE).value
        = k.V4L2_MPEG_VIDEO_HEVC_PROFILE_MAIN ∨
      ((msm_vidc_adjust_profile k inst ctrl).2.cap k.PROFILE).value
        = k.V4L2_MPEG_VIDEO_HEVC_PROFILE_MAIN_STILL_PICTURE ∨
      (((msm_vidc_adjust_profile k inst ctrl).2.cap k.PROFILE).value = v ∧
        (inst.cap k.PROFILE).min ≤ ((msm_vidc_adjust_profile k inst ctrl).2.cap k.PROFILE).value ∧
        ((msm_vidc_adjust_profile k inst ctrl).2.cap k.PROFILE).value
          ≤ (inst.cap k.PROFILE).max)) := by
  subst hv
  unfold msm_vidc_adjust_profile at hok ⊢
  simp only at hok ⊢
  by_cases hp : (msm_vidc_get_parent_value k.toheader_constants inst k.PROFILE k.PIX_FMTS
      (-1)).1 ≠ 0
  · rw [if_pos hp] at hok
    exact absurd hok (einval_ne_zero _)
  · rw [if_neg hp]
    simp only
    obtain ⟨u1, u2, u3, -⟩ := update_cap_value_same inst k.PROFILE
      (if (msm_vidc_get_parent_value k.toheader_constants inst k.PROFILE k.PIX_FMTS (-1)).2
            = k.MSM_VIDC_FMT_TP10C ∨
          (msm_vidc_get_parent_value k.toheader_constants inst k.PROFILE k.PIX_FMTS (-1)).2
            = k.MSM_VIDC_FMT_P010 then
        k.V4L2_MPEG_VIDEO_HEVC_PROFILE_MAIN_10
      else if requested_value inst ctrl k.PROFILE = k.V4L2_MPEG_VIDEO_HEVC_PROFILE_MAIN_10 then
        (if k.is_image_session inst = true then
          k.V4L2_MPEG_VIDEO_HEVC_PROFILE_MAIN_STILL_PICTURE
         else k.V4L2_MPEG_VIDEO_HEVC_PROFILE_MAIN)
      else requested_value inst ctrl k.PROFILE)
    rw [u1, u2, u3]
    refine ⟨rfl, rfl, ?_⟩
    split_ifs
    · exact Or.inl rfl
    · exact Or.inr (Or.inr (Or.inl rfl))
    · exact Or.inr (Or.inl rfl)
    · exact Or.inr (Or.inr (Or.inr ⟨rfl, hlo, hhi⟩))

theorem adjust_b_frame_range (k : header_constants) (inst : msm_vidc_inst)
    (ctrl : Option v4l2_ctrl)
    (hvlo : (inst.cap k.B_FRAME).min ≤ (inst.cap k.B_FRAME).value)
    (hvhi : (inst.cap k.B_FRAME).value ≤ (inst.cap k.B_FRAME).max)
    (hok : (msm_vidc_adjust_b_frame k inst ctrl).1 = 0) :
    ((msm_vidc_adjust_b_frame k inst ctrl).2.cap k.B_FRAME).min = (inst.cap k.B_FRAME).min ∧
    ((msm_vidc_adjust_b_frame k inst ctrl).2.cap k.B_FRAME).max = (inst.cap k.B_FRAME).max ∧
    (((msm_vidc_adjust_b_frame k inst ctrl).2.cap k.B_FRAME).value = 0 ∨
      ((msm_vidc_adjust_b_frame k inst ctrl).2.cap k.B_FRAME).value = 1 ∨
      ((msm_vidc_adjust_b_frame k inst ctrl).2.cap k.B_FRAME).value = 3 ∨
      ((msm_vidc_adjust_b_frame k inst ctrl).2.cap k.B_FRAME).value = 7 ∨
      (inst.streaming = true ∧
        ((msm_vidc_adjust_b_frame k inst ctrl).2.cap k.B_FRAME).value
          = (inst.cap k.B_FRAME).value ∧
        (inst.cap k.B_FRAME).min ≤ ((msm_vidc_adjust_b_frame k inst ctrl).2.cap k.B_FRAME).value ∧
        ((msm_vidc_adjust_b_frame k inst ctrl).2.cap k.B_FRAME).value
          ≤ (inst.cap k.B_FRAME).max)) := by
  unfold msm_vidc_adjust_b_frame at hok ⊢
  by_cases hs : inst.streaming = true
  · rw [if_pos hs]
    exact ⟨rfl, rfl, Or.inr (Or.inr (Or.inr (Or.inr ⟨hs, rfl, hvlo, hvhi⟩)))⟩
  · rw [if_neg hs] at hok ⊢
    simp only at hok ⊢
    by_cases hp : (msm_vidc_get_parent_value k inst k.B_FRAME k.ENH_LAYER_COUNT (-1)).1 ≠ 0
    · rw [if_pos hp] at hok
      exact absurd hok (einval_ne_zero _)
    · rw [if_neg hp]
      by_cases hz : (msm_vidc_get_parent_value k inst k.B_FRAME k.ENH_LAYER_COUNT (-1)).2 = 0 ∨
          inst.hfi_layer_type ≠ k.HFI_HIER_B
      · rw [if_pos hz]
        obtain ⟨u1, u2, u3, -⟩ := update_cap_value_same inst k.B_FRAME 0
        exact ⟨u2, u3, Or.inl u1⟩
      · rw [if_neg hz]
        obtain ⟨u1, u2, u3, -⟩ := update_cap_value_same inst k.B_FRAME
          (b_frame_from_layers
            (msm_vidc_get_parent_value k inst k.B_FRAME k.ENH_LAYER_COUNT (-1)).2)
        refine ⟨u2, u3, Or.inr ?_⟩
        show ((msm_vidc_update_cap_value inst k.B_FRAME _).cap k.B_FRAME).value = 1 ∨ _
        rw [u1]
        rcases b_frame_from_layers_values
          (msm_vidc_get_parent_value k inst k.B_FRAME k.ENH_LAYER_COUNT (-1)).2 with h | h | h
        · exact Or.inl h
        · exact Or.inr (Or.inl h)
        · exact Or.inr (Or.inr (Or.inl h))

/-- One `CAP_TO_8BIT_QP` leaves every bound alone and every value as it was
or 0. -/
theorem cap_to_8bit_qp_range (inst : msm_vidc_inst) (c d : Nat) :
    ((CAP_TO_8BIT_QP inst c).cap d).min = (inst.cap d).min ∧
    ((CAP_TO_8BIT_QP inst c).cap d).max = (inst.cap d).max ∧
    (((CAP_TO_8BIT_QP inst c).cap d).value = 0 ∨
      ((CAP_TO_8BIT_QP inst c).cap d).value = (inst.cap d).value) := by
  rw [cap_to_8bit_qp_cap]
  refine ⟨rfl, rfl, ?_⟩
  simp only
  split_ifs
  · rcases le_total (inst.cap d).value 0 with h | h
    · exact Or.inl (max_eq_right h)
    · exact Or.inr (max_eq_left h)
  · exact Or.inr rfl

theorem range_step_trans {a b c : msm_vidc_inst} (d : Nat)
    (h1 : (b.cap d).min = (a.cap d).min ∧ (b.cap d).max = (a.cap d).max ∧
      ((b.cap d).value = 0 ∨ (b.cap d).value = (a.cap d).value))
    (h2 : (c.cap d).min = (b.cap d).min ∧ (c.cap d).max = (b.cap d).max ∧
      ((c.cap d).value = 0 ∨ (c.cap d).value = (b.cap d).value)) :
    (c.cap d).min = (a.cap d).min ∧ (c.cap d).max = (a.cap d).max ∧
      ((c.cap d).value = 0 ∨ (c.cap d).value = (a.cap d).value) := by
  refine ⟨h2.1.trans h1.1, h2.2.1.trans h1.2.1, ?_⟩
  rcases h2.2.2 with h | h
  · exact Or.inl h
  · rcases h1.2.2 with g | g
    · exact Or.inl (h.trans g)
    · exact Or.inr (h.trans g)

/-- The clamp `msm_vidc_adjust_hevc_qp` leaves every bound alone and every
value as it was or 0, whatever it returns. -/
theorem adjust_hevc_qp_range (k : control_constants) (inst : msm_vidc_inst) (c d : Nat) :
    ((msm_vidc_adjust_hevc_qp k inst c).2.cap d).min = (inst.cap d).min ∧
    ((msm_vidc_adjust_hevc_qp k inst c).2.cap d).max = (inst.cap d).max ∧
    (((msm_vidc_adjust_hevc_qp k inst c).2.cap d).value = 0 ∨
      ((msm_vidc_adjust_hevc_qp k inst c).2.cap d).value = (inst.cap d).value) := by
  have h3 : ∀ (i : msm_vidc_inst) (x y z : Nat),
      ((CAP_TO_8BIT_QP (CAP_TO_8BIT_QP (CAP_TO_8BIT_QP i x) y) z).cap d).min = (i.cap d).min ∧
      ((CAP_TO_8BIT_QP (CAP_TO_8BIT_QP (CAP_TO_8BIT_QP i x) y) z).cap d).max = (i.cap d).max ∧
      (((CAP_TO_8BIT_QP (CAP_TO_8BIT_QP (CAP_TO_8BIT_QP i x) y) z).cap d).value = 0 ∨
        ((CAP_TO_8BIT_QP (CAP_TO_8BIT_QP (CAP_TO_8BIT_QP i x) y) z).cap d).value
          = (i.cap d).value) :=
    fun i x y z => range_step_trans d (cap_to_8bit_qp_range i x d)
      (range_step_trans d (cap_to_8bit_qp_range _ y d) (cap_to_8bit_qp_range _ z d))
  have h4 : ∀ (i : msm_vidc_inst) (x y z w : Nat),
      ((CAP_TO_8BIT_QP (CAP_TO_8BIT_QP (CAP_TO_8BIT_QP (CAP_TO_8BIT_QP i x) y) z) w).cap
        d).min = (i.cap d).min ∧
      ((CAP_TO_8BIT_QP (CAP_TO_8BIT_QP (CAP_TO_8BIT_QP (CAP_TO_8BIT_QP i x) y) z) w).cap
        d).max = (i.cap d).max ∧
      (((CAP_TO_8BIT_QP (CAP_TO_8BIT_QP (CAP_TO_8BIT_QP (CAP_TO_8BIT_QP i x) y) z) w).cap
          d).value = 0 ∨
        ((CAP_TO_8BIT_QP (CAP_TO_8BIT_QP (CAP_TO_8BIT_QP (CAP_TO_8BIT_QP i x) y) z) w).cap
          d).value = (i.cap d).value) :=
    fun i x y z w => range_step_trans d (h3 i x y z) (cap_to_8bit_qp_range _ w d)
  unfold msm_vidc_adjust_hevc_qp
  by_cases h1 : ¬ (inst.codec = msm_vidc_codec_type.MSM_VIDC_HEVC ∨
      inst.codec = msm_vidc_codec_type.MSM_VIDC_HEIC)
  · rw [if_pos h1]
    exact ⟨rfl, rfl, Or.inr rfl⟩
  · rw [if_neg h1]
    simp only
    by_cases h2 : (msm_vidc_get_parent_value k.toheader_constants inst c k.PIX_FMTS (-1)).1 ≠ 0
    · rw [if_pos h2]
      exact ⟨rfl, rfl, Or.inr rfl⟩
    · rw [if_neg h2]
      by_cases h3' : (msm_vidc_get_parent_value k.toheader_constants inst c k.PIX_FMTS (-1)).2
            = k.MSM_VIDC_FMT_P010 ∨
          (msm_vidc_get_parent_value k.toheader_constants inst c k.PIX_FMTS (-1)).2
            = k.MSM_VIDC_FMT_TP10C
      · rw [if_pos h3']
        exact ⟨rfl, rfl, Or.inr rfl⟩
      · rw [if_neg h3']
        by_cases h4' : c = k.MIN_FRAME_QP
        · rw [if_pos h4']
          exact h4 inst _ _ _ _
        · rw [if_neg h4']
          by_cases h5 : c = k.MAX_FRAME_QP
          · rw [if_pos h5]
            exact h4 inst _ _ _ _
          · rw [if_neg h5]
            by_cases h6 : c = k.I_FRAME_QP
            · rw [if_pos h6]
              exact h3 inst _ _ _
            · rw [if_neg h6]
              exact cap_to_8bit_qp_range inst _ d

/-! ## Claim C11: the range of the stored value, rule by rule -/

/-- Counterexample to C11 as stated: three successful runs whose requested
value and stored value lie within [min, max] and that leave a value above max
that is not 0.
* GOP_SIZE with range 0..100 and value 30, layer count 3 under sliding-window
  P layering, requested 100: `msm_vidc_adjust_gop_size` stores 104.
* PROFILE with range 0..1 and value 0 under the pixel format P010, requested
  1: `msm_vidc_adjust_profile` stores MAIN_10, which is 2.
* B_FRAME with range 0..1 and value 0, one enhancement layer under B
  layering: `msm_vidc_adjust_b_frame` stores 3. -/
theorem adjust_rules_leave_range :
    (((msm_vidc_update_cap_value (inst_encoder false 1 1) 7 3).cap 8).min,
      ((msm_vidc_update_cap_value (inst_encoder false 1 1) 7 3).cap 8).max,
      ((msm_vidc_update_cap_value (inst_encoder false 1 1) 7 3).cap 8).value) = (0, 100, 30) ∧
    (msm_vidc_adjust_gop_size consts_sample
      (msm_vidc_update_cap_value (inst_encoder false 1 1) 7 3) (some ⟨108, 100⟩)).1 = 0 ∧
    (((msm_vidc_adjust_gop_size consts_sample
        (msm_vidc_update_cap_value (inst_encoder false 1 1) 7 3) (some ⟨108, 100⟩)).2.cap 8).min,
      ((msm_vidc_adjust_gop_size consts_sample
        (msm_vidc_update_cap_value (inst_encoder false 1 1) 7 3) (some ⟨108, 100⟩)).2.cap 8).max,
      ((msm_vidc_adjust_gop_size consts_sample
        (msm_vidc_update_cap_value (inst_encoder false 1 1) 7 3) (some ⟨108, 100⟩)).2.cap 8).value)
      = (0, 100, 104) ∧
    (((set_cap_max (msm_vidc_update_cap_value (msm_vidc_update_cap_value
          (inst_control msm_vidc_codec_type.MSM_VIDC_HEVC 1) 13 16) 14 0) 14 1).cap 14).min,
      ((set_cap_max (msm_vidc_update_cap_value (msm_vidc_update_cap_value
          (inst_control msm_vidc_codec_type.MSM_VIDC_HEVC 1) 13 16) 14 0) 14 1).cap 14).max,
      ((set_cap_max (msm_vidc_update_cap_value (msm_vidc_update_cap_value
          (inst_control msm_vidc_codec_type.MSM_VIDC_HEVC 1) 13 16) 14 0) 14 1).cap 14).value)
      = (0, 1, 0) ∧
    (msm_vidc_adjust_profile consts_control
      (set_cap_max (msm_vidc_update_cap_value (msm_vidc_update_cap_value
        (inst_control msm_vidc_codec_type.MSM_VIDC_HEVC 1) 13 16) 14 0) 14 1)
      (some ⟨114, 1⟩)).1 = 0 ∧
    (((msm_vidc_adjust_profile consts_control
        (set_cap_max (msm_vidc_update_cap_value (msm_vidc_update_cap_value
          (inst_control msm_vidc_codec_type.MSM_VIDC_HEVC 1) 13 16) 14 0) 14 1)
        (some ⟨114, 1⟩)).2.cap 14).min,
      ((msm_vidc_adjust_profile consts_control
        (set_cap_max (msm_vidc_update_cap_value (msm_vidc_update_cap_value
          (inst_control msm_vidc_codec_type.MSM_VIDC_HEVC 1) 13 16) 14 0) 14 1)
        (some ⟨114, 1⟩)).2.cap 14).max,
      ((msm_vidc_adjust_profile consts_control
        (set_cap_max (msm_vidc_update_cap_value (msm_vidc_update_cap_value
          (inst_control msm_vidc_codec_type.MSM_VIDC_HEVC 1) 13 16) 14 0) 14 1)
        (some ⟨114, 1⟩)).2.cap 14).value) = (0, 1, 2) ∧
    (((set_cap_max (msm_vidc_update_cap_value (inst_encoder false 0 3) 7 1) 9 1).cap 9).min,
      ((set_cap_max (msm_vidc_update_cap_value (inst_encoder false 0 3) 7 1) 9 1).cap 9).max,
      ((set_cap_max (msm_vidc_update_cap_value (inst_encoder false 0 3) 7 1) 9 1).cap 9).value)
      = (0, 1, 0) ∧
    (msm_vidc_adjust_b_frame consts_sample
      (set_cap_max (msm_vidc_update_cap_value (inst_encoder false 0 3) 7 1) 9 1)
      (some ⟨109, 1⟩)).1 = 0 ∧
    (((msm_vidc_adjust_b_frame consts_sample
        (set_cap_max (msm_vidc_update_cap_value (inst_encoder false 0 3) 7 1) 9 1)
        (some ⟨109, 1⟩)).2.cap 9).min,
      ((msm_vidc_adjust_b_frame consts_sample
        (set_cap_max (msm_vidc_update_cap_value (inst_encoder false 0 3) 7 1) 9 1)
        (some ⟨109, 1⟩)).2.cap 9).max,
      ((msm_vidc_adjust_b_frame consts_sample
        (set_cap_max (msm_vidc_update_cap_value (inst_encoder false 0 3) 7 1) 9 1)
        (some ⟨109, 1⟩)).2.cap 9).value) = (0, 1, 3) := by
  decide

/-- C11, amended: the stored value after each of the fifteen adjust rules of
the file, for a requested value `v` (the control's value, or the capability's
own value when no control is passed) within the capability's [min, max] and,
where the rule can leave the value alone, a stored value within [min, max].
In the order of the source:
* `msm_vidc_adjust_entropy_mode`: after success min and max are the same and
  the value is the CAVLC constant, or is within [min, max] and is `v` or (codec
  not H.264) the value held before;
* `msm_vidc_adjust_bitrate_mode`: returns 0 and changes no capability;
* `msm_vidc_adjust_profile`: after success the value is one of the constants
  MAIN_10, MAIN, MAIN_STILL_PICTURE (whether or not they lie within the
  range), or is `v` within [min, max];
* `msm_vidc_adjust_ltr_count`, `msm_vidc_adjust_use_ltr`,
  `msm_vidc_adjust_mark_ltr`, `msm_vidc_adjust_delta_based_rc`: after success
  the value is 0 or is `v` within [min, max];
* `msm_vidc_adjust_ir_random`: always succeeds, same conclusion;
* `msm_vidc_adjust_transform_8x8`: as the entropy mode, with the constant
  `V4L2_MPEG_MSM_VIDC_DISABLE`;
* `msm_vidc_adjust_layer_count`: with no ceiling of the headers below min,
  after success min is the same, the value is at most the max of afterwards
  (the static phase rewrites max) and is 0 or within the [min, max] of before;
* `msm_vidc_adjust_gop_size`: with ENH_LAYER_COUNT declared as parent it
  succeeds and leaves min and max alone; it stores `v` when the layer count n
  is 0 or the layer type is not a P type; under P layering with 1 <= n <= 30,
  0 <= v and v + 2^(n-1) <= 2^31 - 1 it stores a multiple of 2^n that is 2^n
  or lies in (min - 2^(n-1), max + 2^(n-1)];
* `msm_vidc_adjust_b_frame`: after success the value is 0, 1, 3 or 7 (whether
  or not within the range), or the session streams and the value is the one
  held before, within [min, max];
* `msm_vidc_adjust_hevc_min_qp`, `msm_vidc_adjust_hevc_max_qp`,
  `msm_vidc_adjust_hevc_frame_qp`: for every capability `d` whose value was
  within its range, min and max are the same and the value is 0 or the one
  held before, within [min, max]. -/
theorem adjust_rules_value_range (k : driver_constants) :
    (∀ (inst : msm_vidc_inst) (ctrl : Option v4l2_ctrl) (v : Int),
      (∀ c, ctrl = some c → v = c.val) → (ctrl = none → v = (inst.cap k.ENTROPY_MODE).value) →
      (inst.cap k.ENTROPY_MODE).min ≤ v → v ≤ (inst.cap k.ENTROPY_MODE).max →
      (inst.cap k.ENTROPY_MODE).min ≤ (inst.cap k.ENTROPY_MODE).value →
      (inst.cap k.ENTROPY_MODE).value ≤ (inst.cap k.ENTROPY_MODE).max →
      (msm_vidc_adjust_entropy_mode k.tocontrol_constants inst ctrl).1 = 0 →
      ((msm_vidc_adjust_entropy_mode k.tocontrol_constants inst ctrl).2.cap k.ENTROPY_MODE).min =
          (inst.cap k.ENTROPY_MODE).min ∧
      ((msm_vidc_adjust_entropy_mode k.tocontrol_constants inst ctrl).2.cap k.ENTROPY_MODE).max =
          (inst.cap k.ENTROPY_MODE).max ∧
      (((msm_vidc_adjust_entropy_mode k.tocontrol_constants inst ctrl).2.cap k.ENTROPY_MODE).value
          = k.V4L2_MPEG_VIDEO_H264_ENTROPY_MODE_CAVLC ∨
        ((((msm_vidc_adjust_entropy_mode k.tocontrol_constants inst ctrl).2.cap
            k.ENTROPY_MODE).value = v ∨
            (inst.codec ≠ msm_vidc_codec_type.MSM_VIDC_H264 ∧
              ((msm_vidc_adjust_entropy_mode k.tocontrol_constants inst ctrl).2.cap
                  k.ENTROPY_MODE).value = (inst.cap k.ENTROPY_MODE).value)) ∧
          (inst.cap k.ENTROPY_MODE).min ≤ ((msm_vidc_adjust_entropy_mode k.tocontrol_constants inst
              ctrl).2.cap k.ENTROPY_MODE).value ∧
          ((msm_vidc_adjust_entropy_mode k.tocontrol_constants inst ctrl).2.cap
              k.ENTROPY_MODE).value ≤ (inst.cap k.ENTROPY_MODE).max))) ∧
    (∀ (inst : msm_vidc_inst) (ctrl : Option v4l2_ctrl),
      (msm_vidc_adjust_bitrate_mode k.toheader_constants inst ctrl).1 = 0 ∧
      (msm_vidc_adjust_bitrate_mode k.toheader_constants inst ctrl).2.cap = inst.cap) ∧
    (∀ (inst : msm_vidc_inst) (ctrl : Option v4l2_ctrl) (v : Int),
      (∀ c, ctrl = some c → v = c.val) → (ctrl = none → v = (inst.cap k.PROFILE).value) →
      (inst.cap k.PROFILE).min ≤ v → v ≤ (inst.cap k.PROFILE).max →
      (msm_vidc_adjust_profile k.tocontrol_constants inst ctrl).1 = 0 →
      ((msm_vidc_adjust_profile k.tocontrol_constants inst ctrl).2.cap k.PROFILE).min = (inst.cap
          k.PROFILE).min ∧
      ((msm_vidc_adjust_profile k.tocontrol_constants inst ctrl).2.cap k.PROFILE).max = (inst.cap
          k.PROFILE).max ∧
      (((msm_vidc_adjust_profile k.tocontrol_constants inst ctrl).2.cap k.PROFILE).value =
          k.V4L2_MPEG_VIDEO_HEVC_PROFILE_MAIN_10 ∨
        ((msm_vidc_adjust_profile k.tocontrol_constants inst ctrl).2.cap k.PROFILE).value =
            k.V4L2_MPEG_VIDEO_HEVC_PROFILE_MAIN ∨
        ((msm_vidc_adjust_profile k.tocontrol_constants inst ctrl).2.cap k.PROFILE).value =
            k.V4L2_MPEG_VIDEO_HEVC_PROFILE_MAIN_STILL_PICTURE ∨
        (((msm_vidc_adjust_profile k.tocontrol_constants inst ctrl).2.cap k.PROFILE).value = v ∧
          (inst.cap k.PROFILE).min ≤ ((msm_vidc_adjust_profile k.tocontrol_constants inst
              ctrl).2.cap k.PROFILE).value ∧
          ((msm_vidc_adjust_profile k.tocontrol_constants inst ctrl).2.cap k.PROFILE).value ≤
              (inst.cap k.PROFILE).max))) ∧
    (∀ (inst : msm_vidc_inst) (ctrl : Option v4l2_ctrl) (v : Int),
      (∀ c, ctrl = some c → v = c.val) → (ctrl = none → v = (inst.cap k.LTR_COUNT).value) →
      (inst.cap k.LTR_COUNT).min ≤ v → v ≤ (inst.cap k.LTR_COUNT).max →
      (msm_vidc_adjust_ltr_count k.toheader_constants inst ctrl).1 = 0 →
      ((msm_vidc_adjust_ltr_count k.toheader_constants inst ctrl).2.cap k.LTR_COUNT).min =
          (inst.cap k.LTR_COUNT).min ∧
      ((msm_vidc_adjust_ltr_count k.toheader_constants inst ctrl).2.cap k.LTR_COUNT).max =
          (inst.cap k.LTR_COUNT).max ∧
      (((msm_vidc_adjust_ltr_count k.toheader_constants inst ctrl).2.cap k.LTR_COUNT).value = 0 ∨
        (((msm_vidc_adjust_ltr_count k.toheader_constants inst ctrl).2.cap k.LTR_COUNT).value = v ∧
          (inst.cap k.LTR_COUNT).min ≤ ((msm_vidc_adjust_ltr_count k.toheader_constants inst
              ctrl).2.cap k.LTR_COUNT).value ∧
          ((msm_vidc_adjust_ltr_count k.toheader_constants inst ctrl).2.cap k.LTR_COUNT).value ≤
              (inst.cap k.LTR_COUNT).max))) ∧
    (∀ (inst : msm_vidc_inst) (ctrl : Option v4l2_ctrl) (v : Int),
      (∀ c, ctrl = some c → v = c.val) → (ctrl = none → v = (inst.cap k.USE_LTR).value) →
      (inst.cap k.USE_LTR).min ≤ v → v ≤ (inst.cap k.USE_LTR).max →
      (msm_vidc_adjust_use_ltr k.toheader_constants inst ctrl).1 = 0 →
      ((msm_vidc_adjust_use_ltr k.toheader_constants inst ctrl).2.cap k.USE_LTR).min = (inst.cap
          k.USE_LTR).min ∧
      ((msm_vidc_adjust_use_ltr k.toheader_constants inst ctrl).2.cap k.USE_LTR).max = (inst.cap
          k.USE_LTR).max ∧
      (((msm_vidc_adjust_use_ltr k.toheader_constants inst ctrl).2.cap k.USE_LTR).value = 0 ∨
        (((msm_vidc_adjust_use_ltr k.toheader_constants inst ctrl).2.cap k.USE_LTR).value = v ∧
          (inst.cap k.USE_LTR).min ≤ ((msm_vidc_adjust_use_ltr k.toheader_constants inst
              ctrl).2.cap k.USE_LTR).value ∧
          ((msm_vidc_adjust_use_ltr k.toheader_constants inst ctrl).2.cap k.USE_LTR).value ≤
              (inst.cap k.USE_LTR).max))) ∧
    (∀ (inst : msm_vidc_inst) (ctrl : Option v4l2_ctrl) (v : Int),
      (∀ c, ctrl = some c → v = c.val) → (ctrl = none → v = (inst.cap k.MARK_LTR).value) →
      (inst.cap k.MARK_LTR).min ≤ v → v ≤ (inst.cap k.MARK_LTR).max →
      (msm_vidc_adjust_mark_ltr k.toheader_constants inst ctrl).1 = 0 →
      ((msm_vidc_adjust_mark_ltr k.toheader_constants inst ctrl).2.cap k.MARK_LTR).min = (inst.cap
          k.MARK_LTR).min ∧
      ((msm_vidc_adjust_mark_ltr k.toheader_constants inst ctrl).2.cap k.MARK_LTR).max = (inst.cap
          k.MARK_LTR).max ∧
      (((msm_vidc_adjust_mark_ltr k.toheader_constants inst ctrl).2.cap k.MARK_LTR).value = 0 ∨
        (((msm_vidc_adjust_mark_ltr k.toheader_constants inst ctrl).2.cap k.MARK_LTR).value = v ∧
          (inst.cap k.MARK_LTR).min ≤ ((msm_vidc_adjust_mark_ltr k.toheader_constants inst
              ctrl).2.cap k.MARK_LTR).value ∧
          ((msm_vidc_adjust_mark_ltr k.toheader_constants inst ctrl).2.cap k.MARK_LTR).value ≤
              (inst.cap k.MARK_LTR).max))) ∧
    (∀ (inst : msm_vidc_inst) (ctrl : Option v4l2_ctrl) (v : Int),
      (∀ c, ctrl = some c → v = c.val) → (ctrl = none → v = (inst.cap k.IR_RANDOM).value) →
      (inst.cap k.IR_RANDOM).min ≤ v → v ≤ (inst.cap k.IR_RANDOM).max →
      (msm_vidc_adjust_ir_random k inst ctrl).1 = 0 ∧
      ((msm_vidc_adjust_ir_random k inst ctrl).2.cap k.IR_RANDOM).min = (inst.cap k.IR_RANDOM).min ∧
      ((msm_vidc_adjust_ir_random k inst ctrl).2.cap k.IR_RANDOM).max = (inst.cap k.IR_RANDOM).max ∧
      (((msm_vidc_adjust_ir_random k inst ctrl).2.cap k.IR_RANDOM).value = 0 ∨
        (((msm_vidc_adjust_ir_random k inst ctrl).2.cap k.IR_RANDOM).value = v ∧
          (inst.cap k.IR_RANDOM).min ≤ ((msm_vidc_adjust_ir_random k inst ctrl).2.cap
              k.IR_RANDOM).value ∧
          ((msm_vidc_adjust_ir_random k inst ctrl).2.cap k.IR_RANDOM).value ≤ (inst.cap
              k.IR_RANDOM).max))) ∧
    (∀ (inst : msm_vidc_inst) (ctrl : Option v4l2_ctrl) (v : Int),
      (∀ c, ctrl = some c → v = c.val) → (ctrl = none → v = (inst.cap k.TIME_DELTA_BASED_RC).value)
          →
      (inst.cap k.TIME_DELTA_BASED_RC).min ≤ v → v ≤ (inst.cap k.TIME_DELTA_BASED_RC).max →
      (msm_vidc_adjust_delta_based_rc k inst ctrl).1 = 0 →
      ((msm_vidc_adjust_delta_based_rc k inst ctrl).2.cap k.TIME_DELTA_BASED_RC).min = (inst.cap
          k.TIME_DELTA_BASED_RC).min ∧
      ((msm_vidc_adjust_delta_based_rc k inst ctrl).2.cap k.TIME_DELTA_BASED_RC).max = (inst.cap
          k.TIME_DELTA_BASED_RC).max ∧
      (((msm_vidc_adjust_delta_based_rc k inst ctrl).2.cap k.TIME_DELTA_BASED_RC).value = 0 ∨
        (((msm_vidc_adjust_delta_based_rc k inst ctrl).2.cap k.TIME_DELTA_BASED_RC).value = v ∧
          (inst.cap k.TIME_DELTA_BASED_RC).min ≤ ((msm_vidc_adjust_delta_based_rc k inst
              ctrl).2.cap k.TIME_DELTA_BASED_RC).value ∧
          ((msm_vidc_adjust_delta_based_rc k inst ctrl).2.cap k.TIME_DELTA_BASED_RC).value ≤
              (inst.cap k.TIME_DELTA_BASED_RC).max))) ∧
    (∀ (inst : msm_vidc_inst) (ctrl : Option v4l2_ctrl) (v : Int),
      (∀ c, ctrl = some c → v = c.val) → (ctrl = none → v = (inst.cap k.TRANSFORM_8X8).value) →
      (inst.cap k.TRANSFORM_8X8).min ≤ v → v ≤ (inst.cap k.TRANSFORM_8X8).max →
      (inst.cap k.TRANSFORM_8X8).min ≤ (inst.cap k.TRANSFORM_8X8).value →
      (inst.cap k.TRANSFORM_8X8).value ≤ (inst.cap k.TRANSFORM_8X8).max →
      (msm_vidc_adjust_transform_8x8 k inst ctrl).1 = 0 →
      ((msm_vidc_adjust_transform_8x8 k inst ctrl).2.cap k.TRANSFORM_8X8).min = (inst.cap
          k.TRANSFORM_8X8).min ∧
      ((msm_vidc_adjust_transform_8x8 k inst ctrl).2.cap k.TRANSFORM_8X8).max = (inst.cap
          k.TRANSFORM_8X8).max ∧
      (((msm_vidc_adjust_transform_8x8 k inst ctrl).2.cap k.TRANSFORM_8X8).value =
          k.V4L2_MPEG_MSM_VIDC_DISABLE ∨
        ((((msm_vidc_adjust_transform_8x8 k inst ctrl).2.cap k.TRANSFORM_8X8).value = v ∨
            (inst.codec ≠ msm_vidc_codec_type.MSM_VIDC_H264 ∧
              ((msm_vidc_adjust_transform_8x8 k inst ctrl).2.cap k.TRANSFORM_8X8).value = (inst.cap
                  k.TRANSFORM_8X8).value)) ∧
          (inst.cap k.TRANSFORM_8X8).min ≤ ((msm_vidc_adjust_transform_8x8 k inst ctrl).2.cap
              k.TRANSFORM_8X8).value ∧
          ((msm_vidc_adjust_transform_8x8 k inst ctrl).2.cap k.TRANSFORM_8X8).value ≤ (inst.cap
              k.TRANSFORM_8X8).max))) ∧
    (∀ (inst : msm_vidc_inst) (ctrl : Option v4l2_ctrl) (v : Int),
      (∀ c, ctrl = some c → v = c.val) → (ctrl = none → v = (inst.cap k.ENH_LAYER_COUNT).value) →
      (inst.cap k.ENH_LAYER_COUNT).min ≤ v → v ≤ (inst.cap k.ENH_LAYER_COUNT).max →
      (inst.cap k.ENH_LAYER_COUNT).min ≤ (inst.cap k.ENH_LAYER_COUNT).value →
      (inst.cap k.ENH_LAYER_COUNT).value ≤ (inst.cap k.ENH_LAYER_COUNT).max →
      (inst.cap k.ENH_LAYER_COUNT).min ≤ k.MAX_ENH_LAYER_HB →
      (inst.cap k.ENH_LAYER_COUNT).min ≤ k.MAX_AVC_ENH_LAYER_HYBRID_HP →
      (inst.cap k.ENH_LAYER_COUNT).min ≤ k.MAX_AVC_ENH_LAYER_SLIDING_WINDOW →
      (inst.cap k.ENH_LAYER_COUNT).min ≤ k.MAX_HEVC_ENH_LAYER_SLIDING_WINDOW →
      (msm_vidc_adjust_layer_count k.toheader_constants inst ctrl).1 = 0 →
      ((msm_vidc_adjust_layer_count k.toheader_constants inst ctrl).2.cap k.ENH_LAYER_COUNT).min =
          (inst.cap k.ENH_LAYER_COUNT).min ∧
      ((msm_vidc_adjust_layer_count k.toheader_constants inst ctrl).2.cap k.ENH_LAYER_COUNT).value
          ≤ ((msm_vidc_adjust_layer_count k.toheader_constants inst ctrl).2.cap
          k.ENH_LAYER_COUNT).max ∧
      (((msm_vidc_adjust_layer_count k.toheader_constants inst ctrl).2.cap k.ENH_LAYER_COUNT).value
          = 0 ∨
        ((inst.cap k.ENH_LAYER_COUNT).min ≤ ((msm_vidc_adjust_layer_count k.toheader_constants inst
            ctrl).2.cap k.ENH_LAYER_COUNT).value ∧
          ((msm_vidc_adjust_layer_count k.toheader_constants inst ctrl).2.cap
              k.ENH_LAYER_COUNT).value ≤ (inst.cap k.ENH_LAYER_COUNT).max))) ∧
    (∀ (inst : msm_vidc_inst) (ctrl : Option v4l2_ctrl) (v : Int),
      (∀ c, ctrl = some c → v = c.val) → (ctrl = none → v = (inst.cap k.GOP_SIZE).value) →
      is_parent_available inst k.GOP_SIZE k.ENH_LAYER_COUNT = true →
      k.ENH_LAYER_COUNT ≠ k.BITRATE_MODE → k.ENH_LAYER_COUNT ≠ k.LAYER_TYPE →
      (inst.cap k.GOP_SIZE).min ≤ v → v ≤ (inst.cap k.GOP_SIZE).max →
      (msm_vidc_adjust_gop_size k.toheader_constants inst ctrl).1 = 0 ∧
      ((msm_vidc_adjust_gop_size k.toheader_constants inst ctrl).2.cap k.GOP_SIZE).min = (inst.cap
          k.GOP_SIZE).min ∧
      ((msm_vidc_adjust_gop_size k.toheader_constants inst ctrl).2.cap k.GOP_SIZE).max = (inst.cap
          k.GOP_SIZE).max ∧
      (((inst.cap k.ENH_LAYER_COUNT).value = 0 ∨
          ¬ (inst.hfi_layer_type = k.HFI_HIER_P_SLIDING_WINDOW ∨
            inst.hfi_layer_type = k.HFI_HIER_P_HYBRID_LTR)) →
        ((msm_vidc_adjust_gop_size k.toheader_constants inst ctrl).2.cap k.GOP_SIZE).value = v) ∧
      ((inst.hfi_layer_type = k.HFI_HIER_P_SLIDING_WINDOW ∨
          inst.hfi_layer_type = k.HFI_HIER_P_HYBRID_LTR) →
        1 ≤ (inst.cap k.ENH_LAYER_COUNT).value → (inst.cap k.ENH_LAYER_COUNT).value ≤ 30 →
        0 ≤ v → v + 2 ^ ((inst.cap k.ENH_LAYER_COUNT).value - 1).toNat ≤ 2147483647 →
        ((msm_vidc_adjust_gop_size k.toheader_constants inst ctrl).2.cap k.GOP_SIZE).value % 2 ^
            (inst.cap k.ENH_LAYER_COUNT).value.toNat = 0 ∧
        (((msm_vidc_adjust_gop_size k.toheader_constants inst ctrl).2.cap k.GOP_SIZE).value = 2 ^
            (inst.cap k.ENH_LAYER_COUNT).value.toNat ∨
          ((inst.cap k.GOP_SIZE).min - 2 ^ ((inst.cap k.ENH_LAYER_COUNT).value - 1).toNat <
              ((msm_vidc_adjust_gop_size k.toheader_constants inst ctrl).2.cap k.GOP_SIZE).value ∧
            ((msm_vidc_adjust_gop_size k.toheader_constants inst ctrl).2.cap k.GOP_SIZE).value ≤
                (inst.cap k.GOP_SIZE).max + 2 ^ ((inst.cap k.ENH_LAYER_COUNT).value - 1).toNat)))) ∧
    (∀ (inst : msm_vidc_inst) (ctrl : Option v4l2_ctrl),
      (inst.cap k.B_FRAME).min ≤ (inst.cap k.B_FRAME).value →
      (inst.cap k.B_FRAME).value ≤ (inst.cap k.B_FRAME).max →
      (msm_vidc_adjust_b_frame k.toheader_constants inst ctrl).1 = 0 →
      ((msm_vidc_adjust_b_frame k.toheader_constants inst ctrl).2.cap k.B_FRAME).min = (inst.cap
          k.B_FRAME).min ∧
      ((msm_vidc_adjust_b_frame k.toheader_constants inst ctrl).2.cap k.B_FRAME).max = (inst.cap
          k.B_FRAME).max ∧
      (((msm_vidc_adjust_b_frame k.toheader_constants inst ctrl).2.cap k.B_FRAME).value = 0 ∨
        ((msm_vidc_adjust_b_frame k.toheader_constants inst ctrl).2.cap k.B_FRAME).value = 1 ∨
        ((msm_vidc_adjust_b_frame k.toheader_constants inst ctrl).2.cap k.B_FRAME).value = 3 ∨
        ((msm_vidc_adjust_b_frame k.toheader_constants inst ctrl).2.cap k.B_FRAME).value = 7 ∨
        (inst.streaming = true ∧
          ((msm_vidc_adjust_b_frame k.toheader_constants inst ctrl).2.cap k.B_FRAME).value =
              (inst.cap k.B_FRAME).value ∧
          (inst.cap k.B_FRAME).min ≤ ((msm_vidc_adjust_b_frame k.toheader_constants inst
              ctrl).2.cap k.B_FRAME).value ∧
          ((msm_vidc_adjust_b_frame k.toheader_constants inst ctrl).2.cap k.B_FRAME).value ≤
              (inst.cap k.B_FRAME).max))) ∧
    (∀ (inst : msm_vidc_inst) (ctrl : Option v4l2_ctrl) (d : Nat),
      (inst.cap d).min ≤ (inst.cap d).value →
      (inst.cap d).value ≤ (inst.cap d).max →
      ((msm_vidc_adjust_hevc_min_qp k.tocontrol_constants inst ctrl).2.cap d).min = (inst.cap
          d).min ∧
      ((msm_vidc_adjust_hevc_min_qp k.tocontrol_constants inst ctrl).2.cap d).max = (inst.cap
          d).max ∧
      (((msm_vidc_adjust_hevc_min_qp k.tocontrol_constants inst ctrl).2.cap d).value = 0 ∨
        (((msm_vidc_adjust_hevc_min_qp k.tocontrol_constants inst ctrl).2.cap d).value = (inst.cap
            d).value ∧
          (inst.cap d).min ≤ ((msm_vidc_adjust_hevc_min_qp k.tocontrol_constants inst ctrl).2.cap
              d).value ∧
          ((msm_vidc_adjust_hevc_min_qp k.tocontrol_constants inst ctrl).2.cap d).value ≤ (inst.cap
              d).max))) ∧
    (∀ (inst : msm_vidc_inst) (ctrl : Option v4l2_ctrl) (d : Nat),
      (inst.cap d).min ≤ (inst.cap d).value →
      (inst.cap d).value ≤ (inst.cap d).max →
      ((msm_vidc_adjust_hevc_max_qp k.tocontrol_constants inst ctrl).2.cap d).min = (inst.cap
          d).min ∧
      ((msm_vidc_adjust_hevc_max_qp k.tocontrol_constants inst ctrl).2.cap d).max = (inst.cap
          d).max ∧
      (((msm_vidc_adjust_hevc_max_qp k.tocontrol_constants inst ctrl).2.cap d).value = 0 ∨
        (((msm_vidc_adjust_hevc_max_qp k.tocontrol_constants inst ctrl).2.cap d).value = (inst.cap
            d).value ∧
          (inst.cap d).min ≤ ((msm_vidc_adjust_hevc_max_qp k.tocontrol_constants inst ctrl).2.cap
              d).value ∧
          ((msm_vidc_adjust_hevc_max_qp k.tocontrol_constants inst ctrl).2.cap d).value ≤ (inst.cap
              d).max))) ∧
    (∀ (inst : msm_vidc_inst) (ctrl : Option v4l2_ctrl) (d : Nat),
      (inst.cap d).min ≤ (inst.cap d).value →
      (inst.cap d).value ≤ (inst.cap d).max →
      ((msm_vidc_adjust_hevc_frame_qp k.tocontrol_constants inst ctrl).2.cap d).min = (inst.cap
          d).min ∧
      ((msm_vidc_adjust_hevc_frame_qp k.tocontrol_constants inst ctrl).2.cap d).max = (inst.cap
          d).max ∧
      (((msm_vidc_adjust_hevc_frame_qp k.tocontrol_constants inst ctrl).2.cap d).value = 0 ∨
        (((msm_vidc_adjust_hevc_frame_qp k.tocontrol_constants inst ctrl).2.cap d).value =
            (inst.cap d).value ∧
          (inst.cap d).min ≤ ((msm_vidc_adjust_hevc_frame_qp k.tocontrol_constants inst ctrl).2.cap
              d).value ∧
          ((msm_vidc_adjust_hevc_frame_qp k.tocontrol_constants inst ctrl).2.cap d).value ≤
              (inst.cap d).max))) := by
  have req : ∀ (inst : msm_vidc_inst) (ctrl : Option v4l2_ctrl) (cap : Nat) (v : Int),
      (∀ c, ctrl = some c → v = c.val) → (ctrl = none → v = (inst.cap cap).value) →
      requested_value inst ctrl cap = v := by
    intro inst ctrl cap v hsome hnone
    cases ctrl with
    | none => exact (hnone rfl).symm
    | some c => exact (hsome c rfl).symm
  refine ⟨?_, ?_, ?_, ?_, ?_, ?_, ?_, ?_, ?_, ?_, ?_, ?_, ?_, ?_, ?_⟩
  · intro inst ctrl v hsome hnone hlo hhi hvlo hvhi hok
    exact adjust_entropy_mode_range k.tocontrol_constants inst ctrl v
      (req inst ctrl _ v hsome hnone) hlo hhi hvlo hvhi hok
  · intro inst ctrl
    exact ⟨rfl, rfl⟩
  · intro inst ctrl v hsome hnone hlo hhi hok
    exact adjust_profile_range k.tocontrol_constants inst ctrl v
      (req inst ctrl _ v hsome hnone) hlo hhi hok
  · intro inst ctrl v hsome hnone hlo hhi hok
    exact adjust_ltr_count_range k.toheader_constants inst ctrl v
      (req inst ctrl _ v hsome hnone) hlo hhi hok
  · intro inst ctrl v hsome hnone hlo hhi hok
    exact adjust_use_ltr_range k.toheader_constants inst ctrl v
      (req inst ctrl _ v hsome hnone) hlo hhi hok
  · intro inst ctrl v hsome hnone hlo hhi hok
    exact adjust_mark_ltr_range k.toheader_constants inst ctrl v
      (req inst ctrl _ v hsome hnone) hlo hhi hok
  · intro inst ctrl v hsome hnone hlo hhi
    exact adjust_ir_random_range k inst ctrl v
      (req inst ctrl _ v hsome hnone) hlo hhi
  · intro inst ctrl v hsome hnone hlo hhi hok
    exact adjust_delta_based_rc_range k inst ctrl v
      (req inst ctrl _ v hsome hnone) hlo hhi hok
  · intro inst ctrl v hsome hnone hlo hhi hvlo hvhi hok
    exact adjust_transform_8x8_range k inst ctrl v
      (req inst ctrl _ v hsome hnone) hlo hhi hvlo hvhi hok
  · intro inst ctrl v hsome hnone hlo hhi hvlo hvhi c1 c2 c3 c4 hok
    have h := (layer_count_and_gop_size_range_of_request k.toheader_constants inst ctrl).1
    rw [req inst ctrl _ v hsome hnone] at h
    exact h hlo hhi hvlo hvhi c1 c2 c3 c4 hok
  · intro inst ctrl v hsome hnone hav hd1 hd2 hlo hhi
    have h := (layer_count_and_gop_size_range_of_request k.toheader_constants inst ctrl).2
    rw [req inst ctrl _ v hsome hnone] at h
    exact h hav hd1 hd2 hlo hhi
  · intro inst ctrl hvlo hvhi hok
    exact adjust_b_frame_range k.toheader_constants inst ctrl hvlo hvhi hok
  · intro inst ctrl d hvlo hvhi
    obtain ⟨m1, m2, h⟩ := adjust_hevc_qp_range k.tocontrol_constants inst k.MIN_FRAME_QP d
    refine ⟨m1, m2, ?_⟩
    rcases h with h | h
    · exact Or.inl h
    · exact Or.inr ⟨h, h.symm ▸ hvlo, h.symm ▸ hvhi⟩
  · intro inst ctrl d hvlo hvhi
    obtain ⟨m1, m2, h⟩ := adjust_hevc_qp_range k.tocontrol_constants inst k.MAX_FRAME_QP d
    refine ⟨m1, m2, ?_⟩
    rcases h with h | h
    · exact Or.inl h
    · exact Or.inr ⟨h, h.symm ▸ hvlo, h.symm ▸ hvhi⟩
  · intro inst ctrl d hvlo hvhi
    obtain ⟨m1, m2, h⟩ := adjust_hevc_qp_range k.tocontrol_constants inst k.I_FRAME_QP d
    refine ⟨m1, m2, ?_⟩
    rcases h with h | h
    · exact Or.inl h
    · exact Or.inr ⟨h, h.symm ▸ hvlo, h.symm ▸ hvhi⟩

/-- Witness for C11 amended: one run of each of the fifteen rules over the
sample tables, with the return code, the stored value and the bounds
evaluated: a requested value that is stored (entropy mode 1 under the profile
2, profile 1, LTR count 2, USE_LTR 3 and MARK_LTR 1 with two LTR frames,
IR_RANDOM 3, TIME_DELTA_BASED_RC read from the capability, TRANSFORM_8X8 1
under the high profile), the layer count 5 cut to the ceiling 3, the GOP size
100 rounded to 104, B_FRAME 3 for one enhancement layer, and the QP values
-12 and -3 raised to 0 while 51 stays. -/
theorem adjust_rules_value_range_witness :
    (((msm_vidc_adjust_entropy_mode consts_driver.tocontrol_constants (inst_control
        msm_vidc_codec_type.MSM_VIDC_H264 1) (some ⟨115, 1⟩)).1,
        ((msm_vidc_adjust_entropy_mode consts_driver.tocontrol_constants (inst_control
            msm_vidc_codec_type.MSM_VIDC_H264 1) (some ⟨115, 1⟩)).2.cap 15).value,
        ((msm_vidc_adjust_entropy_mode consts_driver.tocontrol_constants (inst_control
            msm_vidc_codec_type.MSM_VIDC_H264 1) (some ⟨115, 1⟩)).2.cap 15).min,
        ((msm_vidc_adjust_entropy_mode consts_driver.tocontrol_constants (inst_control
            msm_vidc_codec_type.MSM_VIDC_H264 1) (some ⟨115, 1⟩)).2.cap 15).max) = (0, 1, 0, 1)) ∧
    (((msm_vidc_adjust_entropy_mode consts_driver.tocontrol_constants (inst_control
        msm_vidc_codec_type.MSM_VIDC_H264 1) (some ⟨115, 1⟩)).2.cap 15).min = ((inst_control
        msm_vidc_codec_type.MSM_VIDC_H264 1).cap 15).min ∧
      ((msm_vidc_adjust_entropy_mode consts_driver.tocontrol_constants (inst_control
          msm_vidc_codec_type.MSM_VIDC_H264 1) (some ⟨115, 1⟩)).2.cap 15).max = ((inst_control
          msm_vidc_codec_type.MSM_VIDC_H264 1).cap 15).max ∧
      (((msm_vidc_adjust_entropy_mode consts_driver.tocontrol_constants (inst_control
          msm_vidc_codec_type.MSM_VIDC_H264 1) (some ⟨115, 1⟩)).2.cap 15).value =
          consts_driver.V4L2_MPEG_VIDEO_H264_ENTROPY_MODE_CAVLC ∨
        ((((msm_vidc_adjust_entropy_mode consts_driver.tocontrol_constants (inst_control
            msm_vidc_codec_type.MSM_VIDC_H264 1) (some ⟨115, 1⟩)).2.cap 15).value = 1 ∨
            ((inst_control msm_vidc_codec_type.MSM_VIDC_H264 1).codec ≠
                msm_vidc_codec_type.MSM_VIDC_H264 ∧
              ((msm_vidc_adjust_entropy_mode consts_driver.tocontrol_constants (inst_control
                  msm_vidc_codec_type.MSM_VIDC_H264 1) (some ⟨115, 1⟩)).2.cap 15).value =
                  ((inst_control msm_vidc_codec_type.MSM_VIDC_H264 1).cap 15).value)) ∧
          ((inst_control msm_vidc_codec_type.MSM_VIDC_H264 1).cap 15).min ≤
              ((msm_vidc_adjust_entropy_mode consts_driver.tocontrol_constants (inst_control
              msm_vidc_codec_type.MSM_VIDC_H264 1) (some ⟨115, 1⟩)).2.cap 15).value ∧
          ((msm_vidc_adjust_entropy_mode consts_driver.tocontrol_constants (inst_control
              msm_vidc_codec_type.MSM_VIDC_H264 1) (some ⟨115, 1⟩)).2.cap 15).value ≤
              ((inst_control msm_vidc_codec_type.MSM_VIDC_H264 1).cap 15).max))) ∧
    ((msm_vidc_adjust_bitrate_mode consts_driver.toheader_constants (inst_encoder false 0 0)
        none).2.hfi_rc_type = 1) ∧
    ((msm_vidc_adjust_bitrate_mode consts_driver.toheader_constants (inst_encoder false 0 0)
        none).1 = 0 ∧
      (msm_vidc_adjust_bitrate_mode consts_driver.toheader_constants (inst_encoder false 0 0)
          none).2.cap = (inst_encoder false 0 0).cap) ∧
    (((msm_vidc_adjust_profile consts_driver.tocontrol_constants (inst_control
        msm_vidc_codec_type.MSM_VIDC_HEVC 1) (some ⟨114, 1⟩)).1,
        ((msm_vidc_adjust_profile consts_driver.tocontrol_constants (inst_control
            msm_vidc_codec_type.MSM_VIDC_HEVC 1) (some ⟨114, 1⟩)).2.cap 14).value,
        ((msm_vidc_adjust_profile consts_driver.tocontrol_constants (inst_control
            msm_vidc_codec_type.MSM_VIDC_HEVC 1) (some ⟨114, 1⟩)).2.cap 14).min,
        ((msm_vidc_adjust_profile consts_driver.tocontrol_constants (inst_control
            msm_vidc_codec_type.MSM_VIDC_HEVC 1) (some ⟨114, 1⟩)).2.cap 14).max) = (0, 1, 0, 2)) ∧
    (((msm_vidc_adjust_profile consts_driver.tocontrol_constants (inst_control
        msm_vidc_codec_type.MSM_VIDC_HEVC 1) (some ⟨114, 1⟩)).2.cap 14).min = ((inst_control
        msm_vidc_codec_type.MSM_VIDC_HEVC 1).cap 14).min ∧
      ((msm_vidc_adjust_profile consts_driver.tocontrol_constants (inst_control
          msm_vidc_codec_type.MSM_VIDC_HEVC 1) (some ⟨114, 1⟩)).2.cap 14).max = ((inst_control
          msm_vidc_codec_type.MSM_VIDC_HEVC 1).cap 14).max ∧
      (((msm_vidc_adjust_profile consts_driver.tocontrol_constants (inst_control
          msm_vidc_codec_type.MSM_VIDC_HEVC 1) (some ⟨114, 1⟩)).2.cap 14).value =
          consts_driver.V4L2_MPEG_VIDEO_HEVC_PROFILE_MAIN_10 ∨
        ((msm_vidc_adjust_profile consts_driver.tocontrol_constants (inst_control
            msm_vidc_codec_type.MSM_VIDC_HEVC 1) (some ⟨114, 1⟩)).2.cap 14).value =
            consts_driver.V4L2_MPEG_VIDEO_HEVC_PROFILE_MAIN ∨
        ((msm_vidc_adjust_profile consts_driver.tocontrol_constants (inst_control
            msm_vidc_codec_type.MSM_VIDC_HEVC 1) (some ⟨114, 1⟩)).2.cap 14).value =
            consts_driver.V4L2_MPEG_VIDEO_HEVC_PROFILE_MAIN_STILL_PICTURE ∨
        (((msm_vidc_adjust_profile consts_driver.tocontrol_constants (inst_control
            msm_vidc_codec_type.MSM_VIDC_HEVC 1) (some ⟨114, 1⟩)).2.cap 14).value = 1 ∧
          ((inst_control msm_vidc_codec_type.MSM_VIDC_HEVC 1).cap 14).min ≤
              ((msm_vidc_adjust_profile consts_driver.tocontrol_constants (inst_control
              msm_vidc_codec_type.MSM_VIDC_HEVC 1) (some ⟨114, 1⟩)).2.cap 14).value ∧
          ((msm_vidc_adjust_profile consts_driver.tocontrol_constants (inst_control
              msm_vidc_codec_type.MSM_VIDC_HEVC 1) (some ⟨114, 1⟩)).2.cap 14).value ≤
              ((inst_control msm_vidc_codec_type.MSM_VIDC_HEVC 1).cap 14).max))) ∧
    (((msm_vidc_adjust_ltr_count consts_driver.toheader_constants (inst_encoder false 1 0) (some
        ⟨110, 2⟩)).1,
        ((msm_vidc_adjust_ltr_count consts_driver.toheader_constants (inst_encoder false 1 0) (some
            ⟨110, 2⟩)).2.cap 10).value,
        ((msm_vidc_adjust_ltr_count consts_driver.toheader_constants (inst_encoder false 1 0) (some
            ⟨110, 2⟩)).2.cap 10).min,
        ((msm_vidc_adjust_ltr_count consts_driver.toheader_constants (inst_encoder false 1 0) (some
            ⟨110, 2⟩)).2.cap 10).max) = (0, 2, 0, 2)) ∧
    (((msm_vidc_adjust_ltr_count consts_driver.toheader_constants (inst_encoder false 1 0) (some
        ⟨110, 2⟩)).2.cap 10).min = ((inst_encoder false 1 0).cap 10).min ∧
      ((msm_vidc_adjust_ltr_count consts_driver.toheader_constants (inst_encoder false 1 0) (some
          ⟨110, 2⟩)).2.cap 10).max = ((inst_encoder false 1 0).cap 10).max ∧
      (((msm_vidc_adjust_ltr_count consts_driver.toheader_constants (inst_encoder false 1 0) (some
          ⟨110, 2⟩)).2.cap 10).value = 0 ∨
        (((msm_vidc_adjust_ltr_count consts_driver.toheader_constants (inst_encoder false 1 0)
            (some ⟨110, 2⟩)).2.cap 10).value = 2 ∧
          ((inst_encoder false 1 0).cap 10).min ≤ ((msm_vidc_adjust_ltr_count
              consts_driver.toheader_constants (inst_encoder false 1 0) (some ⟨110, 2⟩)).2.cap
              10).value ∧
          ((msm_vidc_adjust_ltr_count consts_driver.toheader_constants (inst_encoder false 1 0)
              (some ⟨110, 2⟩)).2.cap 10).value ≤ ((inst_encoder false 1 0).cap 10).max))) ∧
    (((msm_vidc_adjust_use_ltr consts_driver.toheader_constants (msm_vidc_update_cap_value
        (inst_encoder false 1 0) 10 2) (some ⟨111, 3⟩)).1,
        ((msm_vidc_adjust_use_ltr consts_driver.toheader_constants (msm_vidc_update_cap_value
            (inst_encoder false 1 0) 10 2) (some ⟨111, 3⟩)).2.cap 11).value,
        ((msm_vidc_adjust_use_ltr consts_driver.toheader_constants (msm_vidc_update_cap_value
            (inst_encoder false 1 0) 10 2) (some ⟨111, 3⟩)).2.cap 11).min,
        ((msm_vidc_adjust_use_ltr consts_driver.toheader_constants (msm_vidc_update_cap_value
            (inst_encoder false 1 0) 10 2) (some ⟨111, 3⟩)).2.cap 11).max) = (0, 3, 0, 3)) ∧
    (((msm_vidc_adjust_use_ltr consts_driver.toheader_constants (msm_vidc_update_cap_value
        (inst_encoder false 1 0) 10 2) (some ⟨111, 3⟩)).2.cap 11).min = ((msm_vidc_update_cap_value
        (inst_encoder false 1 0) 10 2).cap 11).min ∧
      ((msm_vidc_adjust_use_ltr consts_driver.toheader_constants (msm_vidc_update_cap_value
          (inst_encoder false 1 0) 10 2) (some ⟨111, 3⟩)).2.cap 11).max =
          ((msm_vidc_update_cap_value (inst_encoder false 1 0) 10 2).cap 11).max ∧
      (((msm_vidc_adjust_use_ltr consts_driver.toheader_constants (msm_vidc_update_cap_value
          (inst_encoder false 1 0) 10 2) (some ⟨111, 3⟩)).2.cap 11).value = 0 ∨
        (((msm_vidc_adjust_use_ltr consts_driver.toheader_constants (msm_vidc_update_cap_value
            (inst_encoder false 1 0) 10 2) (some ⟨111, 3⟩)).2.cap 11).value = 3 ∧
          ((msm_vidc_update_cap_value (inst_encoder false 1 0) 10 2).cap 11).min ≤
              ((msm_vidc_adjust_use_ltr consts_driver.toheader_constants (msm_vidc_update_cap_value
              (inst_encoder false 1 0) 10 2) (some ⟨111, 3⟩)).2.cap 11).value ∧
          ((msm_vidc_adjust_use_ltr consts_driver.toheader_constants (msm_vidc_update_cap_value
              (inst_encoder false 1 0) 10 2) (some ⟨111, 3⟩)).2.cap 11).value ≤
              ((msm_vidc_update_cap_value (inst_encoder false 1 0) 10 2).cap 11).max))) ∧
    (((msm_vidc_adjust_mark_ltr consts_driver.toheader_constants (msm_vidc_update_cap_value
        (inst_encoder false 1 0) 10 2) (some ⟨112, 1⟩)).1,
        ((msm_vidc_adjust_mark_ltr consts_driver.toheader_constants (msm_vidc_update_cap_value
            (inst_encoder false 1 0) 10 2) (some ⟨112, 1⟩)).2.cap 12).value,
        ((msm_vidc_adjust_mark_ltr consts_driver.toheader_constants (msm_vidc_update_cap_value
            (inst_encoder false 1 0) 10 2) (some ⟨112, 1⟩)).2.cap 12).min,
        ((msm_vidc_adjust_mark_ltr consts_driver.toheader_constants (msm_vidc_update_cap_value
            (inst_encoder false 1 0) 10 2) (some ⟨112, 1⟩)).2.cap 12).max) = (0, 1, 0, 1)) ∧
    (((msm_vidc_adjust_mark_ltr consts_driver.toheader_constants (msm_vidc_update_cap_value
        (inst_encoder false 1 0) 10 2) (some ⟨112, 1⟩)).2.cap 12).min = ((msm_vidc_update_cap_value
        (inst_encoder false 1 0) 10 2).cap 12).min ∧
      ((msm_vidc_adjust_mark_ltr consts_driver.toheader_constants (msm_vidc_update_cap_value
          (inst_encoder false 1 0) 10 2) (some ⟨112, 1⟩)).2.cap 12).max =
          ((msm_vidc_update_cap_value (inst_encoder false 1 0) 10 2).cap 12).max ∧
      (((msm_vidc_adjust_mark_ltr consts_driver.toheader_constants (msm_vidc_update_cap_value
          (inst_encoder false 1 0) 10 2) (some ⟨112, 1⟩)).2.cap 12).value = 0 ∨
        (((msm_vidc_adjust_mark_ltr consts_driver.toheader_constants (msm_vidc_update_cap_value
            (inst_encoder false 1 0) 10 2) (some ⟨112, 1⟩)).2.cap 12).value = 1 ∧
          ((msm_vidc_update_cap_value (inst_encoder false 1 0) 10 2).cap 12).min ≤
              ((msm_vidc_adjust_mark_ltr consts_driver.toheader_constants
              (msm_vidc_update_cap_value (inst_encoder false 1 0) 10 2) (some ⟨112, 1⟩)).2.cap
              12).value ∧
          ((msm_vidc_adjust_mark_ltr consts_driver.toheader_constants (msm_vidc_update_cap_value
              (inst_encoder false 1 0) 10 2) (some ⟨112, 1⟩)).2.cap 12).value ≤
              ((msm_vidc_update_cap_value (inst_encoder false 1 0) 10 2).cap 12).max))) ∧
    (((msm_vidc_adjust_ir_random consts_driver (inst_driver msm_vidc_codec_type.MSM_VIDC_H264 1)
        (some ⟨127, 3⟩)).1,
        ((msm_vidc_adjust_ir_random consts_driver (inst_driver msm_vidc_codec_type.MSM_VIDC_H264 1)
            (some ⟨127, 3⟩)).2.cap 27).value,
        ((msm_vidc_adjust_ir_random consts_driver (inst_driver msm_vidc_codec_type.MSM_VIDC_H264 1)
            (some ⟨127, 3⟩)).2.cap 27).min,
        ((msm_vidc_adjust_ir_random consts_driver (inst_driver msm_vidc_codec_type.MSM_VIDC_H264 1)
            (some ⟨127, 3⟩)).2.cap 27).max) = (0, 3, 0, 5)) ∧
    ((msm_vidc_adjust_ir_random consts_driver (inst_driver msm_vidc_codec_type.MSM_VIDC_H264 1)
        (some ⟨127, 3⟩)).1 = 0 ∧
      ((msm_vidc_adjust_ir_random consts_driver (inst_driver msm_vidc_codec_type.MSM_VIDC_H264 1)
          (some ⟨127, 3⟩)).2.cap 27).min = ((inst_driver msm_vidc_codec_type.MSM_VIDC_H264 1).cap
          27).min ∧
      ((msm_vidc_adjust_ir_random consts_driver (inst_driver msm_vidc_codec_type.MSM_VIDC_H264 1)
          (some ⟨127, 3⟩)).2.cap 27).max = ((inst_driver msm_vidc_codec_type.MSM_VIDC_H264 1).cap
          27).max ∧
      (((msm_vidc_adjust_ir_random consts_driver (inst_driver msm_vidc_codec_type.MSM_VIDC_H264 1)
          (some ⟨127, 3⟩)).2.cap 27).value = 0 ∨
        (((msm_vidc_adjust_ir_random consts_driver (inst_driver msm_vidc_codec_type.MSM_VIDC_H264
            1) (some ⟨127, 3⟩)).2.cap 27).value = 3 ∧
          ((inst_driver msm_vidc_codec_type.MSM_VIDC_H264 1).cap 27).min ≤
              ((msm_vidc_adjust_ir_random consts_driver (inst_driver
              msm_vidc_codec_type.MSM_VIDC_H264 1) (some ⟨127, 3⟩)).2.cap 27).value ∧
          ((msm_vidc_adjust_ir_random consts_driver (inst_driver msm_vidc_codec_type.MSM_VIDC_H264
              1) (some ⟨127, 3⟩)).2.cap 27).value ≤ ((inst_driver msm_vidc_codec_type.MSM_VIDC_H264
              1).cap 27).max))) ∧
    (((msm_vidc_adjust_delta_based_rc consts_driver (inst_driver msm_vidc_codec_type.MSM_VIDC_H264
        1) none).1,
        ((msm_vidc_adjust_delta_based_rc consts_driver (inst_driver
            msm_vidc_codec_type.MSM_VIDC_H264 1) none).2.cap 28).value,
        ((msm_vidc_adjust_delta_based_rc consts_driver (inst_driver
            msm_vidc_codec_type.MSM_VIDC_H264 1) none).2.cap 28).min,
        ((msm_vidc_adjust_delta_based_rc consts_driver (inst_driver
            msm_vidc_codec_type.MSM_VIDC_H264 1) none).2.cap 28).max) = (0, 1, 0, 1)) ∧
    (((msm_vidc_adjust_delta_based_rc consts_driver (inst_driver msm_vidc_codec_type.MSM_VIDC_H264
        1) none).2.cap 28).min = ((inst_driver msm_vidc_codec_type.MSM_VIDC_H264 1).cap 28).min ∧
      ((msm_vidc_adjust_delta_based_rc consts_driver (inst_driver msm_vidc_codec_type.MSM_VIDC_H264
          1) none).2.cap 28).max = ((inst_driver msm_vidc_codec_type.MSM_VIDC_H264 1).cap 28).max ∧
      (((msm_vidc_adjust_delta_based_rc consts_driver (inst_driver
          msm_vidc_codec_type.MSM_VIDC_H264 1) none).2.cap 28).value = 0 ∨
        (((msm_vidc_adjust_delta_based_rc consts_driver (inst_driver
            msm_vidc_codec_type.MSM_VIDC_H264 1) none).2.cap 28).value = 1 ∧
          ((inst_driver msm_vidc_codec_type.MSM_VIDC_H264 1).cap 28).min ≤
              ((msm_vidc_adjust_delta_based_rc consts_driver (inst_driver
              msm_vidc_codec_type.MSM_VIDC_H264 1) none).2.cap 28).value ∧
          ((msm_vidc_adjust_delta_based_rc consts_driver (inst_driver
              msm_vidc_codec_type.MSM_VIDC_H264 1) none).2.cap 28).value ≤ ((inst_driver
              msm_vidc_codec_type.MSM_VIDC_H264 1).cap 28).max))) ∧
    (((msm_vidc_adjust_transform_8x8 consts_driver (set_cap_max (msm_vidc_update_cap_value
        (inst_driver msm_vidc_codec_type.MSM_VIDC_H264 1) 14 4) 14 4) (some ⟨129, 1⟩)).1,
        ((msm_vidc_adjust_transform_8x8 consts_driver (set_cap_max (msm_vidc_update_cap_value
            (inst_driver msm_vidc_codec_type.MSM_VIDC_H264 1) 14 4) 14 4) (some ⟨129, 1⟩)).2.cap
            29).value,
        ((msm_vidc_adjust_transform_8x8 consts_driver (set_cap_max (msm_vidc_update_cap_value
            (inst_driver msm_vidc_codec_type.MSM_VIDC_H264 1) 14 4) 14 4) (some ⟨129, 1⟩)).2.cap
            29).min,
        ((msm_vidc_adjust_transform_8x8 consts_driver (set_cap_max (msm_vidc_update_cap_value
            (inst_driver msm_vidc_codec_type.MSM_VIDC_H264 1) 14 4) 14 4) (some ⟨129, 1⟩)).2.cap
            29).max) = (0, 1, 0, 1)) ∧
    (((msm_vidc_adjust_transform_8x8 consts_driver (set_cap_max (msm_vidc_update_cap_value
        (inst_driver msm_vidc_codec_type.MSM_VIDC_H264 1) 14 4) 14 4) (some ⟨129, 1⟩)).2.cap
        29).min = ((set_cap_max (msm_vidc_update_cap_value (inst_driver
        msm_vidc_codec_type.MSM_VIDC_H264 1) 14 4) 14 4).cap 29).min ∧
      ((msm_vidc_adjust_transform_8x8 consts_driver (set_cap_max (msm_vidc_update_cap_value
          (inst_driver msm_vidc_codec_type.MSM_VIDC_H264 1) 14 4) 14 4) (some ⟨129, 1⟩)).2.cap
          29).max = ((set_cap_max (msm_vidc_update_cap_value (inst_driver
          msm_vidc_codec_type.MSM_VIDC_H264 1) 14 4) 14 4).cap 29).max ∧
      (((msm_vidc_adjust_transform_8x8 consts_driver (set_cap_max (msm_vidc_update_cap_value
          (inst_driver msm_vidc_codec_type.MSM_VIDC_H264 1) 14 4) 14 4) (some ⟨129, 1⟩)).2.cap
          29).value = consts_driver.V4L2_MPEG_MSM_VIDC_DISABLE ∨
        ((((msm_vidc_adjust_transform_8x8 consts_driver (set_cap_max (msm_vidc_update_cap_value
            (inst_driver msm_vidc_codec_type.MSM_VIDC_H264 1) 14 4) 14 4) (some ⟨129, 1⟩)).2.cap
            29).value = 1 ∨
            ((set_cap_max (msm_vidc_update_cap_value (inst_driver msm_vidc_codec_type.MSM_VIDC_H264
                1) 14 4) 14 4).codec ≠ msm_vidc_codec_type.MSM_VIDC_H264 ∧
              ((msm_vidc_adjust_transform_8x8 consts_driver (set_cap_max (msm_vidc_update_cap_value
                  (inst_driver msm_vidc_codec_type.MSM_VIDC_H264 1) 14 4) 14 4) (some ⟨129,
                  1⟩)).2.cap 29).value = ((set_cap_max (msm_vidc_update_cap_value (inst_driver
                  msm_vidc_codec_type.MSM_VIDC_H264 1) 14 4) 14 4).cap 29).value)) ∧
          ((set_cap_max (msm_vidc_update_cap_value (inst_driver msm_vidc_codec_type.MSM_VIDC_H264
              1) 14 4) 14 4).cap 29).min ≤ ((msm_vidc_adjust_transform_8x8 consts_driver
              (set_cap_max (msm_vidc_update_cap_value (inst_driver
              msm_vidc_codec_type.MSM_VIDC_H264 1) 14 4) 14 4) (some ⟨129, 1⟩)).2.cap 29).value ∧
          ((msm_vidc_adjust_transform_8x8 consts_driver (set_cap_max (msm_vidc_update_cap_value
              (inst_driver msm_vidc_codec_type.MSM_VIDC_H264 1) 14 4) 14 4) (some ⟨129, 1⟩)).2.cap
              29).value ≤ ((set_cap_max (msm_vidc_update_cap_value (inst_driver
              msm_vidc_codec_type.MSM_VIDC_H264 1) 14 4) 14 4).cap 29).max))) ∧
    (((msm_vidc_adjust_layer_count consts_driver.toheader_constants (inst_encoder false 1 1) (some
        ⟨107, 5⟩)).1,
        ((msm_vidc_adjust_layer_count consts_driver.toheader_constants (inst_encoder false 1 1)
            (some ⟨107, 5⟩)).2.cap 7).value,
        ((msm_vidc_adjust_layer_count consts_driver.toheader_constants (inst_encoder false 1 1)
            (some ⟨107, 5⟩)).2.cap 7).min,
        ((msm_vidc_adjust_layer_count consts_driver.toheader_constants (inst_encoder false 1 1)
            (some ⟨107, 5⟩)).2.cap 7).max) = (0, 3, 0, 3)) ∧
    (((msm_vidc_adjust_layer_count consts_driver.toheader_constants (inst_encoder false 1 1) (some
        ⟨107, 5⟩)).2.cap 7).min = ((inst_encoder false 1 1).cap 7).min ∧
      ((msm_vidc_adjust_layer_count consts_driver.toheader_constants (inst_encoder false 1 1) (some
          ⟨107, 5⟩)).2.cap 7).value ≤ ((msm_vidc_adjust_layer_count
          consts_driver.toheader_constants (inst_encoder false 1 1) (some ⟨107, 5⟩)).2.cap 7).max ∧
      (((msm_vidc_adjust_layer_count consts_driver.toheader_constants (inst_encoder false 1 1)
          (some ⟨107, 5⟩)).2.cap 7).value = 0 ∨
        (((inst_encoder false 1 1).cap 7).min ≤ ((msm_vidc_adjust_layer_count
            consts_driver.toheader_constants (inst_encoder false 1 1) (some ⟨107, 5⟩)).2.cap
            7).value ∧
          ((msm_vidc_adjust_layer_count consts_driver.toheader_constants (inst_encoder false 1 1)
              (some ⟨107, 5⟩)).2.cap 7).value ≤ ((inst_encoder false 1 1).cap 7).max))) ∧
    (((msm_vidc_adjust_gop_size consts_driver.toheader_constants (msm_vidc_update_cap_value
        (inst_encoder false 1 1) 7 3) (some ⟨108, 100⟩)).1,
        ((msm_vidc_adjust_gop_size consts_driver.toheader_constants (msm_vidc_update_cap_value
            (inst_encoder false 1 1) 7 3) (some ⟨108, 100⟩)).2.cap 8).value,
        ((msm_vidc_adjust_gop_size consts_driver.toheader_constants (msm_vidc_update_cap_value
            (inst_encoder false 1 1) 7 3) (some ⟨108, 100⟩)).2.cap 8).min,
        ((msm_vidc_adjust_gop_size consts_driver.toheader_constants (msm_vidc_update_cap_value
            (inst_encoder false 1 1) 7 3) (some ⟨108, 100⟩)).2.cap 8).max) = (0, 104, 0, 100)) ∧
    ((((msm_vidc_adjust_gop_size consts_driver.toheader_constants (msm_vidc_update_cap_value
        (inst_encoder false 1 1) 7 3) (some ⟨108, 100⟩)).2.cap 8).value % 2 ^ (3 : Int).toNat = 0 ∧
        (((msm_vidc_adjust_gop_size consts_driver.toheader_constants (msm_vidc_update_cap_value
            (inst_encoder false 1 1) 7 3) (some ⟨108, 100⟩)).2.cap 8).value = 2 ^ (3 : Int).toNat ∨
          ((0 : Int) - 2 ^ ((3 : Int) - 1).toNat < ((msm_vidc_adjust_gop_size
              consts_driver.toheader_constants (msm_vidc_update_cap_value (inst_encoder false 1 1)
              7 3) (some ⟨108, 100⟩)).2.cap 8).value ∧
            ((msm_vidc_adjust_gop_size consts_driver.toheader_constants (msm_vidc_update_cap_value
                (inst_encoder false 1 1) 7 3) (some ⟨108, 100⟩)).2.cap 8).value ≤ (100 : Int) + 2 ^
                ((3 : Int) - 1).toNat)))) ∧
    (((msm_vidc_adjust_b_frame consts_driver.toheader_constants (msm_vidc_update_cap_value
        (inst_encoder false 0 3) 7 1) none).1,
        ((msm_vidc_adjust_b_frame consts_driver.toheader_constants (msm_vidc_update_cap_value
            (inst_encoder false 0 3) 7 1) none).2.cap 9).value,
        ((msm_vidc_adjust_b_frame consts_driver.toheader_constants (msm_vidc_update_cap_value
            (inst_encoder false 0 3) 7 1) none).2.cap 9).min,
        ((msm_vidc_adjust_b_frame consts_driver.toheader_constants (msm_vidc_update_cap_value
            (inst_encoder false 0 3) 7 1) none).2.cap 9).max) = (0, 3, 0, 7)) ∧
    (((msm_vidc_adjust_b_frame consts_driver.toheader_constants (msm_vidc_update_cap_value
        (inst_encoder false 0 3) 7 1) none).2.cap 9).min = ((msm_vidc_update_cap_value
        (inst_encoder false 0 3) 7 1).cap 9).min ∧
      ((msm_vidc_adjust_b_frame consts_driver.toheader_constants (msm_vidc_update_cap_value
          (inst_encoder false 0 3) 7 1) none).2.cap 9).max = ((msm_vidc_update_cap_value
          (inst_encoder false 0 3) 7 1).cap 9).max ∧
      (((msm_vidc_adjust_b_frame consts_driver.toheader_constants (msm_vidc_update_cap_value
          (inst_encoder false 0 3) 7 1) none).2.cap 9).value = 0 ∨
        ((msm_vidc_adjust_b_frame consts_driver.toheader_constants (msm_vidc_update_cap_value
            (inst_encoder false 0 3) 7 1) none).2.cap 9).value = 1 ∨
        ((msm_vidc_adjust_b_frame consts_driver.toheader_constants (msm_vidc_update_cap_value
            (inst_encoder false 0 3) 7 1) none).2.cap 9).value = 3 ∨
        ((msm_vidc_adjust_b_frame consts_driver.toheader_constants (msm_vidc_update_cap_value
            (inst_encoder false 0 3) 7 1) none).2.cap 9).value = 7 ∨
        ((msm_vidc_update_cap_value (inst_encoder false 0 3) 7 1).streaming = true ∧
          ((msm_vidc_adjust_b_frame consts_driver.toheader_constants (msm_vidc_update_cap_value
              (inst_encoder false 0 3) 7 1) none).2.cap 9).value = ((msm_vidc_update_cap_value
              (inst_encoder false 0 3) 7 1).cap 9).value ∧
          ((msm_vidc_update_cap_value (inst_encoder false 0 3) 7 1).cap 9).min ≤
              ((msm_vidc_adjust_b_frame consts_driver.toheader_constants (msm_vidc_update_cap_value
              (inst_encoder false 0 3) 7 1) none).2.cap 9).value ∧
          ((msm_vidc_adjust_b_frame consts_driver.toheader_constants (msm_vidc_update_cap_value
              (inst_encoder false 0 3) 7 1) none).2.cap 9).value ≤ ((msm_vidc_update_cap_value
              (inst_encoder false 0 3) 7 1).cap 9).max))) ∧
    (((msm_vidc_adjust_hevc_min_qp consts_driver.tocontrol_constants (inst_control
        msm_vidc_codec_type.MSM_VIDC_HEVC 1) none).1,
        ((msm_vidc_adjust_hevc_min_qp consts_driver.tocontrol_constants (inst_control
            msm_vidc_codec_type.MSM_VIDC_HEVC 1) none).2.cap 21).value,
        ((msm_vidc_adjust_hevc_min_qp consts_driver.tocontrol_constants (inst_control
            msm_vidc_codec_type.MSM_VIDC_HEVC 1) none).2.cap 21).min,
        ((msm_vidc_adjust_hevc_min_qp consts_driver.tocontrol_constants (inst_control
            msm_vidc_codec_type.MSM_VIDC_HEVC 1) none).2.cap 21).max) = (0, 0, -12, 51)) ∧
    (((msm_vidc_adjust_hevc_min_qp consts_driver.tocontrol_constants (inst_control
        msm_vidc_codec_type.MSM_VIDC_HEVC 1) none).2.cap 21).min = ((inst_control
        msm_vidc_codec_type.MSM_VIDC_HEVC 1).cap 21).min ∧
      ((msm_vidc_adjust_hevc_min_qp consts_driver.tocontrol_constants (inst_control
          msm_vidc_codec_type.MSM_VIDC_HEVC 1) none).2.cap 21).max = ((inst_control
          msm_vidc_codec_type.MSM_VIDC_HEVC 1).cap 21).max ∧
      (((msm_vidc_adjust_hevc_min_qp consts_driver.tocontrol_constants (inst_control
          msm_vidc_codec_type.MSM_VIDC_HEVC 1) none).2.cap 21).value = 0 ∨
        (((msm_vidc_adjust_hevc_min_qp consts_driver.tocontrol_constants (inst_control
            msm_vidc_codec_type.MSM_VIDC_HEVC 1) none).2.cap 21).value = ((inst_control
            msm_vidc_codec_type.MSM_VIDC_HEVC 1).cap 21).value ∧
          ((inst_control msm_vidc_codec_type.MSM_VIDC_HEVC 1).cap 21).min ≤
              ((msm_vidc_adjust_hevc_min_qp consts_driver.tocontrol_constants (inst_control
              msm_vidc_codec_type.MSM_VIDC_HEVC 1) none).2.cap 21).value ∧
          ((msm_vidc_adjust_hevc_min_qp consts_driver.tocontrol_constants (inst_control
              msm_vidc_codec_type.MSM_VIDC_HEVC 1) none).2.cap 21).value ≤ ((inst_control
              msm_vidc_codec_type.MSM_VIDC_HEVC 1).cap 21).max))) ∧
    (((msm_vidc_adjust_hevc_max_qp consts_driver.tocontrol_constants (inst_control
        msm_vidc_codec_type.MSM_VIDC_HEVC 1) none).1,
        ((msm_vidc_adjust_hevc_max_qp consts_driver.tocontrol_constants (inst_control
            msm_vidc_codec_type.MSM_VIDC_HEVC 1) none).2.cap 17).value,
        ((msm_vidc_adjust_hevc_max_qp consts_driver.tocontrol_constants (inst_control
            msm_vidc_codec_type.MSM_VIDC_HEVC 1) none).2.cap 17).min,
        ((msm_vidc_adjust_hevc_max_qp consts_driver.tocontrol_constants (inst_control
            msm_vidc_codec_type.MSM_VIDC_HEVC 1) none).2.cap 17).max) = (0, 51, -12, 51)) ∧
    (((msm_vidc_adjust_hevc_max_qp consts_driver.tocontrol_constants (inst_control
        msm_vidc_codec_type.MSM_VIDC_HEVC 1) none).2.cap 17).min = ((inst_control
        msm_vidc_codec_type.MSM_VIDC_HEVC 1).cap 17).min ∧
      ((msm_vidc_adjust_hevc_max_qp consts_driver.tocontrol_constants (inst_control
          msm_vidc_codec_type.MSM_VIDC_HEVC 1) none).2.cap 17).max = ((inst_control
          msm_vidc_codec_type.MSM_VIDC_HEVC 1).cap 17).max ∧
      (((msm_vidc_adjust_hevc_max_qp consts_driver.tocontrol_constants (inst_control
          msm_vidc_codec_type.MSM_VIDC_HEVC 1) none).2.cap 17).value = 0 ∨
        (((msm_vidc_adjust_hevc_max_qp consts_driver.tocontrol_constants (inst_control
            msm_vidc_codec_type.MSM_VIDC_HEVC 1) none).2.cap 17).value = ((inst_control
            msm_vidc_codec_type.MSM_VIDC_HEVC 1).cap 17).value ∧
          ((inst_control msm_vidc_codec_type.MSM_VIDC_HEVC 1).cap 17).min ≤
              ((msm_vidc_adjust_hevc_max_qp consts_driver.tocontrol_constants (inst_control
              msm_vidc_codec_type.MSM_VIDC_HEVC 1) none).2.cap 17).value ∧
          ((msm_vidc_adjust_hevc_max_qp consts_driver.tocontrol_constants (inst_control
              msm_vidc_codec_type.MSM_VIDC_HEVC 1) none).2.cap 17).value ≤ ((inst_control
              msm_vidc_codec_type.MSM_VIDC_HEVC 1).cap 17).max))) ∧
    (((msm_vidc_adjust_hevc_frame_qp consts_driver.tocontrol_constants (msm_vidc_update_cap_value
        (inst_control msm_vidc_codec_type.MSM_VIDC_HEVC 1) 19 (-3)) none).1,
        ((msm_vidc_adjust_hevc_frame_qp consts_driver.tocontrol_constants
            (msm_vidc_update_cap_value (inst_control msm_vidc_codec_type.MSM_VIDC_HEVC 1) 19 (-3))
            none).2.cap 19).value,
        ((msm_vidc_adjust_hevc_frame_qp consts_driver.tocontrol_constants
            (msm_vidc_update_cap_value (inst_control msm_vidc_codec_type.MSM_VIDC_HEVC 1) 19 (-3))
            none).2.cap 19).min,
        ((msm_vidc_adjust_hevc_frame_qp consts_driver.tocontrol_constants
            (msm_vidc_update_cap_value (inst_control msm_vidc_codec_type.MSM_VIDC_HEVC 1) 19 (-3))
            none).2.cap 19).max) = (0, 0, -12, 51)) ∧
    (((msm_vidc_adjust_hevc_frame_qp consts_driver.tocontrol_constants (msm_vidc_update_cap_value
        (inst_control msm_vidc_codec_type.MSM_VIDC_HEVC 1) 19 (-3)) none).2.cap 19).min =
        ((msm_vidc_update_cap_value (inst_control msm_vidc_codec_type.MSM_VIDC_HEVC 1) 19 (-3)).cap
        19).min ∧
      ((msm_vidc_adjust_hevc_frame_qp consts_driver.tocontrol_constants (msm_vidc_update_cap_value
          (inst_control msm_vidc_codec_type.MSM_VIDC_HEVC 1) 19 (-3)) none).2.cap 19).max =
          ((msm_vidc_update_cap_value (inst_control msm_vidc_codec_type.MSM_VIDC_HEVC 1) 19
          (-3)).cap 19).max ∧
      (((msm_vidc_adjust_hevc_frame_qp consts_driver.tocontrol_constants (msm_vidc_update_cap_value
          (inst_control msm_vidc_codec_type.MSM_VIDC_HEVC 1) 19 (-3)) none).2.cap 19).value = 0 ∨
        (((msm_vidc_adjust_hevc_frame_qp consts_driver.tocontrol_constants
            (msm_vidc_update_cap_value (inst_control msm_vidc_codec_type.MSM_VIDC_HEVC 1) 19 (-3))
            none).2.cap 19).value = ((msm_vidc_update_cap_value (inst_control
            msm_vidc_codec_type.MSM_VIDC_HEVC 1) 19 (-3)).cap 19).value ∧
          ((msm_vidc_update_cap_value (inst_control msm_vidc_codec_type.MSM_VIDC_HEVC 1) 19
              (-3)).cap 19).min ≤ ((msm_vidc_adjust_hevc_frame_qp consts_driver.tocontrol_constants
              (msm_vidc_update_cap_value (inst_control msm_vidc_codec_type.MSM_VIDC_HEVC 1) 19
              (-3)) none).2.cap 19).value ∧
          ((msm_vidc_adjust_hevc_frame_qp consts_driver.tocontrol_constants
              (msm_vidc_update_cap_value (inst_control msm_vidc_codec_type.MSM_VIDC_HEVC 1) 19
              (-3)) none).2.cap 19).value ≤ ((msm_vidc_update_cap_value (inst_control
              msm_vidc_codec_type.MSM_VIDC_HEVC 1) 19 (-3)).cap 19).max))) :=
  ⟨by decide,
   (adjust_rules_value_range consts_driver).1 (inst_control msm_vidc_codec_type.MSM_VIDC_H264 1)
       (some ⟨115, 1⟩) 1
      (fun c h => by cases h; rfl) (fun h => by cases h) (by decide) (by decide) (by decide) (by
          decide) (by decide),
   by decide,
   (adjust_rules_value_range consts_driver).2.1 (inst_encoder false 0 0) none,
   by decide,
   (adjust_rules_value_range consts_driver).2.2.1 (inst_control msm_vidc_codec_type.MSM_VIDC_HEVC
       1) (some ⟨114, 1⟩) 1
      (fun c h => by cases h; rfl) (fun h => by cases h) (by decide) (by decide) (by decide),
   by decide,
   (adjust_rules_value_range consts_driver).2.2.2.1 (inst_encoder false 1 0) (some ⟨110, 2⟩) 2
      (fun c h => by cases h; rfl) (fun h => by cases h) (by decide) (by decide) (by decide),
   by decide,
   (adjust_rules_value_range consts_driver).2.2.2.2.1 (msm_vidc_update_cap_value (inst_encoder
       false 1 0) 10 2)
      (some ⟨111, 3⟩) 3 (fun c h => by cases h; rfl) (fun h => by cases h) (by decide) (by decide)
          (by decide),
   by decide,
   (adjust_rules_value_range consts_driver).2.2.2.2.2.1 (msm_vidc_update_cap_value (inst_encoder
       false 1 0) 10 2)
      (some ⟨112, 1⟩) 1 (fun c h => by cases h; rfl) (fun h => by cases h) (by decide) (by decide)
          (by decide),
   by decide,
   (adjust_rules_value_range consts_driver).2.2.2.2.2.2.1 (inst_driver
       msm_vidc_codec_type.MSM_VIDC_H264 1) (some ⟨127, 3⟩) 3
      (fun c h => by cases h; rfl) (fun h => by cases h) (by decide) (by decide),
   by decide,
   (adjust_rules_value_range consts_driver).2.2.2.2.2.2.2.1 (inst_driver
       msm_vidc_codec_type.MSM_VIDC_H264 1) none 1
      (fun c h => by cases h) (fun _ => by decide) (by decide) (by decide) (by decide),
   by decide,
   (adjust_rules_value_range consts_driver).2.2.2.2.2.2.2.2.1 
      (set_cap_max (msm_vidc_update_cap_value (inst_driver msm_vidc_codec_type.MSM_VIDC_H264 1) 14
          4) 14 4)
      (some ⟨129, 1⟩) 1 (fun c h => by cases h; rfl) (fun h => by cases h) (by decide) (by decide)
          (by decide) (by decide) (by decide),
   by decide,
   (adjust_rules_value_range consts_driver).2.2.2.2.2.2.2.2.2.1 (inst_encoder false 1 1) (some
       ⟨107, 5⟩) 5
      (fun c h => by cases h; rfl) (fun h => by cases h) (by decide) (by decide) (by decide) (by
          decide) (by decide) (by decide) (by decide) (by decide) (by decide),
   by decide,
   ((adjust_rules_value_range consts_driver).2.2.2.2.2.2.2.2.2.2.1 (msm_vidc_update_cap_value
       (inst_encoder false 1 1) 7 3)
      (some ⟨108, 100⟩) 100 (fun c h => by cases h; rfl) (fun h => by cases h) (by decide) (by
          decide) (by decide) (by decide) (by decide)).2.2.2.2
      (by decide) (by decide) (by decide) (by decide) (by decide),
   by decide,
   (adjust_rules_value_range consts_driver).2.2.2.2.2.2.2.2.2.2.2.1 (msm_vidc_update_cap_value
       (inst_encoder false 0 3) 7 1)
      none (by decide) (by decide) (by decide),
   by decide,
   (adjust_rules_value_range consts_driver).2.2.2.2.2.2.2.2.2.2.2.2.1 (inst_control
       msm_vidc_codec_type.MSM_VIDC_HEVC 1) none 21
      (by decide) (by decide),
   by decide,
   (adjust_rules_value_range consts_driver).2.2.2.2.2.2.2.2.2.2.2.2.2.1 (inst_control
       msm_vidc_codec_type.MSM_VIDC_HEVC 1) none 17
      (by decide) (by decide),
   by decide,
   (adjust_rules_value_range consts_driver).2.2.2.2.2.2.2.2.2.2.2.2.2.2 (msm_vidc_update_cap_value
       (inst_control msm_vidc_codec_type.MSM_VIDC_HEVC 1) 19 (-3))
      none 19 (by decide) (by decide)⟩

end MsmVidcControl
